import Mathlib

/-!
# tree-sitter-url: the lexer and the parse tables of `parser.c`

A shallow embedding of `crates/tree-sitter-url/src/parser.c`, the parser that the
tree-sitter generator emitted for the URL grammar.  The file has four layers.

* The symbol numbering (`enum ts_symbol_identifiers`) and the symbol metadata.
* The lexer `ts_lex`: every `case` of its `switch` is one definition
  `ts_lex_case_N`, with the same tests in the same order; `ts_lex_loop` is the
  control flow that the lexer macros give the function.
* The parse tables `ts_parse_table`, `ts_small_parse_table`,
  `ts_small_parse_table_map`, `ts_parse_actions` and `ts_lex_modes`.
* A table-driven shift/reduce driver over these tables, and the theorems.

Code points are natural numbers; `lookahead` is `0` at end of input, as in the
C lexer.  In the lexer cases the ranges `48..57`, `65..90` and `97..122` are the
digits, the upper-case and the lower-case ASCII letters; `9..13` is TAB..CR and
`32` is the space.
-/

namespace TreeSitterUrl

/-! ## Symbols (`enum ts_symbol_identifiers`) -/

abbrev ts_builtin_sym_end : Nat := 0
abbrev anon_sym_LF : Nat := 1
abbrev anon_sym_http : Nat := 2
abbrev anon_sym_https : Nat := 3
abbrev anon_sym_ftp : Nat := 4
abbrev anon_sym_ws : Nat := 5
abbrev anon_sym_wss : Nat := 6
abbrev anon_sym_COLON_SLASH_SLASH : Nat := 7
abbrev anon_sym_COLON : Nat := 8
abbrev aux_sym_domain_token1 : Nat := 9
abbrev anon_sym_localhost : Nat := 10
abbrev aux_sym_hostname_token1 : Nat := 11
abbrev sym_port : Nat := 12
abbrev anon_sym_SLASH : Nat := 13
abbrev sym_path_segment : Nat := 14
abbrev aux_sym_path_param_token1 : Nat := 15
abbrev sym_variable_delim_start : Nat := 16
abbrev sym_variable_delim_end : Nat := 17
abbrev sym_variable_name : Nat := 18
abbrev anon_sym_QMARK : Nat := 19
abbrev anon_sym_AMP : Nat := 20
abbrev anon_sym_EQ : Nat := 21
abbrev aux_sym_key_token1 : Nat := 22
abbrev aux_sym_value_token1 : Nat := 23
abbrev sym_source_file : Nat := 24
abbrev sym_url_line : Nat := 25
abbrev sym_url_components : Nat := 26
abbrev sym_protocol : Nat := 27
abbrev sym_domain_and_port : Nat := 28
abbrev sym_domain : Nat := 29
abbrev sym_hostname : Nat := 30
abbrev sym_path : Nat := 31
abbrev sym_path_param : Nat := 32
abbrev sym_variable : Nat := 33
abbrev sym_query_string : Nat := 34
abbrev sym_query_param : Nat := 35
abbrev sym_key : Nat := 36
abbrev sym_value : Nat := 37
abbrev aux_sym_source_file_repeat1 : Nat := 38
abbrev aux_sym_path_repeat1 : Nat := 39
abbrev aux_sym_query_string_repeat1 : Nat := 40

/-- The constants `STATE_COUNT`, `LARGE_STATE_COUNT`, `SYMBOL_COUNT` and
`TOKEN_COUNT` of `parser.c`. -/
abbrev STATE_COUNT : Nat := 40

abbrev LARGE_STATE_COUNT : Nat := 4

abbrev SYMBOL_COUNT : Nat := 41

abbrev TOKEN_COUNT : Nat := 24

/-- The `.visible` flag of `ts_symbol_metadata`: the symbols whose nodes show in
the tree.  The hidden ones are the end symbol, the four `aux_sym_*_token1`
tokens and the three `aux_sym_*_repeat1` non-terminals. -/
def ts_symbol_visible (symbol : Nat) : Bool :=
  !(symbol = ts_builtin_sym_end ∨ symbol = aux_sym_domain_token1 ∨
    symbol = aux_sym_hostname_token1 ∨ symbol = aux_sym_path_param_token1 ∨
    symbol = aux_sym_key_token1 ∨ symbol = aux_sym_value_token1 ∨
    symbol = aux_sym_source_file_repeat1 ∨ symbol = aux_sym_path_repeat1 ∨
    symbol = aux_sym_query_string_repeat1) && decide (symbol < SYMBOL_COUNT)

/-! ## The lexer `ts_lex` -/

/-- What a `case` of `ts_lex` does after its `ACCEPT_TOKEN`: `ADVANCE(n)`,
`SKIP(n)`, or fall through to `END_STATE()`. -/
inductive LexMove where
  | ADVANCE (state : Nat)
  | SKIP (state : Nat)
  | END_STATE
deriving DecidableEq, Repr

/-- One `case` of the `switch` in `ts_lex`: the symbol of its `ACCEPT_TOKEN`
(if it has one) and the move chosen by its chain of tests. -/
structure LexCase where
  accept : Option Nat
  move : LexMove
deriving DecidableEq, Repr

open LexMove

/-- The table `sym_path_segment_character_set_1` of `parser.c`, ten inclusive
ranges: `{0, 0x08}, {0x0e, 0x1f}, {'!', '%'}, {'\'', '.'}, {'0', '9'},
{';', '<'}, {'>', '>'}, {'@', 'z'}, {'|', '|'}, {'~', 0x10ffff}`. -/
def sym_path_segment_character_set_1 : List (Nat × Nat) :=
  [(0, 8), (14, 31), (33, 37), (39, 46), (48, 57), (59, 60), (62, 62), (64, 122),
   (124, 124), (126, 1114111)]

/-- Modelled from the spec: `set_contains` is defined in `tree_sitter/parser.h`,
which is not in the repository.  It tells whether `lookahead` lies in one of the
first `len` ranges of the table (the classifier's membership test of section
4.1). -/
def set_contains (ranges : List (Nat × Nat)) (len : Nat) (lookahead : Nat) : Bool :=
  (ranges.take len).any fun r => decide (r.1 ≤ lookahead) && decide (lookahead ≤ r.2)

/-! ### The cases of the switch, in the order of parser.c -/

def ts_lex_case_0 (eof : Bool) (lookahead : Nat) : LexCase :=
  ⟨none,
    if eof = true then ADVANCE 27
    else if lookahead = 38 then ADVANCE 334  -- '&'
    else if lookahead = 47 then ADVANCE 120  -- '/'
    else if lookahead = 58 then ADVANCE 41  -- ':'
    else if lookahead = 61 then ADVANCE 335  -- '='
    else if lookahead = 63 then ADVANCE 333  -- '?'
    else if lookahead = 102 then ADVANCE 16  -- 'f'
    else if lookahead = 104 then ADVANCE 19  -- 'h'
    else if lookahead = 108 then ADVANCE 10  -- 'l'
    else if lookahead = 119 then ADVANCE 14  -- 'w'
    else if lookahead = 123 then ADVANCE 20  -- '{'
    else if lookahead = 125 then ADVANCE 22  -- '}'
    else if (9 ≤ lookahead ∧ lookahead ≤ 13) ∨ lookahead = 32 then SKIP 0
    else if (48 ≤ lookahead ∧ lookahead ≤ 57) then ADVANCE 119
    else END_STATE⟩

def ts_lex_case_1 (_eof : Bool) (lookahead : Nat) : LexCase :=
  ⟨none,
    if lookahead = 47 then ADVANCE 120  -- '/'
    else if lookahead = 58 then ADVANCE 40  -- ':'
    else if lookahead = 108 then ADVANCE 121  -- 'l'
    else if lookahead = 123 then ADVANCE 20  -- '{'
    else if (9 ≤ lookahead ∧ lookahead ≤ 13) ∨ lookahead = 32 then SKIP 1
    else if (48 ≤ lookahead ∧ lookahead ≤ 57) then ADVANCE 126
    else if (65 ≤ lookahead ∧ lookahead ≤ 90) ∨ (97 ≤ lookahead ∧ lookahead ≤ 122) then ADVANCE 125
    else if lookahead ≠ 0 ∧ lookahead ≠ 38 ∧ lookahead ≠ 61 ∧ lookahead ≠ 63 ∧ lookahead ≠ 125 then ADVANCE 327
    else END_STATE⟩

def ts_lex_case_2 (_eof : Bool) (lookahead : Nat) : LexCase :=
  ⟨none,
    if lookahead = 47 then ADVANCE 120  -- '/'
    else if lookahead = 58 then ADVANCE 40  -- ':'
    else if lookahead = 123 then ADVANCE 20  -- '{'
    else if (9 ≤ lookahead ∧ lookahead ≤ 13) ∨ lookahead = 32 then SKIP 2
    else if lookahead ≠ 0 ∧ lookahead ≠ 38 ∧ lookahead ≠ 61 ∧ lookahead ≠ 63 ∧ lookahead ≠ 125 then ADVANCE 327
    else END_STATE⟩

def ts_lex_case_3 (_eof : Bool) (lookahead : Nat) : LexCase :=
  ⟨none,
    if lookahead = 47 then ADVANCE 4  -- '/'
    else END_STATE⟩

def ts_lex_case_4 (_eof : Bool) (lookahead : Nat) : LexCase :=
  ⟨none,
    if lookahead = 47 then ADVANCE 39  -- '/'
    else END_STATE⟩

def ts_lex_case_5 (_eof : Bool) (lookahead : Nat) : LexCase :=
  ⟨none,
    if lookahead = 58 then ADVANCE 3  -- ':'
    else if lookahead = 123 then ADVANCE 20  -- '{'
    else if (9 ≤ lookahead ∧ lookahead ≤ 13) ∨ lookahead = 32 then SKIP 5
    else if lookahead = 45 ∨ (48 ≤ lookahead ∧ lookahead ≤ 57) ∨ (65 ≤ lookahead ∧ lookahead ≤ 90) ∨ lookahead = 95 ∨ (97 ≤ lookahead ∧ lookahead ≤ 122) then ADVANCE 336
    else END_STATE⟩

def ts_lex_case_6 (_eof : Bool) (lookahead : Nat) : LexCase :=
  ⟨none,
    if lookahead = 97 then ADVANCE 9  -- 'a'
    else END_STATE⟩

def ts_lex_case_7 (_eof : Bool) (lookahead : Nat) : LexCase :=
  ⟨none,
    if lookahead = 99 then ADVANCE 6  -- 'c'
    else END_STATE⟩

def ts_lex_case_8 (_eof : Bool) (lookahead : Nat) : LexCase :=
  ⟨none,
    if lookahead = 104 then ADVANCE 11  -- 'h'
    else END_STATE⟩

def ts_lex_case_9 (_eof : Bool) (lookahead : Nat) : LexCase :=
  ⟨none,
    if lookahead = 108 then ADVANCE 8  -- 'l'
    else END_STATE⟩

def ts_lex_case_10 (_eof : Bool) (lookahead : Nat) : LexCase :=
  ⟨none,
    if lookahead = 111 then ADVANCE 7  -- 'o'
    else END_STATE⟩

def ts_lex_case_11 (_eof : Bool) (lookahead : Nat) : LexCase :=
  ⟨none,
    if lookahead = 111 then ADVANCE 15  -- 'o'
    else END_STATE⟩

def ts_lex_case_12 (_eof : Bool) (lookahead : Nat) : LexCase :=
  ⟨none,
    if lookahead = 112 then ADVANCE 33  -- 'p'
    else END_STATE⟩

def ts_lex_case_13 (_eof : Bool) (lookahead : Nat) : LexCase :=
  ⟨none,
    if lookahead = 112 then ADVANCE 30  -- 'p'
    else END_STATE⟩

def ts_lex_case_14 (_eof : Bool) (lookahead : Nat) : LexCase :=
  ⟨none,
    if lookahead = 115 then ADVANCE 36  -- 's'
    else END_STATE⟩

def ts_lex_case_15 (_eof : Bool) (lookahead : Nat) : LexCase :=
  ⟨none,
    if lookahead = 115 then ADVANCE 17  -- 's'
    else END_STATE⟩

def ts_lex_case_16 (_eof : Bool) (lookahead : Nat) : LexCase :=
  ⟨none,
    if lookahead = 116 then ADVANCE 12  -- 't'
    else END_STATE⟩

def ts_lex_case_17 (_eof : Bool) (lookahead : Nat) : LexCase :=
  ⟨none,
    if lookahead = 116 then ADVANCE 113  -- 't'
    else END_STATE⟩

def ts_lex_case_18 (_eof : Bool) (lookahead : Nat) : LexCase :=
  ⟨none,
    if lookahead = 116 then ADVANCE 13  -- 't'
    else END_STATE⟩

def ts_lex_case_19 (_eof : Bool) (lookahead : Nat) : LexCase :=
  ⟨none,
    if lookahead = 116 then ADVANCE 18  -- 't'
    else END_STATE⟩

def ts_lex_case_20 (_eof : Bool) (lookahead : Nat) : LexCase :=
  ⟨none,
    if lookahead = 123 then ADVANCE 329  -- '{'
    else END_STATE⟩

def ts_lex_case_21 (_eof : Bool) (lookahead : Nat) : LexCase :=
  ⟨none,
    if lookahead = 123 then ADVANCE 338  -- '{'
    else if (9 ≤ lookahead ∧ lookahead ≤ 13) ∨ lookahead = 32 then ADVANCE 337
    else if lookahead ≠ 0 ∧ lookahead ≠ 38 then ADVANCE 339
    else END_STATE⟩

def ts_lex_case_22 (_eof : Bool) (lookahead : Nat) : LexCase :=
  ⟨none,
    if lookahead = 125 then ADVANCE 331  -- '}'
    else END_STATE⟩

def ts_lex_case_23 (_eof : Bool) (lookahead : Nat) : LexCase :=
  ⟨none,
    if (9 ≤ lookahead ∧ lookahead ≤ 13) ∨ lookahead = 32 then SKIP 23
    else if (65 ≤ lookahead ∧ lookahead ≤ 90) ∨ lookahead = 95 ∨ (97 ≤ lookahead ∧ lookahead ≤ 122) then ADVANCE 328
    else END_STATE⟩

def ts_lex_case_24 (_eof : Bool) (lookahead : Nat) : LexCase :=
  ⟨none,
    if (9 ≤ lookahead ∧ lookahead ≤ 13) ∨ lookahead = 32 then SKIP 24
    else if (65 ≤ lookahead ∧ lookahead ≤ 90) ∨ lookahead = 95 ∨ (97 ≤ lookahead ∧ lookahead ≤ 122) then ADVANCE 332
    else END_STATE⟩

def ts_lex_case_25 (eof : Bool) (lookahead : Nat) : LexCase :=
  ⟨none,
    if eof = true then ADVANCE 27
    else if lookahead = 10 then ADVANCE 28  -- LF
    else if lookahead = 38 then ADVANCE 334  -- '&'
    else if lookahead = 47 then ADVANCE 120  -- '/'
    else if lookahead = 58 then ADVANCE 40  -- ':'
    else if lookahead = 61 then ADVANCE 335  -- '='
    else if lookahead = 63 then ADVANCE 333  -- '?'
    else if lookahead = 102 then ADVANCE 123  -- 'f'
    else if lookahead = 104 then ADVANCE 124  -- 'h'
    else if lookahead = 108 then ADVANCE 121  -- 'l'
    else if lookahead = 119 then ADVANCE 122  -- 'w'
    else if lookahead = 123 then ADVANCE 20  -- '{'
    else if (9 ≤ lookahead ∧ lookahead ≤ 13) ∨ lookahead = 32 then SKIP 25
    else if (48 ≤ lookahead ∧ lookahead ≤ 57) then ADVANCE 126
    else if (65 ≤ lookahead ∧ lookahead ≤ 90) ∨ (97 ≤ lookahead ∧ lookahead ≤ 122) then ADVANCE 125
    else if lookahead ≠ 0 ∧ lookahead ≠ 125 then ADVANCE 327
    else END_STATE⟩

def ts_lex_case_26 (eof : Bool) (lookahead : Nat) : LexCase :=
  ⟨none,
    if eof = true then ADVANCE 27
    else if lookahead = 47 then ADVANCE 120  -- '/'
    else if lookahead = 58 then ADVANCE 40  -- ':'
    else if lookahead = 102 then ADVANCE 123  -- 'f'
    else if lookahead = 104 then ADVANCE 124  -- 'h'
    else if lookahead = 108 then ADVANCE 121  -- 'l'
    else if lookahead = 119 then ADVANCE 122  -- 'w'
    else if lookahead = 123 then ADVANCE 20  -- '{'
    else if (9 ≤ lookahead ∧ lookahead ≤ 13) ∨ lookahead = 32 then SKIP 26
    else if (48 ≤ lookahead ∧ lookahead ≤ 57) then ADVANCE 126
    else if (65 ≤ lookahead ∧ lookahead ≤ 90) ∨ (97 ≤ lookahead ∧ lookahead ≤ 122) then ADVANCE 125
    else if lookahead ≠ 0 ∧ lookahead ≠ 38 ∧ lookahead ≠ 61 ∧ lookahead ≠ 63 ∧ lookahead ≠ 125 then ADVANCE 327
    else END_STATE⟩

def ts_lex_case_27 (_eof : Bool) (_lookahead : Nat) : LexCase :=
  ⟨some ts_builtin_sym_end,
    END_STATE⟩

def ts_lex_case_28 (_eof : Bool) (lookahead : Nat) : LexCase :=
  ⟨some anon_sym_LF,
    if lookahead = 10 then ADVANCE 28  -- LF
    else END_STATE⟩

def ts_lex_case_29 (eof : Bool) (lookahead : Nat) : LexCase :=
  ⟨some anon_sym_http,
    if lookahead = 45 then ADVANCE 296  -- '-'
    else if lookahead = 46 then ADVANCE 324  -- '.'
    else if lookahead = 115 then ADVANCE 32  -- 's'
    else if (48 ≤ lookahead ∧ lookahead ≤ 57) ∨ (65 ≤ lookahead ∧ lookahead ≤ 90) ∨ (97 ≤ lookahead ∧ lookahead ≤ 122) then ADVANCE 295
    else if (eof = false ∧ set_contains sym_path_segment_character_set_1 10 lookahead = true) then ADVANCE 327
    else END_STATE⟩

def ts_lex_case_30 (_eof : Bool) (lookahead : Nat) : LexCase :=
  ⟨some anon_sym_http,
    if lookahead = 115 then ADVANCE 31  -- 's'
    else END_STATE⟩

def ts_lex_case_31 (_eof : Bool) (_lookahead : Nat) : LexCase :=
  ⟨some anon_sym_https,
    END_STATE⟩

def ts_lex_case_32 (eof : Bool) (lookahead : Nat) : LexCase :=
  ⟨some anon_sym_https,
    if lookahead = 45 then ADVANCE 300  -- '-'
    else if lookahead = 46 then ADVANCE 324  -- '.'
    else if (48 ≤ lookahead ∧ lookahead ≤ 57) ∨ (65 ≤ lookahead ∧ lookahead ≤ 90) ∨ (97 ≤ lookahead ∧ lookahead ≤ 122) then ADVANCE 299
    else if (eof = false ∧ set_contains sym_path_segment_character_set_1 10 lookahead = true) then ADVANCE 327
    else END_STATE⟩

def ts_lex_case_33 (_eof : Bool) (_lookahead : Nat) : LexCase :=
  ⟨some anon_sym_ftp,
    END_STATE⟩

def ts_lex_case_34 (eof : Bool) (lookahead : Nat) : LexCase :=
  ⟨some anon_sym_ftp,
    if lookahead = 45 then ADVANCE 310  -- '-'
    else if lookahead = 46 then ADVANCE 324  -- '.'
    else if (48 ≤ lookahead ∧ lookahead ≤ 57) ∨ (65 ≤ lookahead ∧ lookahead ≤ 90) ∨ (97 ≤ lookahead ∧ lookahead ≤ 122) then ADVANCE 309
    else if (eof = false ∧ set_contains sym_path_segment_character_set_1 10 lookahead = true) then ADVANCE 327
    else END_STATE⟩

def ts_lex_case_35 (eof : Bool) (lookahead : Nat) : LexCase :=
  ⟨some anon_sym_ws,
    if lookahead = 45 then ADVANCE 306  -- '-'
    else if lookahead = 46 then ADVANCE 324  -- '.'
    else if lookahead = 115 then ADVANCE 38  -- 's'
    else if (48 ≤ lookahead ∧ lookahead ≤ 57) ∨ (65 ≤ lookahead ∧ lookahead ≤ 90) ∨ (97 ≤ lookahead ∧ lookahead ≤ 122) then ADVANCE 304
    else if (eof = false ∧ set_contains sym_path_segment_character_set_1 10 lookahead = true) then ADVANCE 327
    else END_STATE⟩

def ts_lex_case_36 (_eof : Bool) (lookahead : Nat) : LexCase :=
  ⟨some anon_sym_ws,
    if lookahead = 115 then ADVANCE 37  -- 's'
    else END_STATE⟩

def ts_lex_case_37 (_eof : Bool) (_lookahead : Nat) : LexCase :=
  ⟨some anon_sym_wss,
    END_STATE⟩

def ts_lex_case_38 (eof : Bool) (lookahead : Nat) : LexCase :=
  ⟨some anon_sym_wss,
    if lookahead = 45 then ADVANCE 310  -- '-'
    else if lookahead = 46 then ADVANCE 324  -- '.'
    else if (48 ≤ lookahead ∧ lookahead ≤ 57) ∨ (65 ≤ lookahead ∧ lookahead ≤ 90) ∨ (97 ≤ lookahead ∧ lookahead ≤ 122) then ADVANCE 309
    else if (eof = false ∧ set_contains sym_path_segment_character_set_1 10 lookahead = true) then ADVANCE 327
    else END_STATE⟩

def ts_lex_case_39 (_eof : Bool) (_lookahead : Nat) : LexCase :=
  ⟨some anon_sym_COLON_SLASH_SLASH,
    END_STATE⟩

def ts_lex_case_40 (_eof : Bool) (_lookahead : Nat) : LexCase :=
  ⟨some anon_sym_COLON,
    END_STATE⟩

def ts_lex_case_41 (_eof : Bool) (lookahead : Nat) : LexCase :=
  ⟨some anon_sym_COLON,
    if lookahead = 47 then ADVANCE 4  -- '/'
    else END_STATE⟩

def ts_lex_case_42 (eof : Bool) (lookahead : Nat) : LexCase :=
  ⟨some aux_sym_domain_token1,
    if lookahead = 45 then ADVANCE 318  -- '-'
    else if lookahead = 46 then ADVANCE 324  -- '.'
    else if (48 ≤ lookahead ∧ lookahead ≤ 57) then ADVANCE 107
    else if (65 ≤ lookahead ∧ lookahead ≤ 90) ∨ (97 ≤ lookahead ∧ lookahead ≤ 122) then ADVANCE 108
    else if (eof = false ∧ set_contains sym_path_segment_character_set_1 10 lookahead = true) then ADVANCE 327
    else END_STATE⟩

def ts_lex_case_43 (eof : Bool) (lookahead : Nat) : LexCase :=
  ⟨some aux_sym_domain_token1,
    if lookahead = 45 then ADVANCE 318  -- '-'
    else if lookahead = 46 then ADVANCE 324  -- '.'
    else if (48 ≤ lookahead ∧ lookahead ≤ 57) ∨ (65 ≤ lookahead ∧ lookahead ≤ 90) ∨ (97 ≤ lookahead ∧ lookahead ≤ 122) then ADVANCE 108
    else if (eof = false ∧ set_contains sym_path_segment_character_set_1 10 lookahead = true) then ADVANCE 327
    else END_STATE⟩

def ts_lex_case_44 (eof : Bool) (lookahead : Nat) : LexCase :=
  ⟨some aux_sym_domain_token1,
    if lookahead = 45 then ADVANCE 318  -- '-'
    else if lookahead = 46 then ADVANCE 322  -- '.'
    else if (48 ≤ lookahead ∧ lookahead ≤ 57) then ADVANCE 109
    else if (65 ≤ lookahead ∧ lookahead ≤ 90) ∨ (97 ≤ lookahead ∧ lookahead ≤ 122) then ADVANCE 108
    else if (eof = false ∧ set_contains sym_path_segment_character_set_1 10 lookahead = true) then ADVANCE 327
    else END_STATE⟩

def ts_lex_case_45 (eof : Bool) (lookahead : Nat) : LexCase :=
  ⟨some aux_sym_domain_token1,
    if lookahead = 45 then ADVANCE 318  -- '-'
    else if lookahead = 46 then ADVANCE 323  -- '.'
    else if (48 ≤ lookahead ∧ lookahead ≤ 57) then ADVANCE 110
    else if (65 ≤ lookahead ∧ lookahead ≤ 90) ∨ (97 ≤ lookahead ∧ lookahead ≤ 122) then ADVANCE 108
    else if (eof = false ∧ set_contains sym_path_segment_character_set_1 10 lookahead = true) then ADVANCE 327
    else END_STATE⟩

def ts_lex_case_46 (eof : Bool) (lookahead : Nat) : LexCase :=
  ⟨some aux_sym_domain_token1,
    if lookahead = 45 then ADVANCE 326  -- '-'
    else if lookahead = 46 then ADVANCE 324  -- '.'
    else if (48 ≤ lookahead ∧ lookahead ≤ 57) ∨ (65 ≤ lookahead ∧ lookahead ≤ 90) ∨ (97 ≤ lookahead ∧ lookahead ≤ 122) then ADVANCE 111
    else if (eof = false ∧ set_contains sym_path_segment_character_set_1 10 lookahead = true) then ADVANCE 327
    else END_STATE⟩

def ts_lex_case_47 (eof : Bool) (lookahead : Nat) : LexCase :=
  ⟨some aux_sym_domain_token1,
    if lookahead = 45 then ADVANCE 135  -- '-'
    else if lookahead = 46 then ADVANCE 324  -- '.'
    else if (48 ≤ lookahead ∧ lookahead ≤ 57) ∨ (65 ≤ lookahead ∧ lookahead ≤ 90) ∨ (97 ≤ lookahead ∧ lookahead ≤ 122) then ADVANCE 48
    else if (eof = false ∧ set_contains sym_path_segment_character_set_1 10 lookahead = true) then ADVANCE 327
    else END_STATE⟩

def ts_lex_case_48 (eof : Bool) (lookahead : Nat) : LexCase :=
  ⟨some aux_sym_domain_token1,
    if lookahead = 45 then ADVANCE 131  -- '-'
    else if lookahead = 46 then ADVANCE 324  -- '.'
    else if (48 ≤ lookahead ∧ lookahead ≤ 57) ∨ (65 ≤ lookahead ∧ lookahead ≤ 90) ∨ (97 ≤ lookahead ∧ lookahead ≤ 122) then ADVANCE 46
    else if (eof = false ∧ set_contains sym_path_segment_character_set_1 10 lookahead = true) then ADVANCE 327
    else END_STATE⟩

def ts_lex_case_49 (eof : Bool) (lookahead : Nat) : LexCase :=
  ⟨some aux_sym_domain_token1,
    if lookahead = 45 then ADVANCE 141  -- '-'
    else if lookahead = 46 then ADVANCE 324  -- '.'
    else if (48 ≤ lookahead ∧ lookahead ≤ 57) ∨ (65 ≤ lookahead ∧ lookahead ≤ 90) ∨ (97 ≤ lookahead ∧ lookahead ≤ 122) then ADVANCE 50
    else if (eof = false ∧ set_contains sym_path_segment_character_set_1 10 lookahead = true) then ADVANCE 327
    else END_STATE⟩

def ts_lex_case_50 (eof : Bool) (lookahead : Nat) : LexCase :=
  ⟨some aux_sym_domain_token1,
    if lookahead = 45 then ADVANCE 134  -- '-'
    else if lookahead = 46 then ADVANCE 324  -- '.'
    else if (48 ≤ lookahead ∧ lookahead ≤ 57) ∨ (65 ≤ lookahead ∧ lookahead ≤ 90) ∨ (97 ≤ lookahead ∧ lookahead ≤ 122) then ADVANCE 47
    else if (eof = false ∧ set_contains sym_path_segment_character_set_1 10 lookahead = true) then ADVANCE 327
    else END_STATE⟩

def ts_lex_case_51 (eof : Bool) (lookahead : Nat) : LexCase :=
  ⟨some aux_sym_domain_token1,
    if lookahead = 45 then ADVANCE 147  -- '-'
    else if lookahead = 46 then ADVANCE 324  -- '.'
    else if (48 ≤ lookahead ∧ lookahead ≤ 57) ∨ (65 ≤ lookahead ∧ lookahead ≤ 90) ∨ (97 ≤ lookahead ∧ lookahead ≤ 122) then ADVANCE 52
    else if (eof = false ∧ set_contains sym_path_segment_character_set_1 10 lookahead = true) then ADVANCE 327
    else END_STATE⟩

def ts_lex_case_52 (eof : Bool) (lookahead : Nat) : LexCase :=
  ⟨some aux_sym_domain_token1,
    if lookahead = 45 then ADVANCE 138  -- '-'
    else if lookahead = 46 then ADVANCE 324  -- '.'
    else if (48 ≤ lookahead ∧ lookahead ≤ 57) ∨ (65 ≤ lookahead ∧ lookahead ≤ 90) ∨ (97 ≤ lookahead ∧ lookahead ≤ 122) then ADVANCE 49
    else if (eof = false ∧ set_contains sym_path_segment_character_set_1 10 lookahead = true) then ADVANCE 327
    else END_STATE⟩

def ts_lex_case_53 (eof : Bool) (lookahead : Nat) : LexCase :=
  ⟨some aux_sym_domain_token1,
    if lookahead = 45 then ADVANCE 153  -- '-'
    else if lookahead = 46 then ADVANCE 324  -- '.'
    else if (48 ≤ lookahead ∧ lookahead ≤ 57) ∨ (65 ≤ lookahead ∧ lookahead ≤ 90) ∨ (97 ≤ lookahead ∧ lookahead ≤ 122) then ADVANCE 54
    else if (eof = false ∧ set_contains sym_path_segment_character_set_1 10 lookahead = true) then ADVANCE 327
    else END_STATE⟩

def ts_lex_case_54 (eof : Bool) (lookahead : Nat) : LexCase :=
  ⟨some aux_sym_domain_token1,
    if lookahead = 45 then ADVANCE 144  -- '-'
    else if lookahead = 46 then ADVANCE 324  -- '.'
    else if (48 ≤ lookahead ∧ lookahead ≤ 57) ∨ (65 ≤ lookahead ∧ lookahead ≤ 90) ∨ (97 ≤ lookahead ∧ lookahead ≤ 122) then ADVANCE 51
    else if (eof = false ∧ set_contains sym_path_segment_character_set_1 10 lookahead = true) then ADVANCE 327
    else END_STATE⟩

def ts_lex_case_55 (eof : Bool) (lookahead : Nat) : LexCase :=
  ⟨some aux_sym_domain_token1,
    if lookahead = 45 then ADVANCE 159  -- '-'
    else if lookahead = 46 then ADVANCE 324  -- '.'
    else if (48 ≤ lookahead ∧ lookahead ≤ 57) ∨ (65 ≤ lookahead ∧ lookahead ≤ 90) ∨ (97 ≤ lookahead ∧ lookahead ≤ 122) then ADVANCE 56
    else if (eof = false ∧ set_contains sym_path_segment_character_set_1 10 lookahead = true) then ADVANCE 327
    else END_STATE⟩

def ts_lex_case_56 (eof : Bool) (lookahead : Nat) : LexCase :=
  ⟨some aux_sym_domain_token1,
    if lookahead = 45 then ADVANCE 150  -- '-'
    else if lookahead = 46 then ADVANCE 324  -- '.'
    else if (48 ≤ lookahead ∧ lookahead ≤ 57) ∨ (65 ≤ lookahead ∧ lookahead ≤ 90) ∨ (97 ≤ lookahead ∧ lookahead ≤ 122) then ADVANCE 53
    else if (eof = false ∧ set_contains sym_path_segment_character_set_1 10 lookahead = true) then ADVANCE 327
    else END_STATE⟩

def ts_lex_case_57 (eof : Bool) (lookahead : Nat) : LexCase :=
  ⟨some aux_sym_domain_token1,
    if lookahead = 45 then ADVANCE 165  -- '-'
    else if lookahead = 46 then ADVANCE 324  -- '.'
    else if (48 ≤ lookahead ∧ lookahead ≤ 57) ∨ (65 ≤ lookahead ∧ lookahead ≤ 90) ∨ (97 ≤ lookahead ∧ lookahead ≤ 122) then ADVANCE 58
    else if (eof = false ∧ set_contains sym_path_segment_character_set_1 10 lookahead = true) then ADVANCE 327
    else END_STATE⟩

def ts_lex_case_58 (eof : Bool) (lookahead : Nat) : LexCase :=
  ⟨some aux_sym_domain_token1,
    if lookahead = 45 then ADVANCE 156  -- '-'
    else if lookahead = 46 then ADVANCE 324  -- '.'
    else if (48 ≤ lookahead ∧ lookahead ≤ 57) ∨ (65 ≤ lookahead ∧ lookahead ≤ 90) ∨ (97 ≤ lookahead ∧ lookahead ≤ 122) then ADVANCE 55
    else if (eof = false ∧ set_contains sym_path_segment_character_set_1 10 lookahead = true) then ADVANCE 327
    else END_STATE⟩

def ts_lex_case_59 (eof : Bool) (lookahead : Nat) : LexCase :=
  ⟨some aux_sym_domain_token1,
    if lookahead = 45 then ADVANCE 171  -- '-'
    else if lookahead = 46 then ADVANCE 324  -- '.'
    else if (48 ≤ lookahead ∧ lookahead ≤ 57) ∨ (65 ≤ lookahead ∧ lookahead ≤ 90) ∨ (97 ≤ lookahead ∧ lookahead ≤ 122) then ADVANCE 60
    else if (eof = false ∧ set_contains sym_path_segment_character_set_1 10 lookahead = true) then ADVANCE 327
    else END_STATE⟩

def ts_lex_case_60 (eof : Bool) (lookahead : Nat) : LexCase :=
  ⟨some aux_sym_domain_token1,
    if lookahead = 45 then ADVANCE 162  -- '-'
    else if lookahead = 46 then ADVANCE 324  -- '.'
    else if (48 ≤ lookahead ∧ lookahead ≤ 57) ∨ (65 ≤ lookahead ∧ lookahead ≤ 90) ∨ (97 ≤ lookahead ∧ lookahead ≤ 122) then ADVANCE 57
    else if (eof = false ∧ set_contains sym_path_segment_character_set_1 10 lookahead = true) then ADVANCE 327
    else END_STATE⟩

def ts_lex_case_61 (eof : Bool) (lookahead : Nat) : LexCase :=
  ⟨some aux_sym_domain_token1,
    if lookahead = 45 then ADVANCE 177  -- '-'
    else if lookahead = 46 then ADVANCE 324  -- '.'
    else if (48 ≤ lookahead ∧ lookahead ≤ 57) ∨ (65 ≤ lookahead ∧ lookahead ≤ 90) ∨ (97 ≤ lookahead ∧ lookahead ≤ 122) then ADVANCE 62
    else if (eof = false ∧ set_contains sym_path_segment_character_set_1 10 lookahead = true) then ADVANCE 327
    else END_STATE⟩

def ts_lex_case_62 (eof : Bool) (lookahead : Nat) : LexCase :=
  ⟨some aux_sym_domain_token1,
    if lookahead = 45 then ADVANCE 168  -- '-'
    else if lookahead = 46 then ADVANCE 324  -- '.'
    else if (48 ≤ lookahead ∧ lookahead ≤ 57) ∨ (65 ≤ lookahead ∧ lookahead ≤ 90) ∨ (97 ≤ lookahead ∧ lookahead ≤ 122) then ADVANCE 59
    else if (eof = false ∧ set_contains sym_path_segment_character_set_1 10 lookahead = true) then ADVANCE 327
    else END_STATE⟩

def ts_lex_case_63 (eof : Bool) (lookahead : Nat) : LexCase :=
  ⟨some aux_sym_domain_token1,
    if lookahead = 45 then ADVANCE 183  -- '-'
    else if lookahead = 46 then ADVANCE 324  -- '.'
    else if (48 ≤ lookahead ∧ lookahead ≤ 57) ∨ (65 ≤ lookahead ∧ lookahead ≤ 90) ∨ (97 ≤ lookahead ∧ lookahead ≤ 122) then ADVANCE 64
    else if (eof = false ∧ set_contains sym_path_segment_character_set_1 10 lookahead = true) then ADVANCE 327
    else END_STATE⟩

def ts_lex_case_64 (eof : Bool) (lookahead : Nat) : LexCase :=
  ⟨some aux_sym_domain_token1,
    if lookahead = 45 then ADVANCE 174  -- '-'
    else if lookahead = 46 then ADVANCE 324  -- '.'
    else if (48 ≤ lookahead ∧ lookahead ≤ 57) ∨ (65 ≤ lookahead ∧ lookahead ≤ 90) ∨ (97 ≤ lookahead ∧ lookahead ≤ 122) then ADVANCE 61
    else if (eof = false ∧ set_contains sym_path_segment_character_set_1 10 lookahead = true) then ADVANCE 327
    else END_STATE⟩

def ts_lex_case_65 (eof : Bool) (lookahead : Nat) : LexCase :=
  ⟨some aux_sym_domain_token1,
    if lookahead = 45 then ADVANCE 189  -- '-'
    else if lookahead = 46 then ADVANCE 324  -- '.'
    else if (48 ≤ lookahead ∧ lookahead ≤ 57) ∨ (65 ≤ lookahead ∧ lookahead ≤ 90) ∨ (97 ≤ lookahead ∧ lookahead ≤ 122) then ADVANCE 66
    else if (eof = false ∧ set_contains sym_path_segment_character_set_1 10 lookahead = true) then ADVANCE 327
    else END_STATE⟩

def ts_lex_case_66 (eof : Bool) (lookahead : Nat) : LexCase :=
  ⟨some aux_sym_domain_token1,
    if lookahead = 45 then ADVANCE 180  -- '-'
    else if lookahead = 46 then ADVANCE 324  -- '.'
    else if (48 ≤ lookahead ∧ lookahead ≤ 57) ∨ (65 ≤ lookahead ∧ lookahead ≤ 90) ∨ (97 ≤ lookahead ∧ lookahead ≤ 122) then ADVANCE 63
    else if (eof = false ∧ set_contains sym_path_segment_character_set_1 10 lookahead = true) then ADVANCE 327
    else END_STATE⟩

def ts_lex_case_67 (eof : Bool) (lookahead : Nat) : LexCase :=
  ⟨some aux_sym_domain_token1,
    if lookahead = 45 then ADVANCE 195  -- '-'
    else if lookahead = 46 then ADVANCE 324  -- '.'
    else if (48 ≤ lookahead ∧ lookahead ≤ 57) ∨ (65 ≤ lookahead ∧ lookahead ≤ 90) ∨ (97 ≤ lookahead ∧ lookahead ≤ 122) then ADVANCE 68
    else if (eof = false ∧ set_contains sym_path_segment_character_set_1 10 lookahead = true) then ADVANCE 327
    else END_STATE⟩

def ts_lex_case_68 (eof : Bool) (lookahead : Nat) : LexCase :=
  ⟨some aux_sym_domain_token1,
    if lookahead = 45 then ADVANCE 186  -- '-'
    else if lookahead = 46 then ADVANCE 324  -- '.'
    else if (48 ≤ lookahead ∧ lookahead ≤ 57) ∨ (65 ≤ lookahead ∧ lookahead ≤ 90) ∨ (97 ≤ lookahead ∧ lookahead ≤ 122) then ADVANCE 65
    else if (eof = false ∧ set_contains sym_path_segment_character_set_1 10 lookahead = true) then ADVANCE 327
    else END_STATE⟩

def ts_lex_case_69 (eof : Bool) (lookahead : Nat) : LexCase :=
  ⟨some aux_sym_domain_token1,
    if lookahead = 45 then ADVANCE 201  -- '-'
    else if lookahead = 46 then ADVANCE 324  -- '.'
    else if (48 ≤ lookahead ∧ lookahead ≤ 57) ∨ (65 ≤ lookahead ∧ lookahead ≤ 90) ∨ (97 ≤ lookahead ∧ lookahead ≤ 122) then ADVANCE 70
    else if (eof = false ∧ set_contains sym_path_segment_character_set_1 10 lookahead = true) then ADVANCE 327
    else END_STATE⟩

def ts_lex_case_70 (eof : Bool) (lookahead : Nat) : LexCase :=
  ⟨some aux_sym_domain_token1,
    if lookahead = 45 then ADVANCE 192  -- '-'
    else if lookahead = 46 then ADVANCE 324  -- '.'
    else if (48 ≤ lookahead ∧ lookahead ≤ 57) ∨ (65 ≤ lookahead ∧ lookahead ≤ 90) ∨ (97 ≤ lookahead ∧ lookahead ≤ 122) then ADVANCE 67
    else if (eof = false ∧ set_contains sym_path_segment_character_set_1 10 lookahead = true) then ADVANCE 327
    else END_STATE⟩

def ts_lex_case_71 (eof : Bool) (lookahead : Nat) : LexCase :=
  ⟨some aux_sym_domain_token1,
    if lookahead = 45 then ADVANCE 207  -- '-'
    else if lookahead = 46 then ADVANCE 324  -- '.'
    else if (48 ≤ lookahead ∧ lookahead ≤ 57) ∨ (65 ≤ lookahead ∧ lookahead ≤ 90) ∨ (97 ≤ lookahead ∧ lookahead ≤ 122) then ADVANCE 72
    else if (eof = false ∧ set_contains sym_path_segment_character_set_1 10 lookahead = true) then ADVANCE 327
    else END_STATE⟩

def ts_lex_case_72 (eof : Bool) (lookahead : Nat) : LexCase :=
  ⟨some aux_sym_domain_token1,
    if lookahead = 45 then ADVANCE 198  -- '-'
    else if lookahead = 46 then ADVANCE 324  -- '.'
    else if (48 ≤ lookahead ∧ lookahead ≤ 57) ∨ (65 ≤ lookahead ∧ lookahead ≤ 90) ∨ (97 ≤ lookahead ∧ lookahead ≤ 122) then ADVANCE 69
    else if (eof = false ∧ set_contains sym_path_segment_character_set_1 10 lookahead = true) then ADVANCE 327
    else END_STATE⟩

def ts_lex_case_73 (eof : Bool) (lookahead : Nat) : LexCase :=
  ⟨some aux_sym_domain_token1,
    if lookahead = 45 then ADVANCE 213  -- '-'
    else if lookahead = 46 then ADVANCE 324  -- '.'
    else if (48 ≤ lookahead ∧ lookahead ≤ 57) ∨ (65 ≤ lookahead ∧ lookahead ≤ 90) ∨ (97 ≤ lookahead ∧ lookahead ≤ 122) then ADVANCE 74
    else if (eof = false ∧ set_contains sym_path_segment_character_set_1 10 lookahead = true) then ADVANCE 327
    else END_STATE⟩

def ts_lex_case_74 (eof : Bool) (lookahead : Nat) : LexCase :=
  ⟨some aux_sym_domain_token1,
    if lookahead = 45 then ADVANCE 204  -- '-'
    else if lookahead = 46 then ADVANCE 324  -- '.'
    else if (48 ≤ lookahead ∧ lookahead ≤ 57) ∨ (65 ≤ lookahead ∧ lookahead ≤ 90) ∨ (97 ≤ lookahead ∧ lookahead ≤ 122) then ADVANCE 71
    else if (eof = false ∧ set_contains sym_path_segment_character_set_1 10 lookahead = true) then ADVANCE 327
    else END_STATE⟩

def ts_lex_case_75 (eof : Bool) (lookahead : Nat) : LexCase :=
  ⟨some aux_sym_domain_token1,
    if lookahead = 45 then ADVANCE 219  -- '-'
    else if lookahead = 46 then ADVANCE 324  -- '.'
    else if (48 ≤ lookahead ∧ lookahead ≤ 57) ∨ (65 ≤ lookahead ∧ lookahead ≤ 90) ∨ (97 ≤ lookahead ∧ lookahead ≤ 122) then ADVANCE 76
    else if (eof = false ∧ set_contains sym_path_segment_character_set_1 10 lookahead = true) then ADVANCE 327
    else END_STATE⟩

def ts_lex_case_76 (eof : Bool) (lookahead : Nat) : LexCase :=
  ⟨some aux_sym_domain_token1,
    if lookahead = 45 then ADVANCE 210  -- '-'
    else if lookahead = 46 then ADVANCE 324  -- '.'
    else if (48 ≤ lookahead ∧ lookahead ≤ 57) ∨ (65 ≤ lookahead ∧ lookahead ≤ 90) ∨ (97 ≤ lookahead ∧ lookahead ≤ 122) then ADVANCE 73
    else if (eof = false ∧ set_contains sym_path_segment_character_set_1 10 lookahead = true) then ADVANCE 327
    else END_STATE⟩

def ts_lex_case_77 (eof : Bool) (lookahead : Nat) : LexCase :=
  ⟨some aux_sym_domain_token1,
    if lookahead = 45 then ADVANCE 225  -- '-'
    else if lookahead = 46 then ADVANCE 324  -- '.'
    else if (48 ≤ lookahead ∧ lookahead ≤ 57) ∨ (65 ≤ lookahead ∧ lookahead ≤ 90) ∨ (97 ≤ lookahead ∧ lookahead ≤ 122) then ADVANCE 78
    else if (eof = false ∧ set_contains sym_path_segment_character_set_1 10 lookahead = true) then ADVANCE 327
    else END_STATE⟩

def ts_lex_case_78 (eof : Bool) (lookahead : Nat) : LexCase :=
  ⟨some aux_sym_domain_token1,
    if lookahead = 45 then ADVANCE 216  -- '-'
    else if lookahead = 46 then ADVANCE 324  -- '.'
    else if (48 ≤ lookahead ∧ lookahead ≤ 57) ∨ (65 ≤ lookahead ∧ lookahead ≤ 90) ∨ (97 ≤ lookahead ∧ lookahead ≤ 122) then ADVANCE 75
    else if (eof = false ∧ set_contains sym_path_segment_character_set_1 10 lookahead = true) then ADVANCE 327
    else END_STATE⟩

def ts_lex_case_79 (eof : Bool) (lookahead : Nat) : LexCase :=
  ⟨some aux_sym_domain_token1,
    if lookahead = 45 then ADVANCE 231  -- '-'
    else if lookahead = 46 then ADVANCE 324  -- '.'
    else if (48 ≤ lookahead ∧ lookahead ≤ 57) ∨ (65 ≤ lookahead ∧ lookahead ≤ 90) ∨ (97 ≤ lookahead ∧ lookahead ≤ 122) then ADVANCE 80
    else if (eof = false ∧ set_contains sym_path_segment_character_set_1 10 lookahead = true) then ADVANCE 327
    else END_STATE⟩

def ts_lex_case_80 (eof : Bool) (lookahead : Nat) : LexCase :=
  ⟨some aux_sym_domain_token1,
    if lookahead = 45 then ADVANCE 222  -- '-'
    else if lookahead = 46 then ADVANCE 324  -- '.'
    else if (48 ≤ lookahead ∧ lookahead ≤ 57) ∨ (65 ≤ lookahead ∧ lookahead ≤ 90) ∨ (97 ≤ lookahead ∧ lookahead ≤ 122) then ADVANCE 77
    else if (eof = false ∧ set_contains sym_path_segment_character_set_1 10 lookahead = true) then ADVANCE 327
    else END_STATE⟩

def ts_lex_case_81 (eof : Bool) (lookahead : Nat) : LexCase :=
  ⟨some aux_sym_domain_token1,
    if lookahead = 45 then ADVANCE 237  -- '-'
    else if lookahead = 46 then ADVANCE 324  -- '.'
    else if (48 ≤ lookahead ∧ lookahead ≤ 57) ∨ (65 ≤ lookahead ∧ lookahead ≤ 90) ∨ (97 ≤ lookahead ∧ lookahead ≤ 122) then ADVANCE 82
    else if (eof = false ∧ set_contains sym_path_segment_character_set_1 10 lookahead = true) then ADVANCE 327
    else END_STATE⟩

def ts_lex_case_82 (eof : Bool) (lookahead : Nat) : LexCase :=
  ⟨some aux_sym_domain_token1,
    if lookahead = 45 then ADVANCE 228  -- '-'
    else if lookahead = 46 then ADVANCE 324  -- '.'
    else if (48 ≤ lookahead ∧ lookahead ≤ 57) ∨ (65 ≤ lookahead ∧ lookahead ≤ 90) ∨ (97 ≤ lookahead ∧ lookahead ≤ 122) then ADVANCE 79
    else if (eof = false ∧ set_contains sym_path_segment_character_set_1 10 lookahead = true) then ADVANCE 327
    else END_STATE⟩

def ts_lex_case_83 (eof : Bool) (lookahead : Nat) : LexCase :=
  ⟨some aux_sym_domain_token1,
    if lookahead = 45 then ADVANCE 243  -- '-'
    else if lookahead = 46 then ADVANCE 324  -- '.'
    else if (48 ≤ lookahead ∧ lookahead ≤ 57) ∨ (65 ≤ lookahead ∧ lookahead ≤ 90) ∨ (97 ≤ lookahead ∧ lookahead ≤ 122) then ADVANCE 84
    else if (eof = false ∧ set_contains sym_path_segment_character_set_1 10 lookahead = true) then ADVANCE 327
    else END_STATE⟩

def ts_lex_case_84 (eof : Bool) (lookahead : Nat) : LexCase :=
  ⟨some aux_sym_domain_token1,
    if lookahead = 45 then ADVANCE 234  -- '-'
    else if lookahead = 46 then ADVANCE 324  -- '.'
    else if (48 ≤ lookahead ∧ lookahead ≤ 57) ∨ (65 ≤ lookahead ∧ lookahead ≤ 90) ∨ (97 ≤ lookahead ∧ lookahead ≤ 122) then ADVANCE 81
    else if (eof = false ∧ set_contains sym_path_segment_character_set_1 10 lookahead = true) then ADVANCE 327
    else END_STATE⟩

def ts_lex_case_85 (eof : Bool) (lookahead : Nat) : LexCase :=
  ⟨some aux_sym_domain_token1,
    if lookahead = 45 then ADVANCE 249  -- '-'
    else if lookahead = 46 then ADVANCE 324  -- '.'
    else if (48 ≤ lookahead ∧ lookahead ≤ 57) ∨ (65 ≤ lookahead ∧ lookahead ≤ 90) ∨ (97 ≤ lookahead ∧ lookahead ≤ 122) then ADVANCE 86
    else if (eof = false ∧ set_contains sym_path_segment_character_set_1 10 lookahead = true) then ADVANCE 327
    else END_STATE⟩

def ts_lex_case_86 (eof : Bool) (lookahead : Nat) : LexCase :=
  ⟨some aux_sym_domain_token1,
    if lookahead = 45 then ADVANCE 240  -- '-'
    else if lookahead = 46 then ADVANCE 324  -- '.'
    else if (48 ≤ lookahead ∧ lookahead ≤ 57) ∨ (65 ≤ lookahead ∧ lookahead ≤ 90) ∨ (97 ≤ lookahead ∧ lookahead ≤ 122) then ADVANCE 83
    else if (eof = false ∧ set_contains sym_path_segment_character_set_1 10 lookahead = true) then ADVANCE 327
    else END_STATE⟩

def ts_lex_case_87 (eof : Bool) (lookahead : Nat) : LexCase :=
  ⟨some aux_sym_domain_token1,
    if lookahead = 45 then ADVANCE 255  -- '-'
    else if lookahead = 46 then ADVANCE 324  -- '.'
    else if (48 ≤ lookahead ∧ lookahead ≤ 57) ∨ (65 ≤ lookahead ∧ lookahead ≤ 90) ∨ (97 ≤ lookahead ∧ lookahead ≤ 122) then ADVANCE 88
    else if (eof = false ∧ set_contains sym_path_segment_character_set_1 10 lookahead = true) then ADVANCE 327
    else END_STATE⟩

def ts_lex_case_88 (eof : Bool) (lookahead : Nat) : LexCase :=
  ⟨some aux_sym_domain_token1,
    if lookahead = 45 then ADVANCE 246  -- '-'
    else if lookahead = 46 then ADVANCE 324  -- '.'
    else if (48 ≤ lookahead ∧ lookahead ≤ 57) ∨ (65 ≤ lookahead ∧ lookahead ≤ 90) ∨ (97 ≤ lookahead ∧ lookahead ≤ 122) then ADVANCE 85
    else if (eof = false ∧ set_contains sym_path_segment_character_set_1 10 lookahead = true) then ADVANCE 327
    else END_STATE⟩

def ts_lex_case_89 (eof : Bool) (lookahead : Nat) : LexCase :=
  ⟨some aux_sym_domain_token1,
    if lookahead = 45 then ADVANCE 261  -- '-'
    else if lookahead = 46 then ADVANCE 324  -- '.'
    else if (48 ≤ lookahead ∧ lookahead ≤ 57) ∨ (65 ≤ lookahead ∧ lookahead ≤ 90) ∨ (97 ≤ lookahead ∧ lookahead ≤ 122) then ADVANCE 90
    else if (eof = false ∧ set_contains sym_path_segment_character_set_1 10 lookahead = true) then ADVANCE 327
    else END_STATE⟩

def ts_lex_case_90 (eof : Bool) (lookahead : Nat) : LexCase :=
  ⟨some aux_sym_domain_token1,
    if lookahead = 45 then ADVANCE 252  -- '-'
    else if lookahead = 46 then ADVANCE 324  -- '.'
    else if (48 ≤ lookahead ∧ lookahead ≤ 57) ∨ (65 ≤ lookahead ∧ lookahead ≤ 90) ∨ (97 ≤ lookahead ∧ lookahead ≤ 122) then ADVANCE 87
    else if (eof = false ∧ set_contains sym_path_segment_character_set_1 10 lookahead = true) then ADVANCE 327
    else END_STATE⟩

def ts_lex_case_91 (eof : Bool) (lookahead : Nat) : LexCase :=
  ⟨some aux_sym_domain_token1,
    if lookahead = 45 then ADVANCE 267  -- '-'
    else if lookahead = 46 then ADVANCE 324  -- '.'
    else if (48 ≤ lookahead ∧ lookahead ≤ 57) ∨ (65 ≤ lookahead ∧ lookahead ≤ 90) ∨ (97 ≤ lookahead ∧ lookahead ≤ 122) then ADVANCE 92
    else if (eof = false ∧ set_contains sym_path_segment_character_set_1 10 lookahead = true) then ADVANCE 327
    else END_STATE⟩

def ts_lex_case_92 (eof : Bool) (lookahead : Nat) : LexCase :=
  ⟨some aux_sym_domain_token1,
    if lookahead = 45 then ADVANCE 258  -- '-'
    else if lookahead = 46 then ADVANCE 324  -- '.'
    else if (48 ≤ lookahead ∧ lookahead ≤ 57) ∨ (65 ≤ lookahead ∧ lookahead ≤ 90) ∨ (97 ≤ lookahead ∧ lookahead ≤ 122) then ADVANCE 89
    else if (eof = false ∧ set_contains sym_path_segment_character_set_1 10 lookahead = true) then ADVANCE 327
    else END_STATE⟩

def ts_lex_case_93 (eof : Bool) (lookahead : Nat) : LexCase :=
  ⟨some aux_sym_domain_token1,
    if lookahead = 45 then ADVANCE 273  -- '-'
    else if lookahead = 46 then ADVANCE 324  -- '.'
    else if (48 ≤ lookahead ∧ lookahead ≤ 57) ∨ (65 ≤ lookahead ∧ lookahead ≤ 90) ∨ (97 ≤ lookahead ∧ lookahead ≤ 122) then ADVANCE 94
    else if (eof = false ∧ set_contains sym_path_segment_character_set_1 10 lookahead = true) then ADVANCE 327
    else END_STATE⟩

def ts_lex_case_94 (eof : Bool) (lookahead : Nat) : LexCase :=
  ⟨some aux_sym_domain_token1,
    if lookahead = 45 then ADVANCE 264  -- '-'
    else if lookahead = 46 then ADVANCE 324  -- '.'
    else if (48 ≤ lookahead ∧ lookahead ≤ 57) ∨ (65 ≤ lookahead ∧ lookahead ≤ 90) ∨ (97 ≤ lookahead ∧ lookahead ≤ 122) then ADVANCE 91
    else if (eof = false ∧ set_contains sym_path_segment_character_set_1 10 lookahead = true) then ADVANCE 327
    else END_STATE⟩

def ts_lex_case_95 (eof : Bool) (lookahead : Nat) : LexCase :=
  ⟨some aux_sym_domain_token1,
    if lookahead = 45 then ADVANCE 279  -- '-'
    else if lookahead = 46 then ADVANCE 324  -- '.'
    else if (48 ≤ lookahead ∧ lookahead ≤ 57) ∨ (65 ≤ lookahead ∧ lookahead ≤ 90) ∨ (97 ≤ lookahead ∧ lookahead ≤ 122) then ADVANCE 96
    else if (eof = false ∧ set_contains sym_path_segment_character_set_1 10 lookahead = true) then ADVANCE 327
    else END_STATE⟩

def ts_lex_case_96 (eof : Bool) (lookahead : Nat) : LexCase :=
  ⟨some aux_sym_domain_token1,
    if lookahead = 45 then ADVANCE 270  -- '-'
    else if lookahead = 46 then ADVANCE 324  -- '.'
    else if (48 ≤ lookahead ∧ lookahead ≤ 57) ∨ (65 ≤ lookahead ∧ lookahead ≤ 90) ∨ (97 ≤ lookahead ∧ lookahead ≤ 122) then ADVANCE 93
    else if (eof = false ∧ set_contains sym_path_segment_character_set_1 10 lookahead = true) then ADVANCE 327
    else END_STATE⟩

def ts_lex_case_97 (eof : Bool) (lookahead : Nat) : LexCase :=
  ⟨some aux_sym_domain_token1,
    if lookahead = 45 then ADVANCE 285  -- '-'
    else if lookahead = 46 then ADVANCE 324  -- '.'
    else if (48 ≤ lookahead ∧ lookahead ≤ 57) ∨ (65 ≤ lookahead ∧ lookahead ≤ 90) ∨ (97 ≤ lookahead ∧ lookahead ≤ 122) then ADVANCE 98
    else if (eof = false ∧ set_contains sym_path_segment_character_set_1 10 lookahead = true) then ADVANCE 327
    else END_STATE⟩

def ts_lex_case_98 (eof : Bool) (lookahead : Nat) : LexCase :=
  ⟨some aux_sym_domain_token1,
    if lookahead = 45 then ADVANCE 276  -- '-'
    else if lookahead = 46 then ADVANCE 324  -- '.'
    else if (48 ≤ lookahead ∧ lookahead ≤ 57) ∨ (65 ≤ lookahead ∧ lookahead ≤ 90) ∨ (97 ≤ lookahead ∧ lookahead ≤ 122) then ADVANCE 95
    else if (eof = false ∧ set_contains sym_path_segment_character_set_1 10 lookahead = true) then ADVANCE 327
    else END_STATE⟩

def ts_lex_case_99 (eof : Bool) (lookahead : Nat) : LexCase :=
  ⟨some aux_sym_domain_token1,
    if lookahead = 45 then ADVANCE 293  -- '-'
    else if lookahead = 46 then ADVANCE 324  -- '.'
    else if (48 ≤ lookahead ∧ lookahead ≤ 57) ∨ (65 ≤ lookahead ∧ lookahead ≤ 90) ∨ (97 ≤ lookahead ∧ lookahead ≤ 122) then ADVANCE 100
    else if (eof = false ∧ set_contains sym_path_segment_character_set_1 10 lookahead = true) then ADVANCE 327
    else END_STATE⟩

def ts_lex_case_100 (eof : Bool) (lookahead : Nat) : LexCase :=
  ⟨some aux_sym_domain_token1,
    if lookahead = 45 then ADVANCE 282  -- '-'
    else if lookahead = 46 then ADVANCE 324  -- '.'
    else if (48 ≤ lookahead ∧ lookahead ≤ 57) ∨ (65 ≤ lookahead ∧ lookahead ≤ 90) ∨ (97 ≤ lookahead ∧ lookahead ≤ 122) then ADVANCE 97
    else if (eof = false ∧ set_contains sym_path_segment_character_set_1 10 lookahead = true) then ADVANCE 327
    else END_STATE⟩

def ts_lex_case_101 (eof : Bool) (lookahead : Nat) : LexCase :=
  ⟨some aux_sym_domain_token1,
    if lookahead = 45 then ADVANCE 301  -- '-'
    else if lookahead = 46 then ADVANCE 324  -- '.'
    else if (48 ≤ lookahead ∧ lookahead ≤ 57) ∨ (65 ≤ lookahead ∧ lookahead ≤ 90) ∨ (97 ≤ lookahead ∧ lookahead ≤ 122) then ADVANCE 102
    else if (eof = false ∧ set_contains sym_path_segment_character_set_1 10 lookahead = true) then ADVANCE 327
    else END_STATE⟩

def ts_lex_case_102 (eof : Bool) (lookahead : Nat) : LexCase :=
  ⟨some aux_sym_domain_token1,
    if lookahead = 45 then ADVANCE 289  -- '-'
    else if lookahead = 46 then ADVANCE 324  -- '.'
    else if (48 ≤ lookahead ∧ lookahead ≤ 57) ∨ (65 ≤ lookahead ∧ lookahead ≤ 90) ∨ (97 ≤ lookahead ∧ lookahead ≤ 122) then ADVANCE 99
    else if (eof = false ∧ set_contains sym_path_segment_character_set_1 10 lookahead = true) then ADVANCE 327
    else END_STATE⟩

def ts_lex_case_103 (eof : Bool) (lookahead : Nat) : LexCase :=
  ⟨some aux_sym_domain_token1,
    if lookahead = 45 then ADVANCE 311  -- '-'
    else if lookahead = 46 then ADVANCE 324  -- '.'
    else if (48 ≤ lookahead ∧ lookahead ≤ 57) ∨ (65 ≤ lookahead ∧ lookahead ≤ 90) ∨ (97 ≤ lookahead ∧ lookahead ≤ 122) then ADVANCE 106
    else if (eof = false ∧ set_contains sym_path_segment_character_set_1 10 lookahead = true) then ADVANCE 327
    else END_STATE⟩

def ts_lex_case_104 (eof : Bool) (lookahead : Nat) : LexCase :=
  ⟨some aux_sym_domain_token1,
    if lookahead = 45 then ADVANCE 311  -- '-'
    else if lookahead = 46 then ADVANCE 322  -- '.'
    else if (48 ≤ lookahead ∧ lookahead ≤ 57) ∨ (65 ≤ lookahead ∧ lookahead ≤ 90) ∨ (97 ≤ lookahead ∧ lookahead ≤ 122) then ADVANCE 106
    else if (eof = false ∧ set_contains sym_path_segment_character_set_1 10 lookahead = true) then ADVANCE 327
    else END_STATE⟩

def ts_lex_case_105 (eof : Bool) (lookahead : Nat) : LexCase :=
  ⟨some aux_sym_domain_token1,
    if lookahead = 45 then ADVANCE 311  -- '-'
    else if lookahead = 46 then ADVANCE 323  -- '.'
    else if (48 ≤ lookahead ∧ lookahead ≤ 57) ∨ (65 ≤ lookahead ∧ lookahead ≤ 90) ∨ (97 ≤ lookahead ∧ lookahead ≤ 122) then ADVANCE 106
    else if (eof = false ∧ set_contains sym_path_segment_character_set_1 10 lookahead = true) then ADVANCE 327
    else END_STATE⟩

def ts_lex_case_106 (eof : Bool) (lookahead : Nat) : LexCase :=
  ⟨some aux_sym_domain_token1,
    if lookahead = 45 then ADVANCE 297  -- '-'
    else if lookahead = 46 then ADVANCE 324  -- '.'
    else if (48 ≤ lookahead ∧ lookahead ≤ 57) ∨ (65 ≤ lookahead ∧ lookahead ≤ 90) ∨ (97 ≤ lookahead ∧ lookahead ≤ 122) then ADVANCE 101
    else if (eof = false ∧ set_contains sym_path_segment_character_set_1 10 lookahead = true) then ADVANCE 327
    else END_STATE⟩

def ts_lex_case_107 (eof : Bool) (lookahead : Nat) : LexCase :=
  ⟨some aux_sym_domain_token1,
    if lookahead = 45 then ADVANCE 307  -- '-'
    else if lookahead = 46 then ADVANCE 324  -- '.'
    else if (48 ≤ lookahead ∧ lookahead ≤ 57) then ADVANCE 103
    else if (65 ≤ lookahead ∧ lookahead ≤ 90) ∨ (97 ≤ lookahead ∧ lookahead ≤ 122) then ADVANCE 103
    else if (eof = false ∧ set_contains sym_path_segment_character_set_1 10 lookahead = true) then ADVANCE 327
    else END_STATE⟩

def ts_lex_case_108 (eof : Bool) (lookahead : Nat) : LexCase :=
  ⟨some aux_sym_domain_token1,
    if lookahead = 45 then ADVANCE 307  -- '-'
    else if lookahead = 46 then ADVANCE 324  -- '.'
    else if (48 ≤ lookahead ∧ lookahead ≤ 57) ∨ (65 ≤ lookahead ∧ lookahead ≤ 90) ∨ (97 ≤ lookahead ∧ lookahead ≤ 122) then ADVANCE 103
    else if (eof = false ∧ set_contains sym_path_segment_character_set_1 10 lookahead = true) then ADVANCE 327
    else END_STATE⟩

def ts_lex_case_109 (eof : Bool) (lookahead : Nat) : LexCase :=
  ⟨some aux_sym_domain_token1,
    if lookahead = 45 then ADVANCE 307  -- '-'
    else if lookahead = 46 then ADVANCE 322  -- '.'
    else if (48 ≤ lookahead ∧ lookahead ≤ 57) then ADVANCE 104
    else if (65 ≤ lookahead ∧ lookahead ≤ 90) ∨ (97 ≤ lookahead ∧ lookahead ≤ 122) then ADVANCE 103
    else if (eof = false ∧ set_contains sym_path_segment_character_set_1 10 lookahead = true) then ADVANCE 327
    else END_STATE⟩

def ts_lex_case_110 (eof : Bool) (lookahead : Nat) : LexCase :=
  ⟨some aux_sym_domain_token1,
    if lookahead = 45 then ADVANCE 307  -- '-'
    else if lookahead = 46 then ADVANCE 323  -- '.'
    else if (48 ≤ lookahead ∧ lookahead ≤ 57) then ADVANCE 105
    else if (65 ≤ lookahead ∧ lookahead ≤ 90) ∨ (97 ≤ lookahead ∧ lookahead ≤ 122) then ADVANCE 103
    else if (eof = false ∧ set_contains sym_path_segment_character_set_1 10 lookahead = true) then ADVANCE 327
    else END_STATE⟩

def ts_lex_case_111 (eof : Bool) (lookahead : Nat) : LexCase :=
  ⟨some aux_sym_domain_token1,
    if lookahead = 46 then ADVANCE 324  -- '.'
    else if (48 ≤ lookahead ∧ lookahead ≤ 57) ∨ (65 ≤ lookahead ∧ lookahead ≤ 90) ∨ (97 ≤ lookahead ∧ lookahead ≤ 122) then ADVANCE 112
    else if (eof = false ∧ set_contains sym_path_segment_character_set_1 10 lookahead = true) then ADVANCE 327
    else END_STATE⟩

def ts_lex_case_112 (eof : Bool) (lookahead : Nat) : LexCase :=
  ⟨some aux_sym_domain_token1,
    if lookahead = 46 then ADVANCE 324  -- '.'
    else if (eof = false ∧ set_contains sym_path_segment_character_set_1 10 lookahead = true) then ADVANCE 327
    else END_STATE⟩

def ts_lex_case_113 (_eof : Bool) (_lookahead : Nat) : LexCase :=
  ⟨some anon_sym_localhost,
    END_STATE⟩

def ts_lex_case_114 (eof : Bool) (lookahead : Nat) : LexCase :=
  ⟨some anon_sym_localhost,
    if lookahead = 45 then ADVANCE 284  -- '-'
    else if lookahead = 46 then ADVANCE 324  -- '.'
    else if (48 ≤ lookahead ∧ lookahead ≤ 57) ∨ (65 ≤ lookahead ∧ lookahead ≤ 90) ∨ (97 ≤ lookahead ∧ lookahead ≤ 122) then ADVANCE 283
    else if (eof = false ∧ set_contains sym_path_segment_character_set_1 10 lookahead = true) then ADVANCE 327
    else END_STATE⟩

def ts_lex_case_115 (_eof : Bool) (_lookahead : Nat) : LexCase :=
  ⟨some sym_port,
    END_STATE⟩

def ts_lex_case_116 (_eof : Bool) (lookahead : Nat) : LexCase :=
  ⟨some sym_port,
    if (48 ≤ lookahead ∧ lookahead ≤ 57) then ADVANCE 115
    else END_STATE⟩

def ts_lex_case_117 (_eof : Bool) (lookahead : Nat) : LexCase :=
  ⟨some sym_port,
    if (48 ≤ lookahead ∧ lookahead ≤ 57) then ADVANCE 116
    else END_STATE⟩

def ts_lex_case_118 (_eof : Bool) (lookahead : Nat) : LexCase :=
  ⟨some sym_port,
    if (48 ≤ lookahead ∧ lookahead ≤ 57) then ADVANCE 117
    else END_STATE⟩

def ts_lex_case_119 (_eof : Bool) (lookahead : Nat) : LexCase :=
  ⟨some sym_port,
    if (48 ≤ lookahead ∧ lookahead ≤ 57) then ADVANCE 118
    else END_STATE⟩

def ts_lex_case_120 (_eof : Bool) (_lookahead : Nat) : LexCase :=
  ⟨some anon_sym_SLASH,
    END_STATE⟩

def ts_lex_case_121 (eof : Bool) (lookahead : Nat) : LexCase :=
  ⟨some sym_path_segment,
    if lookahead = 45 then ADVANCE 317  -- '-'
    else if lookahead = 46 then ADVANCE 324  -- '.'
    else if lookahead = 111 then ADVANCE 312  -- 'o'
    else if (48 ≤ lookahead ∧ lookahead ≤ 57) ∨ (65 ≤ lookahead ∧ lookahead ≤ 90) ∨ (97 ≤ lookahead ∧ lookahead ≤ 122) then ADVANCE 315
    else if (eof = false ∧ set_contains sym_path_segment_character_set_1 10 lookahead = true) then ADVANCE 327
    else END_STATE⟩

def ts_lex_case_122 (eof : Bool) (lookahead : Nat) : LexCase :=
  ⟨some sym_path_segment,
    if lookahead = 45 then ADVANCE 317  -- '-'
    else if lookahead = 46 then ADVANCE 324  -- '.'
    else if lookahead = 115 then ADVANCE 35  -- 's'
    else if (48 ≤ lookahead ∧ lookahead ≤ 57) ∨ (65 ≤ lookahead ∧ lookahead ≤ 90) ∨ (97 ≤ lookahead ∧ lookahead ≤ 122) then ADVANCE 315
    else if (eof = false ∧ set_contains sym_path_segment_character_set_1 10 lookahead = true) then ADVANCE 327
    else END_STATE⟩

def ts_lex_case_123 (eof : Bool) (lookahead : Nat) : LexCase :=
  ⟨some sym_path_segment,
    if lookahead = 45 then ADVANCE 317  -- '-'
    else if lookahead = 46 then ADVANCE 324  -- '.'
    else if lookahead = 116 then ADVANCE 313  -- 't'
    else if (48 ≤ lookahead ∧ lookahead ≤ 57) ∨ (65 ≤ lookahead ∧ lookahead ≤ 90) ∨ (97 ≤ lookahead ∧ lookahead ≤ 122) then ADVANCE 315
    else if (eof = false ∧ set_contains sym_path_segment_character_set_1 10 lookahead = true) then ADVANCE 327
    else END_STATE⟩

def ts_lex_case_124 (eof : Bool) (lookahead : Nat) : LexCase :=
  ⟨some sym_path_segment,
    if lookahead = 45 then ADVANCE 317  -- '-'
    else if lookahead = 46 then ADVANCE 324  -- '.'
    else if lookahead = 116 then ADVANCE 314  -- 't'
    else if (48 ≤ lookahead ∧ lookahead ≤ 57) ∨ (65 ≤ lookahead ∧ lookahead ≤ 90) ∨ (97 ≤ lookahead ∧ lookahead ≤ 122) then ADVANCE 315
    else if (eof = false ∧ set_contains sym_path_segment_character_set_1 10 lookahead = true) then ADVANCE 327
    else END_STATE⟩

def ts_lex_case_125 (eof : Bool) (lookahead : Nat) : LexCase :=
  ⟨some sym_path_segment,
    if lookahead = 45 then ADVANCE 317  -- '-'
    else if lookahead = 46 then ADVANCE 324  -- '.'
    else if (48 ≤ lookahead ∧ lookahead ≤ 57) ∨ (65 ≤ lookahead ∧ lookahead ≤ 90) ∨ (97 ≤ lookahead ∧ lookahead ≤ 122) then ADVANCE 315
    else if (eof = false ∧ set_contains sym_path_segment_character_set_1 10 lookahead = true) then ADVANCE 327
    else END_STATE⟩

def ts_lex_case_126 (eof : Bool) (lookahead : Nat) : LexCase :=
  ⟨some sym_path_segment,
    if lookahead = 45 then ADVANCE 317  -- '-'
    else if lookahead = 46 then ADVANCE 321  -- '.'
    else if (48 ≤ lookahead ∧ lookahead ≤ 57) then ADVANCE 316
    else if (65 ≤ lookahead ∧ lookahead ≤ 90) ∨ (97 ≤ lookahead ∧ lookahead ≤ 122) then ADVANCE 315
    else if (eof = false ∧ set_contains sym_path_segment_character_set_1 10 lookahead = true) then ADVANCE 327
    else END_STATE⟩

def ts_lex_case_127 (eof : Bool) (lookahead : Nat) : LexCase :=
  ⟨some sym_path_segment,
    if lookahead = 45 then ADVANCE 325  -- '-'
    else if lookahead = 46 then ADVANCE 324  -- '.'
    else if (48 ≤ lookahead ∧ lookahead ≤ 57) ∨ (65 ≤ lookahead ∧ lookahead ≤ 90) ∨ (97 ≤ lookahead ∧ lookahead ≤ 122) then ADVANCE 319
    else if (eof = false ∧ set_contains sym_path_segment_character_set_1 10 lookahead = true) then ADVANCE 327
    else END_STATE⟩

def ts_lex_case_128 (eof : Bool) (lookahead : Nat) : LexCase :=
  ⟨some sym_path_segment,
    if lookahead = 45 then ADVANCE 325  -- '-'
    else if (48 ≤ lookahead ∧ lookahead ≤ 57) ∨ (65 ≤ lookahead ∧ lookahead ≤ 90) ∨ (97 ≤ lookahead ∧ lookahead ≤ 122) then ADVANCE 319
    else if (eof = false ∧ set_contains sym_path_segment_character_set_1 10 lookahead = true) then ADVANCE 327
    else END_STATE⟩

def ts_lex_case_129 (eof : Bool) (lookahead : Nat) : LexCase :=
  ⟨some sym_path_segment,
    if lookahead = 45 then ADVANCE 133  -- '-'
    else if lookahead = 46 then ADVANCE 324  -- '.'
    else if (48 ≤ lookahead ∧ lookahead ≤ 57) ∨ (65 ≤ lookahead ∧ lookahead ≤ 90) ∨ (97 ≤ lookahead ∧ lookahead ≤ 122) then ADVANCE 132
    else if (eof = false ∧ set_contains sym_path_segment_character_set_1 10 lookahead = true) then ADVANCE 327
    else END_STATE⟩

def ts_lex_case_130 (eof : Bool) (lookahead : Nat) : LexCase :=
  ⟨some sym_path_segment,
    if lookahead = 45 then ADVANCE 133  -- '-'
    else if (48 ≤ lookahead ∧ lookahead ≤ 57) ∨ (65 ≤ lookahead ∧ lookahead ≤ 90) ∨ (97 ≤ lookahead ∧ lookahead ≤ 122) then ADVANCE 132
    else if (eof = false ∧ set_contains sym_path_segment_character_set_1 10 lookahead = true) then ADVANCE 327
    else END_STATE⟩

def ts_lex_case_131 (eof : Bool) (lookahead : Nat) : LexCase :=
  ⟨some sym_path_segment,
    if lookahead = 45 then ADVANCE 326  -- '-'
    else if (48 ≤ lookahead ∧ lookahead ≤ 57) ∨ (65 ≤ lookahead ∧ lookahead ≤ 90) ∨ (97 ≤ lookahead ∧ lookahead ≤ 122) then ADVANCE 111
    else if (eof = false ∧ set_contains sym_path_segment_character_set_1 10 lookahead = true) then ADVANCE 327
    else END_STATE⟩

def ts_lex_case_132 (eof : Bool) (lookahead : Nat) : LexCase :=
  ⟨some sym_path_segment,
    if lookahead = 45 then ADVANCE 128  -- '-'
    else if lookahead = 46 then ADVANCE 324  -- '.'
    else if (48 ≤ lookahead ∧ lookahead ≤ 57) ∨ (65 ≤ lookahead ∧ lookahead ≤ 90) ∨ (97 ≤ lookahead ∧ lookahead ≤ 122) then ADVANCE 127
    else if (eof = false ∧ set_contains sym_path_segment_character_set_1 10 lookahead = true) then ADVANCE 327
    else END_STATE⟩

def ts_lex_case_133 (eof : Bool) (lookahead : Nat) : LexCase :=
  ⟨some sym_path_segment,
    if lookahead = 45 then ADVANCE 128  -- '-'
    else if (48 ≤ lookahead ∧ lookahead ≤ 57) ∨ (65 ≤ lookahead ∧ lookahead ≤ 90) ∨ (97 ≤ lookahead ∧ lookahead ≤ 122) then ADVANCE 127
    else if (eof = false ∧ set_contains sym_path_segment_character_set_1 10 lookahead = true) then ADVANCE 327
    else END_STATE⟩

def ts_lex_case_134 (eof : Bool) (lookahead : Nat) : LexCase :=
  ⟨some sym_path_segment,
    if lookahead = 45 then ADVANCE 135  -- '-'
    else if (48 ≤ lookahead ∧ lookahead ≤ 57) ∨ (65 ≤ lookahead ∧ lookahead ≤ 90) ∨ (97 ≤ lookahead ∧ lookahead ≤ 122) then ADVANCE 48
    else if (eof = false ∧ set_contains sym_path_segment_character_set_1 10 lookahead = true) then ADVANCE 327
    else END_STATE⟩

def ts_lex_case_135 (eof : Bool) (lookahead : Nat) : LexCase :=
  ⟨some sym_path_segment,
    if lookahead = 45 then ADVANCE 131  -- '-'
    else if (48 ≤ lookahead ∧ lookahead ≤ 57) ∨ (65 ≤ lookahead ∧ lookahead ≤ 90) ∨ (97 ≤ lookahead ∧ lookahead ≤ 122) then ADVANCE 46
    else if (eof = false ∧ set_contains sym_path_segment_character_set_1 10 lookahead = true) then ADVANCE 327
    else END_STATE⟩

def ts_lex_case_136 (eof : Bool) (lookahead : Nat) : LexCase :=
  ⟨some sym_path_segment,
    if lookahead = 45 then ADVANCE 140  -- '-'
    else if lookahead = 46 then ADVANCE 324  -- '.'
    else if (48 ≤ lookahead ∧ lookahead ≤ 57) ∨ (65 ≤ lookahead ∧ lookahead ≤ 90) ∨ (97 ≤ lookahead ∧ lookahead ≤ 122) then ADVANCE 139
    else if (eof = false ∧ set_contains sym_path_segment_character_set_1 10 lookahead = true) then ADVANCE 327
    else END_STATE⟩

def ts_lex_case_137 (eof : Bool) (lookahead : Nat) : LexCase :=
  ⟨some sym_path_segment,
    if lookahead = 45 then ADVANCE 140  -- '-'
    else if (48 ≤ lookahead ∧ lookahead ≤ 57) ∨ (65 ≤ lookahead ∧ lookahead ≤ 90) ∨ (97 ≤ lookahead ∧ lookahead ≤ 122) then ADVANCE 139
    else if (eof = false ∧ set_contains sym_path_segment_character_set_1 10 lookahead = true) then ADVANCE 327
    else END_STATE⟩

def ts_lex_case_138 (eof : Bool) (lookahead : Nat) : LexCase :=
  ⟨some sym_path_segment,
    if lookahead = 45 then ADVANCE 141  -- '-'
    else if (48 ≤ lookahead ∧ lookahead ≤ 57) ∨ (65 ≤ lookahead ∧ lookahead ≤ 90) ∨ (97 ≤ lookahead ∧ lookahead ≤ 122) then ADVANCE 50
    else if (eof = false ∧ set_contains sym_path_segment_character_set_1 10 lookahead = true) then ADVANCE 327
    else END_STATE⟩

def ts_lex_case_139 (eof : Bool) (lookahead : Nat) : LexCase :=
  ⟨some sym_path_segment,
    if lookahead = 45 then ADVANCE 130  -- '-'
    else if lookahead = 46 then ADVANCE 324  -- '.'
    else if (48 ≤ lookahead ∧ lookahead ≤ 57) ∨ (65 ≤ lookahead ∧ lookahead ≤ 90) ∨ (97 ≤ lookahead ∧ lookahead ≤ 122) then ADVANCE 129
    else if (eof = false ∧ set_contains sym_path_segment_character_set_1 10 lookahead = true) then ADVANCE 327
    else END_STATE⟩

def ts_lex_case_140 (eof : Bool) (lookahead : Nat) : LexCase :=
  ⟨some sym_path_segment,
    if lookahead = 45 then ADVANCE 130  -- '-'
    else if (48 ≤ lookahead ∧ lookahead ≤ 57) ∨ (65 ≤ lookahead ∧ lookahead ≤ 90) ∨ (97 ≤ lookahead ∧ lookahead ≤ 122) then ADVANCE 129
    else if (eof = false ∧ set_contains sym_path_segment_character_set_1 10 lookahead = true) then ADVANCE 327
    else END_STATE⟩

def ts_lex_case_141 (eof : Bool) (lookahead : Nat) : LexCase :=
  ⟨some sym_path_segment,
    if lookahead = 45 then ADVANCE 134  -- '-'
    else if (48 ≤ lookahead ∧ lookahead ≤ 57) ∨ (65 ≤ lookahead ∧ lookahead ≤ 90) ∨ (97 ≤ lookahead ∧ lookahead ≤ 122) then ADVANCE 47
    else if (eof = false ∧ set_contains sym_path_segment_character_set_1 10 lookahead = true) then ADVANCE 327
    else END_STATE⟩

def ts_lex_case_142 (eof : Bool) (lookahead : Nat) : LexCase :=
  ⟨some sym_path_segment,
    if lookahead = 45 then ADVANCE 146  -- '-'
    else if lookahead = 46 then ADVANCE 324  -- '.'
    else if (48 ≤ lookahead ∧ lookahead ≤ 57) ∨ (65 ≤ lookahead ∧ lookahead ≤ 90) ∨ (97 ≤ lookahead ∧ lookahead ≤ 122) then ADVANCE 145
    else if (eof = false ∧ set_contains sym_path_segment_character_set_1 10 lookahead = true) then ADVANCE 327
    else END_STATE⟩

def ts_lex_case_143 (eof : Bool) (lookahead : Nat) : LexCase :=
  ⟨some sym_path_segment,
    if lookahead = 45 then ADVANCE 146  -- '-'
    else if (48 ≤ lookahead ∧ lookahead ≤ 57) ∨ (65 ≤ lookahead ∧ lookahead ≤ 90) ∨ (97 ≤ lookahead ∧ lookahead ≤ 122) then ADVANCE 145
    else if (eof = false ∧ set_contains sym_path_segment_character_set_1 10 lookahead = true) then ADVANCE 327
    else END_STATE⟩

def ts_lex_case_144 (eof : Bool) (lookahead : Nat) : LexCase :=
  ⟨some sym_path_segment,
    if lookahead = 45 then ADVANCE 147  -- '-'
    else if (48 ≤ lookahead ∧ lookahead ≤ 57) ∨ (65 ≤ lookahead ∧ lookahead ≤ 90) ∨ (97 ≤ lookahead ∧ lookahead ≤ 122) then ADVANCE 52
    else if (eof = false ∧ set_contains sym_path_segment_character_set_1 10 lookahead = true) then ADVANCE 327
    else END_STATE⟩

def ts_lex_case_145 (eof : Bool) (lookahead : Nat) : LexCase :=
  ⟨some sym_path_segment,
    if lookahead = 45 then ADVANCE 137  -- '-'
    else if lookahead = 46 then ADVANCE 324  -- '.'
    else if (48 ≤ lookahead ∧ lookahead ≤ 57) ∨ (65 ≤ lookahead ∧ lookahead ≤ 90) ∨ (97 ≤ lookahead ∧ lookahead ≤ 122) then ADVANCE 136
    else if (eof = false ∧ set_contains sym_path_segment_character_set_1 10 lookahead = true) then ADVANCE 327
    else END_STATE⟩

def ts_lex_case_146 (eof : Bool) (lookahead : Nat) : LexCase :=
  ⟨some sym_path_segment,
    if lookahead = 45 then ADVANCE 137  -- '-'
    else if (48 ≤ lookahead ∧ lookahead ≤ 57) ∨ (65 ≤ lookahead ∧ lookahead ≤ 90) ∨ (97 ≤ lookahead ∧ lookahead ≤ 122) then ADVANCE 136
    else if (eof = false ∧ set_contains sym_path_segment_character_set_1 10 lookahead = true) then ADVANCE 327
    else END_STATE⟩

def ts_lex_case_147 (eof : Bool) (lookahead : Nat) : LexCase :=
  ⟨some sym_path_segment,
    if lookahead = 45 then ADVANCE 138  -- '-'
    else if (48 ≤ lookahead ∧ lookahead ≤ 57) ∨ (65 ≤ lookahead ∧ lookahead ≤ 90) ∨ (97 ≤ lookahead ∧ lookahead ≤ 122) then ADVANCE 49
    else if (eof = false ∧ set_contains sym_path_segment_character_set_1 10 lookahead = true) then ADVANCE 327
    else END_STATE⟩

def ts_lex_case_148 (eof : Bool) (lookahead : Nat) : LexCase :=
  ⟨some sym_path_segment,
    if lookahead = 45 then ADVANCE 152  -- '-'
    else if lookahead = 46 then ADVANCE 324  -- '.'
    else if (48 ≤ lookahead ∧ lookahead ≤ 57) ∨ (65 ≤ lookahead ∧ lookahead ≤ 90) ∨ (97 ≤ lookahead ∧ lookahead ≤ 122) then ADVANCE 151
    else if (eof = false ∧ set_contains sym_path_segment_character_set_1 10 lookahead = true) then ADVANCE 327
    else END_STATE⟩

def ts_lex_case_149 (eof : Bool) (lookahead : Nat) : LexCase :=
  ⟨some sym_path_segment,
    if lookahead = 45 then ADVANCE 152  -- '-'
    else if (48 ≤ lookahead ∧ lookahead ≤ 57) ∨ (65 ≤ lookahead ∧ lookahead ≤ 90) ∨ (97 ≤ lookahead ∧ lookahead ≤ 122) then ADVANCE 151
    else if (eof = false ∧ set_contains sym_path_segment_character_set_1 10 lookahead = true) then ADVANCE 327
    else END_STATE⟩

def ts_lex_case_150 (eof : Bool) (lookahead : Nat) : LexCase :=
  ⟨some sym_path_segment,
    if lookahead = 45 then ADVANCE 153  -- '-'
    else if (48 ≤ lookahead ∧ lookahead ≤ 57) ∨ (65 ≤ lookahead ∧ lookahead ≤ 90) ∨ (97 ≤ lookahead ∧ lookahead ≤ 122) then ADVANCE 54
    else if (eof = false ∧ set_contains sym_path_segment_character_set_1 10 lookahead = true) then ADVANCE 327
    else END_STATE⟩

def ts_lex_case_151 (eof : Bool) (lookahead : Nat) : LexCase :=
  ⟨some sym_path_segment,
    if lookahead = 45 then ADVANCE 143  -- '-'
    else if lookahead = 46 then ADVANCE 324  -- '.'
    else if (48 ≤ lookahead ∧ lookahead ≤ 57) ∨ (65 ≤ lookahead ∧ lookahead ≤ 90) ∨ (97 ≤ lookahead ∧ lookahead ≤ 122) then ADVANCE 142
    else if (eof = false ∧ set_contains sym_path_segment_character_set_1 10 lookahead = true) then ADVANCE 327
    else END_STATE⟩

def ts_lex_case_152 (eof : Bool) (lookahead : Nat) : LexCase :=
  ⟨some sym_path_segment,
    if lookahead = 45 then ADVANCE 143  -- '-'
    else if (48 ≤ lookahead ∧ lookahead ≤ 57) ∨ (65 ≤ lookahead ∧ lookahead ≤ 90) ∨ (97 ≤ lookahead ∧ lookahead ≤ 122) then ADVANCE 142
    else if (eof = false ∧ set_contains sym_path_segment_character_set_1 10 lookahead = true) then ADVANCE 327
    else END_STATE⟩

def ts_lex_case_153 (eof : Bool) (lookahead : Nat) : LexCase :=
  ⟨some sym_path_segment,
    if lookahead = 45 then ADVANCE 144  -- '-'
    else if (48 ≤ lookahead ∧ lookahead ≤ 57) ∨ (65 ≤ lookahead ∧ lookahead ≤ 90) ∨ (97 ≤ lookahead ∧ lookahead ≤ 122) then ADVANCE 51
    else if (eof = false ∧ set_contains sym_path_segment_character_set_1 10 lookahead = true) then ADVANCE 327
    else END_STATE⟩

def ts_lex_case_154 (eof : Bool) (lookahead : Nat) : LexCase :=
  ⟨some sym_path_segment,
    if lookahead = 45 then ADVANCE 158  -- '-'
    else if lookahead = 46 then ADVANCE 324  -- '.'
    else if (48 ≤ lookahead ∧ lookahead ≤ 57) ∨ (65 ≤ lookahead ∧ lookahead ≤ 90) ∨ (97 ≤ lookahead ∧ lookahead ≤ 122) then ADVANCE 157
    else if (eof = false ∧ set_contains sym_path_segment_character_set_1 10 lookahead = true) then ADVANCE 327
    else END_STATE⟩

def ts_lex_case_155 (eof : Bool) (lookahead : Nat) : LexCase :=
  ⟨some sym_path_segment,
    if lookahead = 45 then ADVANCE 158  -- '-'
    else if (48 ≤ lookahead ∧ lookahead ≤ 57) ∨ (65 ≤ lookahead ∧ lookahead ≤ 90) ∨ (97 ≤ lookahead ∧ lookahead ≤ 122) then ADVANCE 157
    else if (eof = false ∧ set_contains sym_path_segment_character_set_1 10 lookahead = true) then ADVANCE 327
    else END_STATE⟩

def ts_lex_case_156 (eof : Bool) (lookahead : Nat) : LexCase :=
  ⟨some sym_path_segment,
    if lookahead = 45 then ADVANCE 159  -- '-'
    else if (48 ≤ lookahead ∧ lookahead ≤ 57) ∨ (65 ≤ lookahead ∧ lookahead ≤ 90) ∨ (97 ≤ lookahead ∧ lookahead ≤ 122) then ADVANCE 56
    else if (eof = false ∧ set_contains sym_path_segment_character_set_1 10 lookahead = true) then ADVANCE 327
    else END_STATE⟩

def ts_lex_case_157 (eof : Bool) (lookahead : Nat) : LexCase :=
  ⟨some sym_path_segment,
    if lookahead = 45 then ADVANCE 149  -- '-'
    else if lookahead = 46 then ADVANCE 324  -- '.'
    else if (48 ≤ lookahead ∧ lookahead ≤ 57) ∨ (65 ≤ lookahead ∧ lookahead ≤ 90) ∨ (97 ≤ lookahead ∧ lookahead ≤ 122) then ADVANCE 148
    else if (eof = false ∧ set_contains sym_path_segment_character_set_1 10 lookahead = true) then ADVANCE 327
    else END_STATE⟩

def ts_lex_case_158 (eof : Bool) (lookahead : Nat) : LexCase :=
  ⟨some sym_path_segment,
    if lookahead = 45 then ADVANCE 149  -- '-'
    else if (48 ≤ lookahead ∧ lookahead ≤ 57) ∨ (65 ≤ lookahead ∧ lookahead ≤ 90) ∨ (97 ≤ lookahead ∧ lookahead ≤ 122) then ADVANCE 148
    else if (eof = false ∧ set_contains sym_path_segment_character_set_1 10 lookahead = true) then ADVANCE 327
    else END_STATE⟩

def ts_lex_case_159 (eof : Bool) (lookahead : Nat) : LexCase :=
  ⟨some sym_path_segment,
    if lookahead = 45 then ADVANCE 150  -- '-'
    else if (48 ≤ lookahead ∧ lookahead ≤ 57) ∨ (65 ≤ lookahead ∧ lookahead ≤ 90) ∨ (97 ≤ lookahead ∧ lookahead ≤ 122) then ADVANCE 53
    else if (eof = false ∧ set_contains sym_path_segment_character_set_1 10 lookahead = true) then ADVANCE 327
    else END_STATE⟩

def ts_lex_case_160 (eof : Bool) (lookahead : Nat) : LexCase :=
  ⟨some sym_path_segment,
    if lookahead = 45 then ADVANCE 164  -- '-'
    else if lookahead = 46 then ADVANCE 324  -- '.'
    else if (48 ≤ lookahead ∧ lookahead ≤ 57) ∨ (65 ≤ lookahead ∧ lookahead ≤ 90) ∨ (97 ≤ lookahead ∧ lookahead ≤ 122) then ADVANCE 163
    else if (eof = false ∧ set_contains sym_path_segment_character_set_1 10 lookahead = true) then ADVANCE 327
    else END_STATE⟩

def ts_lex_case_161 (eof : Bool) (lookahead : Nat) : LexCase :=
  ⟨some sym_path_segment,
    if lookahead = 45 then ADVANCE 164  -- '-'
    else if (48 ≤ lookahead ∧ lookahead ≤ 57) ∨ (65 ≤ lookahead ∧ lookahead ≤ 90) ∨ (97 ≤ lookahead ∧ lookahead ≤ 122) then ADVANCE 163
    else if (eof = false ∧ set_contains sym_path_segment_character_set_1 10 lookahead = true) then ADVANCE 327
    else END_STATE⟩

def ts_lex_case_162 (eof : Bool) (lookahead : Nat) : LexCase :=
  ⟨some sym_path_segment,
    if lookahead = 45 then ADVANCE 165  -- '-'
    else if (48 ≤ lookahead ∧ lookahead ≤ 57) ∨ (65 ≤ lookahead ∧ lookahead ≤ 90) ∨ (97 ≤ lookahead ∧ lookahead ≤ 122) then ADVANCE 58
    else if (eof = false ∧ set_contains sym_path_segment_character_set_1 10 lookahead = true) then ADVANCE 327
    else END_STATE⟩

def ts_lex_case_163 (eof : Bool) (lookahead : Nat) : LexCase :=
  ⟨some sym_path_segment,
    if lookahead = 45 then ADVANCE 155  -- '-'
    else if lookahead = 46 then ADVANCE 324  -- '.'
    else if (48 ≤ lookahead ∧ lookahead ≤ 57) ∨ (65 ≤ lookahead ∧ lookahead ≤ 90) ∨ (97 ≤ lookahead ∧ lookahead ≤ 122) then ADVANCE 154
    else if (eof = false ∧ set_contains sym_path_segment_character_set_1 10 lookahead = true) then ADVANCE 327
    else END_STATE⟩

def ts_lex_case_164 (eof : Bool) (lookahead : Nat) : LexCase :=
  ⟨some sym_path_segment,
    if lookahead = 45 then ADVANCE 155  -- '-'
    else if (48 ≤ lookahead ∧ lookahead ≤ 57) ∨ (65 ≤ lookahead ∧ lookahead ≤ 90) ∨ (97 ≤ lookahead ∧ lookahead ≤ 122) then ADVANCE 154
    else if (eof = false ∧ set_contains sym_path_segment_character_set_1 10 lookahead = true) then ADVANCE 327
    else END_STATE⟩

def ts_lex_case_165 (eof : Bool) (lookahead : Nat) : LexCase :=
  ⟨some sym_path_segment,
    if lookahead = 45 then ADVANCE 156  -- '-'
    else if (48 ≤ lookahead ∧ lookahead ≤ 57) ∨ (65 ≤ lookahead ∧ lookahead ≤ 90) ∨ (97 ≤ lookahead ∧ lookahead ≤ 122) then ADVANCE 55
    else if (eof = false ∧ set_contains sym_path_segment_character_set_1 10 lookahead = true) then ADVANCE 327
    else END_STATE⟩

def ts_lex_case_166 (eof : Bool) (lookahead : Nat) : LexCase :=
  ⟨some sym_path_segment,
    if lookahead = 45 then ADVANCE 170  -- '-'
    else if lookahead = 46 then ADVANCE 324  -- '.'
    else if (48 ≤ lookahead ∧ lookahead ≤ 57) ∨ (65 ≤ lookahead ∧ lookahead ≤ 90) ∨ (97 ≤ lookahead ∧ lookahead ≤ 122) then ADVANCE 169
    else if (eof = false ∧ set_contains sym_path_segment_character_set_1 10 lookahead = true) then ADVANCE 327
    else END_STATE⟩

def ts_lex_case_167 (eof : Bool) (lookahead : Nat) : LexCase :=
  ⟨some sym_path_segment,
    if lookahead = 45 then ADVANCE 170  -- '-'
    else if (48 ≤ lookahead ∧ lookahead ≤ 57) ∨ (65 ≤ lookahead ∧ lookahead ≤ 90) ∨ (97 ≤ lookahead ∧ lookahead ≤ 122) then ADVANCE 169
    else if (eof = false ∧ set_contains sym_path_segment_character_set_1 10 lookahead = true) then ADVANCE 327
    else END_STATE⟩

def ts_lex_case_168 (eof : Bool) (lookahead : Nat) : LexCase :=
  ⟨some sym_path_segment,
    if lookahead = 45 then ADVANCE 171  -- '-'
    else if (48 ≤ lookahead ∧ lookahead ≤ 57) ∨ (65 ≤ lookahead ∧ lookahead ≤ 90) ∨ (97 ≤ lookahead ∧ lookahead ≤ 122) then ADVANCE 60
    else if (eof = false ∧ set_contains sym_path_segment_character_set_1 10 lookahead = true) then ADVANCE 327
    else END_STATE⟩

def ts_lex_case_169 (eof : Bool) (lookahead : Nat) : LexCase :=
  ⟨some sym_path_segment,
    if lookahead = 45 then ADVANCE 161  -- '-'
    else if lookahead = 46 then ADVANCE 324  -- '.'
    else if (48 ≤ lookahead ∧ lookahead ≤ 57) ∨ (65 ≤ lookahead ∧ lookahead ≤ 90) ∨ (97 ≤ lookahead ∧ lookahead ≤ 122) then ADVANCE 160
    else if (eof = false ∧ set_contains sym_path_segment_character_set_1 10 lookahead = true) then ADVANCE 327
    else END_STATE⟩

def ts_lex_case_170 (eof : Bool) (lookahead : Nat) : LexCase :=
  ⟨some sym_path_segment,
    if lookahead = 45 then ADVANCE 161  -- '-'
    else if (48 ≤ lookahead ∧ lookahead ≤ 57) ∨ (65 ≤ lookahead ∧ lookahead ≤ 90) ∨ (97 ≤ lookahead ∧ lookahead ≤ 122) then ADVANCE 160
    else if (eof = false ∧ set_contains sym_path_segment_character_set_1 10 lookahead = true) then ADVANCE 327
    else END_STATE⟩

def ts_lex_case_171 (eof : Bool) (lookahead : Nat) : LexCase :=
  ⟨some sym_path_segment,
    if lookahead = 45 then ADVANCE 162  -- '-'
    else if (48 ≤ lookahead ∧ lookahead ≤ 57) ∨ (65 ≤ lookahead ∧ lookahead ≤ 90) ∨ (97 ≤ lookahead ∧ lookahead ≤ 122) then ADVANCE 57
    else if (eof = false ∧ set_contains sym_path_segment_character_set_1 10 lookahead = true) then ADVANCE 327
    else END_STATE⟩

def ts_lex_case_172 (eof : Bool) (lookahead : Nat) : LexCase :=
  ⟨some sym_path_segment,
    if lookahead = 45 then ADVANCE 176  -- '-'
    else if lookahead = 46 then ADVANCE 324  -- '.'
    else if (48 ≤ lookahead ∧ lookahead ≤ 57) ∨ (65 ≤ lookahead ∧ lookahead ≤ 90) ∨ (97 ≤ lookahead ∧ lookahead ≤ 122) then ADVANCE 175
    else if (eof = false ∧ set_contains sym_path_segment_character_set_1 10 lookahead = true) then ADVANCE 327
    else END_STATE⟩

def ts_lex_case_173 (eof : Bool) (lookahead : Nat) : LexCase :=
  ⟨some sym_path_segment,
    if lookahead = 45 then ADVANCE 176  -- '-'
    else if (48 ≤ lookahead ∧ lookahead ≤ 57) ∨ (65 ≤ lookahead ∧ lookahead ≤ 90) ∨ (97 ≤ lookahead ∧ lookahead ≤ 122) then ADVANCE 175
    else if (eof = false ∧ set_contains sym_path_segment_character_set_1 10 lookahead = true) then ADVANCE 327
    else END_STATE⟩

def ts_lex_case_174 (eof : Bool) (lookahead : Nat) : LexCase :=
  ⟨some sym_path_segment,
    if lookahead = 45 then ADVANCE 177  -- '-'
    else if (48 ≤ lookahead ∧ lookahead ≤ 57) ∨ (65 ≤ lookahead ∧ lookahead ≤ 90) ∨ (97 ≤ lookahead ∧ lookahead ≤ 122) then ADVANCE 62
    else if (eof = false ∧ set_contains sym_path_segment_character_set_1 10 lookahead = true) then ADVANCE 327
    else END_STATE⟩

def ts_lex_case_175 (eof : Bool) (lookahead : Nat) : LexCase :=
  ⟨some sym_path_segment,
    if lookahead = 45 then ADVANCE 167  -- '-'
    else if lookahead = 46 then ADVANCE 324  -- '.'
    else if (48 ≤ lookahead ∧ lookahead ≤ 57) ∨ (65 ≤ lookahead ∧ lookahead ≤ 90) ∨ (97 ≤ lookahead ∧ lookahead ≤ 122) then ADVANCE 166
    else if (eof = false ∧ set_contains sym_path_segment_character_set_1 10 lookahead = true) then ADVANCE 327
    else END_STATE⟩

def ts_lex_case_176 (eof : Bool) (lookahead : Nat) : LexCase :=
  ⟨some sym_path_segment,
    if lookahead = 45 then ADVANCE 167  -- '-'
    else if (48 ≤ lookahead ∧ lookahead ≤ 57) ∨ (65 ≤ lookahead ∧ lookahead ≤ 90) ∨ (97 ≤ lookahead ∧ lookahead ≤ 122) then ADVANCE 166
    else if (eof = false ∧ set_contains sym_path_segment_character_set_1 10 lookahead = true) then ADVANCE 327
    else END_STATE⟩

def ts_lex_case_177 (eof : Bool) (lookahead : Nat) : LexCase :=
  ⟨some sym_path_segment,
    if lookahead = 45 then ADVANCE 168  -- '-'
    else if (48 ≤ lookahead ∧ lookahead ≤ 57) ∨ (65 ≤ lookahead ∧ lookahead ≤ 90) ∨ (97 ≤ lookahead ∧ lookahead ≤ 122) then ADVANCE 59
    else if (eof = false ∧ set_contains sym_path_segment_character_set_1 10 lookahead = true) then ADVANCE 327
    else END_STATE⟩

def ts_lex_case_178 (eof : Bool) (lookahead : Nat) : LexCase :=
  ⟨some sym_path_segment,
    if lookahead = 45 then ADVANCE 182  -- '-'
    else if lookahead = 46 then ADVANCE 324  -- '.'
    else if (48 ≤ lookahead ∧ lookahead ≤ 57) ∨ (65 ≤ lookahead ∧ lookahead ≤ 90) ∨ (97 ≤ lookahead ∧ lookahead ≤ 122) then ADVANCE 181
    else if (eof = false ∧ set_contains sym_path_segment_character_set_1 10 lookahead = true) then ADVANCE 327
    else END_STATE⟩

def ts_lex_case_179 (eof : Bool) (lookahead : Nat) : LexCase :=
  ⟨some sym_path_segment,
    if lookahead = 45 then ADVANCE 182  -- '-'
    else if (48 ≤ lookahead ∧ lookahead ≤ 57) ∨ (65 ≤ lookahead ∧ lookahead ≤ 90) ∨ (97 ≤ lookahead ∧ lookahead ≤ 122) then ADVANCE 181
    else if (eof = false ∧ set_contains sym_path_segment_character_set_1 10 lookahead = true) then ADVANCE 327
    else END_STATE⟩

def ts_lex_case_180 (eof : Bool) (lookahead : Nat) : LexCase :=
  ⟨some sym_path_segment,
    if lookahead = 45 then ADVANCE 183  -- '-'
    else if (48 ≤ lookahead ∧ lookahead ≤ 57) ∨ (65 ≤ lookahead ∧ lookahead ≤ 90) ∨ (97 ≤ lookahead ∧ lookahead ≤ 122) then ADVANCE 64
    else if (eof = false ∧ set_contains sym_path_segment_character_set_1 10 lookahead = true) then ADVANCE 327
    else END_STATE⟩

def ts_lex_case_181 (eof : Bool) (lookahead : Nat) : LexCase :=
  ⟨some sym_path_segment,
    if lookahead = 45 then ADVANCE 173  -- '-'
    else if lookahead = 46 then ADVANCE 324  -- '.'
    else if (48 ≤ lookahead ∧ lookahead ≤ 57) ∨ (65 ≤ lookahead ∧ lookahead ≤ 90) ∨ (97 ≤ lookahead ∧ lookahead ≤ 122) then ADVANCE 172
    else if (eof = false ∧ set_contains sym_path_segment_character_set_1 10 lookahead = true) then ADVANCE 327
    else END_STATE⟩

def ts_lex_case_182 (eof : Bool) (lookahead : Nat) : LexCase :=
  ⟨some sym_path_segment,
    if lookahead = 45 then ADVANCE 173  -- '-'
    else if (48 ≤ lookahead ∧ lookahead ≤ 57) ∨ (65 ≤ lookahead ∧ lookahead ≤ 90) ∨ (97 ≤ lookahead ∧ lookahead ≤ 122) then ADVANCE 172
    else if (eof = false ∧ set_contains sym_path_segment_character_set_1 10 lookahead = true) then ADVANCE 327
    else END_STATE⟩

def ts_lex_case_183 (eof : Bool) (lookahead : Nat) : LexCase :=
  ⟨some sym_path_segment,
    if lookahead = 45 then ADVANCE 174  -- '-'
    else if (48 ≤ lookahead ∧ lookahead ≤ 57) ∨ (65 ≤ lookahead ∧ lookahead ≤ 90) ∨ (97 ≤ lookahead ∧ lookahead ≤ 122) then ADVANCE 61
    else if (eof = false ∧ set_contains sym_path_segment_character_set_1 10 lookahead = true) then ADVANCE 327
    else END_STATE⟩

def ts_lex_case_184 (eof : Bool) (lookahead : Nat) : LexCase :=
  ⟨some sym_path_segment,
    if lookahead = 45 then ADVANCE 188  -- '-'
    else if lookahead = 46 then ADVANCE 324  -- '.'
    else if (48 ≤ lookahead ∧ lookahead ≤ 57) ∨ (65 ≤ lookahead ∧ lookahead ≤ 90) ∨ (97 ≤ lookahead ∧ lookahead ≤ 122) then ADVANCE 187
    else if (eof = false ∧ set_contains sym_path_segment_character_set_1 10 lookahead = true) then ADVANCE 327
    else END_STATE⟩

def ts_lex_case_185 (eof : Bool) (lookahead : Nat) : LexCase :=
  ⟨some sym_path_segment,
    if lookahead = 45 then ADVANCE 188  -- '-'
    else if (48 ≤ lookahead ∧ lookahead ≤ 57) ∨ (65 ≤ lookahead ∧ lookahead ≤ 90) ∨ (97 ≤ lookahead ∧ lookahead ≤ 122) then ADVANCE 187
    else if (eof = false ∧ set_contains sym_path_segment_character_set_1 10 lookahead = true) then ADVANCE 327
    else END_STATE⟩

def ts_lex_case_186 (eof : Bool) (lookahead : Nat) : LexCase :=
  ⟨some sym_path_segment,
    if lookahead = 45 then ADVANCE 189  -- '-'
    else if (48 ≤ lookahead ∧ lookahead ≤ 57) ∨ (65 ≤ lookahead ∧ lookahead ≤ 90) ∨ (97 ≤ lookahead ∧ lookahead ≤ 122) then ADVANCE 66
    else if (eof = false ∧ set_contains sym_path_segment_character_set_1 10 lookahead = true) then ADVANCE 327
    else END_STATE⟩

def ts_lex_case_187 (eof : Bool) (lookahead : Nat) : LexCase :=
  ⟨some sym_path_segment,
    if lookahead = 45 then ADVANCE 179  -- '-'
    else if lookahead = 46 then ADVANCE 324  -- '.'
    else if (48 ≤ lookahead ∧ lookahead ≤ 57) ∨ (65 ≤ lookahead ∧ lookahead ≤ 90) ∨ (97 ≤ lookahead ∧ lookahead ≤ 122) then ADVANCE 178
    else if (eof = false ∧ set_contains sym_path_segment_character_set_1 10 lookahead = true) then ADVANCE 327
    else END_STATE⟩

def ts_lex_case_188 (eof : Bool) (lookahead : Nat) : LexCase :=
  ⟨some sym_path_segment,
    if lookahead = 45 then ADVANCE 179  -- '-'
    else if (48 ≤ lookahead ∧ lookahead ≤ 57) ∨ (65 ≤ lookahead ∧ lookahead ≤ 90) ∨ (97 ≤ lookahead ∧ lookahead ≤ 122) then ADVANCE 178
    else if (eof = false ∧ set_contains sym_path_segment_character_set_1 10 lookahead = true) then ADVANCE 327
    else END_STATE⟩

def ts_lex_case_189 (eof : Bool) (lookahead : Nat) : LexCase :=
  ⟨some sym_path_segment,
    if lookahead = 45 then ADVANCE 180  -- '-'
    else if (48 ≤ lookahead ∧ lookahead ≤ 57) ∨ (65 ≤ lookahead ∧ lookahead ≤ 90) ∨ (97 ≤ lookahead ∧ lookahead ≤ 122) then ADVANCE 63
    else if (eof = false ∧ set_contains sym_path_segment_character_set_1 10 lookahead = true) then ADVANCE 327
    else END_STATE⟩

def ts_lex_case_190 (eof : Bool) (lookahead : Nat) : LexCase :=
  ⟨some sym_path_segment,
    if lookahead = 45 then ADVANCE 194  -- '-'
    else if lookahead = 46 then ADVANCE 324  -- '.'
    else if (48 ≤ lookahead ∧ lookahead ≤ 57) ∨ (65 ≤ lookahead ∧ lookahead ≤ 90) ∨ (97 ≤ lookahead ∧ lookahead ≤ 122) then ADVANCE 193
    else if (eof = false ∧ set_contains sym_path_segment_character_set_1 10 lookahead = true) then ADVANCE 327
    else END_STATE⟩

def ts_lex_case_191 (eof : Bool) (lookahead : Nat) : LexCase :=
  ⟨some sym_path_segment,
    if lookahead = 45 then ADVANCE 194  -- '-'
    else if (48 ≤ lookahead ∧ lookahead ≤ 57) ∨ (65 ≤ lookahead ∧ lookahead ≤ 90) ∨ (97 ≤ lookahead ∧ lookahead ≤ 122) then ADVANCE 193
    else if (eof = false ∧ set_contains sym_path_segment_character_set_1 10 lookahead = true) then ADVANCE 327
    else END_STATE⟩

def ts_lex_case_192 (eof : Bool) (lookahead : Nat) : LexCase :=
  ⟨some sym_path_segment,
    if lookahead = 45 then ADVANCE 195  -- '-'
    else if (48 ≤ lookahead ∧ lookahead ≤ 57) ∨ (65 ≤ lookahead ∧ lookahead ≤ 90) ∨ (97 ≤ lookahead ∧ lookahead ≤ 122) then ADVANCE 68
    else if (eof = false ∧ set_contains sym_path_segment_character_set_1 10 lookahead = true) then ADVANCE 327
    else END_STATE⟩

def ts_lex_case_193 (eof : Bool) (lookahead : Nat) : LexCase :=
  ⟨some sym_path_segment,
    if lookahead = 45 then ADVANCE 185  -- '-'
    else if lookahead = 46 then ADVANCE 324  -- '.'
    else if (48 ≤ lookahead ∧ lookahead ≤ 57) ∨ (65 ≤ lookahead ∧ lookahead ≤ 90) ∨ (97 ≤ lookahead ∧ lookahead ≤ 122) then ADVANCE 184
    else if (eof = false ∧ set_contains sym_path_segment_character_set_1 10 lookahead = true) then ADVANCE 327
    else END_STATE⟩

def ts_lex_case_194 (eof : Bool) (lookahead : Nat) : LexCase :=
  ⟨some sym_path_segment,
    if lookahead = 45 then ADVANCE 185  -- '-'
    else if (48 ≤ lookahead ∧ lookahead ≤ 57) ∨ (65 ≤ lookahead ∧ lookahead ≤ 90) ∨ (97 ≤ lookahead ∧ lookahead ≤ 122) then ADVANCE 184
    else if (eof = false ∧ set_contains sym_path_segment_character_set_1 10 lookahead = true) then ADVANCE 327
    else END_STATE⟩

def ts_lex_case_195 (eof : Bool) (lookahead : Nat) : LexCase :=
  ⟨some sym_path_segment,
    if lookahead = 45 then ADVANCE 186  -- '-'
    else if (48 ≤ lookahead ∧ lookahead ≤ 57) ∨ (65 ≤ lookahead ∧ lookahead ≤ 90) ∨ (97 ≤ lookahead ∧ lookahead ≤ 122) then ADVANCE 65
    else if (eof = false ∧ set_contains sym_path_segment_character_set_1 10 lookahead = true) then ADVANCE 327
    else END_STATE⟩

def ts_lex_case_196 (eof : Bool) (lookahead : Nat) : LexCase :=
  ⟨some sym_path_segment,
    if lookahead = 45 then ADVANCE 200  -- '-'
    else if lookahead = 46 then ADVANCE 324  -- '.'
    else if (48 ≤ lookahead ∧ lookahead ≤ 57) ∨ (65 ≤ lookahead ∧ lookahead ≤ 90) ∨ (97 ≤ lookahead ∧ lookahead ≤ 122) then ADVANCE 199
    else if (eof = false ∧ set_contains sym_path_segment_character_set_1 10 lookahead = true) then ADVANCE 327
    else END_STATE⟩

def ts_lex_case_197 (eof : Bool) (lookahead : Nat) : LexCase :=
  ⟨some sym_path_segment,
    if lookahead = 45 then ADVANCE 200  -- '-'
    else if (48 ≤ lookahead ∧ lookahead ≤ 57) ∨ (65 ≤ lookahead ∧ lookahead ≤ 90) ∨ (97 ≤ lookahead ∧ lookahead ≤ 122) then ADVANCE 199
    else if (eof = false ∧ set_contains sym_path_segment_character_set_1 10 lookahead = true) then ADVANCE 327
    else END_STATE⟩

def ts_lex_case_198 (eof : Bool) (lookahead : Nat) : LexCase :=
  ⟨some sym_path_segment,
    if lookahead = 45 then ADVANCE 201  -- '-'
    else if (48 ≤ lookahead ∧ lookahead ≤ 57) ∨ (65 ≤ lookahead ∧ lookahead ≤ 90) ∨ (97 ≤ lookahead ∧ lookahead ≤ 122) then ADVANCE 70
    else if (eof = false ∧ set_contains sym_path_segment_character_set_1 10 lookahead = true) then ADVANCE 327
    else END_STATE⟩

def ts_lex_case_199 (eof : Bool) (lookahead : Nat) : LexCase :=
  ⟨some sym_path_segment,
    if lookahead = 45 then ADVANCE 191  -- '-'
    else if lookahead = 46 then ADVANCE 324  -- '.'
    else if (48 ≤ lookahead ∧ lookahead ≤ 57) ∨ (65 ≤ lookahead ∧ lookahead ≤ 90) ∨ (97 ≤ lookahead ∧ lookahead ≤ 122) then ADVANCE 190
    else if (eof = false ∧ set_contains sym_path_segment_character_set_1 10 lookahead = true) then ADVANCE 327
    else END_STATE⟩

def ts_lex_case_200 (eof : Bool) (lookahead : Nat) : LexCase :=
  ⟨some sym_path_segment,
    if lookahead = 45 then ADVANCE 191  -- '-'
    else if (48 ≤ lookahead ∧ lookahead ≤ 57) ∨ (65 ≤ lookahead ∧ lookahead ≤ 90) ∨ (97 ≤ lookahead ∧ lookahead ≤ 122) then ADVANCE 190
    else if (eof = false ∧ set_contains sym_path_segment_character_set_1 10 lookahead = true) then ADVANCE 327
    else END_STATE⟩

def ts_lex_case_201 (eof : Bool) (lookahead : Nat) : LexCase :=
  ⟨some sym_path_segment,
    if lookahead = 45 then ADVANCE 192  -- '-'
    else if (48 ≤ lookahead ∧ lookahead ≤ 57) ∨ (65 ≤ lookahead ∧ lookahead ≤ 90) ∨ (97 ≤ lookahead ∧ lookahead ≤ 122) then ADVANCE 67
    else if (eof = false ∧ set_contains sym_path_segment_character_set_1 10 lookahead = true) then ADVANCE 327
    else END_STATE⟩

def ts_lex_case_202 (eof : Bool) (lookahead : Nat) : LexCase :=
  ⟨some sym_path_segment,
    if lookahead = 45 then ADVANCE 206  -- '-'
    else if lookahead = 46 then ADVANCE 324  -- '.'
    else if (48 ≤ lookahead ∧ lookahead ≤ 57) ∨ (65 ≤ lookahead ∧ lookahead ≤ 90) ∨ (97 ≤ lookahead ∧ lookahead ≤ 122) then ADVANCE 205
    else if (eof = false ∧ set_contains sym_path_segment_character_set_1 10 lookahead = true) then ADVANCE 327
    else END_STATE⟩

def ts_lex_case_203 (eof : Bool) (lookahead : Nat) : LexCase :=
  ⟨some sym_path_segment,
    if lookahead = 45 then ADVANCE 206  -- '-'
    else if (48 ≤ lookahead ∧ lookahead ≤ 57) ∨ (65 ≤ lookahead ∧ lookahead ≤ 90) ∨ (97 ≤ lookahead ∧ lookahead ≤ 122) then ADVANCE 205
    else if (eof = false ∧ set_contains sym_path_segment_character_set_1 10 lookahead = true) then ADVANCE 327
    else END_STATE⟩

def ts_lex_case_204 (eof : Bool) (lookahead : Nat) : LexCase :=
  ⟨some sym_path_segment,
    if lookahead = 45 then ADVANCE 207  -- '-'
    else if (48 ≤ lookahead ∧ lookahead ≤ 57) ∨ (65 ≤ lookahead ∧ lookahead ≤ 90) ∨ (97 ≤ lookahead ∧ lookahead ≤ 122) then ADVANCE 72
    else if (eof = false ∧ set_contains sym_path_segment_character_set_1 10 lookahead = true) then ADVANCE 327
    else END_STATE⟩

def ts_lex_case_205 (eof : Bool) (lookahead : Nat) : LexCase :=
  ⟨some sym_path_segment,
    if lookahead = 45 then ADVANCE 197  -- '-'
    else if lookahead = 46 then ADVANCE 324  -- '.'
    else if (48 ≤ lookahead ∧ lookahead ≤ 57) ∨ (65 ≤ lookahead ∧ lookahead ≤ 90) ∨ (97 ≤ lookahead ∧ lookahead ≤ 122) then ADVANCE 196
    else if (eof = false ∧ set_contains sym_path_segment_character_set_1 10 lookahead = true) then ADVANCE 327
    else END_STATE⟩

def ts_lex_case_206 (eof : Bool) (lookahead : Nat) : LexCase :=
  ⟨some sym_path_segment,
    if lookahead = 45 then ADVANCE 197  -- '-'
    else if (48 ≤ lookahead ∧ lookahead ≤ 57) ∨ (65 ≤ lookahead ∧ lookahead ≤ 90) ∨ (97 ≤ lookahead ∧ lookahead ≤ 122) then ADVANCE 196
    else if (eof = false ∧ set_contains sym_path_segment_character_set_1 10 lookahead = true) then ADVANCE 327
    else END_STATE⟩

def ts_lex_case_207 (eof : Bool) (lookahead : Nat) : LexCase :=
  ⟨some sym_path_segment,
    if lookahead = 45 then ADVANCE 198  -- '-'
    else if (48 ≤ lookahead ∧ lookahead ≤ 57) ∨ (65 ≤ lookahead ∧ lookahead ≤ 90) ∨ (97 ≤ lookahead ∧ lookahead ≤ 122) then ADVANCE 69
    else if (eof = false ∧ set_contains sym_path_segment_character_set_1 10 lookahead = true) then ADVANCE 327
    else END_STATE⟩

def ts_lex_case_208 (eof : Bool) (lookahead : Nat) : LexCase :=
  ⟨some sym_path_segment,
    if lookahead = 45 then ADVANCE 212  -- '-'
    else if lookahead = 46 then ADVANCE 324  -- '.'
    else if (48 ≤ lookahead ∧ lookahead ≤ 57) ∨ (65 ≤ lookahead ∧ lookahead ≤ 90) ∨ (97 ≤ lookahead ∧ lookahead ≤ 122) then ADVANCE 211
    else if (eof = false ∧ set_contains sym_path_segment_character_set_1 10 lookahead = true) then ADVANCE 327
    else END_STATE⟩

def ts_lex_case_209 (eof : Bool) (lookahead : Nat) : LexCase :=
  ⟨some sym_path_segment,
    if lookahead = 45 then ADVANCE 212  -- '-'
    else if (48 ≤ lookahead ∧ lookahead ≤ 57) ∨ (65 ≤ lookahead ∧ lookahead ≤ 90) ∨ (97 ≤ lookahead ∧ lookahead ≤ 122) then ADVANCE 211
    else if (eof = false ∧ set_contains sym_path_segment_character_set_1 10 lookahead = true) then ADVANCE 327
    else END_STATE⟩

def ts_lex_case_210 (eof : Bool) (lookahead : Nat) : LexCase :=
  ⟨some sym_path_segment,
    if lookahead = 45 then ADVANCE 213  -- '-'
    else if (48 ≤ lookahead ∧ lookahead ≤ 57) ∨ (65 ≤ lookahead ∧ lookahead ≤ 90) ∨ (97 ≤ lookahead ∧ lookahead ≤ 122) then ADVANCE 74
    else if (eof = false ∧ set_contains sym_path_segment_character_set_1 10 lookahead = true) then ADVANCE 327
    else END_STATE⟩

def ts_lex_case_211 (eof : Bool) (lookahead : Nat) : LexCase :=
  ⟨some sym_path_segment,
    if lookahead = 45 then ADVANCE 203  -- '-'
    else if lookahead = 46 then ADVANCE 324  -- '.'
    else if (48 ≤ lookahead ∧ lookahead ≤ 57) ∨ (65 ≤ lookahead ∧ lookahead ≤ 90) ∨ (97 ≤ lookahead ∧ lookahead ≤ 122) then ADVANCE 202
    else if (eof = false ∧ set_contains sym_path_segment_character_set_1 10 lookahead = true) then ADVANCE 327
    else END_STATE⟩

def ts_lex_case_212 (eof : Bool) (lookahead : Nat) : LexCase :=
  ⟨some sym_path_segment,
    if lookahead = 45 then ADVANCE 203  -- '-'
    else if (48 ≤ lookahead ∧ lookahead ≤ 57) ∨ (65 ≤ lookahead ∧ lookahead ≤ 90) ∨ (97 ≤ lookahead ∧ lookahead ≤ 122) then ADVANCE 202
    else if (eof = false ∧ set_contains sym_path_segment_character_set_1 10 lookahead = true) then ADVANCE 327
    else END_STATE⟩

def ts_lex_case_213 (eof : Bool) (lookahead : Nat) : LexCase :=
  ⟨some sym_path_segment,
    if lookahead = 45 then ADVANCE 204  -- '-'
    else if (48 ≤ lookahead ∧ lookahead ≤ 57) ∨ (65 ≤ lookahead ∧ lookahead ≤ 90) ∨ (97 ≤ lookahead ∧ lookahead ≤ 122) then ADVANCE 71
    else if (eof = false ∧ set_contains sym_path_segment_character_set_1 10 lookahead = true) then ADVANCE 327
    else END_STATE⟩

def ts_lex_case_214 (eof : Bool) (lookahead : Nat) : LexCase :=
  ⟨some sym_path_segment,
    if lookahead = 45 then ADVANCE 218  -- '-'
    else if lookahead = 46 then ADVANCE 324  -- '.'
    else if (48 ≤ lookahead ∧ lookahead ≤ 57) ∨ (65 ≤ lookahead ∧ lookahead ≤ 90) ∨ (97 ≤ lookahead ∧ lookahead ≤ 122) then ADVANCE 217
    else if (eof = false ∧ set_contains sym_path_segment_character_set_1 10 lookahead = true) then ADVANCE 327
    else END_STATE⟩

def ts_lex_case_215 (eof : Bool) (lookahead : Nat) : LexCase :=
  ⟨some sym_path_segment,
    if lookahead = 45 then ADVANCE 218  -- '-'
    else if (48 ≤ lookahead ∧ lookahead ≤ 57) ∨ (65 ≤ lookahead ∧ lookahead ≤ 90) ∨ (97 ≤ lookahead ∧ lookahead ≤ 122) then ADVANCE 217
    else if (eof = false ∧ set_contains sym_path_segment_character_set_1 10 lookahead = true) then ADVANCE 327
    else END_STATE⟩

def ts_lex_case_216 (eof : Bool) (lookahead : Nat) : LexCase :=
  ⟨some sym_path_segment,
    if lookahead = 45 then ADVANCE 219  -- '-'
    else if (48 ≤ lookahead ∧ lookahead ≤ 57) ∨ (65 ≤ lookahead ∧ lookahead ≤ 90) ∨ (97 ≤ lookahead ∧ lookahead ≤ 122) then ADVANCE 76
    else if (eof = false ∧ set_contains sym_path_segment_character_set_1 10 lookahead = true) then ADVANCE 327
    else END_STATE⟩

def ts_lex_case_217 (eof : Bool) (lookahead : Nat) : LexCase :=
  ⟨some sym_path_segment,
    if lookahead = 45 then ADVANCE 209  -- '-'
    else if lookahead = 46 then ADVANCE 324  -- '.'
    else if (48 ≤ lookahead ∧ lookahead ≤ 57) ∨ (65 ≤ lookahead ∧ lookahead ≤ 90) ∨ (97 ≤ lookahead ∧ lookahead ≤ 122) then ADVANCE 208
    else if (eof = false ∧ set_contains sym_path_segment_character_set_1 10 lookahead = true) then ADVANCE 327
    else END_STATE⟩

def ts_lex_case_218 (eof : Bool) (lookahead : Nat) : LexCase :=
  ⟨some sym_path_segment,
    if lookahead = 45 then ADVANCE 209  -- '-'
    else if (48 ≤ lookahead ∧ lookahead ≤ 57) ∨ (65 ≤ lookahead ∧ lookahead ≤ 90) ∨ (97 ≤ lookahead ∧ lookahead ≤ 122) then ADVANCE 208
    else if (eof = false ∧ set_contains sym_path_segment_character_set_1 10 lookahead = true) then ADVANCE 327
    else END_STATE⟩

def ts_lex_case_219 (eof : Bool) (lookahead : Nat) : LexCase :=
  ⟨some sym_path_segment,
    if lookahead = 45 then ADVANCE 210  -- '-'
    else if (48 ≤ lookahead ∧ lookahead ≤ 57) ∨ (65 ≤ lookahead ∧ lookahead ≤ 90) ∨ (97 ≤ lookahead ∧ lookahead ≤ 122) then ADVANCE 73
    else if (eof = false ∧ set_contains sym_path_segment_character_set_1 10 lookahead = true) then ADVANCE 327
    else END_STATE⟩

def ts_lex_case_220 (eof : Bool) (lookahead : Nat) : LexCase :=
  ⟨some sym_path_segment,
    if lookahead = 45 then ADVANCE 224  -- '-'
    else if lookahead = 46 then ADVANCE 324  -- '.'
    else if (48 ≤ lookahead ∧ lookahead ≤ 57) ∨ (65 ≤ lookahead ∧ lookahead ≤ 90) ∨ (97 ≤ lookahead ∧ lookahead ≤ 122) then ADVANCE 223
    else if (eof = false ∧ set_contains sym_path_segment_character_set_1 10 lookahead = true) then ADVANCE 327
    else END_STATE⟩

def ts_lex_case_221 (eof : Bool) (lookahead : Nat) : LexCase :=
  ⟨some sym_path_segment,
    if lookahead = 45 then ADVANCE 224  -- '-'
    else if (48 ≤ lookahead ∧ lookahead ≤ 57) ∨ (65 ≤ lookahead ∧ lookahead ≤ 90) ∨ (97 ≤ lookahead ∧ lookahead ≤ 122) then ADVANCE 223
    else if (eof = false ∧ set_contains sym_path_segment_character_set_1 10 lookahead = true) then ADVANCE 327
    else END_STATE⟩

def ts_lex_case_222 (eof : Bool) (lookahead : Nat) : LexCase :=
  ⟨some sym_path_segment,
    if lookahead = 45 then ADVANCE 225  -- '-'
    else if (48 ≤ lookahead ∧ lookahead ≤ 57) ∨ (65 ≤ lookahead ∧ lookahead ≤ 90) ∨ (97 ≤ lookahead ∧ lookahead ≤ 122) then ADVANCE 78
    else if (eof = false ∧ set_contains sym_path_segment_character_set_1 10 lookahead = true) then ADVANCE 327
    else END_STATE⟩

def ts_lex_case_223 (eof : Bool) (lookahead : Nat) : LexCase :=
  ⟨some sym_path_segment,
    if lookahead = 45 then ADVANCE 215  -- '-'
    else if lookahead = 46 then ADVANCE 324  -- '.'
    else if (48 ≤ lookahead ∧ lookahead ≤ 57) ∨ (65 ≤ lookahead ∧ lookahead ≤ 90) ∨ (97 ≤ lookahead ∧ lookahead ≤ 122) then ADVANCE 214
    else if (eof = false ∧ set_contains sym_path_segment_character_set_1 10 lookahead = true) then ADVANCE 327
    else END_STATE⟩

def ts_lex_case_224 (eof : Bool) (lookahead : Nat) : LexCase :=
  ⟨some sym_path_segment,
    if lookahead = 45 then ADVANCE 215  -- '-'
    else if (48 ≤ lookahead ∧ lookahead ≤ 57) ∨ (65 ≤ lookahead ∧ lookahead ≤ 90) ∨ (97 ≤ lookahead ∧ lookahead ≤ 122) then ADVANCE 214
    else if (eof = false ∧ set_contains sym_path_segment_character_set_1 10 lookahead = true) then ADVANCE 327
    else END_STATE⟩

def ts_lex_case_225 (eof : Bool) (lookahead : Nat) : LexCase :=
  ⟨some sym_path_segment,
    if lookahead = 45 then ADVANCE 216  -- '-'
    else if (48 ≤ lookahead ∧ lookahead ≤ 57) ∨ (65 ≤ lookahead ∧ lookahead ≤ 90) ∨ (97 ≤ lookahead ∧ lookahead ≤ 122) then ADVANCE 75
    else if (eof = false ∧ set_contains sym_path_segment_character_set_1 10 lookahead = true) then ADVANCE 327
    else END_STATE⟩

def ts_lex_case_226 (eof : Bool) (lookahead : Nat) : LexCase :=
  ⟨some sym_path_segment,
    if lookahead = 45 then ADVANCE 230  -- '-'
    else if lookahead = 46 then ADVANCE 324  -- '.'
    else if (48 ≤ lookahead ∧ lookahead ≤ 57) ∨ (65 ≤ lookahead ∧ lookahead ≤ 90) ∨ (97 ≤ lookahead ∧ lookahead ≤ 122) then ADVANCE 229
    else if (eof = false ∧ set_contains sym_path_segment_character_set_1 10 lookahead = true) then ADVANCE 327
    else END_STATE⟩

def ts_lex_case_227 (eof : Bool) (lookahead : Nat) : LexCase :=
  ⟨some sym_path_segment,
    if lookahead = 45 then ADVANCE 230  -- '-'
    else if (48 ≤ lookahead ∧ lookahead ≤ 57) ∨ (65 ≤ lookahead ∧ lookahead ≤ 90) ∨ (97 ≤ lookahead ∧ lookahead ≤ 122) then ADVANCE 229
    else if (eof = false ∧ set_contains sym_path_segment_character_set_1 10 lookahead = true) then ADVANCE 327
    else END_STATE⟩

def ts_lex_case_228 (eof : Bool) (lookahead : Nat) : LexCase :=
  ⟨some sym_path_segment,
    if lookahead = 45 then ADVANCE 231  -- '-'
    else if (48 ≤ lookahead ∧ lookahead ≤ 57) ∨ (65 ≤ lookahead ∧ lookahead ≤ 90) ∨ (97 ≤ lookahead ∧ lookahead ≤ 122) then ADVANCE 80
    else if (eof = false ∧ set_contains sym_path_segment_character_set_1 10 lookahead = true) then ADVANCE 327
    else END_STATE⟩

def ts_lex_case_229 (eof : Bool) (lookahead : Nat) : LexCase :=
  ⟨some sym_path_segment,
    if lookahead = 45 then ADVANCE 221  -- '-'
    else if lookahead = 46 then ADVANCE 324  -- '.'
    else if (48 ≤ lookahead ∧ lookahead ≤ 57) ∨ (65 ≤ lookahead ∧ lookahead ≤ 90) ∨ (97 ≤ lookahead ∧ lookahead ≤ 122) then ADVANCE 220
    else if (eof = false ∧ set_contains sym_path_segment_character_set_1 10 lookahead = true) then ADVANCE 327
    else END_STATE⟩

def ts_lex_case_230 (eof : Bool) (lookahead : Nat) : LexCase :=
  ⟨some sym_path_segment,
    if lookahead = 45 then ADVANCE 221  -- '-'
    else if (48 ≤ lookahead ∧ lookahead ≤ 57) ∨ (65 ≤ lookahead ∧ lookahead ≤ 90) ∨ (97 ≤ lookahead ∧ lookahead ≤ 122) then ADVANCE 220
    else if (eof = false ∧ set_contains sym_path_segment_character_set_1 10 lookahead = true) then ADVANCE 327
    else END_STATE⟩

def ts_lex_case_231 (eof : Bool) (lookahead : Nat) : LexCase :=
  ⟨some sym_path_segment,
    if lookahead = 45 then ADVANCE 222  -- '-'
    else if (48 ≤ lookahead ∧ lookahead ≤ 57) ∨ (65 ≤ lookahead ∧ lookahead ≤ 90) ∨ (97 ≤ lookahead ∧ lookahead ≤ 122) then ADVANCE 77
    else if (eof = false ∧ set_contains sym_path_segment_character_set_1 10 lookahead = true) then ADVANCE 327
    else END_STATE⟩

def ts_lex_case_232 (eof : Bool) (lookahead : Nat) : LexCase :=
  ⟨some sym_path_segment,
    if lookahead = 45 then ADVANCE 236  -- '-'
    else if lookahead = 46 then ADVANCE 324  -- '.'
    else if (48 ≤ lookahead ∧ lookahead ≤ 57) ∨ (65 ≤ lookahead ∧ lookahead ≤ 90) ∨ (97 ≤ lookahead ∧ lookahead ≤ 122) then ADVANCE 235
    else if (eof = false ∧ set_contains sym_path_segment_character_set_1 10 lookahead = true) then ADVANCE 327
    else END_STATE⟩

def ts_lex_case_233 (eof : Bool) (lookahead : Nat) : LexCase :=
  ⟨some sym_path_segment,
    if lookahead = 45 then ADVANCE 236  -- '-'
    else if (48 ≤ lookahead ∧ lookahead ≤ 57) ∨ (65 ≤ lookahead ∧ lookahead ≤ 90) ∨ (97 ≤ lookahead ∧ lookahead ≤ 122) then ADVANCE 235
    else if (eof = false ∧ set_contains sym_path_segment_character_set_1 10 lookahead = true) then ADVANCE 327
    else END_STATE⟩

def ts_lex_case_234 (eof : Bool) (lookahead : Nat) : LexCase :=
  ⟨some sym_path_segment,
    if lookahead = 45 then ADVANCE 237  -- '-'
    else if (48 ≤ lookahead ∧ lookahead ≤ 57) ∨ (65 ≤ lookahead ∧ lookahead ≤ 90) ∨ (97 ≤ lookahead ∧ lookahead ≤ 122) then ADVANCE 82
    else if (eof = false ∧ set_contains sym_path_segment_character_set_1 10 lookahead = true) then ADVANCE 327
    else END_STATE⟩

def ts_lex_case_235 (eof : Bool) (lookahead : Nat) : LexCase :=
  ⟨some sym_path_segment,
    if lookahead = 45 then ADVANCE 227  -- '-'
    else if lookahead = 46 then ADVANCE 324  -- '.'
    else if (48 ≤ lookahead ∧ lookahead ≤ 57) ∨ (65 ≤ lookahead ∧ lookahead ≤ 90) ∨ (97 ≤ lookahead ∧ lookahead ≤ 122) then ADVANCE 226
    else if (eof = false ∧ set_contains sym_path_segment_character_set_1 10 lookahead = true) then ADVANCE 327
    else END_STATE⟩

def ts_lex_case_236 (eof : Bool) (lookahead : Nat) : LexCase :=
  ⟨some sym_path_segment,
    if lookahead = 45 then ADVANCE 227  -- '-'
    else if (48 ≤ lookahead ∧ lookahead ≤ 57) ∨ (65 ≤ lookahead ∧ lookahead ≤ 90) ∨ (97 ≤ lookahead ∧ lookahead ≤ 122) then ADVANCE 226
    else if (eof = false ∧ set_contains sym_path_segment_character_set_1 10 lookahead = true) then ADVANCE 327
    else END_STATE⟩

def ts_lex_case_237 (eof : Bool) (lookahead : Nat) : LexCase :=
  ⟨some sym_path_segment,
    if lookahead = 45 then ADVANCE 228  -- '-'
    else if (48 ≤ lookahead ∧ lookahead ≤ 57) ∨ (65 ≤ lookahead ∧ lookahead ≤ 90) ∨ (97 ≤ lookahead ∧ lookahead ≤ 122) then ADVANCE 79
    else if (eof = false ∧ set_contains sym_path_segment_character_set_1 10 lookahead = true) then ADVANCE 327
    else END_STATE⟩

def ts_lex_case_238 (eof : Bool) (lookahead : Nat) : LexCase :=
  ⟨some sym_path_segment,
    if lookahead = 45 then ADVANCE 242  -- '-'
    else if lookahead = 46 then ADVANCE 324  -- '.'
    else if (48 ≤ lookahead ∧ lookahead ≤ 57) ∨ (65 ≤ lookahead ∧ lookahead ≤ 90) ∨ (97 ≤ lookahead ∧ lookahead ≤ 122) then ADVANCE 241
    else if (eof = false ∧ set_contains sym_path_segment_character_set_1 10 lookahead = true) then ADVANCE 327
    else END_STATE⟩

def ts_lex_case_239 (eof : Bool) (lookahead : Nat) : LexCase :=
  ⟨some sym_path_segment,
    if lookahead = 45 then ADVANCE 242  -- '-'
    else if (48 ≤ lookahead ∧ lookahead ≤ 57) ∨ (65 ≤ lookahead ∧ lookahead ≤ 90) ∨ (97 ≤ lookahead ∧ lookahead ≤ 122) then ADVANCE 241
    else if (eof = false ∧ set_contains sym_path_segment_character_set_1 10 lookahead = true) then ADVANCE 327
    else END_STATE⟩

def ts_lex_case_240 (eof : Bool) (lookahead : Nat) : LexCase :=
  ⟨some sym_path_segment,
    if lookahead = 45 then ADVANCE 243  -- '-'
    else if (48 ≤ lookahead ∧ lookahead ≤ 57) ∨ (65 ≤ lookahead ∧ lookahead ≤ 90) ∨ (97 ≤ lookahead ∧ lookahead ≤ 122) then ADVANCE 84
    else if (eof = false ∧ set_contains sym_path_segment_character_set_1 10 lookahead = true) then ADVANCE 327
    else END_STATE⟩

def ts_lex_case_241 (eof : Bool) (lookahead : Nat) : LexCase :=
  ⟨some sym_path_segment,
    if lookahead = 45 then ADVANCE 233  -- '-'
    else if lookahead = 46 then ADVANCE 324  -- '.'
    else if (48 ≤ lookahead ∧ lookahead ≤ 57) ∨ (65 ≤ lookahead ∧ lookahead ≤ 90) ∨ (97 ≤ lookahead ∧ lookahead ≤ 122) then ADVANCE 232
    else if (eof = false ∧ set_contains sym_path_segment_character_set_1 10 lookahead = true) then ADVANCE 327
    else END_STATE⟩

def ts_lex_case_242 (eof : Bool) (lookahead : Nat) : LexCase :=
  ⟨some sym_path_segment,
    if lookahead = 45 then ADVANCE 233  -- '-'
    else if (48 ≤ lookahead ∧ lookahead ≤ 57) ∨ (65 ≤ lookahead ∧ lookahead ≤ 90) ∨ (97 ≤ lookahead ∧ lookahead ≤ 122) then ADVANCE 232
    else if (eof = false ∧ set_contains sym_path_segment_character_set_1 10 lookahead = true) then ADVANCE 327
    else END_STATE⟩

def ts_lex_case_243 (eof : Bool) (lookahead : Nat) : LexCase :=
  ⟨some sym_path_segment,
    if lookahead = 45 then ADVANCE 234  -- '-'
    else if (48 ≤ lookahead ∧ lookahead ≤ 57) ∨ (65 ≤ lookahead ∧ lookahead ≤ 90) ∨ (97 ≤ lookahead ∧ lookahead ≤ 122) then ADVANCE 81
    else if (eof = false ∧ set_contains sym_path_segment_character_set_1 10 lookahead = true) then ADVANCE 327
    else END_STATE⟩

def ts_lex_case_244 (eof : Bool) (lookahead : Nat) : LexCase :=
  ⟨some sym_path_segment,
    if lookahead = 45 then ADVANCE 248  -- '-'
    else if lookahead = 46 then ADVANCE 324  -- '.'
    else if (48 ≤ lookahead ∧ lookahead ≤ 57) ∨ (65 ≤ lookahead ∧ lookahead ≤ 90) ∨ (97 ≤ lookahead ∧ lookahead ≤ 122) then ADVANCE 247
    else if (eof = false ∧ set_contains sym_path_segment_character_set_1 10 lookahead = true) then ADVANCE 327
    else END_STATE⟩

def ts_lex_case_245 (eof : Bool) (lookahead : Nat) : LexCase :=
  ⟨some sym_path_segment,
    if lookahead = 45 then ADVANCE 248  -- '-'
    else if (48 ≤ lookahead ∧ lookahead ≤ 57) ∨ (65 ≤ lookahead ∧ lookahead ≤ 90) ∨ (97 ≤ lookahead ∧ lookahead ≤ 122) then ADVANCE 247
    else if (eof = false ∧ set_contains sym_path_segment_character_set_1 10 lookahead = true) then ADVANCE 327
    else END_STATE⟩

def ts_lex_case_246 (eof : Bool) (lookahead : Nat) : LexCase :=
  ⟨some sym_path_segment,
    if lookahead = 45 then ADVANCE 249  -- '-'
    else if (48 ≤ lookahead ∧ lookahead ≤ 57) ∨ (65 ≤ lookahead ∧ lookahead ≤ 90) ∨ (97 ≤ lookahead ∧ lookahead ≤ 122) then ADVANCE 86
    else if (eof = false ∧ set_contains sym_path_segment_character_set_1 10 lookahead = true) then ADVANCE 327
    else END_STATE⟩

def ts_lex_case_247 (eof : Bool) (lookahead : Nat) : LexCase :=
  ⟨some sym_path_segment,
    if lookahead = 45 then ADVANCE 239  -- '-'
    else if lookahead = 46 then ADVANCE 324  -- '.'
    else if (48 ≤ lookahead ∧ lookahead ≤ 57) ∨ (65 ≤ lookahead ∧ lookahead ≤ 90) ∨ (97 ≤ lookahead ∧ lookahead ≤ 122) then ADVANCE 238
    else if (eof = false ∧ set_contains sym_path_segment_character_set_1 10 lookahead = true) then ADVANCE 327
    else END_STATE⟩

def ts_lex_case_248 (eof : Bool) (lookahead : Nat) : LexCase :=
  ⟨some sym_path_segment,
    if lookahead = 45 then ADVANCE 239  -- '-'
    else if (48 ≤ lookahead ∧ lookahead ≤ 57) ∨ (65 ≤ lookahead ∧ lookahead ≤ 90) ∨ (97 ≤ lookahead ∧ lookahead ≤ 122) then ADVANCE 238
    else if (eof = false ∧ set_contains sym_path_segment_character_set_1 10 lookahead = true) then ADVANCE 327
    else END_STATE⟩

def ts_lex_case_249 (eof : Bool) (lookahead : Nat) : LexCase :=
  ⟨some sym_path_segment,
    if lookahead = 45 then ADVANCE 240  -- '-'
    else if (48 ≤ lookahead ∧ lookahead ≤ 57) ∨ (65 ≤ lookahead ∧ lookahead ≤ 90) ∨ (97 ≤ lookahead ∧ lookahead ≤ 122) then ADVANCE 83
    else if (eof = false ∧ set_contains sym_path_segment_character_set_1 10 lookahead = true) then ADVANCE 327
    else END_STATE⟩

def ts_lex_case_250 (eof : Bool) (lookahead : Nat) : LexCase :=
  ⟨some sym_path_segment,
    if lookahead = 45 then ADVANCE 254  -- '-'
    else if lookahead = 46 then ADVANCE 324  -- '.'
    else if (48 ≤ lookahead ∧ lookahead ≤ 57) ∨ (65 ≤ lookahead ∧ lookahead ≤ 90) ∨ (97 ≤ lookahead ∧ lookahead ≤ 122) then ADVANCE 253
    else if (eof = false ∧ set_contains sym_path_segment_character_set_1 10 lookahead = true) then ADVANCE 327
    else END_STATE⟩

def ts_lex_case_251 (eof : Bool) (lookahead : Nat) : LexCase :=
  ⟨some sym_path_segment,
    if lookahead = 45 then ADVANCE 254  -- '-'
    else if (48 ≤ lookahead ∧ lookahead ≤ 57) ∨ (65 ≤ lookahead ∧ lookahead ≤ 90) ∨ (97 ≤ lookahead ∧ lookahead ≤ 122) then ADVANCE 253
    else if (eof = false ∧ set_contains sym_path_segment_character_set_1 10 lookahead = true) then ADVANCE 327
    else END_STATE⟩

def ts_lex_case_252 (eof : Bool) (lookahead : Nat) : LexCase :=
  ⟨some sym_path_segment,
    if lookahead = 45 then ADVANCE 255  -- '-'
    else if (48 ≤ lookahead ∧ lookahead ≤ 57) ∨ (65 ≤ lookahead ∧ lookahead ≤ 90) ∨ (97 ≤ lookahead ∧ lookahead ≤ 122) then ADVANCE 88
    else if (eof = false ∧ set_contains sym_path_segment_character_set_1 10 lookahead = true) then ADVANCE 327
    else END_STATE⟩

def ts_lex_case_253 (eof : Bool) (lookahead : Nat) : LexCase :=
  ⟨some sym_path_segment,
    if lookahead = 45 then ADVANCE 245  -- '-'
    else if lookahead = 46 then ADVANCE 324  -- '.'
    else if (48 ≤ lookahead ∧ lookahead ≤ 57) ∨ (65 ≤ lookahead ∧ lookahead ≤ 90) ∨ (97 ≤ lookahead ∧ lookahead ≤ 122) then ADVANCE 244
    else if (eof = false ∧ set_contains sym_path_segment_character_set_1 10 lookahead = true) then ADVANCE 327
    else END_STATE⟩

def ts_lex_case_254 (eof : Bool) (lookahead : Nat) : LexCase :=
  ⟨some sym_path_segment,
    if lookahead = 45 then ADVANCE 245  -- '-'
    else if (48 ≤ lookahead ∧ lookahead ≤ 57) ∨ (65 ≤ lookahead ∧ lookahead ≤ 90) ∨ (97 ≤ lookahead ∧ lookahead ≤ 122) then ADVANCE 244
    else if (eof = false ∧ set_contains sym_path_segment_character_set_1 10 lookahead = true) then ADVANCE 327
    else END_STATE⟩

def ts_lex_case_255 (eof : Bool) (lookahead : Nat) : LexCase :=
  ⟨some sym_path_segment,
    if lookahead = 45 then ADVANCE 246  -- '-'
    else if (48 ≤ lookahead ∧ lookahead ≤ 57) ∨ (65 ≤ lookahead ∧ lookahead ≤ 90) ∨ (97 ≤ lookahead ∧ lookahead ≤ 122) then ADVANCE 85
    else if (eof = false ∧ set_contains sym_path_segment_character_set_1 10 lookahead = true) then ADVANCE 327
    else END_STATE⟩

def ts_lex_case_256 (eof : Bool) (lookahead : Nat) : LexCase :=
  ⟨some sym_path_segment,
    if lookahead = 45 then ADVANCE 260  -- '-'
    else if lookahead = 46 then ADVANCE 324  -- '.'
    else if (48 ≤ lookahead ∧ lookahead ≤ 57) ∨ (65 ≤ lookahead ∧ lookahead ≤ 90) ∨ (97 ≤ lookahead ∧ lookahead ≤ 122) then ADVANCE 259
    else if (eof = false ∧ set_contains sym_path_segment_character_set_1 10 lookahead = true) then ADVANCE 327
    else END_STATE⟩

def ts_lex_case_257 (eof : Bool) (lookahead : Nat) : LexCase :=
  ⟨some sym_path_segment,
    if lookahead = 45 then ADVANCE 260  -- '-'
    else if (48 ≤ lookahead ∧ lookahead ≤ 57) ∨ (65 ≤ lookahead ∧ lookahead ≤ 90) ∨ (97 ≤ lookahead ∧ lookahead ≤ 122) then ADVANCE 259
    else if (eof = false ∧ set_contains sym_path_segment_character_set_1 10 lookahead = true) then ADVANCE 327
    else END_STATE⟩

def ts_lex_case_258 (eof : Bool) (lookahead : Nat) : LexCase :=
  ⟨some sym_path_segment,
    if lookahead = 45 then ADVANCE 261  -- '-'
    else if (48 ≤ lookahead ∧ lookahead ≤ 57) ∨ (65 ≤ lookahead ∧ lookahead ≤ 90) ∨ (97 ≤ lookahead ∧ lookahead ≤ 122) then ADVANCE 90
    else if (eof = false ∧ set_contains sym_path_segment_character_set_1 10 lookahead = true) then ADVANCE 327
    else END_STATE⟩

def ts_lex_case_259 (eof : Bool) (lookahead : Nat) : LexCase :=
  ⟨some sym_path_segment,
    if lookahead = 45 then ADVANCE 251  -- '-'
    else if lookahead = 46 then ADVANCE 324  -- '.'
    else if (48 ≤ lookahead ∧ lookahead ≤ 57) ∨ (65 ≤ lookahead ∧ lookahead ≤ 90) ∨ (97 ≤ lookahead ∧ lookahead ≤ 122) then ADVANCE 250
    else if (eof = false ∧ set_contains sym_path_segment_character_set_1 10 lookahead = true) then ADVANCE 327
    else END_STATE⟩

def ts_lex_case_260 (eof : Bool) (lookahead : Nat) : LexCase :=
  ⟨some sym_path_segment,
    if lookahead = 45 then ADVANCE 251  -- '-'
    else if (48 ≤ lookahead ∧ lookahead ≤ 57) ∨ (65 ≤ lookahead ∧ lookahead ≤ 90) ∨ (97 ≤ lookahead ∧ lookahead ≤ 122) then ADVANCE 250
    else if (eof = false ∧ set_contains sym_path_segment_character_set_1 10 lookahead = true) then ADVANCE 327
    else END_STATE⟩

def ts_lex_case_261 (eof : Bool) (lookahead : Nat) : LexCase :=
  ⟨some sym_path_segment,
    if lookahead = 45 then ADVANCE 252  -- '-'
    else if (48 ≤ lookahead ∧ lookahead ≤ 57) ∨ (65 ≤ lookahead ∧ lookahead ≤ 90) ∨ (97 ≤ lookahead ∧ lookahead ≤ 122) then ADVANCE 87
    else if (eof = false ∧ set_contains sym_path_segment_character_set_1 10 lookahead = true) then ADVANCE 327
    else END_STATE⟩

def ts_lex_case_262 (eof : Bool) (lookahead : Nat) : LexCase :=
  ⟨some sym_path_segment,
    if lookahead = 45 then ADVANCE 266  -- '-'
    else if lookahead = 46 then ADVANCE 324  -- '.'
    else if (48 ≤ lookahead ∧ lookahead ≤ 57) ∨ (65 ≤ lookahead ∧ lookahead ≤ 90) ∨ (97 ≤ lookahead ∧ lookahead ≤ 122) then ADVANCE 265
    else if (eof = false ∧ set_contains sym_path_segment_character_set_1 10 lookahead = true) then ADVANCE 327
    else END_STATE⟩

def ts_lex_case_263 (eof : Bool) (lookahead : Nat) : LexCase :=
  ⟨some sym_path_segment,
    if lookahead = 45 then ADVANCE 266  -- '-'
    else if (48 ≤ lookahead ∧ lookahead ≤ 57) ∨ (65 ≤ lookahead ∧ lookahead ≤ 90) ∨ (97 ≤ lookahead ∧ lookahead ≤ 122) then ADVANCE 265
    else if (eof = false ∧ set_contains sym_path_segment_character_set_1 10 lookahead = true) then ADVANCE 327
    else END_STATE⟩

def ts_lex_case_264 (eof : Bool) (lookahead : Nat) : LexCase :=
  ⟨some sym_path_segment,
    if lookahead = 45 then ADVANCE 267  -- '-'
    else if (48 ≤ lookahead ∧ lookahead ≤ 57) ∨ (65 ≤ lookahead ∧ lookahead ≤ 90) ∨ (97 ≤ lookahead ∧ lookahead ≤ 122) then ADVANCE 92
    else if (eof = false ∧ set_contains sym_path_segment_character_set_1 10 lookahead = true) then ADVANCE 327
    else END_STATE⟩

def ts_lex_case_265 (eof : Bool) (lookahead : Nat) : LexCase :=
  ⟨some sym_path_segment,
    if lookahead = 45 then ADVANCE 257  -- '-'
    else if lookahead = 46 then ADVANCE 324  -- '.'
    else if (48 ≤ lookahead ∧ lookahead ≤ 57) ∨ (65 ≤ lookahead ∧ lookahead ≤ 90) ∨ (97 ≤ lookahead ∧ lookahead ≤ 122) then ADVANCE 256
    else if (eof = false ∧ set_contains sym_path_segment_character_set_1 10 lookahead = true) then ADVANCE 327
    else END_STATE⟩

def ts_lex_case_266 (eof : Bool) (lookahead : Nat) : LexCase :=
  ⟨some sym_path_segment,
    if lookahead = 45 then ADVANCE 257  -- '-'
    else if (48 ≤ lookahead ∧ lookahead ≤ 57) ∨ (65 ≤ lookahead ∧ lookahead ≤ 90) ∨ (97 ≤ lookahead ∧ lookahead ≤ 122) then ADVANCE 256
    else if (eof = false ∧ set_contains sym_path_segment_character_set_1 10 lookahead = true) then ADVANCE 327
    else END_STATE⟩

def ts_lex_case_267 (eof : Bool) (lookahead : Nat) : LexCase :=
  ⟨some sym_path_segment,
    if lookahead = 45 then ADVANCE 258  -- '-'
    else if (48 ≤ lookahead ∧ lookahead ≤ 57) ∨ (65 ≤ lookahead ∧ lookahead ≤ 90) ∨ (97 ≤ lookahead ∧ lookahead ≤ 122) then ADVANCE 89
    else if (eof = false ∧ set_contains sym_path_segment_character_set_1 10 lookahead = true) then ADVANCE 327
    else END_STATE⟩

def ts_lex_case_268 (eof : Bool) (lookahead : Nat) : LexCase :=
  ⟨some sym_path_segment,
    if lookahead = 45 then ADVANCE 272  -- '-'
    else if lookahead = 46 then ADVANCE 324  -- '.'
    else if (48 ≤ lookahead ∧ lookahead ≤ 57) ∨ (65 ≤ lookahead ∧ lookahead ≤ 90) ∨ (97 ≤ lookahead ∧ lookahead ≤ 122) then ADVANCE 271
    else if (eof = false ∧ set_contains sym_path_segment_character_set_1 10 lookahead = true) then ADVANCE 327
    else END_STATE⟩

def ts_lex_case_269 (eof : Bool) (lookahead : Nat) : LexCase :=
  ⟨some sym_path_segment,
    if lookahead = 45 then ADVANCE 272  -- '-'
    else if (48 ≤ lookahead ∧ lookahead ≤ 57) ∨ (65 ≤ lookahead ∧ lookahead ≤ 90) ∨ (97 ≤ lookahead ∧ lookahead ≤ 122) then ADVANCE 271
    else if (eof = false ∧ set_contains sym_path_segment_character_set_1 10 lookahead = true) then ADVANCE 327
    else END_STATE⟩

def ts_lex_case_270 (eof : Bool) (lookahead : Nat) : LexCase :=
  ⟨some sym_path_segment,
    if lookahead = 45 then ADVANCE 273  -- '-'
    else if (48 ≤ lookahead ∧ lookahead ≤ 57) ∨ (65 ≤ lookahead ∧ lookahead ≤ 90) ∨ (97 ≤ lookahead ∧ lookahead ≤ 122) then ADVANCE 94
    else if (eof = false ∧ set_contains sym_path_segment_character_set_1 10 lookahead = true) then ADVANCE 327
    else END_STATE⟩

def ts_lex_case_271 (eof : Bool) (lookahead : Nat) : LexCase :=
  ⟨some sym_path_segment,
    if lookahead = 45 then ADVANCE 263  -- '-'
    else if lookahead = 46 then ADVANCE 324  -- '.'
    else if (48 ≤ lookahead ∧ lookahead ≤ 57) ∨ (65 ≤ lookahead ∧ lookahead ≤ 90) ∨ (97 ≤ lookahead ∧ lookahead ≤ 122) then ADVANCE 262
    else if (eof = false ∧ set_contains sym_path_segment_character_set_1 10 lookahead = true) then ADVANCE 327
    else END_STATE⟩

def ts_lex_case_272 (eof : Bool) (lookahead : Nat) : LexCase :=
  ⟨some sym_path_segment,
    if lookahead = 45 then ADVANCE 263  -- '-'
    else if (48 ≤ lookahead ∧ lookahead ≤ 57) ∨ (65 ≤ lookahead ∧ lookahead ≤ 90) ∨ (97 ≤ lookahead ∧ lookahead ≤ 122) then ADVANCE 262
    else if (eof = false ∧ set_contains sym_path_segment_character_set_1 10 lookahead = true) then ADVANCE 327
    else END_STATE⟩

def ts_lex_case_273 (eof : Bool) (lookahead : Nat) : LexCase :=
  ⟨some sym_path_segment,
    if lookahead = 45 then ADVANCE 264  -- '-'
    else if (48 ≤ lookahead ∧ lookahead ≤ 57) ∨ (65 ≤ lookahead ∧ lookahead ≤ 90) ∨ (97 ≤ lookahead ∧ lookahead ≤ 122) then ADVANCE 91
    else if (eof = false ∧ set_contains sym_path_segment_character_set_1 10 lookahead = true) then ADVANCE 327
    else END_STATE⟩

def ts_lex_case_274 (eof : Bool) (lookahead : Nat) : LexCase :=
  ⟨some sym_path_segment,
    if lookahead = 45 then ADVANCE 278  -- '-'
    else if lookahead = 46 then ADVANCE 324  -- '.'
    else if (48 ≤ lookahead ∧ lookahead ≤ 57) ∨ (65 ≤ lookahead ∧ lookahead ≤ 90) ∨ (97 ≤ lookahead ∧ lookahead ≤ 122) then ADVANCE 277
    else if (eof = false ∧ set_contains sym_path_segment_character_set_1 10 lookahead = true) then ADVANCE 327
    else END_STATE⟩

def ts_lex_case_275 (eof : Bool) (lookahead : Nat) : LexCase :=
  ⟨some sym_path_segment,
    if lookahead = 45 then ADVANCE 278  -- '-'
    else if (48 ≤ lookahead ∧ lookahead ≤ 57) ∨ (65 ≤ lookahead ∧ lookahead ≤ 90) ∨ (97 ≤ lookahead ∧ lookahead ≤ 122) then ADVANCE 277
    else if (eof = false ∧ set_contains sym_path_segment_character_set_1 10 lookahead = true) then ADVANCE 327
    else END_STATE⟩

def ts_lex_case_276 (eof : Bool) (lookahead : Nat) : LexCase :=
  ⟨some sym_path_segment,
    if lookahead = 45 then ADVANCE 279  -- '-'
    else if (48 ≤ lookahead ∧ lookahead ≤ 57) ∨ (65 ≤ lookahead ∧ lookahead ≤ 90) ∨ (97 ≤ lookahead ∧ lookahead ≤ 122) then ADVANCE 96
    else if (eof = false ∧ set_contains sym_path_segment_character_set_1 10 lookahead = true) then ADVANCE 327
    else END_STATE⟩

def ts_lex_case_277 (eof : Bool) (lookahead : Nat) : LexCase :=
  ⟨some sym_path_segment,
    if lookahead = 45 then ADVANCE 269  -- '-'
    else if lookahead = 46 then ADVANCE 324  -- '.'
    else if (48 ≤ lookahead ∧ lookahead ≤ 57) ∨ (65 ≤ lookahead ∧ lookahead ≤ 90) ∨ (97 ≤ lookahead ∧ lookahead ≤ 122) then ADVANCE 268
    else if (eof = false ∧ set_contains sym_path_segment_character_set_1 10 lookahead = true) then ADVANCE 327
    else END_STATE⟩

def ts_lex_case_278 (eof : Bool) (lookahead : Nat) : LexCase :=
  ⟨some sym_path_segment,
    if lookahead = 45 then ADVANCE 269  -- '-'
    else if (48 ≤ lookahead ∧ lookahead ≤ 57) ∨ (65 ≤ lookahead ∧ lookahead ≤ 90) ∨ (97 ≤ lookahead ∧ lookahead ≤ 122) then ADVANCE 268
    else if (eof = false ∧ set_contains sym_path_segment_character_set_1 10 lookahead = true) then ADVANCE 327
    else END_STATE⟩

def ts_lex_case_279 (eof : Bool) (lookahead : Nat) : LexCase :=
  ⟨some sym_path_segment,
    if lookahead = 45 then ADVANCE 270  -- '-'
    else if (48 ≤ lookahead ∧ lookahead ≤ 57) ∨ (65 ≤ lookahead ∧ lookahead ≤ 90) ∨ (97 ≤ lookahead ∧ lookahead ≤ 122) then ADVANCE 93
    else if (eof = false ∧ set_contains sym_path_segment_character_set_1 10 lookahead = true) then ADVANCE 327
    else END_STATE⟩

def ts_lex_case_280 (eof : Bool) (lookahead : Nat) : LexCase :=
  ⟨some sym_path_segment,
    if lookahead = 45 then ADVANCE 284  -- '-'
    else if lookahead = 46 then ADVANCE 324  -- '.'
    else if (48 ≤ lookahead ∧ lookahead ≤ 57) ∨ (65 ≤ lookahead ∧ lookahead ≤ 90) ∨ (97 ≤ lookahead ∧ lookahead ≤ 122) then ADVANCE 283
    else if (eof = false ∧ set_contains sym_path_segment_character_set_1 10 lookahead = true) then ADVANCE 327
    else END_STATE⟩

def ts_lex_case_281 (eof : Bool) (lookahead : Nat) : LexCase :=
  ⟨some sym_path_segment,
    if lookahead = 45 then ADVANCE 284  -- '-'
    else if (48 ≤ lookahead ∧ lookahead ≤ 57) ∨ (65 ≤ lookahead ∧ lookahead ≤ 90) ∨ (97 ≤ lookahead ∧ lookahead ≤ 122) then ADVANCE 283
    else if (eof = false ∧ set_contains sym_path_segment_character_set_1 10 lookahead = true) then ADVANCE 327
    else END_STATE⟩

def ts_lex_case_282 (eof : Bool) (lookahead : Nat) : LexCase :=
  ⟨some sym_path_segment,
    if lookahead = 45 then ADVANCE 285  -- '-'
    else if (48 ≤ lookahead ∧ lookahead ≤ 57) ∨ (65 ≤ lookahead ∧ lookahead ≤ 90) ∨ (97 ≤ lookahead ∧ lookahead ≤ 122) then ADVANCE 98
    else if (eof = false ∧ set_contains sym_path_segment_character_set_1 10 lookahead = true) then ADVANCE 327
    else END_STATE⟩

def ts_lex_case_283 (eof : Bool) (lookahead : Nat) : LexCase :=
  ⟨some sym_path_segment,
    if lookahead = 45 then ADVANCE 275  -- '-'
    else if lookahead = 46 then ADVANCE 324  -- '.'
    else if (48 ≤ lookahead ∧ lookahead ≤ 57) ∨ (65 ≤ lookahead ∧ lookahead ≤ 90) ∨ (97 ≤ lookahead ∧ lookahead ≤ 122) then ADVANCE 274
    else if (eof = false ∧ set_contains sym_path_segment_character_set_1 10 lookahead = true) then ADVANCE 327
    else END_STATE⟩

def ts_lex_case_284 (eof : Bool) (lookahead : Nat) : LexCase :=
  ⟨some sym_path_segment,
    if lookahead = 45 then ADVANCE 275  -- '-'
    else if (48 ≤ lookahead ∧ lookahead ≤ 57) ∨ (65 ≤ lookahead ∧ lookahead ≤ 90) ∨ (97 ≤ lookahead ∧ lookahead ≤ 122) then ADVANCE 274
    else if (eof = false ∧ set_contains sym_path_segment_character_set_1 10 lookahead = true) then ADVANCE 327
    else END_STATE⟩

def ts_lex_case_285 (eof : Bool) (lookahead : Nat) : LexCase :=
  ⟨some sym_path_segment,
    if lookahead = 45 then ADVANCE 276  -- '-'
    else if (48 ≤ lookahead ∧ lookahead ≤ 57) ∨ (65 ≤ lookahead ∧ lookahead ≤ 90) ∨ (97 ≤ lookahead ∧ lookahead ≤ 122) then ADVANCE 95
    else if (eof = false ∧ set_contains sym_path_segment_character_set_1 10 lookahead = true) then ADVANCE 327
    else END_STATE⟩

def ts_lex_case_286 (eof : Bool) (lookahead : Nat) : LexCase :=
  ⟨some sym_path_segment,
    if lookahead = 45 then ADVANCE 292  -- '-'
    else if lookahead = 46 then ADVANCE 324  -- '.'
    else if lookahead = 115 then ADVANCE 290  -- 's'
    else if (48 ≤ lookahead ∧ lookahead ≤ 57) ∨ (65 ≤ lookahead ∧ lookahead ≤ 90) ∨ (97 ≤ lookahead ∧ lookahead ≤ 122) then ADVANCE 291
    else if (eof = false ∧ set_contains sym_path_segment_character_set_1 10 lookahead = true) then ADVANCE 327
    else END_STATE⟩

def ts_lex_case_287 (eof : Bool) (lookahead : Nat) : LexCase :=
  ⟨some sym_path_segment,
    if lookahead = 45 then ADVANCE 292  -- '-'
    else if lookahead = 46 then ADVANCE 324  -- '.'
    else if (48 ≤ lookahead ∧ lookahead ≤ 57) ∨ (65 ≤ lookahead ∧ lookahead ≤ 90) ∨ (97 ≤ lookahead ∧ lookahead ≤ 122) then ADVANCE 291
    else if (eof = false ∧ set_contains sym_path_segment_character_set_1 10 lookahead = true) then ADVANCE 327
    else END_STATE⟩

def ts_lex_case_288 (eof : Bool) (lookahead : Nat) : LexCase :=
  ⟨some sym_path_segment,
    if lookahead = 45 then ADVANCE 292  -- '-'
    else if (48 ≤ lookahead ∧ lookahead ≤ 57) ∨ (65 ≤ lookahead ∧ lookahead ≤ 90) ∨ (97 ≤ lookahead ∧ lookahead ≤ 122) then ADVANCE 291
    else if (eof = false ∧ set_contains sym_path_segment_character_set_1 10 lookahead = true) then ADVANCE 327
    else END_STATE⟩

def ts_lex_case_289 (eof : Bool) (lookahead : Nat) : LexCase :=
  ⟨some sym_path_segment,
    if lookahead = 45 then ADVANCE 293  -- '-'
    else if (48 ≤ lookahead ∧ lookahead ≤ 57) ∨ (65 ≤ lookahead ∧ lookahead ≤ 90) ∨ (97 ≤ lookahead ∧ lookahead ≤ 122) then ADVANCE 100
    else if (eof = false ∧ set_contains sym_path_segment_character_set_1 10 lookahead = true) then ADVANCE 327
    else END_STATE⟩

def ts_lex_case_290 (eof : Bool) (lookahead : Nat) : LexCase :=
  ⟨some sym_path_segment,
    if lookahead = 45 then ADVANCE 281  -- '-'
    else if lookahead = 46 then ADVANCE 324  -- '.'
    else if lookahead = 116 then ADVANCE 114  -- 't'
    else if (48 ≤ lookahead ∧ lookahead ≤ 57) ∨ (65 ≤ lookahead ∧ lookahead ≤ 90) ∨ (97 ≤ lookahead ∧ lookahead ≤ 122) then ADVANCE 280
    else if (eof = false ∧ set_contains sym_path_segment_character_set_1 10 lookahead = true) then ADVANCE 327
    else END_STATE⟩

def ts_lex_case_291 (eof : Bool) (lookahead : Nat) : LexCase :=
  ⟨some sym_path_segment,
    if lookahead = 45 then ADVANCE 281  -- '-'
    else if lookahead = 46 then ADVANCE 324  -- '.'
    else if (48 ≤ lookahead ∧ lookahead ≤ 57) ∨ (65 ≤ lookahead ∧ lookahead ≤ 90) ∨ (97 ≤ lookahead ∧ lookahead ≤ 122) then ADVANCE 280
    else if (eof = false ∧ set_contains sym_path_segment_character_set_1 10 lookahead = true) then ADVANCE 327
    else END_STATE⟩

def ts_lex_case_292 (eof : Bool) (lookahead : Nat) : LexCase :=
  ⟨some sym_path_segment,
    if lookahead = 45 then ADVANCE 281  -- '-'
    else if (48 ≤ lookahead ∧ lookahead ≤ 57) ∨ (65 ≤ lookahead ∧ lookahead ≤ 90) ∨ (97 ≤ lookahead ∧ lookahead ≤ 122) then ADVANCE 280
    else if (eof = false ∧ set_contains sym_path_segment_character_set_1 10 lookahead = true) then ADVANCE 327
    else END_STATE⟩

def ts_lex_case_293 (eof : Bool) (lookahead : Nat) : LexCase :=
  ⟨some sym_path_segment,
    if lookahead = 45 then ADVANCE 282  -- '-'
    else if (48 ≤ lookahead ∧ lookahead ≤ 57) ∨ (65 ≤ lookahead ∧ lookahead ≤ 90) ∨ (97 ≤ lookahead ∧ lookahead ≤ 122) then ADVANCE 97
    else if (eof = false ∧ set_contains sym_path_segment_character_set_1 10 lookahead = true) then ADVANCE 327
    else END_STATE⟩

def ts_lex_case_294 (eof : Bool) (lookahead : Nat) : LexCase :=
  ⟨some sym_path_segment,
    if lookahead = 45 then ADVANCE 300  -- '-'
    else if lookahead = 46 then ADVANCE 324  -- '.'
    else if lookahead = 104 then ADVANCE 298  -- 'h'
    else if (48 ≤ lookahead ∧ lookahead ≤ 57) ∨ (65 ≤ lookahead ∧ lookahead ≤ 90) ∨ (97 ≤ lookahead ∧ lookahead ≤ 122) then ADVANCE 299
    else if (eof = false ∧ set_contains sym_path_segment_character_set_1 10 lookahead = true) then ADVANCE 327
    else END_STATE⟩

def ts_lex_case_295 (eof : Bool) (lookahead : Nat) : LexCase :=
  ⟨some sym_path_segment,
    if lookahead = 45 then ADVANCE 300  -- '-'
    else if lookahead = 46 then ADVANCE 324  -- '.'
    else if (48 ≤ lookahead ∧ lookahead ≤ 57) ∨ (65 ≤ lookahead ∧ lookahead ≤ 90) ∨ (97 ≤ lookahead ∧ lookahead ≤ 122) then ADVANCE 299
    else if (eof = false ∧ set_contains sym_path_segment_character_set_1 10 lookahead = true) then ADVANCE 327
    else END_STATE⟩

def ts_lex_case_296 (eof : Bool) (lookahead : Nat) : LexCase :=
  ⟨some sym_path_segment,
    if lookahead = 45 then ADVANCE 300  -- '-'
    else if (48 ≤ lookahead ∧ lookahead ≤ 57) ∨ (65 ≤ lookahead ∧ lookahead ≤ 90) ∨ (97 ≤ lookahead ∧ lookahead ≤ 122) then ADVANCE 299
    else if (eof = false ∧ set_contains sym_path_segment_character_set_1 10 lookahead = true) then ADVANCE 327
    else END_STATE⟩

def ts_lex_case_297 (eof : Bool) (lookahead : Nat) : LexCase :=
  ⟨some sym_path_segment,
    if lookahead = 45 then ADVANCE 301  -- '-'
    else if (48 ≤ lookahead ∧ lookahead ≤ 57) ∨ (65 ≤ lookahead ∧ lookahead ≤ 90) ∨ (97 ≤ lookahead ∧ lookahead ≤ 122) then ADVANCE 102
    else if (eof = false ∧ set_contains sym_path_segment_character_set_1 10 lookahead = true) then ADVANCE 327
    else END_STATE⟩

def ts_lex_case_298 (eof : Bool) (lookahead : Nat) : LexCase :=
  ⟨some sym_path_segment,
    if lookahead = 45 then ADVANCE 288  -- '-'
    else if lookahead = 46 then ADVANCE 324  -- '.'
    else if lookahead = 111 then ADVANCE 286  -- 'o'
    else if (48 ≤ lookahead ∧ lookahead ≤ 57) ∨ (65 ≤ lookahead ∧ lookahead ≤ 90) ∨ (97 ≤ lookahead ∧ lookahead ≤ 122) then ADVANCE 287
    else if (eof = false ∧ set_contains sym_path_segment_character_set_1 10 lookahead = true) then ADVANCE 327
    else END_STATE⟩

def ts_lex_case_299 (eof : Bool) (lookahead : Nat) : LexCase :=
  ⟨some sym_path_segment,
    if lookahead = 45 then ADVANCE 288  -- '-'
    else if lookahead = 46 then ADVANCE 324  -- '.'
    else if (48 ≤ lookahead ∧ lookahead ≤ 57) ∨ (65 ≤ lookahead ∧ lookahead ≤ 90) ∨ (97 ≤ lookahead ∧ lookahead ≤ 122) then ADVANCE 287
    else if (eof = false ∧ set_contains sym_path_segment_character_set_1 10 lookahead = true) then ADVANCE 327
    else END_STATE⟩

def ts_lex_case_300 (eof : Bool) (lookahead : Nat) : LexCase :=
  ⟨some sym_path_segment,
    if lookahead = 45 then ADVANCE 288  -- '-'
    else if (48 ≤ lookahead ∧ lookahead ≤ 57) ∨ (65 ≤ lookahead ∧ lookahead ≤ 90) ∨ (97 ≤ lookahead ∧ lookahead ≤ 122) then ADVANCE 287
    else if (eof = false ∧ set_contains sym_path_segment_character_set_1 10 lookahead = true) then ADVANCE 327
    else END_STATE⟩

def ts_lex_case_301 (eof : Bool) (lookahead : Nat) : LexCase :=
  ⟨some sym_path_segment,
    if lookahead = 45 then ADVANCE 289  -- '-'
    else if (48 ≤ lookahead ∧ lookahead ≤ 57) ∨ (65 ≤ lookahead ∧ lookahead ≤ 90) ∨ (97 ≤ lookahead ∧ lookahead ≤ 122) then ADVANCE 99
    else if (eof = false ∧ set_contains sym_path_segment_character_set_1 10 lookahead = true) then ADVANCE 327
    else END_STATE⟩

def ts_lex_case_302 (eof : Bool) (lookahead : Nat) : LexCase :=
  ⟨some sym_path_segment,
    if lookahead = 45 then ADVANCE 310  -- '-'
    else if lookahead = 46 then ADVANCE 324  -- '.'
    else if lookahead = 97 then ADVANCE 308  -- 'a'
    else if (48 ≤ lookahead ∧ lookahead ≤ 57) ∨ (65 ≤ lookahead ∧ lookahead ≤ 90) ∨ (98 ≤ lookahead ∧ lookahead ≤ 122) then ADVANCE 309
    else if (eof = false ∧ set_contains sym_path_segment_character_set_1 10 lookahead = true) then ADVANCE 327
    else END_STATE⟩

def ts_lex_case_303 (eof : Bool) (lookahead : Nat) : LexCase :=
  ⟨some sym_path_segment,
    if lookahead = 45 then ADVANCE 310  -- '-'
    else if lookahead = 46 then ADVANCE 324  -- '.'
    else if lookahead = 112 then ADVANCE 29  -- 'p'
    else if (48 ≤ lookahead ∧ lookahead ≤ 57) ∨ (65 ≤ lookahead ∧ lookahead ≤ 90) ∨ (97 ≤ lookahead ∧ lookahead ≤ 122) then ADVANCE 309
    else if (eof = false ∧ set_contains sym_path_segment_character_set_1 10 lookahead = true) then ADVANCE 327
    else END_STATE⟩

def ts_lex_case_304 (eof : Bool) (lookahead : Nat) : LexCase :=
  ⟨some sym_path_segment,
    if lookahead = 45 then ADVANCE 310  -- '-'
    else if lookahead = 46 then ADVANCE 324  -- '.'
    else if (48 ≤ lookahead ∧ lookahead ≤ 57) ∨ (65 ≤ lookahead ∧ lookahead ≤ 90) ∨ (97 ≤ lookahead ∧ lookahead ≤ 122) then ADVANCE 309
    else if (eof = false ∧ set_contains sym_path_segment_character_set_1 10 lookahead = true) then ADVANCE 327
    else END_STATE⟩

def ts_lex_case_305 (eof : Bool) (lookahead : Nat) : LexCase :=
  ⟨some sym_path_segment,
    if lookahead = 45 then ADVANCE 310  -- '-'
    else if lookahead = 46 then ADVANCE 321  -- '.'
    else if (48 ≤ lookahead ∧ lookahead ≤ 57) ∨ (65 ≤ lookahead ∧ lookahead ≤ 90) ∨ (97 ≤ lookahead ∧ lookahead ≤ 122) then ADVANCE 309
    else if (eof = false ∧ set_contains sym_path_segment_character_set_1 10 lookahead = true) then ADVANCE 327
    else END_STATE⟩

def ts_lex_case_306 (eof : Bool) (lookahead : Nat) : LexCase :=
  ⟨some sym_path_segment,
    if lookahead = 45 then ADVANCE 310  -- '-'
    else if (48 ≤ lookahead ∧ lookahead ≤ 57) ∨ (65 ≤ lookahead ∧ lookahead ≤ 90) ∨ (97 ≤ lookahead ∧ lookahead ≤ 122) then ADVANCE 309
    else if (eof = false ∧ set_contains sym_path_segment_character_set_1 10 lookahead = true) then ADVANCE 327
    else END_STATE⟩

def ts_lex_case_307 (eof : Bool) (lookahead : Nat) : LexCase :=
  ⟨some sym_path_segment,
    if lookahead = 45 then ADVANCE 311  -- '-'
    else if (48 ≤ lookahead ∧ lookahead ≤ 57) ∨ (65 ≤ lookahead ∧ lookahead ≤ 90) ∨ (97 ≤ lookahead ∧ lookahead ≤ 122) then ADVANCE 106
    else if (eof = false ∧ set_contains sym_path_segment_character_set_1 10 lookahead = true) then ADVANCE 327
    else END_STATE⟩

def ts_lex_case_308 (eof : Bool) (lookahead : Nat) : LexCase :=
  ⟨some sym_path_segment,
    if lookahead = 45 then ADVANCE 296  -- '-'
    else if lookahead = 46 then ADVANCE 324  -- '.'
    else if lookahead = 108 then ADVANCE 294  -- 'l'
    else if (48 ≤ lookahead ∧ lookahead ≤ 57) ∨ (65 ≤ lookahead ∧ lookahead ≤ 90) ∨ (97 ≤ lookahead ∧ lookahead ≤ 122) then ADVANCE 295
    else if (eof = false ∧ set_contains sym_path_segment_character_set_1 10 lookahead = true) then ADVANCE 327
    else END_STATE⟩

def ts_lex_case_309 (eof : Bool) (lookahead : Nat) : LexCase :=
  ⟨some sym_path_segment,
    if lookahead = 45 then ADVANCE 296  -- '-'
    else if lookahead = 46 then ADVANCE 324  -- '.'
    else if (48 ≤ lookahead ∧ lookahead ≤ 57) ∨ (65 ≤ lookahead ∧ lookahead ≤ 90) ∨ (97 ≤ lookahead ∧ lookahead ≤ 122) then ADVANCE 295
    else if (eof = false ∧ set_contains sym_path_segment_character_set_1 10 lookahead = true) then ADVANCE 327
    else END_STATE⟩

def ts_lex_case_310 (eof : Bool) (lookahead : Nat) : LexCase :=
  ⟨some sym_path_segment,
    if lookahead = 45 then ADVANCE 296  -- '-'
    else if (48 ≤ lookahead ∧ lookahead ≤ 57) ∨ (65 ≤ lookahead ∧ lookahead ≤ 90) ∨ (97 ≤ lookahead ∧ lookahead ≤ 122) then ADVANCE 295
    else if (eof = false ∧ set_contains sym_path_segment_character_set_1 10 lookahead = true) then ADVANCE 327
    else END_STATE⟩

def ts_lex_case_311 (eof : Bool) (lookahead : Nat) : LexCase :=
  ⟨some sym_path_segment,
    if lookahead = 45 then ADVANCE 297  -- '-'
    else if (48 ≤ lookahead ∧ lookahead ≤ 57) ∨ (65 ≤ lookahead ∧ lookahead ≤ 90) ∨ (97 ≤ lookahead ∧ lookahead ≤ 122) then ADVANCE 101
    else if (eof = false ∧ set_contains sym_path_segment_character_set_1 10 lookahead = true) then ADVANCE 327
    else END_STATE⟩

def ts_lex_case_312 (eof : Bool) (lookahead : Nat) : LexCase :=
  ⟨some sym_path_segment,
    if lookahead = 45 then ADVANCE 306  -- '-'
    else if lookahead = 46 then ADVANCE 324  -- '.'
    else if lookahead = 99 then ADVANCE 302  -- 'c'
    else if (48 ≤ lookahead ∧ lookahead ≤ 57) ∨ (65 ≤ lookahead ∧ lookahead ≤ 90) ∨ (97 ≤ lookahead ∧ lookahead ≤ 122) then ADVANCE 304
    else if (eof = false ∧ set_contains sym_path_segment_character_set_1 10 lookahead = true) then ADVANCE 327
    else END_STATE⟩

def ts_lex_case_313 (eof : Bool) (lookahead : Nat) : LexCase :=
  ⟨some sym_path_segment,
    if lookahead = 45 then ADVANCE 306  -- '-'
    else if lookahead = 46 then ADVANCE 324  -- '.'
    else if lookahead = 112 then ADVANCE 34  -- 'p'
    else if (48 ≤ lookahead ∧ lookahead ≤ 57) ∨ (65 ≤ lookahead ∧ lookahead ≤ 90) ∨ (97 ≤ lookahead ∧ lookahead ≤ 122) then ADVANCE 304
    else if (eof = false ∧ set_contains sym_path_segment_character_set_1 10 lookahead = true) then ADVANCE 327
    else END_STATE⟩

def ts_lex_case_314 (eof : Bool) (lookahead : Nat) : LexCase :=
  ⟨some sym_path_segment,
    if lookahead = 45 then ADVANCE 306  -- '-'
    else if lookahead = 46 then ADVANCE 324  -- '.'
    else if lookahead = 116 then ADVANCE 303  -- 't'
    else if (48 ≤ lookahead ∧ lookahead ≤ 57) ∨ (65 ≤ lookahead ∧ lookahead ≤ 90) ∨ (97 ≤ lookahead ∧ lookahead ≤ 122) then ADVANCE 304
    else if (eof = false ∧ set_contains sym_path_segment_character_set_1 10 lookahead = true) then ADVANCE 327
    else END_STATE⟩

def ts_lex_case_315 (eof : Bool) (lookahead : Nat) : LexCase :=
  ⟨some sym_path_segment,
    if lookahead = 45 then ADVANCE 306  -- '-'
    else if lookahead = 46 then ADVANCE 324  -- '.'
    else if (48 ≤ lookahead ∧ lookahead ≤ 57) ∨ (65 ≤ lookahead ∧ lookahead ≤ 90) ∨ (97 ≤ lookahead ∧ lookahead ≤ 122) then ADVANCE 304
    else if (eof = false ∧ set_contains sym_path_segment_character_set_1 10 lookahead = true) then ADVANCE 327
    else END_STATE⟩

def ts_lex_case_316 (eof : Bool) (lookahead : Nat) : LexCase :=
  ⟨some sym_path_segment,
    if lookahead = 45 then ADVANCE 306  -- '-'
    else if lookahead = 46 then ADVANCE 321  -- '.'
    else if (48 ≤ lookahead ∧ lookahead ≤ 57) then ADVANCE 305
    else if (65 ≤ lookahead ∧ lookahead ≤ 90) ∨ (97 ≤ lookahead ∧ lookahead ≤ 122) then ADVANCE 304
    else if (eof = false ∧ set_contains sym_path_segment_character_set_1 10 lookahead = true) then ADVANCE 327
    else END_STATE⟩

def ts_lex_case_317 (eof : Bool) (lookahead : Nat) : LexCase :=
  ⟨some sym_path_segment,
    if lookahead = 45 then ADVANCE 306  -- '-'
    else if (48 ≤ lookahead ∧ lookahead ≤ 57) ∨ (65 ≤ lookahead ∧ lookahead ≤ 90) ∨ (97 ≤ lookahead ∧ lookahead ≤ 122) then ADVANCE 304
    else if (eof = false ∧ set_contains sym_path_segment_character_set_1 10 lookahead = true) then ADVANCE 327
    else END_STATE⟩

def ts_lex_case_318 (eof : Bool) (lookahead : Nat) : LexCase :=
  ⟨some sym_path_segment,
    if lookahead = 45 then ADVANCE 307  -- '-'
    else if (48 ≤ lookahead ∧ lookahead ≤ 57) ∨ (65 ≤ lookahead ∧ lookahead ≤ 90) ∨ (97 ≤ lookahead ∧ lookahead ≤ 122) then ADVANCE 103
    else if (eof = false ∧ set_contains sym_path_segment_character_set_1 10 lookahead = true) then ADVANCE 327
    else END_STATE⟩

def ts_lex_case_319 (eof : Bool) (lookahead : Nat) : LexCase :=
  ⟨some sym_path_segment,
    if lookahead = 46 then ADVANCE 324  -- '.'
    else if (48 ≤ lookahead ∧ lookahead ≤ 57) ∨ (65 ≤ lookahead ∧ lookahead ≤ 90) ∨ (97 ≤ lookahead ∧ lookahead ≤ 122) then ADVANCE 320
    else if (eof = false ∧ set_contains sym_path_segment_character_set_1 10 lookahead = true) then ADVANCE 327
    else END_STATE⟩

def ts_lex_case_320 (eof : Bool) (lookahead : Nat) : LexCase :=
  ⟨some sym_path_segment,
    if lookahead = 46 then ADVANCE 324  -- '.'
    else if (eof = false ∧ set_contains sym_path_segment_character_set_1 10 lookahead = true) then ADVANCE 327
    else END_STATE⟩

def ts_lex_case_321 (eof : Bool) (lookahead : Nat) : LexCase :=
  ⟨some sym_path_segment,
    if (48 ≤ lookahead ∧ lookahead ≤ 57) then ADVANCE 45
    else if (65 ≤ lookahead ∧ lookahead ≤ 90) ∨ (97 ≤ lookahead ∧ lookahead ≤ 122) then ADVANCE 43
    else if (eof = false ∧ set_contains sym_path_segment_character_set_1 10 lookahead = true) then ADVANCE 327
    else END_STATE⟩

def ts_lex_case_322 (eof : Bool) (lookahead : Nat) : LexCase :=
  ⟨some sym_path_segment,
    if (48 ≤ lookahead ∧ lookahead ≤ 57) then ADVANCE 42
    else if (65 ≤ lookahead ∧ lookahead ≤ 90) ∨ (97 ≤ lookahead ∧ lookahead ≤ 122) then ADVANCE 43
    else if (eof = false ∧ set_contains sym_path_segment_character_set_1 10 lookahead = true) then ADVANCE 327
    else END_STATE⟩

def ts_lex_case_323 (eof : Bool) (lookahead : Nat) : LexCase :=
  ⟨some sym_path_segment,
    if (48 ≤ lookahead ∧ lookahead ≤ 57) then ADVANCE 44
    else if (65 ≤ lookahead ∧ lookahead ≤ 90) ∨ (97 ≤ lookahead ∧ lookahead ≤ 122) then ADVANCE 43
    else if (eof = false ∧ set_contains sym_path_segment_character_set_1 10 lookahead = true) then ADVANCE 327
    else END_STATE⟩

def ts_lex_case_324 (eof : Bool) (lookahead : Nat) : LexCase :=
  ⟨some sym_path_segment,
    if (48 ≤ lookahead ∧ lookahead ≤ 57) ∨ (65 ≤ lookahead ∧ lookahead ≤ 90) ∨ (97 ≤ lookahead ∧ lookahead ≤ 122) then ADVANCE 43
    else if (eof = false ∧ set_contains sym_path_segment_character_set_1 10 lookahead = true) then ADVANCE 327
    else END_STATE⟩

def ts_lex_case_325 (eof : Bool) (lookahead : Nat) : LexCase :=
  ⟨some sym_path_segment,
    if (48 ≤ lookahead ∧ lookahead ≤ 57) ∨ (65 ≤ lookahead ∧ lookahead ≤ 90) ∨ (97 ≤ lookahead ∧ lookahead ≤ 122) then ADVANCE 320
    else if (eof = false ∧ set_contains sym_path_segment_character_set_1 10 lookahead = true) then ADVANCE 327
    else END_STATE⟩

def ts_lex_case_326 (eof : Bool) (lookahead : Nat) : LexCase :=
  ⟨some sym_path_segment,
    if (48 ≤ lookahead ∧ lookahead ≤ 57) ∨ (65 ≤ lookahead ∧ lookahead ≤ 90) ∨ (97 ≤ lookahead ∧ lookahead ≤ 122) then ADVANCE 112
    else if (eof = false ∧ set_contains sym_path_segment_character_set_1 10 lookahead = true) then ADVANCE 327
    else END_STATE⟩

def ts_lex_case_327 (eof : Bool) (lookahead : Nat) : LexCase :=
  ⟨some sym_path_segment,
    if (eof = false ∧ set_contains sym_path_segment_character_set_1 10 lookahead = true) then ADVANCE 327
    else END_STATE⟩

def ts_lex_case_328 (_eof : Bool) (lookahead : Nat) : LexCase :=
  ⟨some aux_sym_path_param_token1,
    if lookahead = 45 ∨ (48 ≤ lookahead ∧ lookahead ≤ 57) ∨ (65 ≤ lookahead ∧ lookahead ≤ 90) ∨ lookahead = 95 ∨ (97 ≤ lookahead ∧ lookahead ≤ 122) then ADVANCE 328
    else END_STATE⟩

def ts_lex_case_329 (_eof : Bool) (_lookahead : Nat) : LexCase :=
  ⟨some sym_variable_delim_start,
    END_STATE⟩

def ts_lex_case_330 (_eof : Bool) (lookahead : Nat) : LexCase :=
  ⟨some sym_variable_delim_start,
    if lookahead ≠ 0 ∧ lookahead ≠ 38 then ADVANCE 339
    else END_STATE⟩

def ts_lex_case_331 (_eof : Bool) (_lookahead : Nat) : LexCase :=
  ⟨some sym_variable_delim_end,
    END_STATE⟩

def ts_lex_case_332 (_eof : Bool) (lookahead : Nat) : LexCase :=
  ⟨some sym_variable_name,
    if (48 ≤ lookahead ∧ lookahead ≤ 57) ∨ (65 ≤ lookahead ∧ lookahead ≤ 90) ∨ lookahead = 95 ∨ (97 ≤ lookahead ∧ lookahead ≤ 122) then ADVANCE 332
    else END_STATE⟩

def ts_lex_case_333 (_eof : Bool) (_lookahead : Nat) : LexCase :=
  ⟨some anon_sym_QMARK,
    END_STATE⟩

def ts_lex_case_334 (_eof : Bool) (_lookahead : Nat) : LexCase :=
  ⟨some anon_sym_AMP,
    END_STATE⟩

def ts_lex_case_335 (_eof : Bool) (_lookahead : Nat) : LexCase :=
  ⟨some anon_sym_EQ,
    END_STATE⟩

def ts_lex_case_336 (_eof : Bool) (lookahead : Nat) : LexCase :=
  ⟨some aux_sym_key_token1,
    if lookahead = 45 ∨ (48 ≤ lookahead ∧ lookahead ≤ 57) ∨ (65 ≤ lookahead ∧ lookahead ≤ 90) ∨ lookahead = 95 ∨ (97 ≤ lookahead ∧ lookahead ≤ 122) then ADVANCE 336
    else END_STATE⟩

def ts_lex_case_337 (_eof : Bool) (lookahead : Nat) : LexCase :=
  ⟨some aux_sym_value_token1,
    if lookahead = 123 then ADVANCE 338  -- '{'
    else if (9 ≤ lookahead ∧ lookahead ≤ 13) ∨ lookahead = 32 then ADVANCE 337
    else if lookahead ≠ 0 ∧ lookahead ≠ 38 then ADVANCE 339
    else END_STATE⟩

def ts_lex_case_338 (_eof : Bool) (lookahead : Nat) : LexCase :=
  ⟨some aux_sym_value_token1,
    if lookahead = 123 then ADVANCE 330  -- '{'
    else if lookahead ≠ 0 ∧ lookahead ≠ 38 then ADVANCE 339
    else END_STATE⟩

def ts_lex_case_339 (_eof : Bool) (lookahead : Nat) : LexCase :=
  ⟨some aux_sym_value_token1,
    if lookahead ≠ 0 ∧ lookahead ≠ 38 then ADVANCE 339
    else END_STATE⟩

/-- The cases of the `switch` of `ts_lex` in the order of their labels, twenty to
a row: row `i` holds the cases `20 * i` .. `20 * i + 19`. -/
def ts_lex_cases : List (List (Bool → Nat → LexCase)) :=
  [[ts_lex_case_0, ts_lex_case_1, ts_lex_case_2, ts_lex_case_3, ts_lex_case_4,
    ts_lex_case_5, ts_lex_case_6, ts_lex_case_7, ts_lex_case_8, ts_lex_case_9,
    ts_lex_case_10, ts_lex_case_11, ts_lex_case_12, ts_lex_case_13, ts_lex_case_14,
    ts_lex_case_15, ts_lex_case_16, ts_lex_case_17, ts_lex_case_18, ts_lex_case_19],
   [ts_lex_case_20, ts_lex_case_21, ts_lex_case_22, ts_lex_case_23, ts_lex_case_24,
    ts_lex_case_25, ts_lex_case_26, ts_lex_case_27, ts_lex_case_28, ts_lex_case_29,
    ts_lex_case_30, ts_lex_case_31, ts_lex_case_32, ts_lex_case_33, ts_lex_case_34,
    ts_lex_case_35, ts_lex_case_36, ts_lex_case_37, ts_lex_case_38, ts_lex_case_39],
   [ts_lex_case_40, ts_lex_case_41, ts_lex_case_42, ts_lex_case_43, ts_lex_case_44,
    ts_lex_case_45, ts_lex_case_46, ts_lex_case_47, ts_lex_case_48, ts_lex_case_49,
    ts_lex_case_50, ts_lex_case_51, ts_lex_case_52, ts_lex_case_53, ts_lex_case_54,
    ts_lex_case_55, ts_lex_case_56, ts_lex_case_57, ts_lex_case_58, ts_lex_case_59],
   [ts_lex_case_60, ts_lex_case_61, ts_lex_case_62, ts_lex_case_63, ts_lex_case_64,
    ts_lex_case_65, ts_lex_case_66, ts_lex_case_67, ts_lex_case_68, ts_lex_case_69,
    ts_lex_case_70, ts_lex_case_71, ts_lex_case_72, ts_lex_case_73, ts_lex_case_74,
    ts_lex_case_75, ts_lex_case_76, ts_lex_case_77, ts_lex_case_78, ts_lex_case_79],
   [ts_lex_case_80, ts_lex_case_81, ts_lex_case_82, ts_lex_case_83, ts_lex_case_84,
    ts_lex_case_85, ts_lex_case_86, ts_lex_case_87, ts_lex_case_88, ts_lex_case_89,
    ts_lex_case_90, ts_lex_case_91, ts_lex_case_92, ts_lex_case_93, ts_lex_case_94,
    ts_lex_case_95, ts_lex_case_96, ts_lex_case_97, ts_lex_case_98, ts_lex_case_99],
   [ts_lex_case_100, ts_lex_case_101, ts_lex_case_102, ts_lex_case_103, ts_lex_case_104,
    ts_lex_case_105, ts_lex_case_106, ts_lex_case_107, ts_lex_case_108, ts_lex_case_109,
    ts_lex_case_110, ts_lex_case_111, ts_lex_case_112, ts_lex_case_113, ts_lex_case_114,
    ts_lex_case_115, ts_lex_case_116, ts_lex_case_117, ts_lex_case_118, ts_lex_case_119],
   [ts_lex_case_120, ts_lex_case_121, ts_lex_case_122, ts_lex_case_123, ts_lex_case_124,
    ts_lex_case_125, ts_lex_case_126, ts_lex_case_127, ts_lex_case_128, ts_lex_case_129,
    ts_lex_case_130, ts_lex_case_131, ts_lex_case_132, ts_lex_case_133, ts_lex_case_134,
    ts_lex_case_135, ts_lex_case_136, ts_lex_case_137, ts_lex_case_138, ts_lex_case_139],
   [ts_lex_case_140, ts_lex_case_141, ts_lex_case_142, ts_lex_case_143, ts_lex_case_144,
    ts_lex_case_145, ts_lex_case_146, ts_lex_case_147, ts_lex_case_148, ts_lex_case_149,
    ts_lex_case_150, ts_lex_case_151, ts_lex_case_152, ts_lex_case_153, ts_lex_case_154,
    ts_lex_case_155, ts_lex_case_156, ts_lex_case_157, ts_lex_case_158, ts_lex_case_159],
   [ts_lex_case_160, ts_lex_case_161, ts_lex_case_162, ts_lex_case_163, ts_lex_case_164,
    ts_lex_case_165, ts_lex_case_166, ts_lex_case_167, ts_lex_case_168, ts_lex_case_169,
    ts_lex_case_170, ts_lex_case_171, ts_lex_case_172, ts_lex_case_173, ts_lex_case_174,
    ts_lex_case_175, ts_lex_case_176, ts_lex_case_177, ts_lex_case_178, ts_lex_case_179],
   [ts_lex_case_180, ts_lex_case_181, ts_lex_case_182, ts_lex_case_183, ts_lex_case_184,
    ts_lex_case_185, ts_lex_case_186, ts_lex_case_187, ts_lex_case_188, ts_lex_case_189,
    ts_lex_case_190, ts_lex_case_191, ts_lex_case_192, ts_lex_case_193, ts_lex_case_194,
    ts_lex_case_195, ts_lex_case_196, ts_lex_case_197, ts_lex_case_198, ts_lex_case_199],
   [ts_lex_case_200, ts_lex_case_201, ts_lex_case_202, ts_lex_case_203, ts_lex_case_204,
    ts_lex_case_205, ts_lex_case_206, ts_lex_case_207, ts_lex_case_208, ts_lex_case_209,
    ts_lex_case_210, ts_lex_case_211, ts_lex_case_212, ts_lex_case_213, ts_lex_case_214,
    ts_lex_case_215, ts_lex_case_216, ts_lex_case_217, ts_lex_case_218, ts_lex_case_219],
   [ts_lex_case_220, ts_lex_case_221, ts_lex_case_222, ts_lex_case_223, ts_lex_case_224,
    ts_lex_case_225, ts_lex_case_226, ts_lex_case_227, ts_lex_case_228, ts_lex_case_229,
    ts_lex_case_230, ts_lex_case_231, ts_lex_case_232, ts_lex_case_233, ts_lex_case_234,
    ts_lex_case_235, ts_lex_case_236, ts_lex_case_237, ts_lex_case_238, ts_lex_case_239],
   [ts_lex_case_240, ts_lex_case_241, ts_lex_case_242, ts_lex_case_243, ts_lex_case_244,
    ts_lex_case_245, ts_lex_case_246, ts_lex_case_247, ts_lex_case_248, ts_lex_case_249,
    ts_lex_case_250, ts_lex_case_251, ts_lex_case_252, ts_lex_case_253, ts_lex_case_254,
    ts_lex_case_255, ts_lex_case_256, ts_lex_case_257, ts_lex_case_258, ts_lex_case_259],
   [ts_lex_case_260, ts_lex_case_261, ts_lex_case_262, ts_lex_case_263, ts_lex_case_264,
    ts_lex_case_265, ts_lex_case_266, ts_lex_case_267, ts_lex_case_268, ts_lex_case_269,
    ts_lex_case_270, ts_lex_case_271, ts_lex_case_272, ts_lex_case_273, ts_lex_case_274,
    ts_lex_case_275, ts_lex_case_276, ts_lex_case_277, ts_lex_case_278, ts_lex_case_279],
   [ts_lex_case_280, ts_lex_case_281, ts_lex_case_282, ts_lex_case_283, ts_lex_case_284,
    ts_lex_case_285, ts_lex_case_286, ts_lex_case_287, ts_lex_case_288, ts_lex_case_289,
    ts_lex_case_290, ts_lex_case_291, ts_lex_case_292, ts_lex_case_293, ts_lex_case_294,
    ts_lex_case_295, ts_lex_case_296, ts_lex_case_297, ts_lex_case_298, ts_lex_case_299],
   [ts_lex_case_300, ts_lex_case_301, ts_lex_case_302, ts_lex_case_303, ts_lex_case_304,
    ts_lex_case_305, ts_lex_case_306, ts_lex_case_307, ts_lex_case_308, ts_lex_case_309,
    ts_lex_case_310, ts_lex_case_311, ts_lex_case_312, ts_lex_case_313, ts_lex_case_314,
    ts_lex_case_315, ts_lex_case_316, ts_lex_case_317, ts_lex_case_318, ts_lex_case_319],
   [ts_lex_case_320, ts_lex_case_321, ts_lex_case_322, ts_lex_case_323, ts_lex_case_324,
    ts_lex_case_325, ts_lex_case_326, ts_lex_case_327, ts_lex_case_328, ts_lex_case_329,
    ts_lex_case_330, ts_lex_case_331, ts_lex_case_332, ts_lex_case_333, ts_lex_case_334,
    ts_lex_case_335, ts_lex_case_336, ts_lex_case_337, ts_lex_case_338, ts_lex_case_339]]

/-- The `switch (state)` of `ts_lex`: case `state` applied to the current `eof`
flag and `lookahead`; `none` is the `default: return false`. -/
def ts_lex_state (state : Nat) (eof : Bool) (lookahead : Nat) : Option LexCase :=
  match ts_lex_cases.get? (state / 20) with
  | none => none
  | some row => (row.get? (state % 20)).map fun c => c eof lookahead

/-- A token as the lexer leaves it: `result_symbol`, the offset where the token
starts (the characters before it were skipped) and the offset marked by
`mark_end`.  Offsets count code points from the position where `ts_lex` was
called. -/
structure Token where
  symbol : Nat
  start : Nat
  stop : Nat
deriving DecidableEq, Repr

/-- The effect of `ACCEPT_TOKEN` on the pair (`result_symbol`, marked end). -/
def acceptToken (c : LexCase) (pos : Nat) (result : Option (Nat × Nat)) : Option (Nat × Nat) :=
  match c.accept with
  | some symbol => some (symbol, pos)
  | none => result

/-- The value `ts_lex` returns at `END_STATE()`: `none` when `result` is false. -/
def endState (start : Nat) (result : Option (Nat × Nat)) : Option Token :=
  result.map fun r => ⟨r.1, start, r.2⟩

/-- Modelled from the spec: the loop of `ts_lex` once the input is exhausted
(`eof` is true and `lookahead` is 0).  The macros `START_LEXER`, `ADVANCE`,
`SKIP`, `ACCEPT_TOKEN` and `END_STATE` are defined in `tree_sitter/parser.h`,
which is not in the repository; at end of input `advance` leaves the cursor
where it is.  `fuel` bounds the number of moves; `ts_lex_eof_two_moves` shows
that two are always enough. -/
def ts_lex_eof : Nat → Nat → Nat → Nat → Option (Nat × Nat) → Option Token
  | 0, _, _, _, _ => none
  | fuel + 1, state, pos, start, result =>
    match ts_lex_state state true 0 with
    | none => none
    | some c =>
      match c.move with
      | ADVANCE next => ts_lex_eof fuel next pos start (acceptToken c pos result)
      | SKIP next => ts_lex_eof fuel next pos pos (acceptToken c pos result)
      | END_STATE => endState start (acceptToken c pos result)

/-- Modelled from the spec: the loop that the macros of `tree_sitter/parser.h`
(not in the repository) make of `ts_lex`.  In state `state`, with `pos`
characters consumed, the token starting at `start` and the last accepted
(symbol, end) in `result`: run the case of `state` on the next character;
`ACCEPT_TOKEN` records the symbol and marks the end at `pos`; `ADVANCE`
consumes the character; `SKIP` consumes it and moves the token start behind it
(whitespace outside a token is skipped silently); `END_STATE` returns the last
accepted token, the longest match (maximal munch, section 4.2). -/
def ts_lex_loop : List Nat → Nat → Nat → Nat → Option (Nat × Nat) → Option Token
  | [], state, pos, start, result => ts_lex_eof 340 state pos start result
  | lookahead :: rest, state, pos, start, result =>
    match ts_lex_state state false lookahead with
    | none => none
    | some c =>
      match c.move with
      | ADVANCE next => ts_lex_loop rest next (pos + 1) start (acceptToken c pos result)
      | SKIP next => ts_lex_loop rest next (pos + 1) (pos + 1) (acceptToken c pos result)
      | END_STATE => endState start (acceptToken c pos result)

/-- The function `ts_lex(lexer, state)` on the input that remains at the
lexer's cursor: `none` when it returns false, otherwise the token. -/
def ts_lex (input : List Nat) (state : Nat) : Option Token :=
  ts_lex_loop input state 0 0 none

/-- The code points of a string. -/
def codes (s : String) : List Nat :=
  s.toList.map Char.toNat

/-- Every constant that a test of `ts_lex` compares `lookahead` with starts or
ends an interval of this list: the list holds `k` and `k + 1` for each test
`lookahead == k`, and `a` and `b + 1` for each range test `a <= lookahead &&
lookahead <= b` and each range of `sym_path_segment_character_set_1`. -/
def lexBreakpoints : List Nat :=
  [0, 1, 9, 10, 11, 14, 32, 33, 38, 39, 45, 46, 47, 48, 58, 59, 61, 62, 63, 64, 65, 91, 95,
   96, 97, 98, 99, 100, 102, 103, 104, 105, 108, 109, 111, 112, 113, 115, 116, 117, 119,
   120, 123, 124, 125, 126, 1114112]

/-- The greatest breakpoint that is at most `c`: the representative of the
interval of code points that no test of `ts_lex` tells apart from `c`. -/
def charClass (c : Nat) : Nat :=
  (lexBreakpoints.filter fun b => decide (b ≤ c)).foldl max 0

/-! ## The parse tables -/

/-- A parse action, as written with the macros `SHIFT`, `SHIFT_REPEAT`, `REDUCE`,
`RECOVER` and `ACCEPT_INPUT` in `ts_parse_actions`.  The arguments of `REDUCE`
are the symbol, the child count, the dynamic precedence and the production
id. -/
inductive TSParseAction where
  | SHIFT (state : Nat)
  | SHIFT_REPEAT (state : Nat)
  | REDUCE (symbol childCount dynamicPrecedence productionId : Nat)
  | RECOVER
  | ACCEPT_INPUT
deriving DecidableEq, Repr

/-- An entry of `ts_parse_actions`: the header `{.count, .reusable}` and the
`count` actions stored behind it. -/
structure TSParseActionEntry where
  count : Nat
  reusable : Bool
  actions : List TSParseAction
deriving DecidableEq, Repr

open TSParseAction

/-- The table `ts_lex_modes`: entry `n` is the `lex_state` of parse state `n`. -/
def ts_lex_modes : List Nat :=
  [0, 26, 26, 26, 25, 25, 25, 25, 25, 25,
   25, 25, 25, 25, 1, 25, 25, 25, 25, 25,
   25, 25, 25, 26, 2, 2, 1, 5, 5, 2,
   2, 2, 21, 2, 0, 0, 5, 23, 24, 0]

/-- The table `ts_parse_table` for the large states 0..3: row `n` lists the
initialised entries `[symbol] = STATE(k)` or `[symbol] = ACTIONS(k)` of state `n`
as pairs (symbol, k); every other entry of the row is 0. -/
def ts_parse_table : List (List (Nat × Nat)) :=
  [[(ts_builtin_sym_end, 1), (anon_sym_http, 1), (anon_sym_https, 1), (anon_sym_ftp, 1),
    (anon_sym_ws, 1), (anon_sym_wss, 1), (anon_sym_COLON_SLASH_SLASH, 1),
    (anon_sym_COLON, 1), (anon_sym_localhost, 1), (sym_port, 1), (anon_sym_SLASH, 1),
    (sym_variable_delim_start, 1), (sym_variable_delim_end, 1), (anon_sym_QMARK, 1),
    (anon_sym_AMP, 1), (anon_sym_EQ, 1)],
   [(sym_source_file, 35), (sym_url_line, 21), (sym_url_components, 20), (sym_protocol, 14),
    (sym_domain_and_port, 25), (sym_domain, 30), (sym_hostname, 31), (sym_path, 7),
    (sym_path_param, 4), (sym_variable, 4), (aux_sym_source_file_repeat1, 3),
    (aux_sym_path_repeat1, 4), (ts_builtin_sym_end, 3), (anon_sym_http, 5),
    (anon_sym_https, 5), (anon_sym_ftp, 5), (anon_sym_ws, 5), (anon_sym_wss, 5),
    (anon_sym_COLON, 7), (aux_sym_domain_token1, 9), (anon_sym_localhost, 11),
    (aux_sym_hostname_token1, 11), (anon_sym_SLASH, 13), (sym_path_segment, 15),
    (sym_variable_delim_start, 17)],
   [(sym_url_line, 21), (sym_url_components, 20), (sym_protocol, 14),
    (sym_domain_and_port, 25), (sym_domain, 30), (sym_hostname, 31), (sym_path, 7),
    (sym_path_param, 4), (sym_variable, 4), (aux_sym_source_file_repeat1, 2),
    (aux_sym_path_repeat1, 4), (ts_builtin_sym_end, 19), (anon_sym_http, 21),
    (anon_sym_https, 21), (anon_sym_ftp, 21), (anon_sym_ws, 21), (anon_sym_wss, 21),
    (anon_sym_COLON, 24), (aux_sym_domain_token1, 27), (anon_sym_localhost, 30),
    (aux_sym_hostname_token1, 30), (anon_sym_SLASH, 33), (sym_path_segment, 36),
    (sym_variable_delim_start, 39)],
   [(sym_url_line, 21), (sym_url_components, 20), (sym_protocol, 14),
    (sym_domain_and_port, 25), (sym_domain, 30), (sym_hostname, 31), (sym_path, 7),
    (sym_path_param, 4), (sym_variable, 4), (aux_sym_source_file_repeat1, 2),
    (aux_sym_path_repeat1, 4), (ts_builtin_sym_end, 42), (anon_sym_http, 5),
    (anon_sym_https, 5), (anon_sym_ftp, 5), (anon_sym_ws, 5), (anon_sym_wss, 5),
    (anon_sym_COLON, 7), (aux_sym_domain_token1, 9), (anon_sym_localhost, 11),
    (aux_sym_hostname_token1, 11), (anon_sym_SLASH, 13), (sym_path_segment, 15),
    (sym_variable_delim_start, 17)]]

/-- The array `ts_small_parse_table`, cut at its designators `[k] =`: each pair is
the offset `k` at which the row of a small state starts and the elements from
there up to the next designator: the number of groups, then for each group the
value (`ACTIONS(n)` or `STATE(n)`, both `n`), the number of symbols and the
symbols. -/
def ts_small_parse_table : List (Nat × List Nat) :=
  [(0, [6,
      48, 1, anon_sym_COLON,
      54, 1, sym_variable_delim_start,
      44, 2, ts_builtin_sym_end, anon_sym_LF,
      51, 2, anon_sym_SLASH, sym_path_segment,
      5, 3, sym_path_param, sym_variable, aux_sym_path_repeat1,
      46, 9, anon_sym_http, anon_sym_https, anon_sym_ftp, anon_sym_ws, anon_sym_wss,
        aux_sym_domain_token1, anon_sym_localhost, aux_sym_hostname_token1, anon_sym_QMARK]),
   (31, [6,
      61, 1, anon_sym_COLON,
      67, 1, sym_variable_delim_start,
      57, 2, ts_builtin_sym_end, anon_sym_LF,
      64, 2, anon_sym_SLASH, sym_path_segment,
      5, 3, sym_path_param, sym_variable, aux_sym_path_repeat1,
      59, 9, anon_sym_http, anon_sym_https, anon_sym_ftp, anon_sym_ws, anon_sym_wss,
        aux_sym_domain_token1, anon_sym_localhost, aux_sym_hostname_token1, anon_sym_QMARK]),
   (62, [2,
      70, 2, ts_builtin_sym_end, anon_sym_LF,
      72, 15, anon_sym_http, anon_sym_https, anon_sym_ftp, anon_sym_ws, anon_sym_wss,
        anon_sym_COLON, aux_sym_domain_token1, anon_sym_localhost, aux_sym_hostname_token1,
        anon_sym_SLASH, sym_path_segment, sym_variable_delim_start, anon_sym_QMARK,
        anon_sym_AMP, anon_sym_EQ]),
   (84, [4,
      78, 1, anon_sym_QMARK,
      19, 1, sym_query_string,
      74, 2, ts_builtin_sym_end, anon_sym_LF,
      76, 12, anon_sym_http, anon_sym_https, anon_sym_ftp, anon_sym_ws, anon_sym_wss,
        anon_sym_COLON, aux_sym_domain_token1, anon_sym_localhost, aux_sym_hostname_token1,
        anon_sym_SLASH, sym_path_segment, sym_variable_delim_start]),
   (109, [2,
      80, 2, ts_builtin_sym_end, anon_sym_LF,
      82, 14, anon_sym_http, anon_sym_https, anon_sym_ftp, anon_sym_ws, anon_sym_wss,
        anon_sym_COLON, aux_sym_domain_token1, anon_sym_localhost, aux_sym_hostname_token1,
        anon_sym_SLASH, sym_path_segment, sym_variable_delim_start, anon_sym_AMP, anon_sym_EQ]),
   (130, [4,
      88, 1, anon_sym_AMP,
      11, 1, aux_sym_query_string_repeat1,
      84, 2, ts_builtin_sym_end, anon_sym_LF,
      86, 12, anon_sym_http, anon_sym_https, anon_sym_ftp, anon_sym_ws, anon_sym_wss,
        anon_sym_COLON, aux_sym_domain_token1, anon_sym_localhost, aux_sym_hostname_token1,
        anon_sym_SLASH, sym_path_segment, sym_variable_delim_start]),
   (155, [3,
      94, 1, anon_sym_EQ,
      90, 2, ts_builtin_sym_end, anon_sym_LF,
      92, 13, anon_sym_http, anon_sym_https, anon_sym_ftp, anon_sym_ws, anon_sym_wss,
        anon_sym_COLON, aux_sym_domain_token1, anon_sym_localhost, aux_sym_hostname_token1,
        anon_sym_SLASH, sym_path_segment, sym_variable_delim_start, anon_sym_AMP]),
   (178, [4,
      88, 1, anon_sym_AMP,
      12, 1, aux_sym_query_string_repeat1,
      96, 2, ts_builtin_sym_end, anon_sym_LF,
      98, 12, anon_sym_http, anon_sym_https, anon_sym_ftp, anon_sym_ws, anon_sym_wss,
        anon_sym_COLON, aux_sym_domain_token1, anon_sym_localhost, aux_sym_hostname_token1,
        anon_sym_SLASH, sym_path_segment, sym_variable_delim_start]),
   (203, [4,
      104, 1, anon_sym_AMP,
      12, 1, aux_sym_query_string_repeat1,
      100, 2, ts_builtin_sym_end, anon_sym_LF,
      102, 12, anon_sym_http, anon_sym_https, anon_sym_ftp, anon_sym_ws, anon_sym_wss,
        anon_sym_COLON, aux_sym_domain_token1, anon_sym_localhost, aux_sym_hostname_token1,
        anon_sym_SLASH, sym_path_segment, sym_variable_delim_start]),
   (228, [2,
      107, 2, ts_builtin_sym_end, anon_sym_LF,
      109, 13, anon_sym_http, anon_sym_https, anon_sym_ftp, anon_sym_ws, anon_sym_wss,
        anon_sym_COLON, aux_sym_domain_token1, anon_sym_localhost, aux_sym_hostname_token1,
        anon_sym_SLASH, sym_path_segment, sym_variable_delim_start, anon_sym_QMARK]),
   (248, [12,
      7, 1, anon_sym_COLON,
      9, 1, aux_sym_domain_token1,
      13, 1, anon_sym_SLASH,
      15, 1, sym_path_segment,
      17, 1, sym_variable_delim_start,
      7, 1, sym_path,
      18, 1, sym_url_components,
      24, 1, sym_domain_and_port,
      30, 1, sym_domain,
      31, 1, sym_hostname,
      11, 2, anon_sym_localhost, aux_sym_hostname_token1,
      4, 3, sym_path_param, sym_variable, aux_sym_path_repeat1]),
   (288, [2,
      100, 2, ts_builtin_sym_end, anon_sym_LF,
      102, 13, anon_sym_http, anon_sym_https, anon_sym_ftp, anon_sym_ws, anon_sym_wss,
        anon_sym_COLON, aux_sym_domain_token1, anon_sym_localhost, aux_sym_hostname_token1,
        anon_sym_SLASH, sym_path_segment, sym_variable_delim_start, anon_sym_AMP]),
   (308, [2,
      111, 2, ts_builtin_sym_end, anon_sym_LF,
      113, 13, anon_sym_http, anon_sym_https, anon_sym_ftp, anon_sym_ws, anon_sym_wss,
        anon_sym_COLON, aux_sym_domain_token1, anon_sym_localhost, aux_sym_hostname_token1,
        anon_sym_SLASH, sym_path_segment, sym_variable_delim_start, anon_sym_AMP]),
   (328, [2,
      115, 2, ts_builtin_sym_end, anon_sym_LF,
      117, 13, anon_sym_http, anon_sym_https, anon_sym_ftp, anon_sym_ws, anon_sym_wss,
        anon_sym_COLON, aux_sym_domain_token1, anon_sym_localhost, aux_sym_hostname_token1,
        anon_sym_SLASH, sym_path_segment, sym_variable_delim_start, anon_sym_AMP]),
   (348, [2,
      119, 2, ts_builtin_sym_end, anon_sym_LF,
      121, 12, anon_sym_http, anon_sym_https, anon_sym_ftp, anon_sym_ws, anon_sym_wss,
        anon_sym_COLON, aux_sym_domain_token1, anon_sym_localhost, aux_sym_hostname_token1,
        anon_sym_SLASH, sym_path_segment, sym_variable_delim_start]),
   (367, [2,
      123, 2, ts_builtin_sym_end, anon_sym_LF,
      125, 12, anon_sym_http, anon_sym_https, anon_sym_ftp, anon_sym_ws, anon_sym_wss,
        anon_sym_COLON, aux_sym_domain_token1, anon_sym_localhost, aux_sym_hostname_token1,
        anon_sym_SLASH, sym_path_segment, sym_variable_delim_start]),
   (386, [2,
      127, 2, ts_builtin_sym_end, anon_sym_LF,
      129, 12, anon_sym_http, anon_sym_https, anon_sym_ftp, anon_sym_ws, anon_sym_wss,
        anon_sym_COLON, aux_sym_domain_token1, anon_sym_localhost, aux_sym_hostname_token1,
        anon_sym_SLASH, sym_path_segment, sym_variable_delim_start]),
   (405, [3,
      131, 1, ts_builtin_sym_end,
      133, 1, anon_sym_LF,
      135, 12, anon_sym_http, anon_sym_https, anon_sym_ftp, anon_sym_ws, anon_sym_wss,
        anon_sym_COLON, aux_sym_domain_token1, anon_sym_localhost, aux_sym_hostname_token1,
        anon_sym_SLASH, sym_path_segment, sym_variable_delim_start]),
   (426, [2,
      137, 2, ts_builtin_sym_end, anon_sym_LF,
      139, 12, anon_sym_http, anon_sym_https, anon_sym_ftp, anon_sym_ws, anon_sym_wss,
        anon_sym_COLON, aux_sym_domain_token1, anon_sym_localhost, aux_sym_hostname_token1,
        anon_sym_SLASH, sym_path_segment, sym_variable_delim_start]),
   (445, [2,
      19, 4, ts_builtin_sym_end, anon_sym_COLON, anon_sym_SLASH, sym_variable_delim_start,
      141, 9, anon_sym_http, anon_sym_https, anon_sym_ftp, anon_sym_ws, anon_sym_wss,
        aux_sym_domain_token1, anon_sym_localhost, aux_sym_hostname_token1, sym_path_segment]),
   (463, [6,
      7, 1, anon_sym_COLON,
      17, 1, sym_variable_delim_start,
      7, 1, sym_path,
      22, 1, sym_url_components,
      13, 2, anon_sym_SLASH, sym_path_segment,
      4, 3, sym_path_param, sym_variable, aux_sym_path_repeat1]),
   (485, [6,
      7, 1, anon_sym_COLON,
      17, 1, sym_variable_delim_start,
      7, 1, sym_path,
      18, 1, sym_url_components,
      13, 2, anon_sym_SLASH, sym_path_segment,
      4, 3, sym_path_param, sym_variable, aux_sym_path_repeat1]),
   (507, [2,
      143, 3, anon_sym_COLON, anon_sym_SLASH, sym_variable_delim_start,
      145, 4, aux_sym_domain_token1, anon_sym_localhost, aux_sym_hostname_token1,
        sym_path_segment]),
   (519, [5,
      17, 1, sym_variable_delim_start,
      147, 1, aux_sym_key_token1,
      8, 1, sym_variable,
      9, 1, sym_query_param,
      10, 1, sym_key]),
   (535, [5,
      17, 1, sym_variable_delim_start,
      147, 1, aux_sym_key_token1,
      8, 1, sym_variable,
      10, 1, sym_key,
      15, 1, sym_query_param]),
   (551, [1,
      149, 4, anon_sym_COLON, anon_sym_SLASH, sym_path_segment, sym_variable_delim_start]),
   (558, [2,
      151, 1, anon_sym_COLON,
      154, 3, anon_sym_SLASH, sym_path_segment, sym_variable_delim_start]),
   (567, [1,
      156, 4, anon_sym_COLON, anon_sym_SLASH, sym_path_segment, sym_variable_delim_start]),
   (574, [4,
      158, 1, sym_variable_delim_start,
      160, 1, aux_sym_value_token1,
      16, 1, sym_variable,
      17, 1, sym_value]),
   (587, [1,
      162, 4, anon_sym_COLON, anon_sym_SLASH, sym_path_segment, sym_variable_delim_start]),
   (594, [1,
      164, 1, sym_port]),
   (598, [1,
      166, 1, ts_builtin_sym_end]),
   (602, [1,
      168, 1, anon_sym_COLON_SLASH_SLASH]),
   (606, [1,
      170, 1, aux_sym_path_param_token1]),
   (610, [1,
      172, 1, sym_variable_name]),
   (614, [1,
      174, 1, sym_variable_delim_end])]

/-- The table `ts_small_parse_table_map`: entry `n - LARGE_STATE_COUNT` is the
offset of the row of small state `n` in `ts_small_parse_table`. -/
def ts_small_parse_table_map : List Nat :=
  [0, 31, 62, 84, 109, 130, 155, 178, 203, 228, 248, 288,
   308, 328, 348, 367, 386, 405, 426, 445, 463, 485, 507, 519,
   535, 551, 558, 567, 574, 587, 594, 598, 602, 606, 610, 614]

/-- The array `ts_parse_actions`: each line is one entry, its index, its header
(`count`, `reusable`) and the actions that follow the header in the array. -/
def ts_parse_actions : List (Nat × TSParseActionEntry) :=
  [(0, TSParseActionEntry.mk 0 false []),
   (1, TSParseActionEntry.mk 1 false [RECOVER]),
   (3, TSParseActionEntry.mk 1 true [REDUCE sym_source_file 0 0 0]),
   (5, TSParseActionEntry.mk 1 false [SHIFT 36]),
   (7, TSParseActionEntry.mk 1 true [SHIFT 37]),
   (9, TSParseActionEntry.mk 1 false [SHIFT 31]),
   (11, TSParseActionEntry.mk 1 false [SHIFT 33]),
   (13, TSParseActionEntry.mk 1 true [SHIFT 4]),
   (15, TSParseActionEntry.mk 1 false [SHIFT 4]),
   (17, TSParseActionEntry.mk 1 true [SHIFT 38]),
   (19, TSParseActionEntry.mk 1 true [REDUCE aux_sym_source_file_repeat1 2 0 0]),
   (21, TSParseActionEntry.mk 2 false [REDUCE aux_sym_source_file_repeat1 2 0 0, SHIFT_REPEAT 36]),
   (24, TSParseActionEntry.mk 2 true [REDUCE aux_sym_source_file_repeat1 2 0 0, SHIFT_REPEAT 37]),
   (27, TSParseActionEntry.mk 2 false [REDUCE aux_sym_source_file_repeat1 2 0 0, SHIFT_REPEAT 31]),
   (30, TSParseActionEntry.mk 2 false [REDUCE aux_sym_source_file_repeat1 2 0 0, SHIFT_REPEAT 33]),
   (33, TSParseActionEntry.mk 2 true [REDUCE aux_sym_source_file_repeat1 2 0 0, SHIFT_REPEAT 4]),
   (36, TSParseActionEntry.mk 2 false [REDUCE aux_sym_source_file_repeat1 2 0 0, SHIFT_REPEAT 4]),
   (39, TSParseActionEntry.mk 2 true [REDUCE aux_sym_source_file_repeat1 2 0 0, SHIFT_REPEAT 38]),
   (42, TSParseActionEntry.mk 1 true [REDUCE sym_source_file 1 0 0]),
   (44, TSParseActionEntry.mk 1 true [REDUCE sym_path 1 0 0]),
   (46, TSParseActionEntry.mk 1 false [REDUCE sym_path 1 0 0]),
   (48, TSParseActionEntry.mk 2 false [REDUCE sym_path 1 0 0, SHIFT 37]),
   (51, TSParseActionEntry.mk 2 false [REDUCE sym_path 1 0 0, SHIFT 5]),
   (54, TSParseActionEntry.mk 2 false [REDUCE sym_path 1 0 0, SHIFT 38]),
   (57, TSParseActionEntry.mk 1 true [REDUCE aux_sym_path_repeat1 2 0 0]),
   (59, TSParseActionEntry.mk 1 false [REDUCE aux_sym_path_repeat1 2 0 0]),
   (61, TSParseActionEntry.mk 2 false [REDUCE aux_sym_path_repeat1 2 0 0, SHIFT_REPEAT 37]),
   (64, TSParseActionEntry.mk 2 false [REDUCE aux_sym_path_repeat1 2 0 0, SHIFT_REPEAT 5]),
   (67, TSParseActionEntry.mk 2 false [REDUCE aux_sym_path_repeat1 2 0 0, SHIFT_REPEAT 38]),
   (70, TSParseActionEntry.mk 1 true [REDUCE sym_variable 3 0 0]),
   (72, TSParseActionEntry.mk 1 false [REDUCE sym_variable 3 0 0]),
   (74, TSParseActionEntry.mk 1 true [REDUCE sym_url_components 1 0 0]),
   (76, TSParseActionEntry.mk 1 false [REDUCE sym_url_components 1 0 0]),
   (78, TSParseActionEntry.mk 1 false [SHIFT 27]),
   (80, TSParseActionEntry.mk 1 true [REDUCE sym_key 1 0 0]),
   (82, TSParseActionEntry.mk 1 false [REDUCE sym_key 1 0 0]),
   (84, TSParseActionEntry.mk 1 true [REDUCE sym_query_string 2 0 0]),
   (86, TSParseActionEntry.mk 1 false [REDUCE sym_query_string 2 0 0]),
   (88, TSParseActionEntry.mk 1 false [SHIFT 28]),
   (90, TSParseActionEntry.mk 1 true [REDUCE sym_query_param 1 0 0]),
   (92, TSParseActionEntry.mk 1 false [REDUCE sym_query_param 1 0 0]),
   (94, TSParseActionEntry.mk 1 false [SHIFT 32]),
   (96, TSParseActionEntry.mk 1 true [REDUCE sym_query_string 3 0 0]),
   (98, TSParseActionEntry.mk 1 false [REDUCE sym_query_string 3 0 0]),
   (100, TSParseActionEntry.mk 1 true [REDUCE aux_sym_query_string_repeat1 2 0 0]),
   (102, TSParseActionEntry.mk 1 false [REDUCE aux_sym_query_string_repeat1 2 0 0]),
   (104, TSParseActionEntry.mk 2 false [REDUCE aux_sym_query_string_repeat1 2 0 0, SHIFT_REPEAT 28]),
   (107, TSParseActionEntry.mk 1 true [REDUCE sym_path_param 2 0 0]),
   (109, TSParseActionEntry.mk 1 false [REDUCE sym_path_param 2 0 0]),
   (111, TSParseActionEntry.mk 1 true [REDUCE sym_value 1 0 0]),
   (113, TSParseActionEntry.mk 1 false [REDUCE sym_value 1 0 0]),
   (115, TSParseActionEntry.mk 1 true [REDUCE sym_query_param 3 0 0]),
   (117, TSParseActionEntry.mk 1 false [REDUCE sym_query_param 3 0 0]),
   (119, TSParseActionEntry.mk 1 true [REDUCE sym_url_line 2 0 0]),
   (121, TSParseActionEntry.mk 1 false [REDUCE sym_url_line 2 0 0]),
   (123, TSParseActionEntry.mk 1 true [REDUCE sym_url_components 2 0 0]),
   (125, TSParseActionEntry.mk 1 false [REDUCE sym_url_components 2 0 0]),
   (127, TSParseActionEntry.mk 1 true [REDUCE sym_url_line 1 0 0]),
   (129, TSParseActionEntry.mk 1 false [REDUCE sym_url_line 1 0 0]),
   (131, TSParseActionEntry.mk 1 true [REDUCE aux_sym_source_file_repeat1 1 0 0]),
   (133, TSParseActionEntry.mk 1 true [SHIFT 23]),
   (135, TSParseActionEntry.mk 1 false [REDUCE aux_sym_source_file_repeat1 1 0 0]),
   (137, TSParseActionEntry.mk 1 true [REDUCE sym_url_line 3 0 0]),
   (139, TSParseActionEntry.mk 1 false [REDUCE sym_url_line 3 0 0]),
   (141, TSParseActionEntry.mk 1 false [REDUCE aux_sym_source_file_repeat1 2 0 0]),
   (143, TSParseActionEntry.mk 1 true [REDUCE sym_protocol 2 0 0]),
   (145, TSParseActionEntry.mk 1 false [REDUCE sym_protocol 2 0 0]),
   (147, TSParseActionEntry.mk 1 true [SHIFT 8]),
   (149, TSParseActionEntry.mk 1 true [REDUCE sym_domain_and_port 3 0 0]),
   (151, TSParseActionEntry.mk 2 true [REDUCE sym_domain_and_port 1 0 0, SHIFT 34]),
   (154, TSParseActionEntry.mk 1 true [REDUCE sym_domain_and_port 1 0 0]),
   (156, TSParseActionEntry.mk 1 true [REDUCE sym_domain 1 0 0]),
   (158, TSParseActionEntry.mk 1 false [SHIFT 38]),
   (160, TSParseActionEntry.mk 1 false [SHIFT 16]),
   (162, TSParseActionEntry.mk 1 true [REDUCE sym_hostname 1 0 0]),
   (164, TSParseActionEntry.mk 1 true [SHIFT 29]),
   (166, TSParseActionEntry.mk 1 true [ACCEPT_INPUT]),
   (168, TSParseActionEntry.mk 1 true [SHIFT 26]),
   (170, TSParseActionEntry.mk 1 true [SHIFT 13]),
   (172, TSParseActionEntry.mk 1 true [SHIFT 39]),
   (174, TSParseActionEntry.mk 1 true [SHIFT 6])]
/-- Modelled from the spec: the look-up in the tables is done by the tree-sitter
runtime (`ts_language_lookup`), which is not in the repository.  Search of the
groups of one row of `ts_small_parse_table`: the value of the first group that
lists `symbol`, and 0 when none does. -/
def smallTableGroups : Nat → List Nat → Nat → Nat
  | 0, _, _ => 0
  | groups + 1, value :: count :: data, symbol =>
    if (data.take count).contains symbol then value
    else smallTableGroups groups (data.drop count) symbol
  | _ + 1, _, _ => 0

/-- Modelled from the spec: the table look-up of the tree-sitter runtime
(`ts_language_lookup`, not in the repository).  For a large state the entry
`ts_parse_table[state][symbol]`, for a small state the search of the row of
`ts_small_parse_table` that starts at the offset `ts_small_parse_table_map`
gives.  The result is
an index into `ts_parse_actions` for a token, the next state for a
non-terminal, and 0 when the table has no entry. -/
def ts_language_lookup (state symbol : Nat) : Nat :=
  if LARGE_STATE_COUNT ≤ state then
    match ts_small_parse_table_map.get? (state - LARGE_STATE_COUNT) with
    | none => 0
    | some index =>
      match ts_small_parse_table.find? fun row => row.1 == index with
      | some (_, groups :: data) => smallTableGroups groups data symbol
      | _ => 0
  else
    match ts_parse_table.get? state with
    | none => 0
    | some row =>
      match row.find? fun e => e.1 == symbol with
      | none => 0
      | some e => e.2

/-- The entry of `ts_parse_actions` at `index`; the array has no entry header
at other indices. -/
def ts_parse_action_entry (index : Nat) : Option TSParseActionEntry :=
  (ts_parse_actions.find? fun e => e.1 == index).map fun e => e.2

/-- The actions the tables give for token `symbol` in parse state `state`. -/
def ts_language_actions (state symbol : Nat) : List TSParseAction :=
  match ts_parse_action_entry (ts_language_lookup state symbol) with
  | none => []
  | some entry => entry.actions

/-- The `lex_state` of a parse state (`ts_lex_modes[state].lex_state`). -/
def lexMode (state : Nat) : Nat :=
  (ts_lex_modes.get? state).getD 0

/-! ## The shift/reduce driver -/

/-- A syntax tree: a token with its text, or a node built by a reduction. -/
inductive Tree where
  | leaf (symbol : Nat) (text : List Nat)
  | node (symbol : Nat) (children : List Tree)
deriving Repr

/-- The symbol of a tree. -/
def Tree.symbol : Tree → Nat
  | .leaf symbol _ => symbol
  | .node symbol _ => symbol

mutual

/-- Equality of two trees is decidable. -/
def Tree.decEq : (a b : Tree) → Decidable (a = b)
  | .leaf s t, .leaf s' t' =>
    if h : s = s' ∧ t = t' then isTrue (by rw [h.1, h.2]) else
      isFalse (by intro e; injection e with e1 e2; exact h ⟨e1, e2⟩)
  | .leaf _ _, .node _ _ => isFalse (by intro e; cases e)
  | .node _ _, .leaf _ _ => isFalse (by intro e; cases e)
  | .node s cs, .node s' cs' =>
    if h : s = s' then
      match Tree.decEqList cs cs' with
      | isTrue h2 => isTrue (by rw [h, h2])
      | isFalse h2 => isFalse (by intro e; injection e with e1 e2; exact h2 e2)
    else isFalse (by intro e; injection e with e1 e2; exact h e1)

/-- Equality of two lists of trees is decidable. -/
def Tree.decEqList : (as bs : List Tree) → Decidable (as = bs)
  | [], [] => isTrue rfl
  | [], _ :: _ => isFalse (by intro e; cases e)
  | _ :: _, [] => isFalse (by intro e; cases e)
  | a :: as, b :: bs =>
    match Tree.decEq a b with
    | isTrue h =>
      match Tree.decEqList as bs with
      | isTrue h2 => isTrue (by rw [h, h2])
      | isFalse h2 => isFalse (by intro e; injection e with e1 e2; exact h2 e2)
    | isFalse h => isFalse (by intro e; injection e with e1 e2; exact h e1)

end

instance : DecidableEq Tree := Tree.decEq

/-- How one run of the driver ends. -/
inductive Outcome where
  | accepted (tree : Tree)
  | lexError (state : Nat) (position : Nat)
  | noAction (state : Nat) (symbol : Nat) (position : Nat)
  | stackError
  | outOfFuel
deriving DecidableEq, Repr

/-- The state on top of the stack; the driver starts in parse state 1. -/
def topState (stack : List (Nat × Tree)) : Nat :=
  match stack with
  | [] => 1
  | e :: _ => e.1

/-- The text of a token of the remaining input. -/
def tokenText (input : List Nat) (token : Token) : List Nat :=
  (input.drop token.start).take (token.stop - token.start)

/-- Modelled from the spec: the effect of one parse action in the driver of the
tree-sitter runtime (not in the repository).  `SHIFT` pushes the token and
moves behind it; `REDUCE` pops `childCount` trees, pushes the node and goes to
the state the table gives for the uncovered state and the symbol, keeping the
look-ahead token; `ACCEPT_INPUT` ends the run with the tree on top of the
stack; `SHIFT_REPEAT` and `RECOVER` are no moves of an error-free run.
`run` is the rest of the run. -/
def parseAction (run : List (Nat × Tree) → List Nat → Nat → Option Token → List Outcome)
    (stack : List (Nat × Tree)) (input : List Nat) (position : Nat) (token : Token)
    (action : TSParseAction) : List Outcome :=
  match action with
  | SHIFT next =>
    run ((next, .leaf token.symbol (tokenText input token)) :: stack)
      (input.drop token.stop) (position + token.stop) none
  | REDUCE symbol childCount _ _ =>
    if childCount ≤ stack.length then
      run
        ((ts_language_lookup (topState (stack.drop childCount)) symbol,
          .node symbol ((stack.take childCount).map fun e => e.2).reverse) ::
            stack.drop childCount)
        input position (some token)
    else [.stackError]
  | ACCEPT_INPUT =>
    match stack with
    | [] => [.stackError]
    | e :: _ => [.accepted e.2]
  | SHIFT_REPEAT _ => []
  | RECOVER => []

/-- Modelled from the spec: the parser driver is the tree-sitter runtime, which
is not in the repository; this is the table-driven shift/reduce automaton that
the tables of `parser.c` are written for (section 2: the parser requests each
token from the lexer under the context of its current state and builds a tree
of typed nodes).  `parseRun fuel stack input position lookahead` lists the
outcomes of all runs from a configuration: the next token is lexed by `ts_lex`
in the `lex_state` of the state on top of the stack, and every action of the
table entry for (state, token) is followed, so that an entry with a reduction
and a shift forks.  A token is kept as look-ahead across reductions.  Each
lexer call and each action takes one unit of `fuel`. -/
def parseRun : Nat → List (Nat × Tree) → List Nat → Nat → Option Token → List Outcome
  | 0, _, _, _, _ => [.outOfFuel]
  | fuel + 1, stack, input, position, none =>
    match ts_lex input (lexMode (topState stack)) with
    | none => [.lexError (topState stack) position]
    | some token => parseRun fuel stack input position (some token)
  | fuel + 1, stack, input, position, some token =>
    match ts_language_actions (topState stack) token.symbol with
    | [] => [.noAction (topState stack) token.symbol position]
    | actions => actions.flatMap fun action =>
      parseAction (parseRun fuel) stack input position token action

/-- All outcomes of parsing `input` from the start state with `fuel` steps. -/
def parse (fuel : Nat) (input : List Nat) : List Outcome :=
  parseRun fuel [] input 0 none

/-- The trees of the accepting runs. -/
def acceptedTrees : List Outcome → List Tree
  | [] => []
  | .accepted t :: rest => t :: acceptedTrees rest
  | _ :: rest => acceptedTrees rest

/-- Whether an outcome is a run that ended for lack of fuel. -/
def Outcome.isOutOfFuel : Outcome → Bool
  | .outOfFuel => true
  | _ => false

/-! ## Character predicates and auxiliary definitions used in the statements -/

/-- The characters the lexer skips outside a token: TAB, LF, VT, FF, CR and the
space (the test `('\t' <= lookahead && lookahead <= '\r') || lookahead == ' '`). -/
def isWhitespace (c : Nat) : Bool :=
  decide ((9 ≤ c ∧ c ≤ 13) ∨ c = 32)

/-- The decimal digits. -/
def isDigit (c : Nat) : Bool :=
  decide (48 ≤ c ∧ c ≤ 57)

/-- The ASCII letters. -/
def isLetter (c : Nat) : Bool :=
  decide ((65 ≤ c ∧ c ≤ 90) ∨ (97 ≤ c ∧ c ≤ 122))

/-- The continuation characters of a keyword: ASCII letter, digit, `-` or `.`. -/
def isContinuation (c : Nat) : Bool :=
  isLetter c || isDigit c || decide (c = 45) || decide (c = 46)

/-- Membership in `sym_path_segment_character_set_1`. -/
def isPathChar (c : Nat) : Bool :=
  set_contains sym_path_segment_character_set_1 10 c

/-- The characters a query value runs over: everything but NUL and `&` (the
test `lookahead != 0 && lookahead != '&'`). -/
def isValueChar (c : Nat) : Bool :=
  decide (c ≠ 0 ∧ c ≠ 38)

/-- The lexer loop on a prefix of the input that is consumed entirely: the
state, the position, the token start and the last accepted (symbol, end) after
the prefix; `none` when the loop ends inside the prefix. -/
def lexPrefix : List Nat → Nat → Nat → Nat → Option (Nat × Nat) →
    Option (Nat × Nat × Nat × Option (Nat × Nat))
  | [], state, pos, start, result => some (state, pos, start, result)
  | lookahead :: rest, state, pos, start, result =>
    match ts_lex_state state false lookahead with
    | none => none
    | some c =>
      match c.move with
      | ADVANCE next => lexPrefix rest next (pos + 1) start (acceptToken c pos result)
      | SKIP next => lexPrefix rest next (pos + 1) (pos + 1) (acceptToken c pos result)
      | END_STATE => none

/-- The number of cases of the `switch` of `ts_lex` (labels 0 .. 339). -/
abbrev LEX_STATE_COUNT : Nat := 340

/-- A check over the finitely many lexer states and character classes: every
state in `states` accepts a symbol of `symbols`, advances into `target` on a
character that satisfies `p`, and ends on any other character and at end of
input. -/
def lexRunsWhile (states target : Nat → Bool) (p : Nat → Bool) (symbols : List Nat) : Bool :=
  (List.range LEX_STATE_COUNT).all fun s =>
    !states s ||
      ((match ts_lex_state s true 0 with
        | some ⟨some a, END_STATE⟩ => symbols.contains a
        | _ => false) &&
      lexBreakpoints.all fun r =>
        match ts_lex_state s false r with
        | some ⟨some a, ADVANCE n⟩ =>
          symbols.contains a && p r && target n && decide (n < LEX_STATE_COUNT)
        | some ⟨some a, END_STATE⟩ => symbols.contains a && !p r
        | _ => false)

/-- The states of `ts_lex` that accept `sym_path_segment` or
`aux_sym_domain_token1` and from which no keyword can be completed: the states
42..112 and 125..327 without the states on the way to a keyword. -/
def plainPathState (s : Nat) : Bool :=
  ((decide (42 ≤ s) && decide (s ≤ 112)) || (decide (125 ≤ s) && decide (s ≤ 327))) &&
    !([286, 290, 294, 298, 302, 303, 308, 312, 313, 314].contains s)

/-- The keywords of the lexer with their symbols. -/
def keywordTable : List (List Nat × Nat) :=
  [(codes "http", anon_sym_http), (codes "https", anon_sym_https), (codes "ftp", anon_sym_ftp),
   (codes "ws", anon_sym_ws), (codes "wss", anon_sym_wss),
   (codes "localhost", anon_sym_localhost)]

/-- The check made on the case of a keyword state for a continuation character:
the case accepts the keyword `symbol` and advances into a state that accepts
only other symbols. -/
def keywordStepOk (symbol : Nat) (c : Option LexCase) : Bool :=
  match c with
  | some ⟨some a, ADVANCE n⟩ =>
    a == symbol && decide (n < LEX_STATE_COUNT) &&
      (plainPathState n ||
        ((n == 32 || n == 38) && symbol != anon_sym_https && symbol != anon_sym_wss)) &&
      symbol != sym_path_segment && symbol != aux_sym_domain_token1
  | _ => false

/-- The characters that may follow the keyword `localhost`: `/`, `:`, `?` and
the whitespace characters. -/
def isHostDelimiter (c : Nat) : Bool :=
  decide (c = 47 ∨ c = 58 ∨ c = 63) || isWhitespace c

/-- The states of `ts_lex` without any transition. -/
def isFinalLexState (s : Nat) : Bool :=
  [27, 31, 33, 37, 39, 40, 113, 115, 120, 329, 331, 333, 334, 335].contains s

/-- The symbol that a state without transitions accepts. -/
def finalLexSymbol (s : Nat) : Nat :=
  match ts_lex_state s true 0 with
  | some ⟨some a, _⟩ => a
  | _ => 0

/-- A check over the finitely many lexer states and character classes: each
state in `states` has no transition and accepts its `finalLexSymbol`. -/
def lexFinalStates (states : Nat → Bool) : Bool :=
  (List.range LEX_STATE_COUNT).all fun s =>
    !states s ||
      ((match ts_lex_state s true 0 with
        | some ⟨some _, END_STATE⟩ => true
        | _ => false) &&
      lexBreakpoints.all fun r =>
        match ts_lex_state s false r with
        | some ⟨some a, END_STATE⟩ => a == finalLexSymbol s
        | _ => false)

/-- The check `lexStaysIn` makes on one case: the symbol it accepts, if any, is
one of `symbols`, and its move, if any, leads into `states`. -/
def lexCaseStaysIn (states : Nat → Bool) (symbols : List Nat) (c : Option LexCase) : Bool :=
  match c with
  | none => true
  | some ⟨acc, mv⟩ =>
    (match acc with
      | none => true
      | some a => symbols.contains a) &&
    (match mv with
      | ADVANCE n => states n && decide (n < LEX_STATE_COUNT)
      | SKIP n => states n && decide (n < LEX_STATE_COUNT)
      | END_STATE => true)

/-- A check over the finitely many lexer states and character classes: the
states in `states` accept only symbols of `symbols` and move only into
`states`. -/
def lexStaysIn (states : Nat → Bool) (symbols : List Nat) : Bool :=
  (List.range LEX_STATE_COUNT).all fun s =>
    !states s ||
      (lexCaseStaysIn states symbols (ts_lex_state s true 0) &&
        lexBreakpoints.all fun r => lexCaseStaysIn states symbols (ts_lex_state s false r))

/-- The characters of a query key: letters, digits, `-` and `_`. -/
def isKeyChar (c : Nat) : Bool :=
  decide (c = 45) || isDigit c || isLetter c || decide (c = 95)

/-- Every lexer state but the states 0, 41, 5, 3, 4 and 39, through which the
token `://` is reached. -/
def notSchemeSeparatorState (s : Nat) : Bool :=
  !([0, 41, 5, 3, 4, 39].contains s)

/-- All token symbols but `anon_sym_COLON_SLASH_SLASH`. -/
def symbolsButSchemeSeparator : List Nat :=
  (List.range TOKEN_COUNT).filter fun a => a != anon_sym_COLON_SLASH_SLASH

/-- Every lexer state but the state 0 and the port states 115..119. -/
def notPortState (s : Nat) : Bool :=
  !([0, 115, 116, 117, 118, 119].contains s)

/-- All token symbols but `sym_port`. -/
def symbolsButPort : List Nat :=
  (List.range TOKEN_COUNT).filter fun a => a != sym_port

/-- The value of a string of decimal digits. -/
def decimalValue (ds : List Nat) : Nat :=
  ds.foldl (fun acc c => 10 * acc + (c - 48)) 0

/-- The states of `ts_lex` inside a query value: 330, 337, 338 and 339. -/
def valueState (s : Nat) : Bool :=
  [330, 337, 338, 339].contains s

/-- The five scheme keywords with their symbols and the lexer state that
accepts each. -/
def schemeTable : List (List Nat × Nat × Nat) :=
  [(codes "http", anon_sym_http, 29), (codes "https", anon_sym_https, 32),
   (codes "ftp", anon_sym_ftp, 34), (codes "ws", anon_sym_ws, 35),
   (codes "wss", anon_sym_wss, 38)]

/-- The states of `ts_lex` that can be reached from lex state 2. -/
def pathOnlyState (s : Nat) : Bool :=
  [2, 20, 40, 120, 327, 329].contains s

/-- The tokens that lex state 2 can return. -/
def pathOnlySymbols : List Nat :=
  [anon_sym_COLON, anon_sym_SLASH, sym_path_segment, sym_variable_delim_start]

/-- The tokens that the states inside a query value accept. -/
def valueSymbols : List Nat :=
  [aux_sym_value_token1, sym_variable_delim_start]

/-- Whether the lexer ends in state `n` at the end of input. -/
def lexEofEnds (n : Nat) : Bool :=
  match ts_lex_state n true 0 with
  | some ⟨_, END_STATE⟩ => true
  | none => true
  | _ => false

/-- A check over the finitely many lexer states: at the end of input every
state ends at once or moves to a state that ends. -/
def lexEofTwoMoves : Bool :=
  (List.range LEX_STATE_COUNT).all fun s =>
    match ts_lex_state s true 0 with
    | some ⟨_, ADVANCE n⟩ => lexEofEnds n
    | some ⟨_, SKIP n⟩ => lexEofEnds n
    | _ => true

/-- The pairs (symbol, value) that the groups of one row of
`ts_small_parse_table` list. -/
def smallTablePairs : Nat → List Nat → List (Nat × Nat)
  | 0, _ => []
  | groups + 1, value :: count :: data =>
    (data.take count).map (fun x => (x, value)) ++ smallTablePairs groups (data.drop count)
  | _ + 1, _ => []

/-- The pairs (symbol, value) of the table row of a parse state: the entries
that `ts_language_lookup` can find there. -/
def rowPairs (state : Nat) : List (Nat × Nat) :=
  if LARGE_STATE_COUNT ≤ state then
    match ts_small_parse_table_map.get? (state - LARGE_STATE_COUNT) with
    | none => []
    | some index =>
      match ts_small_parse_table.find? fun row => row.1 == index with
      | some (_, groups :: data) => smallTablePairs groups data
      | _ => []
  else
    match ts_parse_table.get? state with
    | none => []
    | some row => row

/-- The actions stored at an index of `ts_parse_actions`. -/
def actionsAt (index : Nat) : List TSParseAction :=
  match ts_parse_action_entry index with
  | none => []
  | some entry => entry.actions

mutual

/-- Whether a node or token with the given symbol occurs in a tree. -/
def Tree.hasSymbol : Tree → Nat → Bool
  | .leaf s _, symbol => s == symbol
  | .node s children, symbol => s == symbol || Tree.hasSymbolList children symbol

/-- Whether a node or token with the given symbol occurs in a list of trees. -/
def Tree.hasSymbolList : List Tree → Nat → Bool
  | [], _ => false
  | t :: ts, symbol => Tree.hasSymbol t symbol || Tree.hasSymbolList ts symbol

end

/-- Whether an action, when it is a reduction, has a symbol and child count
that satisfy `p`; every other action passes. -/
def reduceSatisfies (p : Nat → Nat → Bool) : TSParseAction → Bool
  | REDUCE symbol childCount _ _ => p symbol childCount
  | _ => true

/-- The actions of the parse tables, state by state: for each state the tokens
with an entry and the actions of `ts_parse_actions` at that entry.  The list is
the tables read through `rowPairs` and `actionsAt` (`tableActions_eq`). -/
def tableActions : List (Nat × List (Nat × List TSParseAction)) :=
  [
   (0, [
     (ts_builtin_sym_end, [RECOVER]), (anon_sym_http, [RECOVER]), (anon_sym_https, [RECOVER]),
     (anon_sym_ftp, [RECOVER]), (anon_sym_ws, [RECOVER]), (anon_sym_wss, [RECOVER]),
     (anon_sym_COLON_SLASH_SLASH, [RECOVER]), (anon_sym_COLON, [RECOVER]),
     (anon_sym_localhost, [RECOVER]), (sym_port, [RECOVER]), (anon_sym_SLASH, [RECOVER]),
     (sym_variable_delim_start, [RECOVER]), (sym_variable_delim_end, [RECOVER]),
     (anon_sym_QMARK, [RECOVER]), (anon_sym_AMP, [RECOVER]), (anon_sym_EQ, [RECOVER])]),
   (1, [
     (ts_builtin_sym_end, [REDUCE sym_source_file 0 0 0]), (anon_sym_http, [SHIFT 36]),
     (anon_sym_https, [SHIFT 36]), (anon_sym_ftp, [SHIFT 36]), (anon_sym_ws, [SHIFT 36]),
     (anon_sym_wss, [SHIFT 36]), (anon_sym_COLON, [SHIFT 37]),
     (aux_sym_domain_token1, [SHIFT 31]), (anon_sym_localhost, [SHIFT 33]),
     (aux_sym_hostname_token1, [SHIFT 33]), (anon_sym_SLASH, [SHIFT 4]),
     (sym_path_segment, [SHIFT 4]), (sym_variable_delim_start, [SHIFT 38])]),
   (2, [
     (ts_builtin_sym_end, [REDUCE aux_sym_source_file_repeat1 2 0 0]),
     (anon_sym_http, [REDUCE aux_sym_source_file_repeat1 2 0 0, SHIFT_REPEAT 36]),
     (anon_sym_https, [REDUCE aux_sym_source_file_repeat1 2 0 0, SHIFT_REPEAT 36]),
     (anon_sym_ftp, [REDUCE aux_sym_source_file_repeat1 2 0 0, SHIFT_REPEAT 36]),
     (anon_sym_ws, [REDUCE aux_sym_source_file_repeat1 2 0 0, SHIFT_REPEAT 36]),
     (anon_sym_wss, [REDUCE aux_sym_source_file_repeat1 2 0 0, SHIFT_REPEAT 36]),
     (anon_sym_COLON, [REDUCE aux_sym_source_file_repeat1 2 0 0, SHIFT_REPEAT 37]),
     (aux_sym_domain_token1, [REDUCE aux_sym_source_file_repeat1 2 0 0, SHIFT_REPEAT 31]),
     (anon_sym_localhost, [REDUCE aux_sym_source_file_repeat1 2 0 0, SHIFT_REPEAT 33]),
     (aux_sym_hostname_token1, [REDUCE aux_sym_source_file_repeat1 2 0 0, SHIFT_REPEAT 33]),
     (anon_sym_SLASH, [REDUCE aux_sym_source_file_repeat1 2 0 0, SHIFT_REPEAT 4]),
     (sym_path_segment, [REDUCE aux_sym_source_file_repeat1 2 0 0, SHIFT_REPEAT 4]),
     (sym_variable_delim_start, [REDUCE aux_sym_source_file_repeat1 2 0 0, SHIFT_REPEAT 38])]),
   (3, [
     (ts_builtin_sym_end, [REDUCE sym_source_file 1 0 0]), (anon_sym_http, [SHIFT 36]),
     (anon_sym_https, [SHIFT 36]), (anon_sym_ftp, [SHIFT 36]), (anon_sym_ws, [SHIFT 36]),
     (anon_sym_wss, [SHIFT 36]), (anon_sym_COLON, [SHIFT 37]),
     (aux_sym_domain_token1, [SHIFT 31]), (anon_sym_localhost, [SHIFT 33]),
     (aux_sym_hostname_token1, [SHIFT 33]), (anon_sym_SLASH, [SHIFT 4]),
     (sym_path_segment, [SHIFT 4]), (sym_variable_delim_start, [SHIFT 38])]),
   (4, [
     (anon_sym_COLON, [REDUCE sym_path 1 0 0, SHIFT 37]),
     (sym_variable_delim_start, [REDUCE sym_path 1 0 0, SHIFT 38]),
     (ts_builtin_sym_end, [REDUCE sym_path 1 0 0]), (anon_sym_LF, [REDUCE sym_path 1 0 0]),
     (anon_sym_SLASH, [REDUCE sym_path 1 0 0, SHIFT 5]),
     (sym_path_segment, [REDUCE sym_path 1 0 0, SHIFT 5]),
     (anon_sym_http, [REDUCE sym_path 1 0 0]), (anon_sym_https, [REDUCE sym_path 1 0 0]),
     (anon_sym_ftp, [REDUCE sym_path 1 0 0]), (anon_sym_ws, [REDUCE sym_path 1 0 0]),
     (anon_sym_wss, [REDUCE sym_path 1 0 0]), (aux_sym_domain_token1, [REDUCE sym_path 1 0 0]),
     (anon_sym_localhost, [REDUCE sym_path 1 0 0]),
     (aux_sym_hostname_token1, [REDUCE sym_path 1 0 0]),
     (anon_sym_QMARK, [REDUCE sym_path 1 0 0])]),
   (5, [
     (anon_sym_COLON, [REDUCE aux_sym_path_repeat1 2 0 0, SHIFT_REPEAT 37]),
     (sym_variable_delim_start, [REDUCE aux_sym_path_repeat1 2 0 0, SHIFT_REPEAT 38]),
     (ts_builtin_sym_end, [REDUCE aux_sym_path_repeat1 2 0 0]),
     (anon_sym_LF, [REDUCE aux_sym_path_repeat1 2 0 0]),
     (anon_sym_SLASH, [REDUCE aux_sym_path_repeat1 2 0 0, SHIFT_REPEAT 5]),
     (sym_path_segment, [REDUCE aux_sym_path_repeat1 2 0 0, SHIFT_REPEAT 5]),
     (anon_sym_http, [REDUCE aux_sym_path_repeat1 2 0 0]),
     (anon_sym_https, [REDUCE aux_sym_path_repeat1 2 0 0]),
     (anon_sym_ftp, [REDUCE aux_sym_path_repeat1 2 0 0]),
     (anon_sym_ws, [REDUCE aux_sym_path_repeat1 2 0 0]),
     (anon_sym_wss, [REDUCE aux_sym_path_repeat1 2 0 0]),
     (aux_sym_domain_token1, [REDUCE aux_sym_path_repeat1 2 0 0]),
     (anon_sym_localhost, [REDUCE aux_sym_path_repeat1 2 0 0]),
     (aux_sym_hostname_token1, [REDUCE aux_sym_path_repeat1 2 0 0]),
     (anon_sym_QMARK, [REDUCE aux_sym_path_repeat1 2 0 0])]),
   (6, [
     (ts_builtin_sym_end, [REDUCE sym_variable 3 0 0]),
     (anon_sym_LF, [REDUCE sym_variable 3 0 0]), (anon_sym_http, [REDUCE sym_variable 3 0 0]),
     (anon_sym_https, [REDUCE sym_variable 3 0 0]), (anon_sym_ftp, [REDUCE sym_variable 3 0 0]),
     (anon_sym_ws, [REDUCE sym_variable 3 0 0]), (anon_sym_wss, [REDUCE sym_variable 3 0 0]),
     (anon_sym_COLON, [REDUCE sym_variable 3 0 0]),
     (aux_sym_domain_token1, [REDUCE sym_variable 3 0 0]),
     (anon_sym_localhost, [REDUCE sym_variable 3 0 0]),
     (aux_sym_hostname_token1, [REDUCE sym_variable 3 0 0]),
     (anon_sym_SLASH, [REDUCE sym_variable 3 0 0]),
     (sym_path_segment, [REDUCE sym_variable 3 0 0]),
     (sym_variable_delim_start, [REDUCE sym_variable 3 0 0]),
     (anon_sym_QMARK, [REDUCE sym_variable 3 0 0]), (anon_sym_AMP, [REDUCE sym_variable 3 0 0]),
     (anon_sym_EQ, [REDUCE sym_variable 3 0 0])]),
   (7, [
     (anon_sym_QMARK, [SHIFT 27]), (ts_builtin_sym_end, [REDUCE sym_url_components 1 0 0]),
     (anon_sym_LF, [REDUCE sym_url_components 1 0 0]),
     (anon_sym_http, [REDUCE sym_url_components 1 0 0]),
     (anon_sym_https, [REDUCE sym_url_components 1 0 0]),
     (anon_sym_ftp, [REDUCE sym_url_components 1 0 0]),
     (anon_sym_ws, [REDUCE sym_url_components 1 0 0]),
     (anon_sym_wss, [REDUCE sym_url_components 1 0 0]),
     (anon_sym_COLON, [REDUCE sym_url_components 1 0 0]),
     (aux_sym_domain_token1, [REDUCE sym_url_components 1 0 0]),
     (anon_sym_localhost, [REDUCE sym_url_components 1 0 0]),
     (aux_sym_hostname_token1, [REDUCE sym_url_components 1 0 0]),
     (anon_sym_SLASH, [REDUCE sym_url_components 1 0 0]),
     (sym_path_segment, [REDUCE sym_url_components 1 0 0]),
     (sym_variable_delim_start, [REDUCE sym_url_components 1 0 0])]),
   (8, [
     (ts_builtin_sym_end, [REDUCE sym_key 1 0 0]), (anon_sym_LF, [REDUCE sym_key 1 0 0]),
     (anon_sym_http, [REDUCE sym_key 1 0 0]), (anon_sym_https, [REDUCE sym_key 1 0 0]),
     (anon_sym_ftp, [REDUCE sym_key 1 0 0]), (anon_sym_ws, [REDUCE sym_key 1 0 0]),
     (anon_sym_wss, [REDUCE sym_key 1 0 0]), (anon_sym_COLON, [REDUCE sym_key 1 0 0]),
     (aux_sym_domain_token1, [REDUCE sym_key 1 0 0]),
     (anon_sym_localhost, [REDUCE sym_key 1 0 0]),
     (aux_sym_hostname_token1, [REDUCE sym_key 1 0 0]),
     (anon_sym_SLASH, [REDUCE sym_key 1 0 0]), (sym_path_segment, [REDUCE sym_key 1 0 0]),
     (sym_variable_delim_start, [REDUCE sym_key 1 0 0]), (anon_sym_AMP, [REDUCE sym_key 1 0 0]),
     (anon_sym_EQ, [REDUCE sym_key 1 0 0])]),
   (9, [
     (anon_sym_AMP, [SHIFT 28]), (ts_builtin_sym_end, [REDUCE sym_query_string 2 0 0]),
     (anon_sym_LF, [REDUCE sym_query_string 2 0 0]),
     (anon_sym_http, [REDUCE sym_query_string 2 0 0]),
     (anon_sym_https, [REDUCE sym_query_string 2 0 0]),
     (anon_sym_ftp, [REDUCE sym_query_string 2 0 0]),
     (anon_sym_ws, [REDUCE sym_query_string 2 0 0]),
     (anon_sym_wss, [REDUCE sym_query_string 2 0 0]),
     (anon_sym_COLON, [REDUCE sym_query_string 2 0 0]),
     (aux_sym_domain_token1, [REDUCE sym_query_string 2 0 0]),
     (anon_sym_localhost, [REDUCE sym_query_string 2 0 0]),
     (aux_sym_hostname_token1, [REDUCE sym_query_string 2 0 0]),
     (anon_sym_SLASH, [REDUCE sym_query_string 2 0 0]),
     (sym_path_segment, [REDUCE sym_query_string 2 0 0]),
     (sym_variable_delim_start, [REDUCE sym_query_string 2 0 0])]),
   (10, [
     (anon_sym_EQ, [SHIFT 32]), (ts_builtin_sym_end, [REDUCE sym_query_param 1 0 0]),
     (anon_sym_LF, [REDUCE sym_query_param 1 0 0]),
     (anon_sym_http, [REDUCE sym_query_param 1 0 0]),
     (anon_sym_https, [REDUCE sym_query_param 1 0 0]),
     (anon_sym_ftp, [REDUCE sym_query_param 1 0 0]),
     (anon_sym_ws, [REDUCE sym_query_param 1 0 0]),
     (anon_sym_wss, [REDUCE sym_query_param 1 0 0]),
     (anon_sym_COLON, [REDUCE sym_query_param 1 0 0]),
     (aux_sym_domain_token1, [REDUCE sym_query_param 1 0 0]),
     (anon_sym_localhost, [REDUCE sym_query_param 1 0 0]),
     (aux_sym_hostname_token1, [REDUCE sym_query_param 1 0 0]),
     (anon_sym_SLASH, [REDUCE sym_query_param 1 0 0]),
     (sym_path_segment, [REDUCE sym_query_param 1 0 0]),
     (sym_variable_delim_start, [REDUCE sym_query_param 1 0 0]),
     (anon_sym_AMP, [REDUCE sym_query_param 1 0 0])]),
   (11, [
     (anon_sym_AMP, [SHIFT 28]), (ts_builtin_sym_end, [REDUCE sym_query_string 3 0 0]),
     (anon_sym_LF, [REDUCE sym_query_string 3 0 0]),
     (anon_sym_http, [REDUCE sym_query_string 3 0 0]),
     (anon_sym_https, [REDUCE sym_query_string 3 0 0]),
     (anon_sym_ftp, [REDUCE sym_query_string 3 0 0]),
     (anon_sym_ws, [REDUCE sym_query_string 3 0 0]),
     (anon_sym_wss, [REDUCE sym_query_string 3 0 0]),
     (anon_sym_COLON, [REDUCE sym_query_string 3 0 0]),
     (aux_sym_domain_token1, [REDUCE sym_query_string 3 0 0]),
     (anon_sym_localhost, [REDUCE sym_query_string 3 0 0]),
     (aux_sym_hostname_token1, [REDUCE sym_query_string 3 0 0]),
     (anon_sym_SLASH, [REDUCE sym_query_string 3 0 0]),
     (sym_path_segment, [REDUCE sym_query_string 3 0 0]),
     (sym_variable_delim_start, [REDUCE sym_query_string 3 0 0])]),
   (12, [
     (anon_sym_AMP, [REDUCE aux_sym_query_string_repeat1 2 0 0, SHIFT_REPEAT 28]),
     (ts_builtin_sym_end, [REDUCE aux_sym_query_string_repeat1 2 0 0]),
     (anon_sym_LF, [REDUCE aux_sym_query_string_repeat1 2 0 0]),
     (anon_sym_http, [REDUCE aux_sym_query_string_repeat1 2 0 0]),
     (anon_sym_https, [REDUCE aux_sym_query_string_repeat1 2 0 0]),
     (anon_sym_ftp, [REDUCE aux_sym_query_string_repeat1 2 0 0]),
     (anon_sym_ws, [REDUCE aux_sym_query_string_repeat1 2 0 0]),
     (anon_sym_wss, [REDUCE aux_sym_query_string_repeat1 2 0 0]),
     (anon_sym_COLON, [REDUCE aux_sym_query_string_repeat1 2 0 0]),
     (aux_sym_domain_token1, [REDUCE aux_sym_query_string_repeat1 2 0 0]),
     (anon_sym_localhost, [REDUCE aux_sym_query_string_repeat1 2 0 0]),
     (aux_sym_hostname_token1, [REDUCE aux_sym_query_string_repeat1 2 0 0]),
     (anon_sym_SLASH, [REDUCE aux_sym_query_string_repeat1 2 0 0]),
     (sym_path_segment, [REDUCE aux_sym_query_string_repeat1 2 0 0]),
     (sym_variable_delim_start, [REDUCE aux_sym_query_string_repeat1 2 0 0])]),
   (13, [
     (ts_builtin_sym_end, [REDUCE sym_path_param 2 0 0]),
     (anon_sym_LF, [REDUCE sym_path_param 2 0 0]),
     (anon_sym_http, [REDUCE sym_path_param 2 0 0]),
     (anon_sym_https, [REDUCE sym_path_param 2 0 0]),
     (anon_sym_ftp, [REDUCE sym_path_param 2 0 0]),
     (anon_sym_ws, [REDUCE sym_path_param 2 0 0]),
     (anon_sym_wss, [REDUCE sym_path_param 2 0 0]),
     (anon_sym_COLON, [REDUCE sym_path_param 2 0 0]),
     (aux_sym_domain_token1, [REDUCE sym_path_param 2 0 0]),
     (anon_sym_localhost, [REDUCE sym_path_param 2 0 0]),
     (aux_sym_hostname_token1, [REDUCE sym_path_param 2 0 0]),
     (anon_sym_SLASH, [REDUCE sym_path_param 2 0 0]),
     (sym_path_segment, [REDUCE sym_path_param 2 0 0]),
     (sym_variable_delim_start, [REDUCE sym_path_param 2 0 0]),
     (anon_sym_QMARK, [REDUCE sym_path_param 2 0 0])]),
   (14, [
     (anon_sym_COLON, [SHIFT 37]), (aux_sym_domain_token1, [SHIFT 31]),
     (anon_sym_SLASH, [SHIFT 4]), (sym_path_segment, [SHIFT 4]),
     (sym_variable_delim_start, [SHIFT 38]), (anon_sym_localhost, [SHIFT 33]),
     (aux_sym_hostname_token1, [SHIFT 33])]),
   (15, [
     (ts_builtin_sym_end, [REDUCE aux_sym_query_string_repeat1 2 0 0]),
     (anon_sym_LF, [REDUCE aux_sym_query_string_repeat1 2 0 0]),
     (anon_sym_http, [REDUCE aux_sym_query_string_repeat1 2 0 0]),
     (anon_sym_https, [REDUCE aux_sym_query_string_repeat1 2 0 0]),
     (anon_sym_ftp, [REDUCE aux_sym_query_string_repeat1 2 0 0]),
     (anon_sym_ws, [REDUCE aux_sym_query_string_repeat1 2 0 0]),
     (anon_sym_wss, [REDUCE aux_sym_query_string_repeat1 2 0 0]),
     (anon_sym_COLON, [REDUCE aux_sym_query_string_repeat1 2 0 0]),
     (aux_sym_domain_token1, [REDUCE aux_sym_query_string_repeat1 2 0 0]),
     (anon_sym_localhost, [REDUCE aux_sym_query_string_repeat1 2 0 0]),
     (aux_sym_hostname_token1, [REDUCE aux_sym_query_string_repeat1 2 0 0]),
     (anon_sym_SLASH, [REDUCE aux_sym_query_string_repeat1 2 0 0]),
     (sym_path_segment, [REDUCE aux_sym_query_string_repeat1 2 0 0]),
     (sym_variable_delim_start, [REDUCE aux_sym_query_string_repeat1 2 0 0]),
     (anon_sym_AMP, [REDUCE aux_sym_query_string_repeat1 2 0 0])]),
   (16, [
     (ts_builtin_sym_end, [REDUCE sym_value 1 0 0]), (anon_sym_LF, [REDUCE sym_value 1 0 0]),
     (anon_sym_http, [REDUCE sym_value 1 0 0]), (anon_sym_https, [REDUCE sym_value 1 0 0]),
     (anon_sym_ftp, [REDUCE sym_value 1 0 0]), (anon_sym_ws, [REDUCE sym_value 1 0 0]),
     (anon_sym_wss, [REDUCE sym_value 1 0 0]), (anon_sym_COLON, [REDUCE sym_value 1 0 0]),
     (aux_sym_domain_token1, [REDUCE sym_value 1 0 0]),
     (anon_sym_localhost, [REDUCE sym_value 1 0 0]),
     (aux_sym_hostname_token1, [REDUCE sym_value 1 0 0]),
     (anon_sym_SLASH, [REDUCE sym_value 1 0 0]), (sym_path_segment, [REDUCE sym_value 1 0 0]),
     (sym_variable_delim_start, [REDUCE sym_value 1 0 0]),
     (anon_sym_AMP, [REDUCE sym_value 1 0 0])]),
   (17, [
     (ts_builtin_sym_end, [REDUCE sym_query_param 3 0 0]),
     (anon_sym_LF, [REDUCE sym_query_param 3 0 0]),
     (anon_sym_http, [REDUCE sym_query_param 3 0 0]),
     (anon_sym_https, [REDUCE sym_query_param 3 0 0]),
     (anon_sym_ftp, [REDUCE sym_query_param 3 0 0]),
     (anon_sym_ws, [REDUCE sym_query_param 3 0 0]),
     (anon_sym_wss, [REDUCE sym_query_param 3 0 0]),
     (anon_sym_COLON, [REDUCE sym_query_param 3 0 0]),
     (aux_sym_domain_token1, [REDUCE sym_query_param 3 0 0]),
     (anon_sym_localhost, [REDUCE sym_query_param 3 0 0]),
     (aux_sym_hostname_token1, [REDUCE sym_query_param 3 0 0]),
     (anon_sym_SLASH, [REDUCE sym_query_param 3 0 0]),
     (sym_path_segment, [REDUCE sym_query_param 3 0 0]),
     (sym_variable_delim_start, [REDUCE sym_query_param 3 0 0]),
     (anon_sym_AMP, [REDUCE sym_query_param 3 0 0])]),
   (18, [
     (ts_builtin_sym_end, [REDUCE sym_url_line 2 0 0]),
     (anon_sym_LF, [REDUCE sym_url_line 2 0 0]), (anon_sym_http, [REDUCE sym_url_line 2 0 0]),
     (anon_sym_https, [REDUCE sym_url_line 2 0 0]), (anon_sym_ftp, [REDUCE sym_url_line 2 0 0]),
     (anon_sym_ws, [REDUCE sym_url_line 2 0 0]), (anon_sym_wss, [REDUCE sym_url_line 2 0 0]),
     (anon_sym_COLON, [REDUCE sym_url_line 2 0 0]),
     (aux_sym_domain_token1, [REDUCE sym_url_line 2 0 0]),
     (anon_sym_localhost, [REDUCE sym_url_line 2 0 0]),
     (aux_sym_hostname_token1, [REDUCE sym_url_line 2 0 0]),
     (anon_sym_SLASH, [REDUCE sym_url_line 2 0 0]),
     (sym_path_segment, [REDUCE sym_url_line 2 0 0]),
     (sym_variable_delim_start, [REDUCE sym_url_line 2 0 0])]),
   (19, [
     (ts_builtin_sym_end, [REDUCE sym_url_components 2 0 0]),
     (anon_sym_LF, [REDUCE sym_url_components 2 0 0]),
     (anon_sym_http, [REDUCE sym_url_components 2 0 0]),
     (anon_sym_https, [REDUCE sym_url_components 2 0 0]),
     (anon_sym_ftp, [REDUCE sym_url_components 2 0 0]),
     (anon_sym_ws, [REDUCE sym_url_components 2 0 0]),
     (anon_sym_wss, [REDUCE sym_url_components 2 0 0]),
     (anon_sym_COLON, [REDUCE sym_url_components 2 0 0]),
     (aux_sym_domain_token1, [REDUCE sym_url_components 2 0 0]),
     (anon_sym_localhost, [REDUCE sym_url_components 2 0 0]),
     (aux_sym_hostname_token1, [REDUCE sym_url_components 2 0 0]),
     (anon_sym_SLASH, [REDUCE sym_url_components 2 0 0]),
     (sym_path_segment, [REDUCE sym_url_components 2 0 0]),
     (sym_variable_delim_start, [REDUCE sym_url_components 2 0 0])]),
   (20, [
     (ts_builtin_sym_end, [REDUCE sym_url_line 1 0 0]),
     (anon_sym_LF, [REDUCE sym_url_line 1 0 0]), (anon_sym_http, [REDUCE sym_url_line 1 0 0]),
     (anon_sym_https, [REDUCE sym_url_line 1 0 0]), (anon_sym_ftp, [REDUCE sym_url_line 1 0 0]),
     (anon_sym_ws, [REDUCE sym_url_line 1 0 0]), (anon_sym_wss, [REDUCE sym_url_line 1 0 0]),
     (anon_sym_COLON, [REDUCE sym_url_line 1 0 0]),
     (aux_sym_domain_token1, [REDUCE sym_url_line 1 0 0]),
     (anon_sym_localhost, [REDUCE sym_url_line 1 0 0]),
     (aux_sym_hostname_token1, [REDUCE sym_url_line 1 0 0]),
     (anon_sym_SLASH, [REDUCE sym_url_line 1 0 0]),
     (sym_path_segment, [REDUCE sym_url_line 1 0 0]),
     (sym_variable_delim_start, [REDUCE sym_url_line 1 0 0])]),
   (21, [
     (ts_builtin_sym_end, [REDUCE aux_sym_source_file_repeat1 1 0 0]),
     (anon_sym_LF, [SHIFT 23]), (anon_sym_http, [REDUCE aux_sym_source_file_repeat1 1 0 0]),
     (anon_sym_https, [REDUCE aux_sym_source_file_repeat1 1 0 0]),
     (anon_sym_ftp, [REDUCE aux_sym_source_file_repeat1 1 0 0]),
     (anon_sym_ws, [REDUCE aux_sym_source_file_repeat1 1 0 0]),
     (anon_sym_wss, [REDUCE aux_sym_source_file_repeat1 1 0 0]),
     (anon_sym_COLON, [REDUCE aux_sym_source_file_repeat1 1 0 0]),
     (aux_sym_domain_token1, [REDUCE aux_sym_source_file_repeat1 1 0 0]),
     (anon_sym_localhost, [REDUCE aux_sym_source_file_repeat1 1 0 0]),
     (aux_sym_hostname_token1, [REDUCE aux_sym_source_file_repeat1 1 0 0]),
     (anon_sym_SLASH, [REDUCE aux_sym_source_file_repeat1 1 0 0]),
     (sym_path_segment, [REDUCE aux_sym_source_file_repeat1 1 0 0]),
     (sym_variable_delim_start, [REDUCE aux_sym_source_file_repeat1 1 0 0])]),
   (22, [
     (ts_builtin_sym_end, [REDUCE sym_url_line 3 0 0]),
     (anon_sym_LF, [REDUCE sym_url_line 3 0 0]), (anon_sym_http, [REDUCE sym_url_line 3 0 0]),
     (anon_sym_https, [REDUCE sym_url_line 3 0 0]), (anon_sym_ftp, [REDUCE sym_url_line 3 0 0]),
     (anon_sym_ws, [REDUCE sym_url_line 3 0 0]), (anon_sym_wss, [REDUCE sym_url_line 3 0 0]),
     (anon_sym_COLON, [REDUCE sym_url_line 3 0 0]),
     (aux_sym_domain_token1, [REDUCE sym_url_line 3 0 0]),
     (anon_sym_localhost, [REDUCE sym_url_line 3 0 0]),
     (aux_sym_hostname_token1, [REDUCE sym_url_line 3 0 0]),
     (anon_sym_SLASH, [REDUCE sym_url_line 3 0 0]),
     (sym_path_segment, [REDUCE sym_url_line 3 0 0]),
     (sym_variable_delim_start, [REDUCE sym_url_line 3 0 0])]),
   (23, [
     (ts_builtin_sym_end, [REDUCE aux_sym_source_file_repeat1 2 0 0]),
     (anon_sym_COLON, [REDUCE aux_sym_source_file_repeat1 2 0 0]),
     (anon_sym_SLASH, [REDUCE aux_sym_source_file_repeat1 2 0 0]),
     (sym_variable_delim_start, [REDUCE aux_sym_source_file_repeat1 2 0 0]),
     (anon_sym_http, [REDUCE aux_sym_source_file_repeat1 2 0 0]),
     (anon_sym_https, [REDUCE aux_sym_source_file_repeat1 2 0 0]),
     (anon_sym_ftp, [REDUCE aux_sym_source_file_repeat1 2 0 0]),
     (anon_sym_ws, [REDUCE aux_sym_source_file_repeat1 2 0 0]),
     (anon_sym_wss, [REDUCE aux_sym_source_file_repeat1 2 0 0]),
     (aux_sym_domain_token1, [REDUCE aux_sym_source_file_repeat1 2 0 0]),
     (anon_sym_localhost, [REDUCE aux_sym_source_file_repeat1 2 0 0]),
     (aux_sym_hostname_token1, [REDUCE aux_sym_source_file_repeat1 2 0 0]),
     (sym_path_segment, [REDUCE aux_sym_source_file_repeat1 2 0 0])]),
   (24, [
     (anon_sym_COLON, [SHIFT 37]), (sym_variable_delim_start, [SHIFT 38]),
     (anon_sym_SLASH, [SHIFT 4]), (sym_path_segment, [SHIFT 4])]),
   (25, [
     (anon_sym_COLON, [SHIFT 37]), (sym_variable_delim_start, [SHIFT 38]),
     (anon_sym_SLASH, [SHIFT 4]), (sym_path_segment, [SHIFT 4])]),
   (26, [
     (anon_sym_COLON, [REDUCE sym_protocol 2 0 0]),
     (anon_sym_SLASH, [REDUCE sym_protocol 2 0 0]),
     (sym_variable_delim_start, [REDUCE sym_protocol 2 0 0]),
     (aux_sym_domain_token1, [REDUCE sym_protocol 2 0 0]),
     (anon_sym_localhost, [REDUCE sym_protocol 2 0 0]),
     (aux_sym_hostname_token1, [REDUCE sym_protocol 2 0 0]),
     (sym_path_segment, [REDUCE sym_protocol 2 0 0])]),
   (27, [
     (sym_variable_delim_start, [SHIFT 38]), (aux_sym_key_token1, [SHIFT 8])]),
   (28, [
     (sym_variable_delim_start, [SHIFT 38]), (aux_sym_key_token1, [SHIFT 8])]),
   (29, [
     (anon_sym_COLON, [REDUCE sym_domain_and_port 3 0 0]),
     (anon_sym_SLASH, [REDUCE sym_domain_and_port 3 0 0]),
     (sym_path_segment, [REDUCE sym_domain_and_port 3 0 0]),
     (sym_variable_delim_start, [REDUCE sym_domain_and_port 3 0 0])]),
   (30, [
     (anon_sym_COLON, [REDUCE sym_domain_and_port 1 0 0, SHIFT 34]),
     (anon_sym_SLASH, [REDUCE sym_domain_and_port 1 0 0]),
     (sym_path_segment, [REDUCE sym_domain_and_port 1 0 0]),
     (sym_variable_delim_start, [REDUCE sym_domain_and_port 1 0 0])]),
   (31, [
     (anon_sym_COLON, [REDUCE sym_domain 1 0 0]), (anon_sym_SLASH, [REDUCE sym_domain 1 0 0]),
     (sym_path_segment, [REDUCE sym_domain 1 0 0]),
     (sym_variable_delim_start, [REDUCE sym_domain 1 0 0])]),
   (32, [
     (sym_variable_delim_start, [SHIFT 38]), (aux_sym_value_token1, [SHIFT 16])]),
   (33, [
     (anon_sym_COLON, [REDUCE sym_hostname 1 0 0]),
     (anon_sym_SLASH, [REDUCE sym_hostname 1 0 0]),
     (sym_path_segment, [REDUCE sym_hostname 1 0 0]),
     (sym_variable_delim_start, [REDUCE sym_hostname 1 0 0])]),
   (34, [
     (sym_port, [SHIFT 29])]),
   (35, [
     (ts_builtin_sym_end, [ACCEPT_INPUT])]),
   (36, [
     (anon_sym_COLON_SLASH_SLASH, [SHIFT 26])]),
   (37, [
     (aux_sym_path_param_token1, [SHIFT 13])]),
   (38, [
     (sym_variable_name, [SHIFT 39])]),
   (39, [
     (sym_variable_delim_end, [SHIFT 6])])]

/-- The gotos of the parse tables, state by state: for each state the
non-terminals with an entry and the state the entry gives
(`tableGotos_eq`). -/
def tableGotos : List (Nat × List (Nat × Nat)) :=
  [
   (0, []),
   (1, [
     (sym_source_file, 35), (sym_url_line, 21), (sym_url_components, 20), (sym_protocol, 14),
     (sym_domain_and_port, 25), (sym_domain, 30), (sym_hostname, 31), (sym_path, 7),
     (sym_path_param, 4), (sym_variable, 4), (aux_sym_source_file_repeat1, 3),
     (aux_sym_path_repeat1, 4)]),
   (2, [
     (sym_url_line, 21), (sym_url_components, 20), (sym_protocol, 14),
     (sym_domain_and_port, 25), (sym_domain, 30), (sym_hostname, 31), (sym_path, 7),
     (sym_path_param, 4), (sym_variable, 4), (aux_sym_source_file_repeat1, 2),
     (aux_sym_path_repeat1, 4)]),
   (3, [
     (sym_url_line, 21), (sym_url_components, 20), (sym_protocol, 14),
     (sym_domain_and_port, 25), (sym_domain, 30), (sym_hostname, 31), (sym_path, 7),
     (sym_path_param, 4), (sym_variable, 4), (aux_sym_source_file_repeat1, 2),
     (aux_sym_path_repeat1, 4)]),
   (4, [
     (sym_path_param, 5), (sym_variable, 5), (aux_sym_path_repeat1, 5)]),
   (5, [
     (sym_path_param, 5), (sym_variable, 5), (aux_sym_path_repeat1, 5)]),
   (6, []),
   (7, [
     (sym_query_string, 19)]),
   (8, []),
   (9, [
     (aux_sym_query_string_repeat1, 11)]),
   (10, []),
   (11, [
     (aux_sym_query_string_repeat1, 12)]),
   (12, [
     (aux_sym_query_string_repeat1, 12)]),
   (13, []),
   (14, [
     (sym_path, 7), (sym_url_components, 18), (sym_domain_and_port, 24), (sym_domain, 30),
     (sym_hostname, 31), (sym_path_param, 4), (sym_variable, 4), (aux_sym_path_repeat1, 4)]),
   (15, []),
   (16, []),
   (17, []),
   (18, []),
   (19, []),
   (20, []),
   (21, []),
   (22, []),
   (23, []),
   (24, [
     (sym_path, 7), (sym_url_components, 22), (sym_path_param, 4), (sym_variable, 4),
     (aux_sym_path_repeat1, 4)]),
   (25, [
     (sym_path, 7), (sym_url_components, 18), (sym_path_param, 4), (sym_variable, 4),
     (aux_sym_path_repeat1, 4)]),
   (26, []),
   (27, [
     (sym_variable, 8), (sym_query_param, 9), (sym_key, 10)]),
   (28, [
     (sym_variable, 8), (sym_key, 10), (sym_query_param, 15)]),
   (29, []),
   (30, []),
   (31, []),
   (32, [
     (sym_variable, 16), (sym_value, 17)]),
   (33, []),
   (34, []),
   (35, []),
   (36, []),
   (37, []),
   (38, []),
   (39, [])]

/-- Whether an outcome is an accepting run. -/
def Outcome.isAccepted : Outcome → Bool
  | .accepted _ => true
  | _ => false

mutual

/-- A tree as its parent shows it: a node of a hidden symbol (an
`aux_sym_*_repeat1` non-terminal, see `ts_symbol_visible`) is replaced by its
children, expanded in turn; any other tree stands for itself. -/
def Tree.expand : Tree → List Tree
  | .leaf s text => [.leaf s text]
  | .node s children =>
    if ts_symbol_visible s then [.node s children] else Tree.expandList children

/-- The trees of a list, each expanded. -/
def Tree.expandList : List Tree → List Tree
  | [] => []
  | t :: ts => Tree.expand t ++ Tree.expandList ts

end

/-- The children of a node, with the nodes of hidden symbols expanded. -/
def Tree.visibleChildren : Tree → List Tree
  | .leaf _ _ => []
  | .node _ children => Tree.expandList children

mutual

/-- The nodes and tokens of a tree that carry the given symbol, from left to
right, a node before the nodes inside it. -/
def Tree.nodesOf : Tree → Nat → List Tree
  | .leaf s text, symbol => if s = symbol then [.leaf s text] else []
  | .node s children, symbol =>
    (if s = symbol then [.node s children] else []) ++ Tree.nodesOfList children symbol

/-- The nodes and tokens of a list of trees that carry the given symbol. -/
def Tree.nodesOfList : List Tree → Nat → List Tree
  | [], _ => []
  | t :: ts, symbol => Tree.nodesOf t symbol ++ Tree.nodesOfList ts symbol

end

mutual

/-- The text of a tree: the texts of its tokens, from left to right. -/
def Tree.text : Tree → List Nat
  | .leaf _ text => text
  | .node _ children => Tree.textList children

/-- The text of a list of trees. -/
def Tree.textList : List Tree → List Nat
  | [] => []
  | t :: ts => Tree.text t ++ Tree.textList ts

end

/-- The symbol and the text of a tree. -/
def Tree.label (t : Tree) : Nat × List Nat :=
  (t.symbol, t.text)

/-- What one run of the driver on an input yields, as far as the claims on
whole lines speak of it: whether the run is accepted; the symbols that the
`sym_source_file` shows; for each `sym_url_line` the symbols it shows; what the
nodes `sym_protocol`, `sym_domain_and_port`, `sym_domain` and
`sym_query_string` show, in this order; the items of the `sym_path` nodes, in
order; the texts of the `sym_key` nodes; the number of `sym_path` nodes. -/
structure RunSummary where
  accepted : Bool
  top : List Nat
  lines : List (List Nat)
  nodes : List (List (Nat × List Nat))
  pathItems : List (Nat × List Nat)
  keys : List (List Nat)
  paths : Nat
deriving DecidableEq

/-- The summary of a run: of its tree when it is accepted, and an empty one
otherwise. -/
def Outcome.summary : Outcome → RunSummary
  | .accepted t =>
    RunSummary.mk true
      (t.visibleChildren.map Tree.symbol)
      ((t.nodesOf sym_url_line).map fun l => l.visibleChildren.map Tree.symbol)
      ((t.nodesOf sym_protocol ++ t.nodesOf sym_domain_and_port ++ t.nodesOf sym_domain ++
        t.nodesOf sym_query_string).map fun l => l.visibleChildren.map Tree.label)
      ((t.nodesOf sym_path).flatMap fun l => l.visibleChildren.map Tree.label)
      ((t.nodesOf sym_key).map Tree.text)
      (t.nodesOf sym_path).length
  | _ => RunSummary.mk false [] [] [] [] [] 0

/-- The numbers of `sym_url_line` nodes in the 32 accepted runs on a line whose
path has six items: the path may end after each of the first five. -/
def lineCounts : List Nat :=
  [6, 5, 5, 4, 5, 4, 4, 3, 5, 4, 4, 3, 4, 3, 3, 2,
    5, 4, 4, 3, 4, 3, 3, 2, 4, 3, 3, 2, 3, 2, 2, 1]

/-- The line of the end-to-end example, with the variables in doubled braces
and a plain domain. -/
def apiExampleLine : List Nat :=
  codes "https://api.example.com:8443/v1/users/\x7b\x7bid\x7d\x7d?limit=\x7b\x7bn\x7d\x7d&active=true\n"

/-- The tree of the one-segment line `a`. -/
def singleSegmentTree : Tree :=
  .node sym_source_file [
    .node aux_sym_source_file_repeat1 [
      .node sym_url_line [
        .node sym_url_components [
          .node sym_path [
            .leaf sym_path_segment (codes "a")]]]]]

/-! ## The graph of the lexer -/

/-- The symbol each state of `ts_lex` accepts (its `ACCEPT_TOKEN`), state by
state; the list is the `switch` read through `ts_lex_state`
(`lexGraphCheck`). -/
def lexAccepts : List (Option Nat) :=
  [
   none, none, none, none, none, none, none, none, none, none, none, none, none, none, none,
   none, none, none, none, none, none, none, none, none, none, none, none, some 0, some 1,
   some 2, some 2, some 3, some 3, some 4, some 4, some 5, some 5, some 6, some 6, some 7,
   some 8, some 8, some 9, some 9, some 9, some 9, some 9, some 9, some 9, some 9, some 9,
   some 9, some 9, some 9, some 9, some 9, some 9, some 9, some 9, some 9, some 9, some 9,
   some 9, some 9, some 9, some 9, some 9, some 9, some 9, some 9, some 9, some 9, some 9,
   some 9, some 9, some 9, some 9, some 9, some 9, some 9, some 9, some 9, some 9, some 9,
   some 9, some 9, some 9, some 9, some 9, some 9, some 9, some 9, some 9, some 9, some 9,
   some 9, some 9, some 9, some 9, some 9, some 9, some 9, some 9, some 9, some 9, some 9,
   some 9, some 9, some 9, some 9, some 9, some 9, some 9, some 10, some 10, some 12, some 12,
   some 12, some 12, some 12, some 13, some 14, some 14, some 14, some 14, some 14, some 14,
   some 14, some 14, some 14, some 14, some 14, some 14, some 14, some 14, some 14, some 14,
   some 14, some 14, some 14, some 14, some 14, some 14, some 14, some 14, some 14, some 14,
   some 14, some 14, some 14, some 14, some 14, some 14, some 14, some 14, some 14, some 14,
   some 14, some 14, some 14, some 14, some 14, some 14, some 14, some 14, some 14, some 14,
   some 14, some 14, some 14, some 14, some 14, some 14, some 14, some 14, some 14, some 14,
   some 14, some 14, some 14, some 14, some 14, some 14, some 14, some 14, some 14, some 14,
   some 14, some 14, some 14, some 14, some 14, some 14, some 14, some 14, some 14, some 14,
   some 14, some 14, some 14, some 14, some 14, some 14, some 14, some 14, some 14, some 14,
   some 14, some 14, some 14, some 14, some 14, some 14, some 14, some 14, some 14, some 14,
   some 14, some 14, some 14, some 14, some 14, some 14, some 14, some 14, some 14, some 14,
   some 14, some 14, some 14, some 14, some 14, some 14, some 14, some 14, some 14, some 14,
   some 14, some 14, some 14, some 14, some 14, some 14, some 14, some 14, some 14, some 14,
   some 14, some 14, some 14, some 14, some 14, some 14, some 14, some 14, some 14, some 14,
   some 14, some 14, some 14, some 14, some 14, some 14, some 14, some 14, some 14, some 14,
   some 14, some 14, some 14, some 14, some 14, some 14, some 14, some 14, some 14, some 14,
   some 14, some 14, some 14, some 14, some 14, some 14, some 14, some 14, some 14, some 14,
   some 14, some 14, some 14, some 14, some 14, some 14, some 14, some 14, some 14, some 14,
   some 14, some 14, some 14, some 14, some 14, some 14, some 14, some 14, some 14, some 14,
   some 14, some 14, some 14, some 14, some 14, some 14, some 14, some 14, some 14, some 14,
   some 14, some 14, some 14, some 14, some 14, some 14, some 14, some 14, some 14, some 14,
   some 14, some 15, some 16, some 16, some 17, some 18, some 19, some 20, some 21, some 22,
   some 23, some 23, some 23]

/-- The states each state of `ts_lex` can move to by `ADVANCE` or `SKIP`, at the
end of input or on any character, state by state (`lexGraphCheck`). -/
def lexTargets : List (List Nat) :=
  [
   [27, 0, 334, 120, 119, 41, 335, 333, 16, 19, 10, 14, 20, 22],
   [327, 1, 120, 126, 40, 125, 121, 20], [327, 2, 120, 40, 20], [4], [39], [5, 336, 3, 20], [9],
   [6], [11], [8], [7], [15], [33], [30], [36], [17], [12], [113], [13], [18], [329],
   [339, 337, 338], [331], [23, 328], [24, 332],
   [27, 327, 25, 28, 334, 120, 126, 40, 335, 333, 125, 123, 124, 121, 122, 20],
   [27, 327, 26, 120, 126, 40, 125, 123, 124, 121, 122, 20], [], [28], [327, 296, 324, 295, 32],
   [31], [], [327, 300, 324, 299], [], [327, 310, 324, 309], [327, 306, 324, 304, 38], [37], [],
   [327, 310, 324, 309], [], [], [4], [327, 318, 324, 107, 108], [327, 318, 324, 108],
   [327, 318, 322, 109, 108], [327, 318, 323, 110, 108], [327, 326, 324, 111],
   [327, 135, 324, 48], [327, 131, 324, 46], [327, 141, 324, 50], [327, 134, 324, 47],
   [327, 147, 324, 52], [327, 138, 324, 49], [327, 153, 324, 54], [327, 144, 324, 51],
   [327, 159, 324, 56], [327, 150, 324, 53], [327, 165, 324, 58], [327, 156, 324, 55],
   [327, 171, 324, 60], [327, 162, 324, 57], [327, 177, 324, 62], [327, 168, 324, 59],
   [327, 183, 324, 64], [327, 174, 324, 61], [327, 189, 324, 66], [327, 180, 324, 63],
   [327, 195, 324, 68], [327, 186, 324, 65], [327, 201, 324, 70], [327, 192, 324, 67],
   [327, 207, 324, 72], [327, 198, 324, 69], [327, 213, 324, 74], [327, 204, 324, 71],
   [327, 219, 324, 76], [327, 210, 324, 73], [327, 225, 324, 78], [327, 216, 324, 75],
   [327, 231, 324, 80], [327, 222, 324, 77], [327, 237, 324, 82], [327, 228, 324, 79],
   [327, 243, 324, 84], [327, 234, 324, 81], [327, 249, 324, 86], [327, 240, 324, 83],
   [327, 255, 324, 88], [327, 246, 324, 85], [327, 261, 324, 90], [327, 252, 324, 87],
   [327, 267, 324, 92], [327, 258, 324, 89], [327, 273, 324, 94], [327, 264, 324, 91],
   [327, 279, 324, 96], [327, 270, 324, 93], [327, 285, 324, 98], [327, 276, 324, 95],
   [327, 293, 324, 100], [327, 282, 324, 97], [327, 301, 324, 102], [327, 289, 324, 99],
   [327, 311, 324, 106], [327, 311, 322, 106], [327, 311, 323, 106], [327, 297, 324, 101],
   [327, 307, 324, 103], [327, 307, 324, 103], [327, 307, 322, 104, 103],
   [327, 307, 323, 105, 103], [327, 324, 112], [327, 324], [], [327, 284, 324, 283], [], [115],
   [116], [117], [118], [], [327, 317, 324, 315, 312], [327, 317, 324, 315, 35],
   [327, 317, 324, 315, 313], [327, 317, 324, 315, 314], [327, 317, 324, 315],
   [327, 317, 321, 316, 315], [327, 325, 324, 319], [327, 325, 319], [327, 133, 324, 132],
   [327, 133, 132], [327, 326, 111], [327, 128, 324, 127], [327, 128, 127], [327, 135, 48],
   [327, 131, 46], [327, 140, 324, 139], [327, 140, 139], [327, 141, 50], [327, 130, 324, 129],
   [327, 130, 129], [327, 134, 47], [327, 146, 324, 145], [327, 146, 145], [327, 147, 52],
   [327, 137, 324, 136], [327, 137, 136], [327, 138, 49], [327, 152, 324, 151], [327, 152, 151],
   [327, 153, 54], [327, 143, 324, 142], [327, 143, 142], [327, 144, 51], [327, 158, 324, 157],
   [327, 158, 157], [327, 159, 56], [327, 149, 324, 148], [327, 149, 148], [327, 150, 53],
   [327, 164, 324, 163], [327, 164, 163], [327, 165, 58], [327, 155, 324, 154], [327, 155, 154],
   [327, 156, 55], [327, 170, 324, 169], [327, 170, 169], [327, 171, 60], [327, 161, 324, 160],
   [327, 161, 160], [327, 162, 57], [327, 176, 324, 175], [327, 176, 175], [327, 177, 62],
   [327, 167, 324, 166], [327, 167, 166], [327, 168, 59], [327, 182, 324, 181], [327, 182, 181],
   [327, 183, 64], [327, 173, 324, 172], [327, 173, 172], [327, 174, 61], [327, 188, 324, 187],
   [327, 188, 187], [327, 189, 66], [327, 179, 324, 178], [327, 179, 178], [327, 180, 63],
   [327, 194, 324, 193], [327, 194, 193], [327, 195, 68], [327, 185, 324, 184], [327, 185, 184],
   [327, 186, 65], [327, 200, 324, 199], [327, 200, 199], [327, 201, 70], [327, 191, 324, 190],
   [327, 191, 190], [327, 192, 67], [327, 206, 324, 205], [327, 206, 205], [327, 207, 72],
   [327, 197, 324, 196], [327, 197, 196], [327, 198, 69], [327, 212, 324, 211], [327, 212, 211],
   [327, 213, 74], [327, 203, 324, 202], [327, 203, 202], [327, 204, 71], [327, 218, 324, 217],
   [327, 218, 217], [327, 219, 76], [327, 209, 324, 208], [327, 209, 208], [327, 210, 73],
   [327, 224, 324, 223], [327, 224, 223], [327, 225, 78], [327, 215, 324, 214], [327, 215, 214],
   [327, 216, 75], [327, 230, 324, 229], [327, 230, 229], [327, 231, 80], [327, 221, 324, 220],
   [327, 221, 220], [327, 222, 77], [327, 236, 324, 235], [327, 236, 235], [327, 237, 82],
   [327, 227, 324, 226], [327, 227, 226], [327, 228, 79], [327, 242, 324, 241], [327, 242, 241],
   [327, 243, 84], [327, 233, 324, 232], [327, 233, 232], [327, 234, 81], [327, 248, 324, 247],
   [327, 248, 247], [327, 249, 86], [327, 239, 324, 238], [327, 239, 238], [327, 240, 83],
   [327, 254, 324, 253], [327, 254, 253], [327, 255, 88], [327, 245, 324, 244], [327, 245, 244],
   [327, 246, 85], [327, 260, 324, 259], [327, 260, 259], [327, 261, 90], [327, 251, 324, 250],
   [327, 251, 250], [327, 252, 87], [327, 266, 324, 265], [327, 266, 265], [327, 267, 92],
   [327, 257, 324, 256], [327, 257, 256], [327, 258, 89], [327, 272, 324, 271], [327, 272, 271],
   [327, 273, 94], [327, 263, 324, 262], [327, 263, 262], [327, 264, 91], [327, 278, 324, 277],
   [327, 278, 277], [327, 279, 96], [327, 269, 324, 268], [327, 269, 268], [327, 270, 93],
   [327, 284, 324, 283], [327, 284, 283], [327, 285, 98], [327, 275, 324, 274], [327, 275, 274],
   [327, 276, 95], [327, 292, 324, 291, 290], [327, 292, 324, 291], [327, 292, 291],
   [327, 293, 100], [327, 281, 324, 280, 114], [327, 281, 324, 280], [327, 281, 280],
   [327, 282, 97], [327, 300, 324, 299, 298], [327, 300, 324, 299], [327, 300, 299],
   [327, 301, 102], [327, 288, 324, 287, 286], [327, 288, 324, 287], [327, 288, 287],
   [327, 289, 99], [327, 310, 324, 309, 308], [327, 310, 324, 309, 29], [327, 310, 324, 309],
   [327, 310, 321, 309], [327, 310, 309], [327, 311, 106], [327, 296, 324, 295, 294],
   [327, 296, 324, 295], [327, 296, 295], [327, 297, 101], [327, 306, 324, 304, 302],
   [327, 306, 324, 304, 34], [327, 306, 324, 304, 303], [327, 306, 324, 304],
   [327, 306, 321, 305, 304], [327, 306, 304], [327, 307, 103], [327, 324, 320], [327, 324],
   [327, 45, 43], [327, 42, 43], [327, 44, 43], [327, 43], [327, 320], [327, 112], [327], [328],
   [], [339], [], [332], [], [], [], [336], [339, 337, 338], [339, 330], [339]]

/-- The check of one case of a state against the symbol `a` the state is
listed to accept and the list `t` of its targets. -/
def lexGraphCaseOk (a : Option Nat) (t : List Nat) (c : Option LexCase) : Bool :=
  match c with
  | none => false
  | some ⟨acc, mv⟩ =>
    (acc == a) &&
      (match mv with
        | ADVANCE n => t.contains n
        | SKIP n => t.contains n
        | END_STATE => true)

/-- A check `f` made on every row of the graph of the lexer: the state, the
symbol it accepts and its targets. -/
def lexRowsAll (f : Nat → Option Nat → List Nat → Bool) :
    Nat → List (Option Nat) → List (List Nat) → Bool
  | s, a :: as, t :: ts => f s a t && lexRowsAll f (s + 1) as ts
  | _, _, _ => true

/-- A check over the finitely many lexer states and character classes:
`lexAccepts` and `lexTargets` describe every case of the `switch`. -/
def lexGraphCheck : Bool :=
  lexRowsAll (fun s a t =>
    lexGraphCaseOk a t (ts_lex_state s true 0) &&
      lexBreakpoints.all fun r => lexGraphCaseOk a t (ts_lex_state s false r))
    0 lexAccepts lexTargets

/-- A check on the graph of the lexer: the states in `states` accept only
symbols of `symbols` and move only into `states`. -/
def lexClosed (states : Nat → Bool) (symbols : List Nat) : Bool :=
  lexRowsAll (fun s a t =>
    !states s ||
      ((match a with
        | none => true
        | some x => symbols.contains x) &&
      t.all fun n => states n && decide (n < LEX_STATE_COUNT)))
    0 lexAccepts lexTargets

/-- All token symbols but `x`. -/
def symbolsBut (x : Nat) : List Nat :=
  (List.range TOKEN_COUNT).filter fun a => a != x

/-- A token moved `k` characters to the right. -/
def shiftToken (k : Nat) (t : Token) : Token :=
  ⟨t.symbol, t.start + k, t.stop + k⟩

/-- The lex states that `ts_lex_modes` assigns to the parse states. -/
def lexEntryStates : List Nat :=
  [0, 1, 2, 5, 21, 23, 24, 25, 26]

/-- The characters that the entry state `state` skips before a token: the
whitespace characters, but the newline in lex state 25, where it is a token. -/
def isSkipped (state c : Nat) : Bool :=
  isWhitespace c && !(state == 25 && c == 10)

/-- The delimiters `&`, `/`, `:`, `=`, `?`, `{` and `}`. -/
def isDelimiter (c : Nat) : Bool :=
  decide (c = 38 ∨ c = 47 ∨ c = 58 ∨ c = 61 ∨ c = 63 ∨ c = 123 ∨ c = 125)

/-- The characters that start a path-segment, domain or keyword token in the
lex states 1, 2, 25 and 26: every character but NUL, the whitespace characters
and the delimiters. -/
def isSegmentStart (c : Nat) : Bool :=
  decide (c ≠ 0) && !isWhitespace c && !isDelimiter c

/-- The states of `ts_lex` inside a path segment, a domain or a keyword that
may still become one: 29, 32, 34, 35, 38 (scheme keywords), 114 (localhost),
42..112 (domains) and 121..327. -/
def pathRunState (s : Nat) : Bool :=
  [29, 32, 34, 35, 38, 114].contains s || (decide (42 ≤ s) && decide (s ≤ 112)) ||
    (decide (121 ≤ s) && decide (s ≤ 327))

/-- The symbols the states of `pathRunState` accept. -/
def pathRunSymbols : List Nat :=
  [sym_path_segment, aux_sym_domain_token1, anon_sym_http, anon_sym_https, anon_sym_ftp,
   anon_sym_ws, anon_sym_wss, anon_sym_localhost]

/-- The states of `ts_lex` from which no state of `pathRunState` is reached:
all states but the entry states 1, 2, 25, 26 and the states of
`pathRunState`. -/
def noPathState (s : Nat) : Bool :=
  !([1, 2, 25, 26].contains s) && !pathRunState s

/-- The first characters of a variable name and of a path-parameter name:
letters and `_`. -/
def isNameStart (c : Nat) : Bool :=
  isLetter c || decide (c = 95)

/-- The characters of a variable name: letters, digits and `_`. -/
def isNameChar (c : Nat) : Bool :=
  isDigit c || isLetter c || decide (c = 95)

/-- The check made on the first step of an entry state on a character that
starts a token: the case accepts nothing and advances into `states`. -/
def lexEntersInto (states : Nat → Bool) (c : Option LexCase) : Bool :=
  match c with
  | some ⟨none, ADVANCE n⟩ => states n && decide (n < LEX_STATE_COUNT)
  | _ => false

/-- Modelled from the spec: the moves that the loop of `ts_lex` (the macros of
`tree_sitter/parser.h`, not in the repository) makes at the end of input from a
state, counted as `ts_lex_eof` makes them. -/
def ts_lex_eof_moves : Nat → Nat → Nat
  | 0, _ => 0
  | fuel + 1, state =>
    match ts_lex_state state true 0 with
    | none => 0
    | some c =>
      match c.move with
      | ADVANCE next => 1 + ts_lex_eof_moves fuel next
      | SKIP next => 1 + ts_lex_eof_moves fuel next
      | END_STATE => 0

/-- Modelled from the spec: the moves (`ADVANCE` and `SKIP`) that `ts_lex_loop`
makes on an input from a state, counted: the same recursion as `ts_lex_loop`,
with a counter in place of the token. -/
def ts_lex_moves : List Nat → Nat → Nat
  | [], state => ts_lex_eof_moves 340 state
  | lookahead :: rest, state =>
    match ts_lex_state state false lookahead with
    | none => 0
    | some c =>
      match c.move with
      | ADVANCE next => 1 + ts_lex_moves rest next
      | SKIP next => 1 + ts_lex_moves rest next
      | END_STATE => 0

/-- Modelled from the spec: the characters that `ts_lex_loop` consumes on an
input from a state, counted: one for every move made on a character, none at
the end of input, where `advance` leaves the cursor in place. -/
def ts_lex_consumed : List Nat → Nat → Nat
  | [], _ => 0
  | lookahead :: rest, state =>
    match ts_lex_state state false lookahead with
    | none => 0
    | some c =>
      match c.move with
      | ADVANCE next => 1 + ts_lex_consumed rest next
      | SKIP next => 1 + ts_lex_consumed rest next
      | END_STATE => 0

/-- A check over the finitely many lexer states: at the end of input a state
moves to state 27, which accepts `ts_builtin_sym_end`, or not at all. -/
def lexEofMovesToEnd : Bool :=
  (List.range LEX_STATE_COUNT).all fun s =>
    match ts_lex_state s true 0 with
    | some ⟨_, ADVANCE n⟩ => n == 27
    | some ⟨_, SKIP _⟩ => false
    | _ => true

/-- The tokens that can begin a `sym_url_line`. -/
def lineStartTokens : List Nat :=
  [anon_sym_http, anon_sym_https, anon_sym_ftp, anon_sym_ws, anon_sym_wss, anon_sym_COLON,
   aux_sym_domain_token1, anon_sym_localhost, aux_sym_hostname_token1, anon_sym_SLASH,
   sym_path_segment, sym_variable_delim_start]

/-- The five scheme keyword tokens. -/
def schemeTokens : List Nat :=
  [anon_sym_http, anon_sym_https, anon_sym_ftp, anon_sym_ws, anon_sym_wss]

/-- The lex states that `ts_lex_modes` assigns to the parse states, as a test. -/
def isEntryState (s : Nat) : Bool :=
  lexEntryStates.contains s

/-- The check made on one case of state `s` for the progress of the lexer: a
case that accepts a symbol is no case of an entry state, and it accepts
`ts_builtin_sym_end` in state 27 only; a move on a character leads to a state
that is neither an entry state nor state 27, unless it is the `SKIP` of an
entry state to itself; at the end of input the only move is the `ADVANCE` of
an entry state to state 27. -/
def lexProgressCaseOk (s : Nat) (eof : Bool) (c : Option LexCase) : Bool :=
  match c with
  | none => true
  | some ⟨acc, mv⟩ =>
    (match acc with
      | none => true
      | some a => !isEntryState s && (a != ts_builtin_sym_end || s == 27)) &&
    (match mv with
      | ADVANCE n => if eof then isEntryState s && n == 27 else !isEntryState n && n != 27
      | SKIP n => !eof && isEntryState s && n == s
      | END_STATE => true)

/-- A check over the finitely many lexer states and character classes: every
case satisfies `lexProgressCaseOk`. -/
def lexProgressCheck : Bool :=
  (List.range LEX_STATE_COUNT).all fun s =>
    lexProgressCaseOk s true (ts_lex_state s true 0) &&
      lexBreakpoints.all fun r => lexProgressCaseOk s false (ts_lex_state s false r)

/-- What holds between two steps of the lexer: in an entry state nothing has
been consumed since the token start and nothing is accepted; in another state,
which is not state 27, the token has begun, and what is accepted is a
non-empty token other than the end token. -/
def lexProgressInv (s pos start : Nat) (res : Option (Nat × Nat)) : Prop :=
  (isEntryState s = true ∧ pos = start ∧ res = none) ∨
  (isEntryState s = false ∧ s ≠ 27 ∧ start < pos ∧
    ∀ r, res = some r → start < r.2 ∧ r.2 ≤ pos ∧ r.1 ≠ ts_builtin_sym_end)

/-- What holds of a token that the lexer returns from position `pos` on
`input`: it is the empty end token at the end of the input, or a non-empty
token with another symbol. -/
def lexProgressPost (input : List Nat) (pos : Nat) (tok : Token) : Prop :=
  (tok.symbol = ts_builtin_sym_end ∧ tok.start = pos + input.length ∧
    tok.stop = pos + input.length) ∨
  (tok.symbol ≠ ts_builtin_sym_end ∧ tok.start < tok.stop ∧ tok.stop ≤ pos + input.length)

/-- The entry of state `n` in a table that describes some states of the lexer. -/
def infoOf {α : Type} : List (Nat × α) → Nat → Option α
  | [], _ => none
  | e :: t, n => if e.1 = n then some e.2 else infoOf t n

/-- A check over the states of a table and the character classes: a state
with the description `a` accepts the symbol `sym a`; on a character of `q` it
advances to a state that the table describes by `step a` of the character; on
every other character and at the end of input it ends. -/
def lexSimCheck {α : Type} [DecidableEq α] (table : List (Nat × α)) (step : α → Nat → α)
    (sym : α → Nat) (q : Nat → Bool) : Bool :=
  table.all fun e =>
    (match ts_lex_state e.1 true 0 with
      | some ⟨some x, END_STATE⟩ => x == sym e.2
      | _ => false) &&
    lexBreakpoints.all fun r =>
      match ts_lex_state e.1 false r with
      | some ⟨some x, ADVANCE n⟩ =>
        x == sym e.2 && q r && decide (infoOf table n = some (step e.2 r))
      | some ⟨some x, END_STATE⟩ => x == sym e.2 && !q r
      | _ => false

/-- A check over the character classes: on a character of `p` the entry state
`e` accepts nothing and advances to a state that the table describes by `first`
of the character. -/
def lexSimEntry {α : Type} [DecidableEq α] (table : List (Nat × α)) (first : Nat → α)
    (p : Nat → Bool) (e : Nat) : Bool :=
  lexBreakpoints.all fun r =>
    !p r ||
      match ts_lex_state e false r with
      | some ⟨none, ADVANCE n⟩ => decide (infoOf table n = some (first r))
      | _ => false

/-- What the states 337, 338, 330 and 339 of a query value record of the
characters read: only whitespace (`blank`), whitespace and one opening brace
(`brace`), whitespace and two opening braces (`braces`), anything else
(`other`). -/
inductive ValueRun where
  | blank
  | brace
  | braces
  | other
deriving DecidableEq

/-- The record of a query value after one more character. -/
def valueStep : ValueRun → Nat → ValueRun
  | .blank, c => if c = 123 then .brace else if isWhitespace c then .blank else .other
  | .brace, c => if c = 123 then .braces else .other
  | .braces, _ => .other
  | .other, _ => .other

/-- The symbol accepted with a record of a query value. -/
def valueSymbol : ValueRun → Nat
  | .braces => sym_variable_delim_start
  | _ => aux_sym_value_token1

/-- The states of `ts_lex` inside a query value with what they record. -/
def valueTable : List (Nat × ValueRun) :=
  [(337, .blank), (338, .brace), (330, .braces), (339, .other)]

/-- The keyword of the lex state 1, which follows a protocol. -/
def localhostTable : List (List Nat × Nat) :=
  [(codes "localhost", anon_sym_localhost)]

/-- The words of a table of keywords. -/
def wordsOf (table : List (List Nat × Nat)) : List (List Nat) :=
  table.map fun e => e.1

/-- The symbol of the word `run` in a table of keywords. -/
def keywordOf (table : List (List Nat × Nat)) (run : List Nat) : Option Nat :=
  (table.find? fun e => e.1 == run).map fun e => e.2

/-- Letters and digits. -/
def isAlnum (c : Nat) : Bool :=
  isDigit c || isLetter c

/-- The characters of a label: letters, digits and `-`. -/
def isLabelChar (c : Nat) : Bool :=
  isAlnum c || decide (c = 45)

/-- What a state of `ts_lex` records of the labels read: `dead` when the
characters read are no beginning of a domain name; otherwise `done` tells
whether a complete label and its dot have been read, `len` is the length of
the label being read and `hy` tells whether its last character is `-`. -/
structure LabelRun where
  dead : Bool
  done : Bool
  len : Nat
  hy : Bool
deriving DecidableEq

/-- The record of no character. -/
def labelInit : LabelRun :=
  ⟨false, false, 0, false⟩

/-- The record of a run that is no beginning of a domain name. -/
def labelDead : LabelRun :=
  ⟨true, false, 0, false⟩

/-- The record of the labels after one more character: a dot ends a label
that is not empty and does not end with `-`; a letter or digit extends a label
of fewer than 63 characters; `-` extends a label that is not empty and has
fewer than 62 characters. -/
def labelStep (a : LabelRun) (c : Nat) : LabelRun :=
  if a.dead then labelDead
  else if c = 46 then (if 1 ≤ a.len ∧ a.hy = false then ⟨false, true, 0, false⟩ else labelDead)
  else if isAlnum c then (if a.len < 63 then ⟨false, a.done, a.len + 1, false⟩ else labelDead)
  else if c = 45 then
    (if 1 ≤ a.len ∧ a.len < 62 then ⟨false, a.done, a.len + 1, true⟩ else labelDead)
  else labelDead

/-- The record with which a run is a domain name. -/
def labelAccepts (a : LabelRun) : Bool :=
  !a.dead && a.done && decide (1 ≤ a.len) && !a.hy

/-- The characters read, as long as they are the beginning of a word of
`words`, and the empty list otherwise. -/
def kwOf (words : List (List Nat)) (run : List Nat) : List Nat :=
  if words.any (fun k => run.isPrefixOf k) then run else []

/-- The record of the keyword after one more character. -/
def kwStep (kw : List Nat) (c : Nat) : List Nat :=
  if kw = [] then [] else kwOf (wordsOf keywordTable) (kw ++ [c])

/-- The symbol of a token of the path and domain contexts: the keyword, if
there is one, else the domain token for a domain name, else the path
segment. -/
def symbolOf (keyword : Option Nat) (domain : Bool) : Nat :=
  match keyword with
  | some x => x
  | none => if domain then aux_sym_domain_token1 else sym_path_segment

/-- What a state of `ts_lex` inside a token of the path and domain contexts
records of the characters read: `kw`, the characters themselves as long as
they are the beginning of a keyword, and `dom`, the record of the labels. -/
structure RunInfo where
  kw : List Nat
  dom : LabelRun
deriving DecidableEq

/-- The record after one more character. -/
def runStep (a : RunInfo) (c : Nat) : RunInfo :=
  ⟨kwStep a.kw c, labelStep a.dom c⟩

/-- The record of a first character, with the keywords of `table`. -/
def runFirst (table : List (List Nat × Nat)) (c : Nat) : RunInfo :=
  ⟨kwOf (wordsOf table) [c], labelStep labelInit c⟩

/-- The symbol accepted with a record: the keyword read, else the domain
token when the labels read make a domain name, else the path segment. -/
def runSymbol (a : RunInfo) : Nat :=
  symbolOf (keywordOf keywordTable a.kw) (labelAccepts a.dom)

/-- The pieces of a run between its dots. -/
def splitDots : List Nat → List (List Nat)
  | [] => [[]]
  | c :: cs =>
    if c = 46 then [] :: splitDots cs
    else
      match splitDots cs with
      | l :: ls => (c :: l) :: ls
      | [] => [[c]]

/-- A label of a domain name: 1 to 63 characters, letters, digits and `-`,
the first and the last a letter or digit. -/
def isLabel (l : List Nat) : Bool :=
  decide (1 ≤ l.length ∧ l.length ≤ 63) && l.all isLabelChar && l.head?.any isAlnum &&
    l.getLast?.any isAlnum

/-- A domain name: two or more labels, separated by single dots. -/
def isDomainName (run : List Nat) : Bool :=
  decide (2 ≤ (splitDots run).length) && (splitDots run).all isLabel

/-- The symbol of a run of characters of the path-segment character set, with
the keywords of `table`: the keyword that the run is, else the domain token
for a domain name, else the path segment. -/
def classifyRun (table : List (List Nat × Nat)) (run : List Nat) : Nat :=
  symbolOf (keywordOf table run) (isDomainName run)

/-- The keywords of a lex state of the path and domain contexts: all six in
the lex states 25 and 26, `localhost` in the lex state 1, none in the lex
state 2. -/
def contextKeywords (state : Nat) : List (List Nat × Nat) :=
  if state = 1 then localhostTable else if state = 2 then [] else keywordTable

/-- The states that the lex states 1, 2, 25 and 26 reach on a first character
that starts no path segment, and those behind them. -/
def delimiterState (s : Nat) : Bool :=
  [20, 27, 28, 40, 120, 329, 333, 334, 335].contains s

/-- The symbols that the states of `delimiterState` accept. -/
def delimiterSymbols : List Nat :=
  [ts_builtin_sym_end, anon_sym_LF, anon_sym_COLON, anon_sym_SLASH, sym_variable_delim_start,
   anon_sym_QMARK, anon_sym_AMP, anon_sym_EQ]

/-- The letters of the six keywords: a, c, f, h, l, o, p, s, t, w. -/
def isKeywordLetter (c : Nat) : Bool :=
  decide (c = 97 ∨ c = 99 ∨ c = 102 ∨ c = 104 ∨ c = 108 ∨ c = 111 ∨ c = 112 ∨ c = 115 ∨
    c = 116 ∨ c = 119)

/-- The rest of a label: the label of which `len` characters have been read,
the last of them `-` when `hy` holds, and of which `l` is the rest, is a label
of a domain name. -/
def labelRestOk (len : Nat) (hy : Bool) (l : List Nat) : Bool :=
  l.all isLabelChar && decide (1 ≤ len + l.length ∧ len + l.length ≤ 63) &&
    (decide (len ≠ 0) || l.head?.any isAlnum) && (l.getLast?.map isAlnum).getD (!hy)

/-- The rest of a domain name: behind what the record `a` describes, the
pieces `ls` between the dots complete a domain name. -/
def labelsOk (a : LabelRun) (ls : List (List Nat)) : Bool :=
  match ls with
  | l :: tail => labelRestOk a.len a.hy l && tail.all isLabel && (a.done || !tail.isEmpty)
  | [] => false
/-- The states of `ts_lex` inside a token of the path and domain contexts, each
with what it records of the characters read (found by following the
transitions from the lex state 26, and checked against the `switch` by
`lexSimCheck`), in rows of twenty. -/
def runStateRows : List (List (Nat × RunInfo)) :=
  [
   [
    ((29 : Nat), RunInfo.mk [104, 116, 116, 112] (LabelRun.mk false false 4 false)),
    ((32 : Nat), RunInfo.mk [104, 116, 116, 112, 115] (LabelRun.mk false false 5 false)),
    ((34 : Nat), RunInfo.mk [102, 116, 112] (LabelRun.mk false false 3 false)),
    ((35 : Nat), RunInfo.mk [119, 115] (LabelRun.mk false false 2 false)),
    ((38 : Nat), RunInfo.mk [119, 115, 115] (LabelRun.mk false false 3 false)),
    ((42 : Nat), RunInfo.mk [] (LabelRun.mk false true 1 false)),
    ((43 : Nat), RunInfo.mk [] (LabelRun.mk false true 1 false)),
    ((44 : Nat), RunInfo.mk [] (LabelRun.mk false true 1 false)),
    ((45 : Nat), RunInfo.mk [] (LabelRun.mk false true 1 false)),
    ((46 : Nat), RunInfo.mk [] (LabelRun.mk false true 61 false)),
    ((47 : Nat), RunInfo.mk [] (LabelRun.mk false true 59 false)),
    ((48 : Nat), RunInfo.mk [] (LabelRun.mk false true 60 false)),
    ((49 : Nat), RunInfo.mk [] (LabelRun.mk false true 57 false)),
    ((50 : Nat), RunInfo.mk [] (LabelRun.mk false true 58 false)),
    ((51 : Nat), RunInfo.mk [] (LabelRun.mk false true 55 false)),
    ((52 : Nat), RunInfo.mk [] (LabelRun.mk false true 56 false)),
    ((53 : Nat), RunInfo.mk [] (LabelRun.mk false true 53 false)),
    ((54 : Nat), RunInfo.mk [] (LabelRun.mk false true 54 false)),
    ((55 : Nat), RunInfo.mk [] (LabelRun.mk false true 51 false)),
    ((56 : Nat), RunInfo.mk [] (LabelRun.mk false true 52 false))
   ],
   [
    ((57 : Nat), RunInfo.mk [] (LabelRun.mk false true 49 false)),
    ((58 : Nat), RunInfo.mk [] (LabelRun.mk false true 50 false)),
    ((59 : Nat), RunInfo.mk [] (LabelRun.mk false true 47 false)),
    ((60 : Nat), RunInfo.mk [] (LabelRun.mk false true 48 false)),
    ((61 : Nat), RunInfo.mk [] (LabelRun.mk false true 45 false)),
    ((62 : Nat), RunInfo.mk [] (LabelRun.mk false true 46 false)),
    ((63 : Nat), RunInfo.mk [] (LabelRun.mk false true 43 false)),
    ((64 : Nat), RunInfo.mk [] (LabelRun.mk false true 44 false)),
    ((65 : Nat), RunInfo.mk [] (LabelRun.mk false true 41 false)),
    ((66 : Nat), RunInfo.mk [] (LabelRun.mk false true 42 false)),
    ((67 : Nat), RunInfo.mk [] (LabelRun.mk false true 39 false)),
    ((68 : Nat), RunInfo.mk [] (LabelRun.mk false true 40 false)),
    ((69 : Nat), RunInfo.mk [] (LabelRun.mk false true 37 false)),
    ((70 : Nat), RunInfo.mk [] (LabelRun.mk false true 38 false)),
    ((71 : Nat), RunInfo.mk [] (LabelRun.mk false true 35 false)),
    ((72 : Nat), RunInfo.mk [] (LabelRun.mk false true 36 false)),
    ((73 : Nat), RunInfo.mk [] (LabelRun.mk false true 33 false)),
    ((74 : Nat), RunInfo.mk [] (LabelRun.mk false true 34 false)),
    ((75 : Nat), RunInfo.mk [] (LabelRun.mk false true 31 false)),
    ((76 : Nat), RunInfo.mk [] (LabelRun.mk false true 32 false))
   ],
   [
    ((77 : Nat), RunInfo.mk [] (LabelRun.mk false true 29 false)),
    ((78 : Nat), RunInfo.mk [] (LabelRun.mk false true 30 false)),
    ((79 : Nat), RunInfo.mk [] (LabelRun.mk false true 27 false)),
    ((80 : Nat), RunInfo.mk [] (LabelRun.mk false true 28 false)),
    ((81 : Nat), RunInfo.mk [] (LabelRun.mk false true 25 false)),
    ((82 : Nat), RunInfo.mk [] (LabelRun.mk false true 26 false)),
    ((83 : Nat), RunInfo.mk [] (LabelRun.mk false true 23 false)),
    ((84 : Nat), RunInfo.mk [] (LabelRun.mk false true 24 false)),
    ((85 : Nat), RunInfo.mk [] (LabelRun.mk false true 21 false)),
    ((86 : Nat), RunInfo.mk [] (LabelRun.mk false true 22 false)),
    ((87 : Nat), RunInfo.mk [] (LabelRun.mk false true 19 false)),
    ((88 : Nat), RunInfo.mk [] (LabelRun.mk false true 20 false)),
    ((89 : Nat), RunInfo.mk [] (LabelRun.mk false true 17 false)),
    ((90 : Nat), RunInfo.mk [] (LabelRun.mk false true 18 false)),
    ((91 : Nat), RunInfo.mk [] (LabelRun.mk false true 15 false)),
    ((92 : Nat), RunInfo.mk [] (LabelRun.mk false true 16 false)),
    ((93 : Nat), RunInfo.mk [] (LabelRun.mk false true 13 false)),
    ((94 : Nat), RunInfo.mk [] (LabelRun.mk false true 14 false)),
    ((95 : Nat), RunInfo.mk [] (LabelRun.mk false true 11 false)),
    ((96 : Nat), RunInfo.mk [] (LabelRun.mk false true 12 false))
   ],
   [
    ((97 : Nat), RunInfo.mk [] (LabelRun.mk false true 9 false)),
    ((98 : Nat), RunInfo.mk [] (LabelRun.mk false true 10 false)),
    ((99 : Nat), RunInfo.mk [] (LabelRun.mk false true 7 false)),
    ((100 : Nat), RunInfo.mk [] (LabelRun.mk false true 8 false)),
    ((101 : Nat), RunInfo.mk [] (LabelRun.mk false true 5 false)),
    ((102 : Nat), RunInfo.mk [] (LabelRun.mk false true 6 false)),
    ((103 : Nat), RunInfo.mk [] (LabelRun.mk false true 3 false)),
    ((104 : Nat), RunInfo.mk [] (LabelRun.mk false true 3 false)),
    ((105 : Nat), RunInfo.mk [] (LabelRun.mk false true 3 false)),
    ((106 : Nat), RunInfo.mk [] (LabelRun.mk false true 4 false)),
    ((107 : Nat), RunInfo.mk [] (LabelRun.mk false true 2 false)),
    ((108 : Nat), RunInfo.mk [] (LabelRun.mk false true 2 false)),
    ((109 : Nat), RunInfo.mk [] (LabelRun.mk false true 2 false)),
    ((110 : Nat), RunInfo.mk [] (LabelRun.mk false true 2 false)),
    ((111 : Nat), RunInfo.mk [] (LabelRun.mk false true 62 false)),
    ((112 : Nat), RunInfo.mk [] (LabelRun.mk false true 63 false)),
    ((114 : Nat), RunInfo.mk [108, 111, 99, 97, 108, 104, 111, 115, 116] (LabelRun.mk false false 9 false)),
    ((121 : Nat), RunInfo.mk [108] (LabelRun.mk false false 1 false)),
    ((122 : Nat), RunInfo.mk [119] (LabelRun.mk false false 1 false)),
    ((123 : Nat), RunInfo.mk [102] (LabelRun.mk false false 1 false))
   ],
   [
    ((124 : Nat), RunInfo.mk [104] (LabelRun.mk false false 1 false)),
    ((125 : Nat), RunInfo.mk [] (LabelRun.mk false false 1 false)),
    ((126 : Nat), RunInfo.mk [] (LabelRun.mk false false 1 false)),
    ((127 : Nat), RunInfo.mk [] (LabelRun.mk false false 61 false)),
    ((128 : Nat), RunInfo.mk [] (LabelRun.mk false false 61 true)),
    ((129 : Nat), RunInfo.mk [] (LabelRun.mk false false 59 false)),
    ((130 : Nat), RunInfo.mk [] (LabelRun.mk false false 59 true)),
    ((131 : Nat), RunInfo.mk [] (LabelRun.mk false true 61 true)),
    ((132 : Nat), RunInfo.mk [] (LabelRun.mk false false 60 false)),
    ((133 : Nat), RunInfo.mk [] (LabelRun.mk false false 60 true)),
    ((134 : Nat), RunInfo.mk [] (LabelRun.mk false true 59 true)),
    ((135 : Nat), RunInfo.mk [] (LabelRun.mk false true 60 true)),
    ((136 : Nat), RunInfo.mk [] (LabelRun.mk false false 57 false)),
    ((137 : Nat), RunInfo.mk [] (LabelRun.mk false false 57 true)),
    ((138 : Nat), RunInfo.mk [] (LabelRun.mk false true 57 true)),
    ((139 : Nat), RunInfo.mk [] (LabelRun.mk false false 58 false)),
    ((140 : Nat), RunInfo.mk [] (LabelRun.mk false false 58 true)),
    ((141 : Nat), RunInfo.mk [] (LabelRun.mk false true 58 true)),
    ((142 : Nat), RunInfo.mk [] (LabelRun.mk false false 55 false)),
    ((143 : Nat), RunInfo.mk [] (LabelRun.mk false false 55 true))
   ],
   [
    ((144 : Nat), RunInfo.mk [] (LabelRun.mk false true 55 true)),
    ((145 : Nat), RunInfo.mk [] (LabelRun.mk false false 56 false)),
    ((146 : Nat), RunInfo.mk [] (LabelRun.mk false false 56 true)),
    ((147 : Nat), RunInfo.mk [] (LabelRun.mk false true 56 true)),
    ((148 : Nat), RunInfo.mk [] (LabelRun.mk false false 53 false)),
    ((149 : Nat), RunInfo.mk [] (LabelRun.mk false false 53 true)),
    ((150 : Nat), RunInfo.mk [] (LabelRun.mk false true 53 true)),
    ((151 : Nat), RunInfo.mk [] (LabelRun.mk false false 54 false)),
    ((152 : Nat), RunInfo.mk [] (LabelRun.mk false false 54 true)),
    ((153 : Nat), RunInfo.mk [] (LabelRun.mk false true 54 true)),
    ((154 : Nat), RunInfo.mk [] (LabelRun.mk false false 51 false)),
    ((155 : Nat), RunInfo.mk [] (LabelRun.mk false false 51 true)),
    ((156 : Nat), RunInfo.mk [] (LabelRun.mk false true 51 true)),
    ((157 : Nat), RunInfo.mk [] (LabelRun.mk false false 52 false)),
    ((158 : Nat), RunInfo.mk [] (LabelRun.mk false false 52 true)),
    ((159 : Nat), RunInfo.mk [] (LabelRun.mk false true 52 true)),
    ((160 : Nat), RunInfo.mk [] (LabelRun.mk false false 49 false)),
    ((161 : Nat), RunInfo.mk [] (LabelRun.mk false false 49 true)),
    ((162 : Nat), RunInfo.mk [] (LabelRun.mk false true 49 true)),
    ((163 : Nat), RunInfo.mk [] (LabelRun.mk false false 50 false))
   ],
   [
    ((164 : Nat), RunInfo.mk [] (LabelRun.mk false false 50 true)),
    ((165 : Nat), RunInfo.mk [] (LabelRun.mk false true 50 true)),
    ((166 : Nat), RunInfo.mk [] (LabelRun.mk false false 47 false)),
    ((167 : Nat), RunInfo.mk [] (LabelRun.mk false false 47 true)),
    ((168 : Nat), RunInfo.mk [] (LabelRun.mk false true 47 true)),
    ((169 : Nat), RunInfo.mk [] (LabelRun.mk false false 48 false)),
    ((170 : Nat), RunInfo.mk [] (LabelRun.mk false false 48 true)),
    ((171 : Nat), RunInfo.mk [] (LabelRun.mk false true 48 true)),
    ((172 : Nat), RunInfo.mk [] (LabelRun.mk false false 45 false)),
    ((173 : Nat), RunInfo.mk [] (LabelRun.mk false false 45 true)),
    ((174 : Nat), RunInfo.mk [] (LabelRun.mk false true 45 true)),
    ((175 : Nat), RunInfo.mk [] (LabelRun.mk false false 46 false)),
    ((176 : Nat), RunInfo.mk [] (LabelRun.mk false false 46 true)),
    ((177 : Nat), RunInfo.mk [] (LabelRun.mk false true 46 true)),
    ((178 : Nat), RunInfo.mk [] (LabelRun.mk false false 43 false)),
    ((179 : Nat), RunInfo.mk [] (LabelRun.mk false false 43 true)),
    ((180 : Nat), RunInfo.mk [] (LabelRun.mk false true 43 true)),
    ((181 : Nat), RunInfo.mk [] (LabelRun.mk false false 44 false)),
    ((182 : Nat), RunInfo.mk [] (LabelRun.mk false false 44 true)),
    ((183 : Nat), RunInfo.mk [] (LabelRun.mk false true 44 true))
   ],
   [
    ((184 : Nat), RunInfo.mk [] (LabelRun.mk false false 41 false)),
    ((185 : Nat), RunInfo.mk [] (LabelRun.mk false false 41 true)),
    ((186 : Nat), RunInfo.mk [] (LabelRun.mk false true 41 true)),
    ((187 : Nat), RunInfo.mk [] (LabelRun.mk false false 42 false)),
    ((188 : Nat), RunInfo.mk [] (LabelRun.mk false false 42 true)),
    ((189 : Nat), RunInfo.mk [] (LabelRun.mk false true 42 true)),
    ((190 : Nat), RunInfo.mk [] (LabelRun.mk false false 39 false)),
    ((191 : Nat), RunInfo.mk [] (LabelRun.mk false false 39 true)),
    ((192 : Nat), RunInfo.mk [] (LabelRun.mk false true 39 true)),
    ((193 : Nat), RunInfo.mk [] (LabelRun.mk false false 40 false)),
    ((194 : Nat), RunInfo.mk [] (LabelRun.mk false false 40 true)),
    ((195 : Nat), RunInfo.mk [] (LabelRun.mk false true 40 true)),
    ((196 : Nat), RunInfo.mk [] (LabelRun.mk false false 37 false)),
    ((197 : Nat), RunInfo.mk [] (LabelRun.mk false false 37 true)),
    ((198 : Nat), RunInfo.mk [] (LabelRun.mk false true 37 true)),
    ((199 : Nat), RunInfo.mk [] (LabelRun.mk false false 38 false)),
    ((200 : Nat), RunInfo.mk [] (LabelRun.mk false false 38 true)),
    ((201 : Nat), RunInfo.mk [] (LabelRun.mk false true 38 true)),
    ((202 : Nat), RunInfo.mk [] (LabelRun.mk false false 35 false)),
    ((203 : Nat), RunInfo.mk [] (LabelRun.mk false false 35 true))
   ],
   [
    ((204 : Nat), RunInfo.mk [] (LabelRun.mk false true 35 true)),
    ((205 : Nat), RunInfo.mk [] (LabelRun.mk false false 36 false)),
    ((206 : Nat), RunInfo.mk [] (LabelRun.mk false false 36 true)),
    ((207 : Nat), RunInfo.mk [] (LabelRun.mk false true 36 true)),
    ((208 : Nat), RunInfo.mk [] (LabelRun.mk false false 33 false)),
    ((209 : Nat), RunInfo.mk [] (LabelRun.mk false false 33 true)),
    ((210 : Nat), RunInfo.mk [] (LabelRun.mk false true 33 true)),
    ((211 : Nat), RunInfo.mk [] (LabelRun.mk false false 34 false)),
    ((212 : Nat), RunInfo.mk [] (LabelRun.mk false false 34 true)),
    ((213 : Nat), RunInfo.mk [] (LabelRun.mk false true 34 true)),
    ((214 : Nat), RunInfo.mk [] (LabelRun.mk false false 31 false)),
    ((215 : Nat), RunInfo.mk [] (LabelRun.mk false false 31 true)),
    ((216 : Nat), RunInfo.mk [] (LabelRun.mk false true 31 true)),
    ((217 : Nat), RunInfo.mk [] (LabelRun.mk false false 32 false)),
    ((218 : Nat), RunInfo.mk [] (LabelRun.mk false false 32 true)),
    ((219 : Nat), RunInfo.mk [] (LabelRun.mk false true 32 true)),
    ((220 : Nat), RunInfo.mk [] (LabelRun.mk false false 29 false)),
    ((221 : Nat), RunInfo.mk [] (LabelRun.mk false false 29 true)),
    ((222 : Nat), RunInfo.mk [] (LabelRun.mk false true 29 true)),
    ((223 : Nat), RunInfo.mk [] (LabelRun.mk false false 30 false))
   ],
   [
    ((224 : Nat), RunInfo.mk [] (LabelRun.mk false false 30 true)),
    ((225 : Nat), RunInfo.mk [] (LabelRun.mk false true 30 true)),
    ((226 : Nat), RunInfo.mk [] (LabelRun.mk false false 27 false)),
    ((227 : Nat), RunInfo.mk [] (LabelRun.mk false false 27 true)),
    ((228 : Nat), RunInfo.mk [] (LabelRun.mk false true 27 true)),
    ((229 : Nat), RunInfo.mk [] (LabelRun.mk false false 28 false)),
    ((230 : Nat), RunInfo.mk [] (LabelRun.mk false false 28 true)),
    ((231 : Nat), RunInfo.mk [] (LabelRun.mk false true 28 true)),
    ((232 : Nat), RunInfo.mk [] (LabelRun.mk false false 25 false)),
    ((233 : Nat), RunInfo.mk [] (LabelRun.mk false false 25 true)),
    ((234 : Nat), RunInfo.mk [] (LabelRun.mk false true 25 true)),
    ((235 : Nat), RunInfo.mk [] (LabelRun.mk false false 26 false)),
    ((236 : Nat), RunInfo.mk [] (LabelRun.mk false false 26 true)),
    ((237 : Nat), RunInfo.mk [] (LabelRun.mk false true 26 true)),
    ((238 : Nat), RunInfo.mk [] (LabelRun.mk false false 23 false)),
    ((239 : Nat), RunInfo.mk [] (LabelRun.mk false false 23 true)),
    ((240 : Nat), RunInfo.mk [] (LabelRun.mk false true 23 true)),
    ((241 : Nat), RunInfo.mk [] (LabelRun.mk false false 24 false)),
    ((242 : Nat), RunInfo.mk [] (LabelRun.mk false false 24 true)),
    ((243 : Nat), RunInfo.mk [] (LabelRun.mk false true 24 true))
   ],
   [
    ((244 : Nat), RunInfo.mk [] (LabelRun.mk false false 21 false)),
    ((245 : Nat), RunInfo.mk [] (LabelRun.mk false false 21 true)),
    ((246 : Nat), RunInfo.mk [] (LabelRun.mk false true 21 true)),
    ((247 : Nat), RunInfo.mk [] (LabelRun.mk false false 22 false)),
    ((248 : Nat), RunInfo.mk [] (LabelRun.mk false false 22 true)),
    ((249 : Nat), RunInfo.mk [] (LabelRun.mk false true 22 true)),
    ((250 : Nat), RunInfo.mk [] (LabelRun.mk false false 19 false)),
    ((251 : Nat), RunInfo.mk [] (LabelRun.mk false false 19 true)),
    ((252 : Nat), RunInfo.mk [] (LabelRun.mk false true 19 true)),
    ((253 : Nat), RunInfo.mk [] (LabelRun.mk false false 20 false)),
    ((254 : Nat), RunInfo.mk [] (LabelRun.mk false false 20 true)),
    ((255 : Nat), RunInfo.mk [] (LabelRun.mk false true 20 true)),
    ((256 : Nat), RunInfo.mk [] (LabelRun.mk false false 17 false)),
    ((257 : Nat), RunInfo.mk [] (LabelRun.mk false false 17 true)),
    ((258 : Nat), RunInfo.mk [] (LabelRun.mk false true 17 true)),
    ((259 : Nat), RunInfo.mk [] (LabelRun.mk false false 18 false)),
    ((260 : Nat), RunInfo.mk [] (LabelRun.mk false false 18 true)),
    ((261 : Nat), RunInfo.mk [] (LabelRun.mk false true 18 true)),
    ((262 : Nat), RunInfo.mk [] (LabelRun.mk false false 15 false)),
    ((263 : Nat), RunInfo.mk [] (LabelRun.mk false false 15 true))
   ],
   [
    ((264 : Nat), RunInfo.mk [] (LabelRun.mk false true 15 true)),
    ((265 : Nat), RunInfo.mk [] (LabelRun.mk false false 16 false)),
    ((266 : Nat), RunInfo.mk [] (LabelRun.mk false false 16 true)),
    ((267 : Nat), RunInfo.mk [] (LabelRun.mk false true 16 true)),
    ((268 : Nat), RunInfo.mk [] (LabelRun.mk false false 13 false)),
    ((269 : Nat), RunInfo.mk [] (LabelRun.mk false false 13 true)),
    ((270 : Nat), RunInfo.mk [] (LabelRun.mk false true 13 true)),
    ((271 : Nat), RunInfo.mk [] (LabelRun.mk false false 14 false)),
    ((272 : Nat), RunInfo.mk [] (LabelRun.mk false false 14 true)),
    ((273 : Nat), RunInfo.mk [] (LabelRun.mk false true 14 true)),
    ((274 : Nat), RunInfo.mk [] (LabelRun.mk false false 11 false)),
    ((275 : Nat), RunInfo.mk [] (LabelRun.mk false false 11 true)),
    ((276 : Nat), RunInfo.mk [] (LabelRun.mk false true 11 true)),
    ((277 : Nat), RunInfo.mk [] (LabelRun.mk false false 12 false)),
    ((278 : Nat), RunInfo.mk [] (LabelRun.mk false false 12 true)),
    ((279 : Nat), RunInfo.mk [] (LabelRun.mk false true 12 true)),
    ((280 : Nat), RunInfo.mk [] (LabelRun.mk false false 9 false)),
    ((281 : Nat), RunInfo.mk [] (LabelRun.mk false false 9 true)),
    ((282 : Nat), RunInfo.mk [] (LabelRun.mk false true 9 true)),
    ((283 : Nat), RunInfo.mk [] (LabelRun.mk false false 10 false))
   ],
   [
    ((284 : Nat), RunInfo.mk [] (LabelRun.mk false false 10 true)),
    ((285 : Nat), RunInfo.mk [] (LabelRun.mk false true 10 true)),
    ((286 : Nat), RunInfo.mk [108, 111, 99, 97, 108, 104, 111] (LabelRun.mk false false 7 false)),
    ((287 : Nat), RunInfo.mk [] (LabelRun.mk false false 7 false)),
    ((288 : Nat), RunInfo.mk [] (LabelRun.mk false false 7 true)),
    ((289 : Nat), RunInfo.mk [] (LabelRun.mk false true 7 true)),
    ((290 : Nat), RunInfo.mk [108, 111, 99, 97, 108, 104, 111, 115] (LabelRun.mk false false 8 false)),
    ((291 : Nat), RunInfo.mk [] (LabelRun.mk false false 8 false)),
    ((292 : Nat), RunInfo.mk [] (LabelRun.mk false false 8 true)),
    ((293 : Nat), RunInfo.mk [] (LabelRun.mk false true 8 true)),
    ((294 : Nat), RunInfo.mk [108, 111, 99, 97, 108] (LabelRun.mk false false 5 false)),
    ((295 : Nat), RunInfo.mk [] (LabelRun.mk false false 5 false)),
    ((296 : Nat), RunInfo.mk [] (LabelRun.mk false false 5 true)),
    ((297 : Nat), RunInfo.mk [] (LabelRun.mk false true 5 true)),
    ((298 : Nat), RunInfo.mk [108, 111, 99, 97, 108, 104] (LabelRun.mk false false 6 false)),
    ((299 : Nat), RunInfo.mk [] (LabelRun.mk false false 6 false)),
    ((300 : Nat), RunInfo.mk [] (LabelRun.mk false false 6 true)),
    ((301 : Nat), RunInfo.mk [] (LabelRun.mk false true 6 true)),
    ((302 : Nat), RunInfo.mk [108, 111, 99] (LabelRun.mk false false 3 false)),
    ((303 : Nat), RunInfo.mk [104, 116, 116] (LabelRun.mk false false 3 false))
   ],
   [
    ((304 : Nat), RunInfo.mk [] (LabelRun.mk false false 3 false)),
    ((305 : Nat), RunInfo.mk [] (LabelRun.mk false false 3 false)),
    ((306 : Nat), RunInfo.mk [] (LabelRun.mk false false 3 true)),
    ((307 : Nat), RunInfo.mk [] (LabelRun.mk false true 3 true)),
    ((308 : Nat), RunInfo.mk [108, 111, 99, 97] (LabelRun.mk false false 4 false)),
    ((309 : Nat), RunInfo.mk [] (LabelRun.mk false false 4 false)),
    ((310 : Nat), RunInfo.mk [] (LabelRun.mk false false 4 true)),
    ((311 : Nat), RunInfo.mk [] (LabelRun.mk false true 4 true)),
    ((312 : Nat), RunInfo.mk [108, 111] (LabelRun.mk false false 2 false)),
    ((313 : Nat), RunInfo.mk [102, 116] (LabelRun.mk false false 2 false)),
    ((314 : Nat), RunInfo.mk [104, 116] (LabelRun.mk false false 2 false)),
    ((315 : Nat), RunInfo.mk [] (LabelRun.mk false false 2 false)),
    ((316 : Nat), RunInfo.mk [] (LabelRun.mk false false 2 false)),
    ((317 : Nat), RunInfo.mk [] (LabelRun.mk false false 2 true)),
    ((318 : Nat), RunInfo.mk [] (LabelRun.mk false true 2 true)),
    ((319 : Nat), RunInfo.mk [] (LabelRun.mk false false 62 false)),
    ((320 : Nat), RunInfo.mk [] (LabelRun.mk false false 63 false)),
    ((321 : Nat), RunInfo.mk [] (LabelRun.mk false true 0 false)),
    ((322 : Nat), RunInfo.mk [] (LabelRun.mk false true 0 false)),
    ((323 : Nat), RunInfo.mk [] (LabelRun.mk false true 0 false))
   ],
   [
    ((324 : Nat), RunInfo.mk [] (LabelRun.mk false true 0 false)),
    ((325 : Nat), RunInfo.mk [] (LabelRun.mk false false 62 true)),
    ((326 : Nat), RunInfo.mk [] (LabelRun.mk false true 62 true)),
    ((327 : Nat), RunInfo.mk [] (LabelRun.mk true false 0 false))
   ]
  ]

/-- The table of the states of `runStateRows`. -/
def runStates : List (Nat × RunInfo) :=
  runStateRows.flatten
/-- The check made on one case of state `s` for the one-character token `x`,
which is accepted in state `n`; `onCh` tells whether the case is taken on the
character of the token and `ws` whether it is taken on whitespace.  The case
accepts `x` exactly in state `n`; an `ADVANCE` leads to `n` only on the
character and from an entry state, and when `strict` is set an `ADVANCE` on
the character leads nowhere else; a `SKIP` is made on whitespace only; state
`n` has no move. -/
def lexCharCaseOk (x n : Nat) (strict : Bool) (s : Nat) (onCh ws : Bool)
    (c : Option LexCase) : Bool :=
  match c with
  | none => true
  | some ⟨acc, mv⟩ =>
    (match acc with
      | none => s != n
      | some a => (a == x) == (s == n)) &&
    (match mv with
      | ADVANCE k =>
        if onCh then (k == n && isEntryState s) || (!strict && k != n) else k != n
      | SKIP _ => ws && !onCh
      | END_STATE => true) &&
    (s != n ||
      match mv with
      | END_STATE => true
      | _ => false)

/-- A check on the graph of the lexer for the one-character token `x` of
state `n`: a state accepts `x` exactly when it is `n`; only entry states lead
to `n`; state `n` leads nowhere. -/
def lexCharGraphOk (x n : Nat) : Bool :=
  lexRowsAll (fun s a t =>
    (match a with
      | none => s != n
      | some y => (y == x) == (s == n)) &&
    (!t.contains n || isEntryState s) &&
    (s != n || t.isEmpty))
    0 lexAccepts lexTargets

/-- A check over the entry states and the character classes: an entry state
advances to `n` on the character `ch` only, and skips whitespace only. -/
def lexCharEntryOk (ch n : Nat) : Bool :=
  lexEntryStates.all fun s =>
    lexBreakpoints.all fun r =>
      match ts_lex_state s false r with
      | some ⟨_, ADVANCE k⟩ => k != n || r == ch
      | some ⟨_, SKIP _⟩ => isWhitespace r && r != ch
      | _ => true

/-- A check over the lexer states: on the character `ch` a state advances to
`n` only. -/
def lexCharOnlyOk (ch n : Nat) : Bool :=
  (List.range LEX_STATE_COUNT).all fun s =>
    match ts_lex_state s false ch with
    | some ⟨_, ADVANCE k⟩ => k == n
    | _ => true

/-- The checks for the one-character token `x`, the character `ch`, accepted
in state `n`, which is not the state 27 of the end token; `strict` asks that
no state advances on `ch` but to `n`. -/
def lexCharCheck (ch x n : Nat) (strict : Bool) : Bool :=
  lexCharGraphOk x n && lexCharEntryOk ch n && (!strict || lexCharOnlyOk ch n) && n != 27

/-- What holds between two steps of the lexer, `pre` being the characters
consumed so far: in an entry state the token has not begun; in state `n` the
token is the character `ch` alone; in another state nothing accepted is the
symbol `x`, and when `strict` is set the token has no `ch`. -/
def lexCharInv (ch x n : Nat) (strict : Bool) (pre : List Nat) (s start : Nat)
    (res : Option (Nat × Nat)) : Prop :=
  (isEntryState s = true ∧ start = pre.length ∧ res = none) ∨
  (isEntryState s = false ∧ s ≠ n ∧ start < pre.length ∧
    (strict = true → ch ∉ pre.drop start) ∧
    ∀ r, res = some r → r.1 ≠ x ∧ r.2 ≤ pre.length) ∨
  (isEntryState s = false ∧ s = n ∧ pre.drop start = [ch] ∧ res = none)

/-- What holds of a token of `input` with respect to the one-character token
`x`: the token is `x` and its text is the character `ch`, or it is another
token, without the character `ch` when `strict` is set. -/
def lexCharPost (ch x : Nat) (strict : Bool) (input : List Nat) (tok : Token) : Prop :=
  (tok.symbol = x ∧ tokenText input tok = [ch]) ∨
  (tok.symbol ≠ x ∧ (strict = true → ch ∉ tokenText input tok))

/-- The states that the `SHIFT` actions of a table entry lead to. -/
def shiftTargets (actions : List TSParseAction) : List Nat :=
  actions.filterMap fun a =>
    match a with
    | SHIFT k => some k
    | _ => none

/-- The reductions of a table entry, as pairs (symbol, child count). -/
def reduceItems (actions : List TSParseAction) : List (Nat × Nat) :=
  actions.filterMap fun a =>
    match a with
    | REDUCE symbol childCount _ _ => some (symbol, childCount)
    | _ => none

/-- The moves of the parse tables that push a state: the triples (state,
symbol, next state) of the `SHIFT` actions and of the entries for the
non-terminals. -/
def tableEdges : List (Nat × Nat × Nat) :=
  (tableActions.flatMap fun row =>
    row.2.flatMap fun e => (shiftTargets e.2).map fun k => (row.1, e.1, k)) ++
  tableGotos.flatMap fun row => row.2.map fun e => (row.1, e.1, e.2)

/-- The reductions of the parse tables: the triples (state, symbol, child
count). -/
def tableReduces : List (Nat × Nat × Nat) :=
  tableActions.flatMap fun row =>
    row.2.flatMap fun e => (reduceItems e.2).map fun r => (row.1, r.1, r.2)

/-- Whether the tables lead from state `below` to state `state` on `symbol`:
by a `SHIFT` on a token, by the entry of the state for a non-terminal. -/
def isEdge (below symbol state : Nat) : Bool :=
  if symbol < TOKEN_COUNT then (ts_language_actions below symbol).contains (SHIFT state)
  else ts_language_lookup below symbol == state

/-- Whether every entry of a stack was pushed by a move of the tables from the
state below it, on the symbol of its tree. -/
def linked : List (Nat × Tree) → Bool
  | [] => true
  | e :: rest => isEdge (topState rest) e.2.symbol e.1 && linked rest

/-- The text of the trees of a stack, from the bottom to the top. -/
def stackText : List (Nat × Tree) → List Nat
  | [] => []
  | e :: rest => stackText rest ++ e.2.text

/-- A list `a` is the list `b` with some whitespace left out. -/
def skipsTo (a b : List Nat) : Prop :=
  a.Sublist b ∧ a.filter (fun c => !isWhitespace c) = b.filter (fun c => !isWhitespace c)

/-- The parameters of a list, each behind a token `&`. -/
def paramItems (ps : List Tree) : List Tree :=
  ps.flatMap fun p => [Tree.leaf anon_sym_AMP [38], p]

/-- A query parameter: a `sym_query_param` without the character `&`, which
shows a key, or a key, `=` and a value. -/
def isParam (p : Tree) : Prop :=
  p.symbol = sym_query_param ∧ 38 ∉ p.text ∧
  (p.visibleChildren.map Tree.symbol = [sym_key] ∨
    p.visibleChildren.map Tree.symbol = [sym_key, anon_sym_EQ, sym_value])

/-- The shape of a query string: it shows `?`, a parameter, and then `&` and
a parameter any number of times; its text is the texts of these in order. -/
def queryShape (q : Tree) : Prop :=
  ∃ p ps, (∀ x ∈ p :: ps, isParam x) ∧
    q.visibleChildren = Tree.leaf anon_sym_QMARK [63] :: p :: paramItems ps ∧
    q.text = 63 :: (p.text ++ ps.flatMap fun x => 38 :: x.text)

/-- The shape of a repetition inside a query string: `&` and a parameter,
once or more. -/
def repeatShape (r : Tree) : Prop :=
  ∃ ps, ps ≠ [] ∧ (∀ x ∈ ps, isParam x) ∧ r.expand = paramItems ps ∧
    r.text = ps.flatMap fun x => 38 :: x.text

/-- The symbols inside a query parameter: the tokens of a variable, `=`, the
key and value tokens, and the non-terminals variable, key and value. -/
def paramSymbols : List Nat :=
  [sym_variable_delim_start, sym_variable_delim_end, sym_variable_name, anon_sym_EQ,
    aux_sym_key_token1, aux_sym_value_token1, sym_variable, sym_key, sym_value]

/-- What holds of every tree on the stack of a run: its query strings have the
shape `queryShape`; a tree with a token symbol is a token, `?` and `&` being
single characters and no other token having an `&`; a query parameter
satisfies `isParam`, a repetition `repeatShape`, and a tree inside a parameter
has no `&`. -/
def treeOk (t : Tree) : Prop :=
  (∀ q ∈ t.nodesOf sym_query_string, queryShape q) ∧
  (t.symbol < TOKEN_COUNT → ∃ text, t = Tree.leaf t.symbol text) ∧
  (t.symbol = anon_sym_QMARK → t.text = [63]) ∧
  (t.symbol = anon_sym_AMP → t.text = [38]) ∧
  (t.symbol = sym_query_param → isParam t) ∧
  (t.symbol = aux_sym_query_string_repeat1 → repeatShape t) ∧
  (t.symbol ∈ paramSymbols → 38 ∉ t.text)

/-- What holds of the look-ahead token of a run: it is the token that the
lexer returns on the remaining input in a lex state of `ts_lex_modes`. -/
def lookOk (input : List Nat) (lookahead : Option Token) : Prop :=
  ∀ tok, lookahead = some tok → ∃ e, isEntryState e = true ∧ ts_lex input e = some tok

/-- The tree of `/p?a=1&b=2&a=3` as one line. -/
def queryOrderTree : Tree :=
  .node sym_source_file [
    .node aux_sym_source_file_repeat1 [
      .node sym_url_line [
        .node sym_url_components [
          .node sym_path [
            .node aux_sym_path_repeat1 [
              .leaf anon_sym_SLASH (codes "/"),
              .leaf sym_path_segment (codes "p")]],
          .node sym_query_string [
            .leaf anon_sym_QMARK (codes "?"),
            .node sym_query_param [
              .node sym_key [
                .leaf aux_sym_key_token1 (codes "a")],
              .leaf anon_sym_EQ (codes "="),
              .node sym_value [
                .leaf aux_sym_value_token1 (codes "1")]],
            .node aux_sym_query_string_repeat1 [
              .node aux_sym_query_string_repeat1 [
                .leaf anon_sym_AMP (codes "&"),
                .node sym_query_param [
                  .node sym_key [
                    .leaf aux_sym_key_token1 (codes "b")],
                  .leaf anon_sym_EQ (codes "="),
                  .node sym_value [
                    .leaf aux_sym_value_token1 (codes "2")]]],
              .node aux_sym_query_string_repeat1 [
                .leaf anon_sym_AMP (codes "&"),
                .node sym_query_param [
                  .node sym_key [
                    .leaf aux_sym_key_token1 (codes "a")],
                  .leaf anon_sym_EQ (codes "="),
                  .node sym_value [
                    .leaf aux_sym_value_token1 (codes "3")]]]]]]]]]

/-! ## Character classes: the lexer only compares `lookahead` with constants -/

theorem foldl_max_le (l : List Nat) (a c : Nat) (ha : a ≤ c) (hl : ∀ b ∈ l, b ≤ c) :
    l.foldl max a ≤ c := by
  induction l generalizing a with
  | nil => simpa using ha
  | cons x xs ih =>
    simp only [List.foldl_cons]
    exact ih _ (max_le ha (hl x (List.mem_cons_self _ _)))
      (fun b hb => hl b (List.mem_cons_of_mem _ hb))

theorem le_foldl_max (l : List Nat) (a : Nat) : a ≤ l.foldl max a := by
  induction l generalizing a with
  | nil => simp
  | cons x xs ih =>
    simp only [List.foldl_cons]
    exact le_trans (le_max_left a x) (ih _)

theorem mem_le_foldl_max (l : List Nat) (a t : Nat) (ht : t ∈ l) : t ≤ l.foldl max a := by
  induction l generalizing a with
  | nil => simp at ht
  | cons x xs ih =>
    simp only [List.foldl_cons]
    rcases List.mem_cons.mp ht with h | h
    · subst h
      exact le_trans (le_max_right a t) (le_foldl_max _ _)
    · exact ih _ h

theorem foldl_max_mem (l : List Nat) (a : Nat) : l.foldl max a = a ∨ l.foldl max a ∈ l := by
  induction l generalizing a with
  | nil => simp
  | cons x xs ih =>
    simp only [List.foldl_cons, List.mem_cons]
    rcases ih (max a x) with h | h
    · rcases max_choice a x with h2 | h2
      · left; rw [h, h2]
      · right; left; rw [h, h2]
    · right; right; exact h

theorem charClass_le_self (c : Nat) : charClass c ≤ c := by
  unfold charClass
  apply foldl_max_le
  · exact Nat.zero_le c
  · intro b hb
    have := (List.mem_filter.mp hb).2
    simpa using this

theorem le_charClass (t c : Nat) (ht : t ∈ lexBreakpoints) (h : t ≤ c) : t ≤ charClass c := by
  unfold charClass
  apply mem_le_foldl_max
  exact List.mem_filter.mpr ⟨ht, by simpa using h⟩

theorem charClass_mem (c : Nat) : charClass c ∈ lexBreakpoints := by
  unfold charClass
  rcases foldl_max_mem (lexBreakpoints.filter fun b => decide (b ≤ c)) 0 with h | h
  · rw [h]; decide
  · exact (List.mem_filter.mp h).1

theorem charClass_ge (t c : Nat) (ht : t ∈ lexBreakpoints) :
    (t ≤ charClass c) = (t ≤ c) :=
  propext ⟨fun h => le_trans h (charClass_le_self c), le_charClass t c ht⟩

theorem charClass_le (b c : Nat) (hb : b + 1 ∈ lexBreakpoints) :
    (charClass c ≤ b) = (c ≤ b) := by
  apply propext
  constructor
  · intro h
    by_contra hc
    have : b + 1 ≤ charClass c := le_charClass (b + 1) c hb (by omega)
    omega
  · intro h
    exact le_trans (charClass_le_self c) h

theorem charClass_eq (k c : Nat) (hk : k ∈ lexBreakpoints) (hk1 : k + 1 ∈ lexBreakpoints) :
    (charClass c = k) = (c = k) := by
  have h1 := charClass_ge k c hk
  have h2 := charClass_le k c hk1
  apply propext
  constructor
  · intro h
    have a : k ≤ c := by rw [← h1]; omega
    have b : c ≤ k := by rw [← h2]; omega
    omega
  · intro h
    have a : k ≤ charClass c := by rw [h1]; omega
    have b : charClass c ≤ k := by rw [h2]; omega
    omega

theorem set_contains_iff (c : Nat) :
    set_contains sym_path_segment_character_set_1 10 c = true ↔
      (c ≤ 8 ∨ (14 ≤ c ∧ c ≤ 31) ∨ (33 ≤ c ∧ c ≤ 37) ∨ (39 ≤ c ∧ c ≤ 46) ∨
        (48 ≤ c ∧ c ≤ 57) ∨ (59 ≤ c ∧ c ≤ 60) ∨ c = 62 ∨ (64 ≤ c ∧ c ≤ 122) ∨
        c = 124 ∨ (126 ≤ c ∧ c ≤ 1114111)) := by
  simp only [set_contains, sym_path_segment_character_set_1, List.take, List.any_cons,
    List.any_nil, Bool.or_false, Bool.or_eq_true, Bool.and_eq_true, decide_eq_true_eq]
  omega

theorem set_contains_class (c : Nat) :
    set_contains sym_path_segment_character_set_1 10 (charClass c) =
      set_contains sym_path_segment_character_set_1 10 c := by
  rw [Bool.eq_iff_iff, set_contains_iff, set_contains_iff]
  simp (disch := decide) only [charClass_ge, charClass_le, charClass_eq]

set_option maxRecDepth 100000 in
set_option maxHeartbeats 4000000 in
/-- No test of any case of `ts_lex` tells a code point from the representative
of its class. -/
theorem ts_lex_cases_class :
    ∀ row ∈ ts_lex_cases, ∀ f ∈ row, ∀ (eof : Bool) (c : Nat),
      f eof (charClass c) = f eof c := by
  have e0 : ∀ c, (charClass c = 0) = (c = 0) := fun c => charClass_eq 0 c (by decide) (by decide)
  have e10 : ∀ c, (charClass c = 10) = (c = 10) := fun c => charClass_eq 10 c (by decide) (by decide)
  have e32 : ∀ c, (charClass c = 32) = (c = 32) := fun c => charClass_eq 32 c (by decide) (by decide)
  have e38 : ∀ c, (charClass c = 38) = (c = 38) := fun c => charClass_eq 38 c (by decide) (by decide)
  have e45 : ∀ c, (charClass c = 45) = (c = 45) := fun c => charClass_eq 45 c (by decide) (by decide)
  have e46 : ∀ c, (charClass c = 46) = (c = 46) := fun c => charClass_eq 46 c (by decide) (by decide)
  have e47 : ∀ c, (charClass c = 47) = (c = 47) := fun c => charClass_eq 47 c (by decide) (by decide)
  have e58 : ∀ c, (charClass c = 58) = (c = 58) := fun c => charClass_eq 58 c (by decide) (by decide)
  have e61 : ∀ c, (charClass c = 61) = (c = 61) := fun c => charClass_eq 61 c (by decide) (by decide)
  have e63 : ∀ c, (charClass c = 63) = (c = 63) := fun c => charClass_eq 63 c (by decide) (by decide)
  have e95 : ∀ c, (charClass c = 95) = (c = 95) := fun c => charClass_eq 95 c (by decide) (by decide)
  have e97 : ∀ c, (charClass c = 97) = (c = 97) := fun c => charClass_eq 97 c (by decide) (by decide)
  have e99 : ∀ c, (charClass c = 99) = (c = 99) := fun c => charClass_eq 99 c (by decide) (by decide)
  have e102 : ∀ c, (charClass c = 102) = (c = 102) := fun c => charClass_eq 102 c (by decide) (by decide)
  have e104 : ∀ c, (charClass c = 104) = (c = 104) := fun c => charClass_eq 104 c (by decide) (by decide)
  have e108 : ∀ c, (charClass c = 108) = (c = 108) := fun c => charClass_eq 108 c (by decide) (by decide)
  have e111 : ∀ c, (charClass c = 111) = (c = 111) := fun c => charClass_eq 111 c (by decide) (by decide)
  have e112 : ∀ c, (charClass c = 112) = (c = 112) := fun c => charClass_eq 112 c (by decide) (by decide)
  have e115 : ∀ c, (charClass c = 115) = (c = 115) := fun c => charClass_eq 115 c (by decide) (by decide)
  have e116 : ∀ c, (charClass c = 116) = (c = 116) := fun c => charClass_eq 116 c (by decide) (by decide)
  have e119 : ∀ c, (charClass c = 119) = (c = 119) := fun c => charClass_eq 119 c (by decide) (by decide)
  have e123 : ∀ c, (charClass c = 123) = (c = 123) := fun c => charClass_eq 123 c (by decide) (by decide)
  have e125 : ∀ c, (charClass c = 125) = (c = 125) := fun c => charClass_eq 125 c (by decide) (by decide)
  have g9 : ∀ c, (9 ≤ charClass c) = (9 ≤ c) := fun c => charClass_ge 9 c (by decide)
  have g48 : ∀ c, (48 ≤ charClass c) = (48 ≤ c) := fun c => charClass_ge 48 c (by decide)
  have g65 : ∀ c, (65 ≤ charClass c) = (65 ≤ c) := fun c => charClass_ge 65 c (by decide)
  have g97 : ∀ c, (97 ≤ charClass c) = (97 ≤ c) := fun c => charClass_ge 97 c (by decide)
  have g98 : ∀ c, (98 ≤ charClass c) = (98 ≤ c) := fun c => charClass_ge 98 c (by decide)
  have l13 : ∀ c, (charClass c ≤ 13) = (c ≤ 13) := fun c => charClass_le 13 c (by decide)
  have l57 : ∀ c, (charClass c ≤ 57) = (c ≤ 57) := fun c => charClass_le 57 c (by decide)
  have l90 : ∀ c, (charClass c ≤ 90) = (c ≤ 90) := fun c => charClass_le 90 c (by decide)
  have l122 : ∀ c, (charClass c ≤ 122) = (c ≤ 122) := fun c => charClass_le 122 c (by decide)
  simp only [ts_lex_cases, List.forall_mem_cons, List.not_mem_nil, false_implies, implies_true,
    and_true]
  and_intros <;>
    (intro eof c
     simp only [set_contains_class, ne_eq,
       e0, e10, e32, e38, e45, e46, e47, e58, e61, e63, e95, e97, e99, e102, e104, e108, e111,
       e112, e115, e116, e119, e123, e125, g9, g48, g65, g97, g98, l13, l57, l90, l122,
       ts_lex_case_0, ts_lex_case_1, ts_lex_case_2, ts_lex_case_3, ts_lex_case_4,
       ts_lex_case_5, ts_lex_case_6, ts_lex_case_7, ts_lex_case_8, ts_lex_case_9,
       ts_lex_case_10, ts_lex_case_11, ts_lex_case_12, ts_lex_case_13, ts_lex_case_14,
       ts_lex_case_15, ts_lex_case_16, ts_lex_case_17, ts_lex_case_18, ts_lex_case_19,
       ts_lex_case_20, ts_lex_case_21, ts_lex_case_22, ts_lex_case_23, ts_lex_case_24,
       ts_lex_case_25, ts_lex_case_26, ts_lex_case_27, ts_lex_case_28, ts_lex_case_29,
       ts_lex_case_30, ts_lex_case_31, ts_lex_case_32, ts_lex_case_33, ts_lex_case_34,
       ts_lex_case_35, ts_lex_case_36, ts_lex_case_37, ts_lex_case_38, ts_lex_case_39,
       ts_lex_case_40, ts_lex_case_41, ts_lex_case_42, ts_lex_case_43, ts_lex_case_44,
       ts_lex_case_45, ts_lex_case_46, ts_lex_case_47, ts_lex_case_48, ts_lex_case_49,
       ts_lex_case_50, ts_lex_case_51, ts_lex_case_52, ts_lex_case_53, ts_lex_case_54,
       ts_lex_case_55, ts_lex_case_56, ts_lex_case_57, ts_lex_case_58, ts_lex_case_59,
       ts_lex_case_60, ts_lex_case_61, ts_lex_case_62, ts_lex_case_63, ts_lex_case_64,
       ts_lex_case_65, ts_lex_case_66, ts_lex_case_67, ts_lex_case_68, ts_lex_case_69,
       ts_lex_case_70, ts_lex_case_71, ts_lex_case_72, ts_lex_case_73, ts_lex_case_74,
       ts_lex_case_75, ts_lex_case_76, ts_lex_case_77, ts_lex_case_78, ts_lex_case_79,
       ts_lex_case_80, ts_lex_case_81, ts_lex_case_82, ts_lex_case_83, ts_lex_case_84,
       ts_lex_case_85, ts_lex_case_86, ts_lex_case_87, ts_lex_case_88, ts_lex_case_89,
       ts_lex_case_90, ts_lex_case_91, ts_lex_case_92, ts_lex_case_93, ts_lex_case_94,
       ts_lex_case_95, ts_lex_case_96, ts_lex_case_97, ts_lex_case_98, ts_lex_case_99,
       ts_lex_case_100, ts_lex_case_101, ts_lex_case_102, ts_lex_case_103, ts_lex_case_104,
       ts_lex_case_105, ts_lex_case_106, ts_lex_case_107, ts_lex_case_108, ts_lex_case_109,
       ts_lex_case_110, ts_lex_case_111, ts_lex_case_112, ts_lex_case_113, ts_lex_case_114,
       ts_lex_case_115, ts_lex_case_116, ts_lex_case_117, ts_lex_case_118, ts_lex_case_119,
       ts_lex_case_120, ts_lex_case_121, ts_lex_case_122, ts_lex_case_123, ts_lex_case_124,
       ts_lex_case_125, ts_lex_case_126, ts_lex_case_127, ts_lex_case_128, ts_lex_case_129,
       ts_lex_case_130, ts_lex_case_131, ts_lex_case_132, ts_lex_case_133, ts_lex_case_134,
       ts_lex_case_135, ts_lex_case_136, ts_lex_case_137, ts_lex_case_138, ts_lex_case_139,
       ts_lex_case_140, ts_lex_case_141, ts_lex_case_142, ts_lex_case_143, ts_lex_case_144,
       ts_lex_case_145, ts_lex_case_146, ts_lex_case_147, ts_lex_case_148, ts_lex_case_149,
       ts_lex_case_150, ts_lex_case_151, ts_lex_case_152, ts_lex_case_153, ts_lex_case_154,
       ts_lex_case_155, ts_lex_case_156, ts_lex_case_157, ts_lex_case_158, ts_lex_case_159,
       ts_lex_case_160, ts_lex_case_161, ts_lex_case_162, ts_lex_case_163, ts_lex_case_164,
       ts_lex_case_165, ts_lex_case_166, ts_lex_case_167, ts_lex_case_168, ts_lex_case_169,
       ts_lex_case_170, ts_lex_case_171, ts_lex_case_172, ts_lex_case_173, ts_lex_case_174,
       ts_lex_case_175, ts_lex_case_176, ts_lex_case_177, ts_lex_case_178, ts_lex_case_179,
       ts_lex_case_180, ts_lex_case_181, ts_lex_case_182, ts_lex_case_183, ts_lex_case_184,
       ts_lex_case_185, ts_lex_case_186, ts_lex_case_187, ts_lex_case_188, ts_lex_case_189,
       ts_lex_case_190, ts_lex_case_191, ts_lex_case_192, ts_lex_case_193, ts_lex_case_194,
       ts_lex_case_195, ts_lex_case_196, ts_lex_case_197, ts_lex_case_198, ts_lex_case_199,
       ts_lex_case_200, ts_lex_case_201, ts_lex_case_202, ts_lex_case_203, ts_lex_case_204,
       ts_lex_case_205, ts_lex_case_206, ts_lex_case_207, ts_lex_case_208, ts_lex_case_209,
       ts_lex_case_210, ts_lex_case_211, ts_lex_case_212, ts_lex_case_213, ts_lex_case_214,
       ts_lex_case_215, ts_lex_case_216, ts_lex_case_217, ts_lex_case_218, ts_lex_case_219,
       ts_lex_case_220, ts_lex_case_221, ts_lex_case_222, ts_lex_case_223, ts_lex_case_224,
       ts_lex_case_225, ts_lex_case_226, ts_lex_case_227, ts_lex_case_228, ts_lex_case_229,
       ts_lex_case_230, ts_lex_case_231, ts_lex_case_232, ts_lex_case_233, ts_lex_case_234,
       ts_lex_case_235, ts_lex_case_236, ts_lex_case_237, ts_lex_case_238, ts_lex_case_239,
       ts_lex_case_240, ts_lex_case_241, ts_lex_case_242, ts_lex_case_243, ts_lex_case_244,
       ts_lex_case_245, ts_lex_case_246, ts_lex_case_247, ts_lex_case_248, ts_lex_case_249,
       ts_lex_case_250, ts_lex_case_251, ts_lex_case_252, ts_lex_case_253, ts_lex_case_254,
       ts_lex_case_255, ts_lex_case_256, ts_lex_case_257, ts_lex_case_258, ts_lex_case_259,
       ts_lex_case_260, ts_lex_case_261, ts_lex_case_262, ts_lex_case_263, ts_lex_case_264,
       ts_lex_case_265, ts_lex_case_266, ts_lex_case_267, ts_lex_case_268, ts_lex_case_269,
       ts_lex_case_270, ts_lex_case_271, ts_lex_case_272, ts_lex_case_273, ts_lex_case_274,
       ts_lex_case_275, ts_lex_case_276, ts_lex_case_277, ts_lex_case_278, ts_lex_case_279,
       ts_lex_case_280, ts_lex_case_281, ts_lex_case_282, ts_lex_case_283, ts_lex_case_284,
       ts_lex_case_285, ts_lex_case_286, ts_lex_case_287, ts_lex_case_288, ts_lex_case_289,
       ts_lex_case_290, ts_lex_case_291, ts_lex_case_292, ts_lex_case_293, ts_lex_case_294,
       ts_lex_case_295, ts_lex_case_296, ts_lex_case_297, ts_lex_case_298, ts_lex_case_299,
       ts_lex_case_300, ts_lex_case_301, ts_lex_case_302, ts_lex_case_303, ts_lex_case_304,
       ts_lex_case_305, ts_lex_case_306, ts_lex_case_307, ts_lex_case_308, ts_lex_case_309,
       ts_lex_case_310, ts_lex_case_311, ts_lex_case_312, ts_lex_case_313, ts_lex_case_314,
       ts_lex_case_315, ts_lex_case_316, ts_lex_case_317, ts_lex_case_318, ts_lex_case_319,
       ts_lex_case_320, ts_lex_case_321, ts_lex_case_322, ts_lex_case_323, ts_lex_case_324,
       ts_lex_case_325, ts_lex_case_326, ts_lex_case_327, ts_lex_case_328, ts_lex_case_329,
       ts_lex_case_330, ts_lex_case_331, ts_lex_case_332, ts_lex_case_333, ts_lex_case_334,
       ts_lex_case_335, ts_lex_case_336, ts_lex_case_337, ts_lex_case_338, ts_lex_case_339])

theorem ts_lex_state_class (state : Nat) (eof : Bool) (c : Nat) :
    ts_lex_state state eof (charClass c) = ts_lex_state state eof c := by
  unfold ts_lex_state
  cases h : ts_lex_cases.get? (state / 20) with
  | none => rfl
  | some row =>
    simp only
    cases h2 : row.get? (state % 20) with
    | none => rfl
    | some f =>
      simp only [Option.map_some']
      rw [ts_lex_cases_class row (List.get?_mem h) f (List.get?_mem h2)]

/-! ## Generic facts about the lexer loop -/

/-- A property of the case reached on every class representative holds for
every code point. -/
theorem ts_lex_state_forall (s : Nat) (eof : Bool) (P : Option LexCase → Prop)
    (h : ∀ r ∈ lexBreakpoints, P (ts_lex_state s eof r)) (c : Nat) :
    P (ts_lex_state s eof c) := by
  rw [← ts_lex_state_class]
  exact h _ (charClass_mem c)

theorem isWhitespace_class (c : Nat) : isWhitespace (charClass c) = isWhitespace c := by
  simp (disch := decide) only [isWhitespace, charClass_ge, charClass_le, charClass_eq]

theorem isDigit_class (c : Nat) : isDigit (charClass c) = isDigit c := by
  simp (disch := decide) only [isDigit, charClass_ge, charClass_le, charClass_eq]

theorem isLetter_class (c : Nat) : isLetter (charClass c) = isLetter c := by
  simp (disch := decide) only [isLetter, charClass_ge, charClass_le, charClass_eq]

theorem isContinuation_class (c : Nat) : isContinuation (charClass c) = isContinuation c := by
  simp (disch := decide) only [isContinuation, isLetter_class, isDigit_class, charClass_eq]

theorem isPathChar_class (c : Nat) : isPathChar (charClass c) = isPathChar c :=
  set_contains_class c

theorem isValueChar_class (c : Nat) : isValueChar (charClass c) = isValueChar c := by
  simp (disch := decide) only [isValueChar, ne_eq, charClass_eq]

/-- A fact about the case of a state that holds for every class representative
satisfying `p` holds for every code point satisfying `p`. -/
theorem ts_lex_state_of_class (s : Nat) (eof : Bool) (p : Nat → Bool)
    (hp : ∀ c, p (charClass c) = p c) (P : Option LexCase → Prop)
    (h : ∀ r ∈ lexBreakpoints, p r = true → P (ts_lex_state s eof r))
    (c : Nat) (hc : p c = true) : P (ts_lex_state s eof c) := by
  rw [← ts_lex_state_class]
  exact h _ (charClass_mem c) (by rw [hp]; exact hc)

theorem ts_lex_eof_succ (fuel s pos start : Nat) (res : Option (Nat × Nat)) :
    ts_lex_eof (fuel + 1) s pos start res =
      match ts_lex_state s true 0 with
      | none => none
      | some c =>
        match c.move with
        | ADVANCE next => ts_lex_eof fuel next pos start (acceptToken c pos res)
        | SKIP next => ts_lex_eof fuel next pos pos (acceptToken c pos res)
        | END_STATE => endState start (acceptToken c pos res) := rfl

theorem ts_lex_loop_nil (s pos start : Nat) (res : Option (Nat × Nat)) :
    ts_lex_loop [] s pos start res = ts_lex_eof 340 s pos start res := rfl

theorem ts_lex_loop_cons (c : Nat) (rest : List Nat) (s pos start : Nat)
    (res : Option (Nat × Nat)) :
    ts_lex_loop (c :: rest) s pos start res =
      match ts_lex_state s false c with
      | none => none
      | some cse =>
        match cse.move with
        | ADVANCE next => ts_lex_loop rest next (pos + 1) start (acceptToken cse pos res)
        | SKIP next => ts_lex_loop rest next (pos + 1) (pos + 1) (acceptToken cse pos res)
        | END_STATE => endState start (acceptToken cse pos res) := rfl

theorem ts_lex_loop_advance (c : Nat) (rest : List Nat) (s pos start : Nat)
    (res : Option (Nat × Nat)) (acc : Option Nat) (n : Nat)
    (h : ts_lex_state s false c = some ⟨acc, ADVANCE n⟩) :
    ts_lex_loop (c :: rest) s pos start res =
      ts_lex_loop rest n (pos + 1) start (acceptToken ⟨acc, ADVANCE n⟩ pos res) := by
  rw [ts_lex_loop_cons, h]

theorem ts_lex_loop_skip (c : Nat) (rest : List Nat) (s pos start : Nat)
    (res : Option (Nat × Nat)) (acc : Option Nat) (n : Nat)
    (h : ts_lex_state s false c = some ⟨acc, SKIP n⟩) :
    ts_lex_loop (c :: rest) s pos start res =
      ts_lex_loop rest n (pos + 1) (pos + 1) (acceptToken ⟨acc, SKIP n⟩ pos res) := by
  rw [ts_lex_loop_cons, h]

theorem ts_lex_loop_end (c : Nat) (rest : List Nat) (s pos start : Nat)
    (res : Option (Nat × Nat)) (acc : Option Nat)
    (h : ts_lex_state s false c = some ⟨acc, END_STATE⟩) :
    ts_lex_loop (c :: rest) s pos start res =
      endState start (acceptToken ⟨acc, END_STATE⟩ pos res) := by
  rw [ts_lex_loop_cons, h]

theorem ts_lex_loop_nil_end (s pos start : Nat) (res : Option (Nat × Nat)) (acc : Option Nat)
    (h : ts_lex_state s true 0 = some ⟨acc, END_STATE⟩) :
    ts_lex_loop [] s pos start res = endState start (acceptToken ⟨acc, END_STATE⟩ pos res) := by
  rw [ts_lex_loop_nil, show (340 : Nat) = 339 + 1 from rfl, ts_lex_eof_succ, h]

theorem acceptToken_none (mv : LexMove) (pos : Nat) (res : Option (Nat × Nat)) :
    acceptToken ⟨none, mv⟩ pos res = res := rfl

theorem acceptToken_some (a : Nat) (mv : LexMove) (pos : Nat) (res : Option (Nat × Nat)) :
    acceptToken ⟨some a, mv⟩ pos res = some (a, pos) := rfl

theorem endState_none (start : Nat) : endState start none = none := rfl

theorem endState_some (start a e : Nat) : endState start (some (a, e)) = some ⟨a, start, e⟩ := rfl

theorem ts_lex_loop_append (p : List Nat) :
    ∀ (rest : List Nat) (s pos start : Nat) (res : Option (Nat × Nat))
      (s' pos' start' : Nat) (res' : Option (Nat × Nat)),
      lexPrefix p s pos start res = some (s', pos', start', res') →
      ts_lex_loop (p ++ rest) s pos start res = ts_lex_loop rest s' pos' start' res' := by
  induction p with
  | nil =>
    intro rest s pos start res s' pos' start' res' h
    simp only [lexPrefix, Option.some.injEq, Prod.mk.injEq] at h
    obtain ⟨rfl, rfl, rfl, rfl⟩ := h
    rfl
  | cons c cs ih =>
    intro rest s pos start res s' pos' start' res' h
    rw [lexPrefix] at h
    rw [List.cons_append, ts_lex_loop]
    cases hc : ts_lex_state s false c with
    | none => simp [hc] at h
    | some cse =>
      simp only [hc] at h ⊢
      cases hm : cse.move with
      | ADVANCE n =>
        simp only [hm] at h ⊢
        exact ih _ _ _ _ _ _ _ _ _ h
      | SKIP n =>
        simp only [hm] at h ⊢
        exact ih _ _ _ _ _ _ _ _ _ h
      | END_STATE => simp [hm] at h

theorem lexRunsWhile_state (states target : Nat → Bool) (p : Nat → Bool) (symbols : List Nat)
    (h : lexRunsWhile states target p symbols = true) (s : Nat) (hs : states s = true)
    (hlt : s < LEX_STATE_COUNT) :
    (match ts_lex_state s true 0 with
      | some ⟨some a, END_STATE⟩ => symbols.contains a
      | _ => false) = true ∧
    ∀ r ∈ lexBreakpoints,
      (match ts_lex_state s false r with
        | some ⟨some a, ADVANCE n⟩ =>
          symbols.contains a && p r && target n && decide (n < LEX_STATE_COUNT)
        | some ⟨some a, END_STATE⟩ => symbols.contains a && !p r
        | _ => false) = true := by
  simp only [lexRunsWhile, List.all_eq_true, Bool.and_eq_true, Bool.or_eq_true,
    Bool.not_eq_true', List.mem_range] at h
  rcases h s hlt with h0 | h0
  · rw [hs] at h0; exact absurd h0 (by decide)
  · exact h0

/-- At end of input a state accepted by `lexRunsWhile` returns its token. -/
theorem lexRunsWhile_nil (states target : Nat → Bool) (p : Nat → Bool) (symbols : List Nat)
    (h : lexRunsWhile states target p symbols = true) (s pos start : Nat)
    (res : Option (Nat × Nat)) (hs : states s = true) (hlt : s < LEX_STATE_COUNT) :
    ∃ a ∈ symbols, ts_lex_loop [] s pos start res = some ⟨a, start, pos⟩ := by
  have h1 := (lexRunsWhile_state states target p symbols h s hs hlt).1
  rw [ts_lex_loop_nil, show (340 : Nat) = 339 + 1 from rfl, ts_lex_eof_succ]
  cases hc : ts_lex_state s true 0 with
  | none => simp [hc] at h1
  | some cse =>
    obtain ⟨acc, mv⟩ := cse
    cases acc with
    | none => simp [hc] at h1
    | some a =>
      cases mv with
      | ADVANCE n => simp [hc] at h1
      | SKIP n => simp [hc] at h1
      | END_STATE =>
        simp only [hc] at h1
        refine ⟨a, by simpa using h1, ?_⟩
        simp [acceptToken, endState]

/-- One character from a state accepted by `lexRunsWhile`: either the token
ends here, or the run goes on in a state of `target`. -/
theorem lexRunsWhile_cons (states target : Nat → Bool) (p : Nat → Bool) (symbols : List Nat)
    (hp : ∀ c, p (charClass c) = p c) (h : lexRunsWhile states target p symbols = true)
    (c : Nat) (cs : List Nat) (s pos start : Nat) (res : Option (Nat × Nat))
    (hs : states s = true) (hlt : s < LEX_STATE_COUNT) :
    (p c = false ∧ ∃ a ∈ symbols, ts_lex_loop (c :: cs) s pos start res = some ⟨a, start, pos⟩) ∨
    (p c = true ∧ ∃ n res', target n = true ∧ n < LEX_STATE_COUNT ∧
      ts_lex_loop (c :: cs) s pos start res = ts_lex_loop cs n (pos + 1) start res') := by
  have h2 := (lexRunsWhile_state states target p symbols h s hs hlt).2 (charClass c)
    (charClass_mem c)
  rw [ts_lex_state_class] at h2
  rw [ts_lex_loop_cons]
  cases hc : ts_lex_state s false c with
  | none => simp [hc] at h2
  | some cse =>
    obtain ⟨acc, mv⟩ := cse
    cases acc with
    | none => simp [hc] at h2
    | some a =>
      cases mv with
      | ADVANCE n =>
        simp only [hc, Bool.and_eq_true, hp, decide_eq_true_eq] at h2
        obtain ⟨⟨⟨_, hpc⟩, hn⟩, hnlt⟩ := h2
        exact Or.inr ⟨hpc, n, _, hn, hnlt, rfl⟩
      | SKIP n => simp [hc] at h2
      | END_STATE =>
        simp only [hc, Bool.and_eq_true, hp] at h2
        obtain ⟨ha, hpc⟩ := h2
        have hpc' : p c = false := by simpa using hpc
        exact Or.inl ⟨hpc', a, by simpa using ha, by simp [acceptToken, endState]⟩

/-- The run of the lexer through a set of states that `lexRunsWhile` accepts:
the token ends exactly where the characters satisfying `p` end, and its symbol
is one of `symbols`. -/
theorem lexRunsWhile_spec (states : Nat → Bool) (p : Nat → Bool) (symbols : List Nat)
    (hp : ∀ c, p (charClass c) = p c) (h : lexRunsWhile states states p symbols = true) :
    ∀ (rest : List Nat) (s pos start : Nat) (res : Option (Nat × Nat)),
      states s = true → s < LEX_STATE_COUNT →
      ∃ a ∈ symbols, ts_lex_loop rest s pos start res =
        some ⟨a, start, pos + (rest.takeWhile p).length⟩ := by
  intro rest
  induction rest with
  | nil =>
    intro s pos start res hs hlt
    simpa using lexRunsWhile_nil states states p symbols h s pos start res hs hlt
  | cons c cs ih =>
    intro s pos start res hs hlt
    rcases lexRunsWhile_cons states states p symbols hp h c cs s pos start res hs hlt with
      ⟨hpc, a, ha, hrun⟩ | ⟨hpc, n, res', hn, hnlt, hrun⟩
    · exact ⟨a, ha, by simp [hrun, List.takeWhile_cons, hpc]⟩
    · obtain ⟨b, hb, hrun'⟩ := ih n (pos + 1) start res' hn hnlt
      refine ⟨b, hb, ?_⟩
      rw [hrun, hrun']
      simp only [List.takeWhile_cons, hpc, if_true, List.length_cons]
      congr 2
      omega

/-- The run of the lexer from an entry state into a closed set of states. -/
theorem lexRunsWhile_entry (states target : Nat → Bool) (p : Nat → Bool)
    (symbols symbolsT : List Nat) (hp : ∀ c, p (charClass c) = p c)
    (h : lexRunsWhile states target p symbols = true)
    (hT : lexRunsWhile target target p symbolsT = true)
    (rest : List Nat) (s pos start : Nat) (res : Option (Nat × Nat))
    (hs : states s = true) (hlt : s < LEX_STATE_COUNT) :
    ∃ a, (a ∈ symbols ∨ a ∈ symbolsT) ∧ ts_lex_loop rest s pos start res =
      some ⟨a, start, pos + (rest.takeWhile p).length⟩ := by
  cases rest with
  | nil =>
    obtain ⟨a, ha, hrun⟩ := lexRunsWhile_nil states target p symbols h s pos start res hs hlt
    exact ⟨a, Or.inl ha, by simpa using hrun⟩
  | cons c cs =>
    rcases lexRunsWhile_cons states target p symbols hp h c cs s pos start res hs hlt with
      ⟨hpc, a, ha, hrun⟩ | ⟨hpc, n, res', hn, hnlt, hrun⟩
    · exact ⟨a, Or.inl ha, by simp [hrun, List.takeWhile_cons, hpc]⟩
    · obtain ⟨b, hb, hrun'⟩ :=
        lexRunsWhile_spec target p symbolsT hp hT cs n (pos + 1) start res' hn hnlt
      refine ⟨b, Or.inr hb, ?_⟩
      rw [hrun, hrun']
      simp only [List.takeWhile_cons, hpc, if_true, List.length_cons]
      congr 2
      omega

set_option maxRecDepth 100000 in
theorem plainPathState_runs :
    lexRunsWhile plainPathState plainPathState isPathChar
      [sym_path_segment, aux_sym_domain_token1] = true := by
  decide!

set_option maxRecDepth 100000 in
theorem keywordTail_runs :
    lexRunsWhile (fun s => s == 32 || s == 38) plainPathState isPathChar
      [anon_sym_https, anon_sym_wss] = true := by
  decide!

/-- A keyword followed by a continuation character: the token is longer than
the keyword and has another symbol. -/
theorem keyword_then_continuation (state kwState symbol : Nat) (k : List Nat)
    (res0 : Option (Nat × Nat))
    (hpre : lexPrefix k state 0 0 none = some (kwState, k.length, 0, res0))
    (hstep : ∀ r ∈ lexBreakpoints, isContinuation r = true →
      keywordStepOk symbol (ts_lex_state kwState false r) = true)
    (c : Nat) (rest : List Nat) (hc : isContinuation c = true) :
    ∃ tok, ts_lex (k ++ c :: rest) state = some tok ∧ tok.start = 0 ∧
      k.length < tok.stop ∧ tok.symbol ≠ symbol := by
  have h1 := ts_lex_state_of_class kwState false isContinuation isContinuation_class
    (fun o => keywordStepOk symbol o = true) hstep c hc
  unfold ts_lex
  rw [ts_lex_loop_append k (c :: rest) _ _ _ _ _ _ _ _ hpre, ts_lex_loop_cons]
  cases hcase : ts_lex_state kwState false c with
  | none => simp [hcase, keywordStepOk] at h1
  | some cse =>
    obtain ⟨acc, mv⟩ := cse
    cases acc with
    | none => simp [hcase, keywordStepOk] at h1
    | some a =>
      cases mv with
      | SKIP n => simp [hcase, keywordStepOk] at h1
      | END_STATE => simp [hcase, keywordStepOk] at h1
      | ADVANCE n =>
        simp only [hcase, keywordStepOk, Bool.and_eq_true, Bool.or_eq_true, beq_iff_eq,
          decide_eq_true_eq, bne_iff_ne, ne_eq] at h1
        obtain ⟨⟨⟨⟨_, hlt⟩, hn⟩, hs1⟩, hs2⟩ := h1
        rcases hn with hn | ⟨⟨hn, hk1⟩, hk2⟩
        · obtain ⟨b, hb, hrun⟩ := lexRunsWhile_spec plainPathState isPathChar _
            isPathChar_class plainPathState_runs rest n (k.length + 1) 0
            (acceptToken ⟨some a, ADVANCE n⟩ k.length res0) hn hlt
          refine ⟨_, hrun, rfl, by simp only; omega, ?_⟩
          simp only [List.mem_cons, List.mem_singleton, List.not_mem_nil, or_false] at hb
          rcases hb with rfl | rfl
          · exact fun e => hs1 e.symm
          · exact fun e => hs2 e.symm
        · obtain ⟨b, hb, hrun⟩ := lexRunsWhile_entry (fun s => s == 32 || s == 38)
            plainPathState isPathChar _ _ isPathChar_class keywordTail_runs plainPathState_runs
            rest n (k.length + 1) 0 (acceptToken ⟨some a, ADVANCE n⟩ k.length res0)
            (by simpa using hn) hlt
          refine ⟨_, hrun, rfl, by simp only; omega, ?_⟩
          simp only [List.mem_cons, List.mem_singleton, List.not_mem_nil, or_false] at hb
          rcases hb with (rfl | rfl) | (rfl | rfl)
          · exact fun e => hk1 e.symm
          · exact fun e => hk2 e.symm
          · exact fun e => hs1 e.symm
          · exact fun e => hs2 e.symm

/-! ## The lexer at the end of input never runs out of fuel -/

theorem ts_lex_state_none (s : Nat) (hs : LEX_STATE_COUNT ≤ s) (eof : Bool) (c : Nat) :
    ts_lex_state s eof c = none := by
  unfold ts_lex_state
  have hlen : ts_lex_cases.length = 17 := by decide
  have : ts_lex_cases.get? (s / 20) = none := by
    apply List.get?_eq_none.mpr
    rw [hlen]
    simp only [LEX_STATE_COUNT] at hs
    omega
  rw [this]

theorem ts_lex_eof_ends (n : Nat) (h : lexEofEnds n = true) (fuel pos start : Nat)
    (res : Option (Nat × Nat)) :
    ts_lex_eof (fuel + 1) n pos start res = ts_lex_eof 1 n pos start res := by
  rw [ts_lex_eof_succ, ts_lex_eof_succ]
  unfold lexEofEnds at h
  cases hc : ts_lex_state n true 0 with
  | none => rfl
  | some cse =>
    obtain ⟨acc, mv⟩ := cse
    cases mv with
    | ADVANCE m => simp [hc] at h
    | SKIP m => simp [hc] at h
    | END_STATE => rfl

set_option maxRecDepth 100000 in
theorem lexEofTwoMoves_holds : lexEofTwoMoves = true := by
  decide!

/-- At the end of input two moves of the lexer are always enough: more fuel
does not change the result, so the 340 units that `ts_lex_loop` gives never
run out. -/
theorem ts_lex_eof_two_moves (fuel s pos start : Nat) (res : Option (Nat × Nat)) :
    ts_lex_eof (fuel + 2) s pos start res = ts_lex_eof 2 s pos start res := by
  rw [ts_lex_eof_succ (fuel + 1), ts_lex_eof_succ 1]
  by_cases hs : s < LEX_STATE_COUNT
  · have h := lexEofTwoMoves_holds
    simp only [lexEofTwoMoves, List.all_eq_true, List.mem_range] at h
    have hs' := h s hs
    cases hc : ts_lex_state s true 0 with
    | none => rfl
    | some cse =>
      obtain ⟨acc, mv⟩ := cse
      cases mv with
      | ADVANCE m =>
        simp only [hc] at hs'
        exact ts_lex_eof_ends m hs' fuel _ _ _
      | SKIP m =>
        simp only [hc] at hs'
        exact ts_lex_eof_ends m hs' fuel _ _ _
      | END_STATE => rfl
  · rw [ts_lex_state_none s (by omega)]

theorem lexStaysIn_state (states : Nat → Bool) (symbols : List Nat)
    (h : lexStaysIn states symbols = true) (s : Nat) (hs : states s = true)
    (hlt : s < LEX_STATE_COUNT) :
    lexCaseStaysIn states symbols (ts_lex_state s true 0) = true ∧
    ∀ c, lexCaseStaysIn states symbols (ts_lex_state s false c) = true := by
  simp only [lexStaysIn, List.all_eq_true, Bool.and_eq_true, Bool.or_eq_true,
    Bool.not_eq_true', List.mem_range] at h
  rcases h s hlt with h0 | h0
  · rw [hs] at h0; exact absurd h0 (by decide)
  · refine ⟨h0.1, fun c => ?_⟩
    have := h0.2 (charClass c) (charClass_mem c)
    rwa [ts_lex_state_class] at this

theorem acceptToken_symbol (symbols : List Nat) (acc : Option Nat) (mv : LexMove) (pos : Nat)
    (res : Option (Nat × Nat)) (hres : ∀ r, res = some r → r.1 ∈ symbols)
    (hacc : (match acc with
      | none => true
      | some a => symbols.contains a) = true) :
    ∀ r, acceptToken ⟨acc, mv⟩ pos res = some r → r.1 ∈ symbols := by
  intro r hr
  cases acc with
  | none => exact hres r (by simpa [acceptToken] using hr)
  | some a =>
    simp only [acceptToken, Option.some.injEq] at hr
    subst hr
    simpa using hacc

theorem endState_symbol (symbols : List Nat) (start : Nat) (res : Option (Nat × Nat))
    (hres : ∀ r, res = some r → r.1 ∈ symbols) (tok : Token)
    (h : endState start res = some tok) : tok.symbol ∈ symbols := by
  cases res with
  | none => simp [endState] at h
  | some r =>
    simp only [endState, Option.map_some', Option.some.injEq] at h
    subst h
    exact hres r rfl

/-- A run that starts in a set of states accepted by `lexStaysIn` returns only
symbols of `symbols` (end of input). -/
theorem lexStaysIn_eof (states : Nat → Bool) (symbols : List Nat)
    (h : lexStaysIn states symbols = true) :
    ∀ (fuel s pos start : Nat) (res : Option (Nat × Nat)) (tok : Token),
      states s = true → s < LEX_STATE_COUNT → (∀ r, res = some r → r.1 ∈ symbols) →
      ts_lex_eof fuel s pos start res = some tok → tok.symbol ∈ symbols := by
  intro fuel
  induction fuel with
  | zero =>
    intro s pos start res tok _ _ _ hrun
    simp [ts_lex_eof] at hrun
  | succ fuel ih =>
    intro s pos start res tok hs hlt hres hrun
    have h1 := (lexStaysIn_state states symbols h s hs hlt).1
    rw [ts_lex_eof_succ] at hrun
    cases hc : ts_lex_state s true 0 with
    | none => simp [hc] at hrun
    | some cse =>
      obtain ⟨acc, mv⟩ := cse
      simp only [hc, lexCaseStaysIn, Bool.and_eq_true] at h1 hrun
      have hres' := acceptToken_symbol symbols acc mv pos res hres h1.1
      cases mv with
      | ADVANCE n =>
        simp only [Bool.and_eq_true, decide_eq_true_eq] at h1 hrun
        exact ih n pos start _ tok h1.2.1 h1.2.2 hres' hrun
      | SKIP n =>
        simp only [Bool.and_eq_true, decide_eq_true_eq] at h1 hrun
        exact ih n pos pos _ tok h1.2.1 h1.2.2 hres' hrun
      | END_STATE =>
        simp only at hrun
        exact endState_symbol symbols start _ hres' tok hrun

/-- A run that starts in a set of states accepted by `lexStaysIn` returns only
symbols of `symbols`. -/
theorem lexStaysIn_spec (states : Nat → Bool) (symbols : List Nat)
    (h : lexStaysIn states symbols = true) :
    ∀ (input : List Nat) (s pos start : Nat) (res : Option (Nat × Nat)) (tok : Token),
      states s = true → s < LEX_STATE_COUNT → (∀ r, res = some r → r.1 ∈ symbols) →
      ts_lex_loop input s pos start res = some tok → tok.symbol ∈ symbols := by
  intro input
  induction input with
  | nil =>
    intro s pos start res tok hs hlt hres hrun
    rw [ts_lex_loop_nil] at hrun
    exact lexStaysIn_eof states symbols h 340 s pos start res tok hs hlt hres hrun
  | cons c cs ih =>
    intro s pos start res tok hs hlt hres hrun
    have h1 := (lexStaysIn_state states symbols h s hs hlt).2 c
    rw [ts_lex_loop_cons] at hrun
    cases hc : ts_lex_state s false c with
    | none => simp [hc] at hrun
    | some cse =>
      obtain ⟨acc, mv⟩ := cse
      simp only [hc, lexCaseStaysIn, Bool.and_eq_true] at h1 hrun
      have hres' := acceptToken_symbol symbols acc mv pos res hres h1.1
      cases mv with
      | ADVANCE n =>
        simp only [Bool.and_eq_true, decide_eq_true_eq] at h1 hrun
        exact ih n (pos + 1) start _ tok h1.2.1 h1.2.2 hres' hrun
      | SKIP n =>
        simp only [Bool.and_eq_true, decide_eq_true_eq] at h1 hrun
        exact ih n (pos + 1) (pos + 1) _ tok h1.2.1 h1.2.2 hres' hrun
      | END_STATE =>
        simp only at hrun
        exact endState_symbol symbols start _ hres' tok hrun

theorem isHostDelimiter_class (c : Nat) : isHostDelimiter (charClass c) = isHostDelimiter c := by
  simp (disch := decide) only [isHostDelimiter, isWhitespace_class, charClass_eq]

/-- The case of a state on a character, when it is the same for every class
representative that satisfies `p`. -/
theorem ts_lex_state_eq_of_class (s : Nat) (eof : Bool) (p : Nat → Bool)
    (hp : ∀ c, p (charClass c) = p c) (x : Option LexCase)
    (h : ∀ r ∈ lexBreakpoints, p r = true → ts_lex_state s eof r = x)
    (c : Nat) (hc : p c = true) : ts_lex_state s eof c = x :=
  ts_lex_state_of_class s eof p hp (fun o => o = x) h c hc

set_option maxRecDepth 100000 in
theorem isFinalLexState_final : lexFinalStates isFinalLexState = true := by
  decide!

/-- A state without transitions returns its symbol at once, whatever follows. -/
theorem ts_lex_loop_final (s : Nat) (hs : isFinalLexState s = true) (hlt : s < LEX_STATE_COUNT)
    (rest : List Nat) (pos start : Nat) (res : Option (Nat × Nat)) :
    ts_lex_loop rest s pos start res = some ⟨finalLexSymbol s, start, pos⟩ := by
  have h := isFinalLexState_final
  simp only [lexFinalStates, List.all_eq_true, Bool.and_eq_true, Bool.or_eq_true,
    Bool.not_eq_true', List.mem_range] at h
  have h0 := h s hlt
  rw [hs] at h0
  simp only [Bool.true_eq_false, false_or] at h0
  cases rest with
  | nil =>
    have h1 := h0.1
    rw [ts_lex_loop_nil, show (340 : Nat) = 339 + 1 from rfl, ts_lex_eof_succ]
    unfold finalLexSymbol
    cases hc : ts_lex_state s true 0 with
    | none => simp [hc] at h1
    | some cse =>
      obtain ⟨acc, mv⟩ := cse
      cases acc with
      | none => simp [hc] at h1
      | some a =>
        cases mv with
        | ADVANCE n => simp [hc] at h1
        | SKIP n => simp [hc] at h1
        | END_STATE => simp [acceptToken, endState]
  | cons c cs =>
    have h2 := h0.2 (charClass c) (charClass_mem c)
    rw [ts_lex_state_class] at h2
    rw [ts_lex_loop_cons]
    cases hc : ts_lex_state s false c with
    | none => simp [hc] at h2
    | some cse =>
      obtain ⟨acc, mv⟩ := cse
      cases acc with
      | none => simp [hc] at h2
      | some a =>
        cases mv with
        | ADVANCE n => simp [hc] at h2
        | SKIP n => simp [hc] at h2
        | END_STATE =>
          simp only [hc, beq_iff_eq] at h2
          simp [acceptToken, endState, h2]

/-! ## C2: keywords are matched by maximal munch -/

/-- C2: keyword recognition is maximal munch.  For every keyword `k` of
`keywordTable` (http, https, ftp, ws, wss, localhost), in the start-of-line
state 26 and the in-line state 25, and for every continuation character `c`
(ASCII letter, digit, `-` or `.`), `ts_lex` on `k ++ c :: rest` returns a token
that starts at 0, is strictly longer than `k` and does not carry the symbol of
`k`; and on `httpx://host` in state 26 the token is the path segment
`httpx`. -/
theorem C2_keyword_maximal_munch (k : List Nat) (symbol : Nat)
    (hk : (k, symbol) ∈ keywordTable) (state : Nat) (hs : state = 26 ∨ state = 25)
    (c : Nat) (hc : isContinuation c = true) (rest : List Nat) :
    (∃ tok, ts_lex (k ++ c :: rest) state = some tok ∧ tok.start = 0 ∧
      k.length < tok.stop ∧ tok.symbol ≠ symbol) ∧
    ts_lex (codes "httpx://host") 26 = some ⟨sym_path_segment, 0, 5⟩ := by
  refine ⟨?_, by decide⟩
  simp only [keywordTable, List.mem_cons, Prod.mk.injEq, List.mem_singleton, List.not_mem_nil,
    or_false] at hk
  rcases hk with ⟨rfl, rfl⟩ | ⟨rfl, rfl⟩ | ⟨rfl, rfl⟩ | ⟨rfl, rfl⟩ | ⟨rfl, rfl⟩ | ⟨rfl, rfl⟩ <;>
    rcases hs with rfl | rfl
  · exact keyword_then_continuation 26 29 _ _ (some (14, 3)) (by decide) (by decide!) c rest hc
  · exact keyword_then_continuation 25 29 _ _ (some (14, 3)) (by decide) (by decide!) c rest hc
  · exact keyword_then_continuation 26 32 _ _ (some (2, 4)) (by decide) (by decide!) c rest hc
  · exact keyword_then_continuation 25 32 _ _ (some (2, 4)) (by decide) (by decide!) c rest hc
  · exact keyword_then_continuation 26 34 _ _ (some (14, 2)) (by decide) (by decide!) c rest hc
  · exact keyword_then_continuation 25 34 _ _ (some (14, 2)) (by decide) (by decide!) c rest hc
  · exact keyword_then_continuation 26 35 _ _ (some (14, 1)) (by decide) (by decide!) c rest hc
  · exact keyword_then_continuation 25 35 _ _ (some (14, 1)) (by decide) (by decide!) c rest hc
  · exact keyword_then_continuation 26 38 _ _ (some (5, 2)) (by decide) (by decide!) c rest hc
  · exact keyword_then_continuation 25 38 _ _ (some (5, 2)) (by decide) (by decide!) c rest hc
  · exact keyword_then_continuation 26 114 _ _ (some (14, 8)) (by decide) (by decide!) c rest hc
  · exact keyword_then_continuation 25 114 _ _ (some (14, 8)) (by decide) (by decide!) c rest hc

/-- C2, at a concrete input: `http` followed by `x` and `://host`, in state 26. -/
theorem C2_keyword_maximal_munch_witness :
    (codes "http", anon_sym_http) ∈ keywordTable ∧ isContinuation 120 = true ∧
    ((∃ tok, ts_lex (codes "http" ++ 120 :: codes "://host") 26 = some tok ∧ tok.start = 0 ∧
      (codes "http").length < tok.stop ∧ tok.symbol ≠ anon_sym_http) ∧
    ts_lex (codes "httpx://host") 26 = some ⟨sym_path_segment, 0, 5⟩) :=
  ⟨by decide, by decide,
    C2_keyword_maximal_munch (codes "http") anon_sym_http (by decide) 26 (Or.inl rfl) 120
      (by decide) (codes "://host")⟩

/-! ## C5: `localhost` is a keyword only when it stands alone -/

/-- C5: in the start-of-line state 26, `localhost` followed by end of input or
by a delimiter (`/`, `:`, `?` or a whitespace character) is the keyword token
`anon_sym_localhost` of length 9, and `localhost.foo` is one
`aux_sym_domain_token1` token that covers all 13 characters. -/
theorem C5_localhost_keyword (rest : List Nat)
    (h : ∀ c ∈ rest.head?, isHostDelimiter c = true) :
    ts_lex (codes "localhost" ++ rest) 26 = some ⟨anon_sym_localhost, 0, 9⟩ ∧
    ts_lex (codes "localhost.foo") 26 = some ⟨aux_sym_domain_token1, 0, 13⟩ := by
  refine ⟨?_, by decide⟩
  have hpre : lexPrefix (codes "localhost") 26 0 0 none = some (114, 9, 0, some (14, 8)) := by
    decide
  unfold ts_lex
  rw [ts_lex_loop_append _ rest _ _ _ _ _ _ _ _ hpre]
  cases rest with
  | nil => decide
  | cons c cs =>
    have hc : isHostDelimiter c = true := h c (by simp)
    have hst := ts_lex_state_eq_of_class 114 false isHostDelimiter isHostDelimiter_class
      (some ⟨some anon_sym_localhost, END_STATE⟩) (by decide!) c hc
    rw [ts_lex_loop_cons, hst]
    rfl

/-- C5, at a concrete input: `localhost/health`. -/
theorem C5_localhost_keyword_witness :
    (∀ c ∈ (codes "/health").head?, isHostDelimiter c = true) ∧
    (ts_lex (codes "localhost" ++ codes "/health") 26 = some ⟨anon_sym_localhost, 0, 9⟩ ∧
      ts_lex (codes "localhost.foo") 26 = some ⟨aux_sym_domain_token1, 0, 13⟩) :=
  ⟨by decide, C5_localhost_keyword (codes "/health") (by decide)⟩

/-! ## Facts about single lexer states -/

theorem isKeyChar_class (c : Nat) : isKeyChar (charClass c) = isKeyChar c := by
  simp (disch := decide) only [isKeyChar, isLetter_class, isDigit_class, charClass_eq]

/-- The first step of a run, when every case the start state can take on a
character satisfying `p` leads into a set of states accepted by `lexStaysIn`:
the token has one of the symbols of that set. -/
theorem lex_first_step_into (st : Nat) (p : Nat → Bool) (hp : ∀ c, p (charClass c) = p c)
    (states : Nat → Bool) (symbols : List Nat) (hS : lexStaysIn states symbols = true)
    (hstep : ∀ r ∈ lexBreakpoints, p r = true →
      lexCaseStaysIn states symbols (ts_lex_state st false r) = true)
    (c : Nat) (cs : List Nat) (pos start : Nat) (tok : Token) (hc : p c = true)
    (hrun : ts_lex_loop (c :: cs) st pos start none = some tok) : tok.symbol ∈ symbols := by
  have h1 := ts_lex_state_of_class st false p hp
    (fun o => lexCaseStaysIn states symbols o = true) hstep c hc
  rw [ts_lex_loop_cons] at hrun
  cases hcase : ts_lex_state st false c with
  | none => simp [hcase] at hrun
  | some cse =>
    obtain ⟨acc, mv⟩ := cse
    simp only [hcase, lexCaseStaysIn, Bool.and_eq_true] at h1 hrun
    have hres' := acceptToken_symbol symbols acc mv pos none (by simp) h1.1
    cases mv with
    | ADVANCE n =>
      simp only [Bool.and_eq_true, decide_eq_true_eq] at h1 hrun
      exact lexStaysIn_spec states symbols hS cs n (pos + 1) start _ tok h1.2.1 h1.2.2 hres' hrun
    | SKIP n =>
      simp only [Bool.and_eq_true, decide_eq_true_eq] at h1 hrun
      exact lexStaysIn_spec states symbols hS cs n (pos + 1) (pos + 1) _ tok h1.2.1 h1.2.2 hres'
        hrun
    | END_STATE =>
      simp only at hrun
      exact endState_symbol symbols start _ hres' tok hrun

set_option maxRecDepth 100000 in
theorem notSchemeSeparatorState_stays :
    lexStaysIn notSchemeSeparatorState symbolsButSchemeSeparator = true := by
  decide!

theorem ne_class (k : Nat) (hk : k ∈ lexBreakpoints) (hk1 : k + 1 ∈ lexBreakpoints) (c : Nat) :
    decide (charClass c ≠ k) = decide (c ≠ k) := by
  simp only [ne_eq, charClass_eq k c hk hk1]

/-- In lex state 5 the token `://` is returned only for an input that consists
of skipped whitespace followed by `://`. -/
theorem lex5_scheme_separator :
    ∀ (input : List Nat) (pos : Nat) (tok : Token),
      ts_lex_loop input 5 pos pos none = some tok →
      tok.symbol = anon_sym_COLON_SLASH_SLASH →
      ∃ ws rest, input = ws ++ 58 :: 47 :: 47 :: rest ∧ ws.all isWhitespace = true ∧
        tok.start = pos + ws.length ∧ tok.stop = pos + ws.length + 3 := by
  intro input
  induction input with
  | nil =>
    intro pos tok h _
    rw [ts_lex_loop_nil_end 5 pos pos none none (by decide)] at h
    simp [acceptToken_none, endState_none] at h
  | cons c cs ih =>
    intro pos tok h hsym
    by_cases hws : isWhitespace c = true
    · have hst := ts_lex_state_eq_of_class 5 false isWhitespace isWhitespace_class
        (some ⟨none, SKIP 5⟩) (by decide!) c hws
      rw [ts_lex_loop_skip _ _ _ _ _ _ _ _ hst, acceptToken_none] at h
      obtain ⟨ws, rest, hin, hall, hstart, hstop⟩ := ih (pos + 1) tok h hsym
      refine ⟨c :: ws, rest, by simp [hin], by simp [hws, hall], ?_, ?_⟩
      · simp only [List.length_cons]; omega
      · simp only [List.length_cons]; omega
    · by_cases h58 : c = 58
      · subst h58
        rw [ts_lex_loop_advance _ _ _ _ _ _ none 3 (by decide), acceptToken_none] at h
        cases cs with
        | nil =>
          rw [ts_lex_loop_nil_end 3 _ _ _ none (by decide)] at h
          simp [acceptToken_none, endState_none] at h
        | cons c2 cs2 =>
          by_cases h47 : c2 = 47
          · subst h47
            rw [ts_lex_loop_advance _ _ _ _ _ _ none 4 (by decide), acceptToken_none] at h
            cases cs2 with
            | nil =>
              rw [ts_lex_loop_nil_end 4 _ _ _ none (by decide)] at h
              simp [acceptToken_none, endState_none] at h
            | cons c3 cs3 =>
              by_cases h47' : c3 = 47
              · subst h47'
                rw [ts_lex_loop_advance _ _ _ _ _ _ none 39 (by decide), acceptToken_none,
                  ts_lex_loop_final 39 (by decide) (by decide)] at h
                simp only [Option.some.injEq] at h
                subst h
                exact ⟨[], cs3, rfl, rfl, rfl, rfl⟩
              · have hst4 := ts_lex_state_eq_of_class 4 false (fun c => decide (c ≠ 47))
                  (ne_class 47 (by decide) (by decide))
                  (some ⟨none, END_STATE⟩) (by decide!) c3 (by simpa using h47')
                rw [ts_lex_loop_end _ _ _ _ _ _ _ hst4] at h
                simp [acceptToken_none, endState_none] at h
          · have hst3 := ts_lex_state_eq_of_class 3 false (fun c => decide (c ≠ 47))
              (ne_class 47 (by decide) (by decide))
              (some ⟨none, END_STATE⟩) (by decide!) c2 (by simpa using h47)
            rw [ts_lex_loop_end _ _ _ _ _ _ _ hst3] at h
            simp [acceptToken_none, endState_none] at h
      · have hmem := lex_first_step_into 5 (fun c => !isWhitespace c && decide (c ≠ 58))
          (by intro c; simp only [isWhitespace_class, ne_class 58 (by decide) (by decide)])
          notSchemeSeparatorState symbolsButSchemeSeparator notSchemeSeparatorState_stays
          (by decide!) c cs pos pos tok (by simp [hws, h58]) h
        rw [hsym] at hmem
        exact absurd hmem (by decide)

/-- In lex state 5, skipped whitespace followed by `://` gives the token `://`. -/
theorem lex5_skips_whitespace (ws rest : List Nat) (hws : ws.all isWhitespace = true) :
    ∀ pos, ts_lex_loop (ws ++ 58 :: 47 :: 47 :: rest) 5 pos pos none =
      some ⟨anon_sym_COLON_SLASH_SLASH, pos + ws.length, pos + ws.length + 3⟩ := by
  induction ws with
  | nil =>
    intro pos
    simp only [List.nil_append, List.length_nil, Nat.add_zero]
    rw [ts_lex_loop_advance _ _ _ _ _ _ none 3 (by decide), acceptToken_none,
      ts_lex_loop_advance _ _ _ _ _ _ none 4 (by decide), acceptToken_none,
      ts_lex_loop_advance _ _ _ _ _ _ none 39 (by decide), acceptToken_none,
      ts_lex_loop_final 39 (by decide) (by decide)]
    rfl
  | cons c cs ih =>
    intro pos
    simp only [List.all_cons, Bool.and_eq_true] at hws
    have hst := ts_lex_state_eq_of_class 5 false isWhitespace isWhitespace_class
      (some ⟨none, SKIP 5⟩) (by decide!) c hws.1
    rw [List.cons_append, ts_lex_loop_skip _ _ _ _ _ _ _ _ hst, acceptToken_none,
      ih hws.2 (pos + 1)]
    simp only [List.length_cons]
    congr 2 <;> omega

/-! ## Generic facts about the parse tables -/

theorem smallTableGroups_mem (symbol : Nat) :
    ∀ (groups : Nat) (data : List Nat), smallTableGroups groups data symbol ≠ 0 →
      (symbol, smallTableGroups groups data symbol) ∈ smallTablePairs groups data := by
  intro groups
  induction groups with
  | zero => intro data h; simp [smallTableGroups] at h
  | succ g ih =>
    intro data h
    match data with
    | [] => simp [smallTableGroups] at h
    | [_] => simp [smallTableGroups] at h
    | value :: count :: rest =>
      simp only [smallTableGroups] at h ⊢
      simp only [smallTablePairs, List.mem_append, List.mem_map]
      by_cases hc : (rest.take count).contains symbol = true
      · left
        simp only [hc, if_true]
        exact ⟨symbol, by simpa using hc, rfl⟩
      · right
        simp only [hc] at h ⊢
        exact ih _ (by simpa using h)

/-- A row of the tables exists only for the states below `STATE_COUNT`. -/
theorem rowPairs_state (state : Nat) (e : Nat × Nat) (h : e ∈ rowPairs state) :
    state < STATE_COUNT := by
  unfold rowPairs at h
  by_cases hl : LARGE_STATE_COUNT ≤ state
  · rw [if_pos hl] at h
    cases hm : ts_small_parse_table_map.get? (state - LARGE_STATE_COUNT) with
    | none => rw [hm] at h; simp at h
    | some index =>
      have hlen : state - LARGE_STATE_COUNT < ts_small_parse_table_map.length := by
        by_contra hc
        rw [List.get?_eq_none.mpr (by omega)] at hm
        exact absurd hm (by simp)
      have hlen' : ts_small_parse_table_map.length = 36 := by decide
      simp only [STATE_COUNT, LARGE_STATE_COUNT] at *
      omega
  · simp only [STATE_COUNT, LARGE_STATE_COUNT] at *
    omega

/-- What `ts_language_lookup` finds is an entry of the row of the state. -/
theorem ts_language_lookup_mem (state symbol : Nat)
    (h : ts_language_lookup state symbol ≠ 0) :
    (symbol, ts_language_lookup state symbol) ∈ rowPairs state := by
  unfold ts_language_lookup at h ⊢
  unfold rowPairs
  by_cases hl : LARGE_STATE_COUNT ≤ state
  · rw [if_pos hl] at h ⊢
    rw [if_pos hl]
    cases hm : ts_small_parse_table_map.get? (state - LARGE_STATE_COUNT) with
    | none => rw [hm] at h; exact absurd rfl h
    | some index =>
      rw [hm] at h
      dsimp only at h ⊢
      cases hd : ts_small_parse_table.find? (fun row => row.1 == index) with
      | none => rw [hd] at h; exact absurd rfl h
      | some row =>
        obtain ⟨off, data⟩ := row
        cases data with
        | nil => rw [hd] at h; exact absurd rfl h
        | cons groups data =>
          rw [hd] at h
          dsimp only at h ⊢
          exact smallTableGroups_mem symbol groups data h
  · rw [if_neg hl] at h ⊢
    rw [if_neg hl]
    cases hr : ts_parse_table.get? state with
    | none => rw [hr] at h; exact absurd rfl h
    | some row =>
      rw [hr] at h
      dsimp only at h ⊢
      cases hf : row.find? (fun e => e.1 == symbol) with
      | none => rw [hf] at h; exact absurd rfl h
      | some e =>
        have hmem : e ∈ row := List.mem_of_find?_eq_some hf
        have hsym : (e.1 == symbol) = true :=
          @List.find?_some _ (fun e : Nat × Nat => e.1 == symbol) e row hf
        simp only [beq_iff_eq] at hsym
        dsimp only
        rw [← hsym]
        exact hmem

/-- A property of the table entries that holds for an absent entry and for
every entry of the rows of the states below `STATE_COUNT` holds for every
state and symbol. -/
theorem ts_language_lookup_scan (P : Nat → Nat → Nat → Prop) (h0 : ∀ s x, P s x 0)
    (h : ∀ s < STATE_COUNT, ∀ e ∈ rowPairs s, P s e.1 e.2)
    (state symbol : Nat) : P state symbol (ts_language_lookup state symbol) := by
  by_cases hz : ts_language_lookup state symbol = 0
  · rw [hz]; exact h0 _ _
  · have hmem := ts_language_lookup_mem state symbol hz
    exact h state (rowPairs_state state _ hmem) _ hmem

theorem ts_language_actions_eq (state symbol : Nat) :
    ts_language_actions state symbol = actionsAt (ts_language_lookup state symbol) := rfl

/-- The same principle for the lists of actions. -/
theorem ts_language_actions_scan (P : Nat → Nat → List TSParseAction → Prop)
    (h0 : ∀ s x, P s x [])
    (h : ∀ s < STATE_COUNT, ∀ e ∈ rowPairs s, P s e.1 (actionsAt e.2))
    (state symbol : Nat) : P state symbol (ts_language_actions state symbol) := by
  rw [ts_language_actions_eq]
  exact ts_language_lookup_scan (fun s x v => P s x (actionsAt v))
    (fun s x => by
      show P s x (actionsAt 0)
      rw [show actionsAt 0 = [] by decide]
      exact h0 s x) h state symbol

set_option maxRecDepth 100000 in
/-- Every entry of the tables is for a symbol below `SYMBOL_COUNT`, and an
entry for a non-terminal is a state. -/
theorem rowPairs_bound :
    ∀ s < STATE_COUNT, ∀ e ∈ rowPairs s,
      e.1 < SYMBOL_COUNT ∧ (TOKEN_COUNT ≤ e.1 → e.2 < STATE_COUNT) := by
  decide!


set_option maxRecDepth 100000 in
/-- The list `tableActions` is the tables, read row by row. -/
theorem tableActions_eq :
    (List.range STATE_COUNT).map (fun s =>
      (s, ((rowPairs s).filter fun e => decide (e.1 < TOKEN_COUNT)).map
        fun e => (e.1, actionsAt e.2))) = tableActions := by
  decide!

set_option maxRecDepth 100000 in
/-- The list `tableGotos` is the tables, read row by row. -/
theorem tableGotos_eq :
    (List.range STATE_COUNT).map (fun s =>
      (s, (rowPairs s).filter fun e => decide (TOKEN_COUNT ≤ e.1))) = tableGotos := by
  decide!

/-- A property of the actions that holds for the empty list and for every
entry of `tableActions` holds for every state and token. -/
theorem ts_language_actions_forall (P : Nat → Nat → List TSParseAction → Prop)
    (h0 : ∀ s x, P s x [])
    (h : ∀ row ∈ tableActions, ∀ e ∈ row.2, P row.1 e.1 e.2)
    (state symbol : Nat) (hx : symbol < TOKEN_COUNT) :
    P state symbol (ts_language_actions state symbol) := by
  refine ts_language_actions_scan (fun s x acts => x < TOKEN_COUNT → P s x acts)
    (fun s x _ => h0 s x) ?_ state symbol hx
  intro s hs e he hlt
  have hrow : (s, ((rowPairs s).filter fun e => decide (e.1 < TOKEN_COUNT)).map
      fun e => (e.1, actionsAt e.2)) ∈ tableActions := by
    rw [← tableActions_eq]
    exact List.mem_map.mpr ⟨s, List.mem_range.mpr hs, rfl⟩
  exact h _ hrow (e.1, actionsAt e.2)
    (List.mem_map.mpr ⟨e, List.mem_filter.mpr ⟨he, by simpa using hlt⟩, rfl⟩)

/-- A property of the gotos that holds for the absent entry and for every entry
of `tableGotos` holds for every state and non-terminal. -/
theorem ts_language_lookup_forall (P : Nat → Nat → Nat → Prop) (h0 : ∀ s x, P s x 0)
    (h : ∀ row ∈ tableGotos, ∀ e ∈ row.2, P row.1 e.1 e.2)
    (state symbol : Nat) (hx : TOKEN_COUNT ≤ symbol) :
    P state symbol (ts_language_lookup state symbol) := by
  refine ts_language_lookup_scan (fun s x v => TOKEN_COUNT ≤ x → P s x v)
    (fun s x _ => h0 s x) ?_ state symbol hx
  intro s hs e he hle
  have hrow : (s, (rowPairs s).filter fun e => decide (TOKEN_COUNT ≤ e.1)) ∈ tableGotos := by
    rw [← tableGotos_eq]
    exact List.mem_map.mpr ⟨s, List.mem_range.mpr hs, rfl⟩
  exact h _ hrow e (List.mem_filter.mpr ⟨he, by simpa using hle⟩)

/-- A property of every reduction to `sym` in the tables, from a check of
`tableActions`. -/
theorem reduce_forall (sym : Nat) (q : Nat → Nat → Bool)
    (h : ∀ row ∈ tableActions, ∀ e ∈ row.2, ∀ a ∈ e.2,
      reduceSatisfies (fun x n => decide (x = sym → q row.1 n = true)) a = true)
    (state symbol : Nat) (hx : symbol < TOKEN_COUNT) :
    ∀ a ∈ ts_language_actions state symbol, ∀ n d p,
      a = REDUCE sym n d p → q state n = true :=
  ts_language_actions_forall
    (fun s _ acts => ∀ a ∈ acts, ∀ n d p, a = REDUCE sym n d p → q s n = true)
    (fun _ _ a ha => absurd ha (List.not_mem_nil a))
    (by
      intro row hrow e he a ha n d p hred
      have := h row hrow e he a ha
      rw [hred] at this
      simpa [reduceSatisfies] using this) state symbol hx
/-! ## C18: a colon is a port separator only directly after a domain -/

set_option maxRecDepth 100000 in
/-- C18: the only parse state with a shift action on `sym_port` is state 34
(it shifts to 29), and no other state has an action on `sym_port` except the
error state 0, whose entry is `RECOVER` as for every token; state 34 is entered
only by shifting `:` in state 30, never by a goto; state 30 is entered by no
shift and only by the goto on `sym_domain`. -/
theorem C18_port_only_after_domain (state symbol : Nat) :
    ts_language_actions 34 sym_port = [SHIFT 29] ∧
    (∀ a ∈ ts_language_actions state sym_port, state = 34 ∨ (state = 0 ∧ a = RECOVER)) ∧
    ts_language_actions 30 anon_sym_COLON = [REDUCE sym_domain_and_port 1 0 0, SHIFT 34] ∧
    (symbol < TOKEN_COUNT →
      ((SHIFT 34 ∈ ts_language_actions state symbol ∨
          SHIFT_REPEAT 34 ∈ ts_language_actions state symbol) →
        state = 30 ∧ symbol = anon_sym_COLON) ∧
      SHIFT 30 ∉ ts_language_actions state symbol ∧
      SHIFT_REPEAT 30 ∉ ts_language_actions state symbol) ∧
    ts_language_lookup 1 sym_domain = 30 ∧
    (TOKEN_COUNT ≤ symbol →
      ts_language_lookup state symbol ≠ 34 ∧
      (ts_language_lookup state symbol = 30 → symbol = sym_domain)) := by
  refine ⟨by decide, ?_, by decide, ?_, by decide, ?_⟩
  · exact ts_language_actions_forall
      (fun s x acts => x = sym_port → ∀ a ∈ acts, s = 34 ∨ (s = 0 ∧ a = RECOVER))
      (fun _ _ _ a ha => absurd ha (List.not_mem_nil a)) (by decide!) state sym_port
      (by decide) rfl
  · exact ts_language_actions_forall
      (fun s x acts => ((SHIFT 34 ∈ acts ∨ SHIFT_REPEAT 34 ∈ acts) →
        s = 30 ∧ x = anon_sym_COLON) ∧ SHIFT 30 ∉ acts ∧ SHIFT_REPEAT 30 ∉ acts)
      (fun _ _ => by simp) (by decide!) state symbol
  · exact ts_language_lookup_forall
      (fun _ x v => v ≠ 34 ∧ (v = 30 → x = sym_domain))
      (fun _ _ => ⟨by decide, fun h => absurd h (by decide)⟩) (by decide!) state symbol

/-! ## C17: the two readings of a colon -/

set_option maxRecDepth 100000 in
/-- C17, the claim fails at parse state 30: its entry for `:` has two actions,
the reduction to `sym_domain_and_port` and the shift to state 34.  The shift
leads to the state that accepts only a port; after the reduction (goto 25 from
the start state) the `:` is shifted to state 37, which accepts only a
path-parameter name. -/
theorem C17_counterexample :
    ts_parse_action_entry (ts_language_lookup 30 anon_sym_COLON) =
      some ⟨2, true, [REDUCE sym_domain_and_port 1 0 0, SHIFT 34]⟩ ∧
    ts_language_actions 34 sym_port = [SHIFT 29] ∧
    ts_language_lookup 1 sym_domain_and_port = 25 ∧
    ts_language_actions 25 anon_sym_COLON = [SHIFT 37] ∧
    ts_language_actions 37 aux_sym_path_param_token1 = [SHIFT 13] := by
  decide

set_option maxRecDepth 100000 in
/-- C17 as amended: the entry for `:` has at most one action in every parse
state but 2, 4, 5 and 30.  States 2 and 5 pair a reduction with
`SHIFT_REPEAT(37)` and state 4 pairs the reduction to `sym_path` with
`SHIFT(37)`.  State 30 is the only state that shifts `:` towards a port
(`SHIFT(34)`), and there the port reading competes with the path-parameter
reading: the entry also reduces to `sym_domain_and_port`, after which (states
24 and 25) the `:` is shifted to state 37.  Both readings can succeed: `a.b:80/`
is accepted with a port and `a.b:x` with a path parameter. -/
theorem C17_colon_entries (state : Nat) :
    ((ts_language_actions state anon_sym_COLON).length ≤ 1 ∨ state ∈ [2, 4, 5, 30]) ∧
    ts_language_actions 2 anon_sym_COLON =
      [REDUCE aux_sym_source_file_repeat1 2 0 0, SHIFT_REPEAT 37] ∧
    ts_language_actions 4 anon_sym_COLON = [REDUCE sym_path 1 0 0, SHIFT 37] ∧
    ts_language_actions 5 anon_sym_COLON = [REDUCE aux_sym_path_repeat1 2 0 0, SHIFT_REPEAT 37] ∧
    ts_language_actions 30 anon_sym_COLON = [REDUCE sym_domain_and_port 1 0 0, SHIFT 34] ∧
    (SHIFT 34 ∈ ts_language_actions state anon_sym_COLON → state = 30) ∧
    ts_language_lookup 1 sym_domain_and_port = 25 ∧
    ts_language_lookup 14 sym_domain_and_port = 24 ∧
    ts_language_actions 24 anon_sym_COLON = [SHIFT 37] ∧
    ts_language_actions 25 anon_sym_COLON = [SHIFT 37] ∧
    (acceptedTrees (parse 100 (codes "a.b:80/"))).map
      (fun t => (t.hasSymbol sym_port, t.hasSymbol sym_path_param)) = [(true, false)] ∧
    (acceptedTrees (parse 100 (codes "a.b:x"))).map
      (fun t => (t.hasSymbol sym_port, t.hasSymbol sym_path_param)) = [(false, true)] := by
  refine ⟨?_, by decide, by decide, by decide, by decide, ?_, by decide, by decide, by decide,
    by decide, by decide!, by decide!⟩
  · exact ts_language_actions_forall
      (fun s x acts => x = anon_sym_COLON → (acts.length ≤ 1 ∨ s ∈ [2, 4, 5, 30]))
      (fun _ _ _ => by simp) (by decide!) state anon_sym_COLON (by decide) rfl
  · exact ts_language_actions_forall
      (fun s x acts => x = anon_sym_COLON → SHIFT 34 ∈ acts → s = 30)
      (fun _ _ _ h => by simp at h) (by decide!) state anon_sym_COLON (by decide) rfl

/-! ## C13: a variable is never part of a domain -/

set_option maxRecDepth 100000 in
/-- C13, the claim fails: a variable parsed at the start of a line (state 1) or
right after a protocol (state 14) goes to state 4, where the path items go, and
the two accepting runs on a line that begins with a variable followed by
`.example.com` build no `sym_domain` node at all. -/
theorem C13_counterexample :
    ts_language_lookup 1 sym_variable = 4 ∧ ts_language_lookup 14 sym_variable = 4 ∧
    ts_language_lookup 1 aux_sym_path_repeat1 = 4 ∧
    ts_language_lookup 14 aux_sym_path_repeat1 = 4 ∧
    (acceptedTrees (parse 100 (codes "\x7b\x7benv\x7d\x7d.example.com"))).map
      (fun t => (t.hasSymbol sym_domain, t.hasSymbol sym_variable, t.hasSymbol sym_path)) =
      [(false, true, true), (false, true, true)] := by
  refine ⟨by decide, by decide, by decide, by decide, by decide!⟩

set_option maxRecDepth 100000 in
/-- C13 as amended: a domain is one token or one hostname.  The only reduction
to `sym_domain` is the one with one child in state 31; state 31 is entered
only by shifting `aux_sym_domain_token1` or by the goto on `sym_hostname`.  A
`sym_variable` never leads to state 31: the goto on it is 4 or 5 (path item), 8
(query key) or 16 (query value), and it is 4 at the start of a line and right
after a protocol. -/
theorem C13_domain_children (state symbol : Nat) :
    (symbol < TOKEN_COUNT →
      (∀ a ∈ ts_language_actions state symbol, ∀ n d p,
        a = REDUCE sym_domain n d p → state = 31 ∧ n = 1) ∧
      ((SHIFT 31 ∈ ts_language_actions state symbol ∨
          SHIFT_REPEAT 31 ∈ ts_language_actions state symbol) →
        symbol = aux_sym_domain_token1)) ∧
    ts_language_actions 31 anon_sym_SLASH = [REDUCE sym_domain 1 0 0] ∧
    (TOKEN_COUNT ≤ symbol → ts_language_lookup state symbol = 31 → symbol = sym_hostname) ∧
    ts_language_lookup state sym_variable ∈ [0, 4, 5, 8, 16] ∧
    ts_language_lookup 1 sym_variable = 4 ∧ ts_language_lookup 14 sym_variable = 4 := by
  refine ⟨fun hx => ⟨?_, ?_⟩, by decide, ?_, ?_, by decide, by decide⟩
  · intro a ha n d p hred
    simpa using reduce_forall sym_domain (fun s n => decide (s = 31 ∧ n = 1)) (by decide!)
      state symbol hx a ha n d p hred
  · exact ts_language_actions_forall
      (fun _ x acts => (SHIFT 31 ∈ acts ∨ SHIFT_REPEAT 31 ∈ acts) → x = aux_sym_domain_token1)
      (fun _ _ h => by simp at h) (by decide!) state symbol hx
  · exact ts_language_lookup_forall
      (fun _ x v => v = 31 → x = sym_hostname)
      (fun _ _ h => absurd h (by decide)) (by decide!) state symbol
  · exact ts_language_lookup_forall
      (fun _ x v => x = sym_variable → v ∈ [0, 4, 5, 8, 16])
      (fun _ _ _ => by decide) (by decide!) state sym_variable (by decide) rfl

/-! ## C6 and C7: the port token -/

/-- One more digit of a port: if state `n` returns a port of at most `k`
further digits, then state `s`, which accepts `sym_port` and advances on a
digit into `n` only, returns a port of at most `k + 1` further digits. -/
theorem port_step (s n k : Nat)
    (hrun : lexRunsWhile (fun x => x == s) (fun x => x == n) isDigit [sym_port] = true)
    (hlt : s < LEX_STATE_COUNT)
    (hnext : ∀ (input : List Nat) (pos start : Nat) (res : Option (Nat × Nat)),
      ts_lex_loop input n pos start res =
        some ⟨sym_port, start, pos + min (input.takeWhile isDigit).length k⟩)
    (input : List Nat) (pos start : Nat) (res : Option (Nat × Nat)) :
    ts_lex_loop input s pos start res =
      some ⟨sym_port, start, pos + min (input.takeWhile isDigit).length (k + 1)⟩ := by
  cases input with
  | nil =>
    obtain ⟨a, ha, h⟩ := lexRunsWhile_nil _ _ _ _ hrun s pos start res (by simp) hlt
    simp only [List.mem_singleton] at ha
    subst ha
    simpa using h
  | cons c cs =>
    rcases lexRunsWhile_cons _ _ _ _ isDigit_class hrun c cs s pos start res (by simp) hlt with
      ⟨hc, a, ha, h⟩ | ⟨hc, m, res', hm, _, h⟩
    · simp only [List.mem_singleton] at ha
      subst ha
      simpa [List.takeWhile, hc] using h
    · have hmn : m = n := by simpa using hm
      subst hmn
      rw [h, hnext]
      simp only [List.takeWhile, hc, List.length_cons, Nat.succ_min_succ]
      congr 2
      omega

set_option maxRecDepth 100000 in
/-- In the state 119, entered on the first digit, the lexer returns a port of
at most four further digits. -/
theorem port_tail (input : List Nat) (pos start : Nat) (res : Option (Nat × Nat)) :
    ts_lex_loop input 119 pos start res =
      some ⟨sym_port, start, pos + min (input.takeWhile isDigit).length 4⟩ := by
  have h115 : ∀ (input : List Nat) (pos start : Nat) (res : Option (Nat × Nat)),
      ts_lex_loop input 115 pos start res =
        some ⟨sym_port, start, pos + min (input.takeWhile isDigit).length 0⟩ := by
    intro input pos start res
    rw [ts_lex_loop_final 115 (by decide) (by decide)]
    simp only [Nat.min_zero, Nat.add_zero]
    rfl
  have h116 := port_step 116 115 0 (by decide!) (by decide) h115
  have h117 := port_step 117 116 1 (by decide!) (by decide) h116
  have h118 := port_step 118 117 2 (by decide!) (by decide) h117
  exact port_step 119 118 3 (by decide!) (by decide) h118 input pos start res

set_option maxRecDepth 100000 in
theorem notPortState_stays : lexStaysIn notPortState symbolsButPort = true := by
  decide!

/-- The end-of-input token of lex state 0. -/
theorem ts_lex_loop_nil_zero (pos start : Nat) :
    ts_lex_loop [] 0 pos start none = some ⟨ts_builtin_sym_end, start, pos⟩ := by
  have h0 : ts_lex_state 0 true 0 = some ⟨none, ADVANCE 27⟩ := by decide
  have h27 : ts_lex_state 27 true 0 = some ⟨some ts_builtin_sym_end, END_STATE⟩ := by decide
  rw [ts_lex_loop_nil, show (340 : Nat) = 338 + 1 + 1 from rfl, ts_lex_eof_succ]
  simp only [h0]
  rw [ts_lex_eof_succ]
  simp only [h27]
  rfl

/-- A port token of lex state 0 starts after skipped whitespace and spans the
first five digits, at most, of the digits that follow. -/
theorem lex0_port :
    ∀ (input : List Nat) (pos : Nat) (tok : Token),
      ts_lex_loop input 0 pos pos none = some tok → tok.symbol = sym_port →
      ∃ ws rest, input = ws ++ rest ∧ ws.all isWhitespace = true ∧
        1 ≤ (rest.takeWhile isDigit).length ∧ tok.start = pos + ws.length ∧
        tok.stop = tok.start + min (rest.takeWhile isDigit).length 5 := by
  intro input
  induction input with
  | nil =>
    intro pos tok h hsym
    rw [ts_lex_loop_nil_zero] at h
    simp only [Option.some.injEq] at h
    subst h
    exact absurd hsym (show ts_builtin_sym_end ≠ sym_port by decide)
  | cons c cs ih =>
    intro pos tok h hsym
    by_cases hws : isWhitespace c = true
    · have hst := ts_lex_state_eq_of_class 0 false isWhitespace isWhitespace_class
        (some ⟨none, SKIP 0⟩) (by decide!) c hws
      rw [ts_lex_loop_skip _ _ _ _ _ _ _ _ hst, acceptToken_none] at h
      obtain ⟨ws, rest, hin, hall, hlen, hstart, hstop⟩ := ih (pos + 1) tok h hsym
      refine ⟨c :: ws, rest, by simp [hin], by simp [hws, hall], hlen, ?_, hstop⟩
      simp only [List.length_cons]; omega
    · by_cases hd : isDigit c = true
      · have hst := ts_lex_state_eq_of_class 0 false isDigit isDigit_class
          (some ⟨none, ADVANCE 119⟩) (by decide!) c hd
        rw [ts_lex_loop_advance _ _ _ _ _ _ _ _ hst, acceptToken_none, port_tail] at h
        simp only [Option.some.injEq] at h
        subst h
        refine ⟨[], c :: cs, rfl, rfl, ?_, rfl, ?_⟩
        · simp [List.takeWhile, hd]
        · simp only [List.takeWhile, hd, List.length_cons, Nat.succ_min_succ]
          omega
      · have hmem := lex_first_step_into 0 (fun c => !isWhitespace c && !isDigit c)
          (by intro c; simp only [isWhitespace_class, isDigit_class])
          notPortState symbolsButPort notPortState_stays
          (by decide!) c cs pos pos tok (by simp [hws, hd]) h
        rw [hsym] at hmem
        exact absurd hmem (by decide)

/-- The value of at most `n` decimal digits is below `10 ^ n`. -/
theorem decimalValue_lt (ds : List Nat) (hd : ds.all isDigit = true) :
    decimalValue ds < 10 ^ ds.length := by
  have key : ∀ (ds : List Nat) (acc : Nat), ds.all isDigit = true →
      ds.foldl (fun acc c => 10 * acc + (c - 48)) acc + 1 ≤ (acc + 1) * 10 ^ ds.length := by
    intro ds
    induction ds with
    | nil => intro acc _; simp
    | cons c cs ih =>
      intro acc h
      simp only [List.all_cons, Bool.and_eq_true] at h
      have hc : c - 48 ≤ 9 := by
        have := h.1
        simp only [isDigit, decide_eq_true_eq] at this
        omega
      refine le_trans (ih (10 * acc + (c - 48)) h.2) ?_
      rw [List.length_cons, pow_succ, mul_comm (10 ^ cs.length) 10, ← mul_assoc]
      exact Nat.mul_le_mul_right _ (by omega)
  have := key ds 0 hd
  simp only [Nat.zero_add, Nat.one_mul] at this
  exact this

/-- The first characters of a list, as many as satisfy `p` but at most `k`. -/
theorem take_min_takeWhile (p : Nat → Bool) (k : Nat) :
    ∀ l : List Nat, l.take (min (l.takeWhile p).length k) = (l.takeWhile p).take k := by
  intro l
  induction l generalizing k with
  | nil => simp
  | cons c cs ih =>
    by_cases hc : p c = true
    · cases k with
      | zero => simp
      | succ k => simp [List.takeWhile, hc, Nat.succ_min_succ, ih k]
    · simp [List.takeWhile, hc]

/-- C6, the claim fails for a port of more than five digits: on the six digits
`123456` followed by `/` the port token of parse state 34 spans five digits
only. -/
theorem C6_counterexample :
    lexMode 34 = 0 ∧ ts_lex (codes "123456/") (lexMode 34) = some ⟨sym_port, 0, 5⟩ := by
  decide

/-- C6 as amended: in the port context (parse state 34, lex state 0), on an
input that begins with a digit, `ts_lex` returns a `sym_port` token that
starts at 0 and spans the first `min n 5` digits, where `n` is the number of
contiguous digits the input begins with: all of them when there are at most
five, and exactly five otherwise. -/
theorem C6_port_span (input : List Nat) (h : ∃ c ∈ input.head?, isDigit c = true) :
    ts_lex input (lexMode 34) =
      some ⟨sym_port, 0, min (input.takeWhile isDigit).length 5⟩ := by
  obtain ⟨c, hc, hd⟩ := h
  cases input with
  | nil => simp at hc
  | cons c0 cs =>
    simp only [List.head?_cons, Option.mem_def, Option.some.injEq] at hc
    subst hc
    have hst := ts_lex_state_eq_of_class 0 false isDigit isDigit_class
      (some ⟨none, ADVANCE 119⟩) (by decide!) c0 hd
    rw [show lexMode 34 = 0 by decide]
    unfold ts_lex
    rw [ts_lex_loop_advance _ _ _ _ _ _ _ _ hst, acceptToken_none, port_tail]
    simp only [List.takeWhile, hd, List.length_cons, Nat.succ_min_succ]
    congr 2
    omega

/-- C6 as amended, at concrete inputs: `8080/path` (four digits, all of them in
the token). -/
theorem C6_port_span_witness :
    (∃ c ∈ (codes "8080/path").head?, isDigit c = true) ∧
    ts_lex (codes "8080/path") (lexMode 34) =
      some ⟨sym_port, 0, min ((codes "8080/path").takeWhile isDigit).length 5⟩ :=
  ⟨⟨56, by decide, by decide⟩, C6_port_span (codes "8080/path") ⟨56, by decide, by decide⟩⟩

/-- C7, the claim fails: on `99999` the lexer returns a port token whose
decimal value is 99999, above 65535. -/
theorem C7_counterexample :
    ts_lex (codes "99999") 0 = some ⟨sym_port, 0, 5⟩ ∧
    decimalValue (tokenText (codes "99999") ⟨sym_port, 0, 5⟩) = 99999 ∧
    ¬ decimalValue (tokenText (codes "99999") ⟨sym_port, 0, 5⟩) ≤ 65535 := by
  decide

/-- C7 as amended: whenever `ts_lex`, started in a lex state that
`ts_lex_modes` assigns to a parse state, returns a `sym_port` token, the lex
state is 0 and the text of the token is one to five decimal digits, so its
decimal value is at most 99999. -/
theorem C7_port_value (input : List Nat) (state : Nat) (tok : Token)
    (hstate : state ∈ ts_lex_modes) (h : ts_lex input state = some tok)
    (hsym : tok.symbol = sym_port) :
    state = 0 ∧ 1 ≤ (tokenText input tok).length ∧ (tokenText input tok).length ≤ 5 ∧
    (tokenText input tok).all isDigit = true ∧ decimalValue (tokenText input tok) ≤ 99999 := by
  have h0 : state = 0 := by
    by_contra hne
    have hns : notPortState state = true ∧ state < LEX_STATE_COUNT := by
      have : ∀ s ∈ ts_lex_modes, s ≠ 0 → notPortState s = true ∧ s < LEX_STATE_COUNT := by
        decide
      exact this state hstate hne
    have := lexStaysIn_spec notPortState symbolsButPort notPortState_stays input state 0 0 none
      tok hns.1 hns.2 (by simp) h
    rw [hsym] at this
    exact absurd this (by decide)
  subst h0
  obtain ⟨ws, rest, hin, _, hlen, hstart, hstop⟩ := lex0_port input 0 tok h hsym
  have htext : tokenText input tok = (rest.takeWhile isDigit).take 5 := by
    unfold tokenText
    rw [hstop, hstart, hin]
    simp only [Nat.zero_add, List.drop_left, Nat.add_sub_cancel_left]
    exact take_min_takeWhile isDigit 5 rest
  have hall : ((rest.takeWhile isDigit).take 5).all isDigit = true := by
    rw [List.all_eq_true]
    intro x hx
    exact (List.mem_takeWhile_imp (List.mem_of_mem_take hx))
  have hlen5 : ((rest.takeWhile isDigit).take 5).length ≤ 5 := by
    rw [List.length_take]; exact Nat.min_le_left _ _
  refine ⟨rfl, ?_, ?_, ?_, ?_⟩
  · rw [htext, List.length_take]; omega
  · rw [htext]; exact hlen5
  · rw [htext]; exact hall
  · rw [htext]
    have := decimalValue_lt _ hall
    have h10 : 10 ^ ((rest.takeWhile isDigit).take 5).length ≤ 10 ^ 5 :=
      Nat.pow_le_pow_right (by decide) hlen5
    omega

/-- C7 as amended, at a concrete input: the port `8443` of `8443/v1`. -/
theorem C7_port_value_witness :
    (0 ∈ ts_lex_modes ∧ ts_lex (codes "8443/v1") 0 = some ⟨sym_port, 0, 4⟩) ∧
    (0 = 0 ∧ 1 ≤ (tokenText (codes "8443/v1") ⟨sym_port, 0, 4⟩).length ∧
      (tokenText (codes "8443/v1") ⟨sym_port, 0, 4⟩).length ≤ 5 ∧
      (tokenText (codes "8443/v1") ⟨sym_port, 0, 4⟩).all isDigit = true ∧
      decimalValue (tokenText (codes "8443/v1") ⟨sym_port, 0, 4⟩) ≤ 99999) :=
  ⟨⟨by decide, by decide⟩,
    C7_port_value (codes "8443/v1") 0 ⟨sym_port, 0, 4⟩ (by decide) (by decide) rfl⟩

/-! ## C1: the token `://` after a scheme -/

/-- C1, the claim fails: in the lex state of parse state 36, the state reached
after a scheme token, white space before `://` is skipped, so the token `://`
is returned although `://` does not begin at the current position; `http ://a`
is accepted with a protocol node. -/
theorem C1_counterexample :
    lexMode 36 = 5 ∧
    ts_lex (codes " ://") (lexMode 36) = some ⟨anon_sym_COLON_SLASH_SLASH, 1, 4⟩ ∧
    (acceptedTrees (parse 100 (codes "http ://a"))).map
      (fun t => t.hasSymbol sym_protocol) = [true] := by
  refine ⟨by decide, by decide, by decide!⟩

set_option maxRecDepth 100000 in
/-- C1 as amended: the only reduction to `sym_protocol` is the one with two
children in state 26; state 26 is entered only by shifting the token `://` in
state 36, and state 36 only by shifting one of the five scheme tokens.  In the
lex state of state 36, `ts_lex` returns the token `://` exactly when the input
is white space (TAB, LF, VT, FF, CR, space; possibly none) followed by `://`,
and the token then covers the three characters `://` after the skipped white
space. -/
theorem C1_protocol_separator (state symbol : Nat) (input : List Nat) (tok : Token)
    (h : ts_lex input (lexMode 36) = some tok)
    (hsym : tok.symbol = anon_sym_COLON_SLASH_SLASH) :
    (symbol < TOKEN_COUNT →
      (∀ a ∈ ts_language_actions state symbol, ∀ n d p,
        a = REDUCE sym_protocol n d p → state = 26 ∧ n = 2) ∧
      ((SHIFT 26 ∈ ts_language_actions state symbol ∨
          SHIFT_REPEAT 26 ∈ ts_language_actions state symbol) →
        state = 36 ∧ symbol = anon_sym_COLON_SLASH_SLASH) ∧
      ((SHIFT 36 ∈ ts_language_actions state symbol ∨
          SHIFT_REPEAT 36 ∈ ts_language_actions state symbol) →
        symbol ∈ [anon_sym_http, anon_sym_https, anon_sym_ftp, anon_sym_ws, anon_sym_wss])) ∧
    (TOKEN_COUNT ≤ symbol →
      ts_language_lookup state symbol ≠ 26 ∧ ts_language_lookup state symbol ≠ 36) ∧
    (∃ ws rest, input = ws ++ codes "://" ++ rest ∧ ws.all isWhitespace = true ∧
      tok.start = ws.length ∧ tok.stop = ws.length + 3) ∧
    (∀ ws rest : List Nat, ws.all isWhitespace = true →
      ts_lex (ws ++ codes "://" ++ rest) (lexMode 36) =
        some ⟨anon_sym_COLON_SLASH_SLASH, ws.length, ws.length + 3⟩) := by
  refine ⟨fun hx => ⟨?_, ?_, ?_⟩, ?_, ?_, ?_⟩
  · intro a ha n d p hred
    simpa using reduce_forall sym_protocol (fun s n => decide (s = 26 ∧ n = 2)) (by decide!)
      state symbol hx a ha n d p hred
  · exact ts_language_actions_forall
      (fun s x acts => (SHIFT 26 ∈ acts ∨ SHIFT_REPEAT 26 ∈ acts) →
        s = 36 ∧ x = anon_sym_COLON_SLASH_SLASH)
      (fun _ _ h => by simp at h) (by decide!) state symbol hx
  · exact ts_language_actions_forall
      (fun _ x acts => (SHIFT 36 ∈ acts ∨ SHIFT_REPEAT 36 ∈ acts) →
        x ∈ [anon_sym_http, anon_sym_https, anon_sym_ftp, anon_sym_ws, anon_sym_wss])
      (fun _ _ h => by simp at h) (by decide!) state symbol hx
  · exact ts_language_lookup_forall
      (fun _ _ v => v ≠ 26 ∧ v ≠ 36)
      (fun _ _ => ⟨by decide, by decide⟩) (by decide!) state symbol
  · rw [show lexMode 36 = 5 by decide] at h
    obtain ⟨ws, rest, hin, hall, hstart, hstop⟩ := lex5_scheme_separator input 0 tok h hsym
    refine ⟨ws, rest, ?_, hall, by omega, by omega⟩
    rw [hin]
    simp [codes]
  · intro ws rest hws
    rw [show lexMode 36 = 5 by decide]
    have := lex5_skips_whitespace ws rest hws 0
    simp only [Nat.zero_add] at this
    unfold ts_lex
    rw [← this]
    simp [codes]

/-- C1 as amended, at a concrete input: `://host` after the scheme `http`. -/
theorem C1_protocol_separator_witness :
    ts_lex (codes "://host") (lexMode 36) = some ⟨anon_sym_COLON_SLASH_SLASH, 0, 3⟩ ∧
    (∃ ws rest, codes "://host" = ws ++ codes "://" ++ rest ∧ ws.all isWhitespace = true ∧
      (0 : Nat) = ws.length ∧ (3 : Nat) = ws.length + 3) :=
  ⟨by decide,
    (C1_protocol_separator 26 anon_sym_SLASH (codes "://host")
      ⟨anon_sym_COLON_SLASH_SLASH, 0, 3⟩ (by decide) rfl).2.2.1⟩

/-! ## C3: the delimiters of a variable -/

/-- A first step of the lexer, computed for a given character. -/
theorem ts_lex_step (state c next : Nat) (rest : List Nat)
    (h : ts_lex_state state false c = some ⟨none, ADVANCE next⟩) :
    ts_lex (c :: rest) state = ts_lex_loop rest next 1 0 none := by
  unfold ts_lex
  rw [ts_lex_loop_advance _ _ _ _ _ _ _ _ h, acceptToken_none]

/-- A state whose only transition is on the character `k` ends without a token
on every other character and at the end of the input. -/
theorem ts_lex_loop_single (s k : Nat) (hk : k ∈ lexBreakpoints) (hk1 : k + 1 ∈ lexBreakpoints)
    (heof : ts_lex_state s true 0 = some ⟨none, END_STATE⟩)
    (hother : ∀ r ∈ lexBreakpoints, decide (r ≠ k) = true →
      ts_lex_state s false r = some ⟨none, END_STATE⟩)
    (rest : List Nat) (hrest : rest.head? ≠ some k) (pos start : Nat) :
    ts_lex_loop rest s pos start none = none := by
  cases rest with
  | nil => rw [ts_lex_loop_nil_end _ _ _ _ _ heof]; rfl
  | cons c cs =>
    have hc : c ≠ k := by simpa using hrest
    have hst := ts_lex_state_eq_of_class s false (fun c => decide (c ≠ k))
      (ne_class k hk hk1) (some ⟨none, END_STATE⟩) hother c (by simpa using hc)
    rw [ts_lex_loop_end _ _ _ _ _ _ _ hst]
    rfl

/-- C3, the claim fails: on `{name}` the lexer returns no token in the
start-of-line state 26 nor in the in-line state 25, and on a single `}` none
in the state that follows a variable name; the delimiters are the
two-character tokens `{{` and `}}`. -/
theorem C3_counterexample :
    ts_lex (codes "\x7bname\x7d") 26 = none ∧ ts_lex (codes "\x7bname\x7d") 25 = none ∧
    ts_lex (codes "\x7d") (lexMode 39) = none ∧
    ts_lex (codes "\x7b\x7bname\x7d\x7d") 26 = some ⟨sym_variable_delim_start, 0, 2⟩ ∧
    ts_lex (codes "\x7d\x7d") (lexMode 39) = some ⟨sym_variable_delim_end, 0, 2⟩ := by
  decide

set_option maxRecDepth 100000 in
/-- C3 as amended: a variable is written with doubled braces.  The parse states
with an action on `sym_variable_delim_start` are lexed in the lex states 0, 1,
2, 5, 21, 25 and 26.  In each of these but 21 (the query value, where a brace
is value text), an input that begins with two opening braces gives the
`sym_variable_delim_start` token of length 2, and an input that begins with one
opening brace not followed by a second gives no token.  The end delimiter is
lexed in state 39 (lex state 0): two closing braces give the
`sym_variable_delim_end` token of length 2, and a single closing brace gives
no token. -/
theorem C3_variable_delimiters (state : Nat) (rest : List Nat) :
    (ts_language_actions state sym_variable_delim_start ≠ [] →
      lexMode state ∈ [0, 1, 2, 5, 21, 25, 26]) ∧
    (∀ s ∈ [0, 1, 2, 5, 25, 26],
      ts_lex (123 :: 123 :: rest) s = some ⟨sym_variable_delim_start, 0, 2⟩ ∧
      (rest.head? ≠ some 123 → ts_lex (123 :: rest) s = none)) ∧
    (ts_language_actions state sym_variable_delim_end ≠ [] → state = 0 ∨ state = 39) ∧
    lexMode 39 = 0 ∧
    ts_lex (125 :: 125 :: rest) (lexMode 39) = some ⟨sym_variable_delim_end, 0, 2⟩ ∧
    (rest.head? ≠ some 125 → ts_lex (125 :: rest) (lexMode 39) = none) := by
  have hopen : ∀ s, ts_lex_state s false 123 = some ⟨none, ADVANCE 20⟩ →
      ts_lex (123 :: 123 :: rest) s = some ⟨sym_variable_delim_start, 0, 2⟩ ∧
      (rest.head? ≠ some 123 → ts_lex (123 :: rest) s = none) := by
    intro s hs
    constructor
    · rw [ts_lex_step _ _ _ _ hs, ts_lex_loop_advance _ _ _ _ _ _ none 329 (by decide),
        acceptToken_none, ts_lex_loop_final 329 (by decide) (by decide)]
      rfl
    · intro hrest
      rw [ts_lex_step _ _ _ _ hs]
      exact ts_lex_loop_single 20 123 (by decide) (by decide) (by decide) (by decide!) rest
        hrest 1 0
  refine ⟨?_, ?_, ?_, by decide, ?_, ?_⟩
  · exact ts_language_actions_forall
      (fun s x acts => x = sym_variable_delim_start → acts ≠ [] →
        lexMode s ∈ [0, 1, 2, 5, 21, 25, 26])
      (fun _ _ _ h => absurd rfl h) (by decide!) state sym_variable_delim_start (by decide) rfl
  · intro s hs
    simp only [List.mem_cons, List.mem_singleton, List.not_mem_nil, or_false] at hs
    rcases hs with rfl | rfl | rfl | rfl | rfl | rfl <;> exact hopen _ (by decide)
  · exact ts_language_actions_forall
      (fun s x acts => x = sym_variable_delim_end → acts ≠ [] → s = 0 ∨ s = 39)
      (fun _ _ _ h => absurd rfl h) (by decide!) state sym_variable_delim_end (by decide) rfl
  · rw [show lexMode 39 = 0 by decide,
      ts_lex_step 0 125 22 _ (by decide), ts_lex_loop_advance _ _ _ _ _ _ none 331 (by decide),
      acceptToken_none, ts_lex_loop_final 331 (by decide) (by decide)]
    rfl
  · intro hrest
    rw [show lexMode 39 = 0 by decide, ts_lex_step 0 125 22 _ (by decide)]
    exact ts_lex_loop_single 22 125 (by decide) (by decide) (by decide) (by decide!) rest
      hrest 1 0

/-! ## C11 and C12: the query value -/

set_option maxRecDepth 100000 in
theorem valueState_runs : lexRunsWhile valueState valueState isValueChar valueSymbols = true := by
  decide!

set_option maxRecDepth 100000 in
theorem valueTail_runs :
    lexRunsWhile (fun s => s == 339) (fun s => s == 339) isValueChar
      [aux_sym_value_token1] = true := by
  decide!

set_option maxRecDepth 100000 in
/-- C11: in the lex state of parse state 32 (after `key=`), an input that
begins with the start delimiter of a variable and one more value character (any
character but NUL and `&`, so any identifier character) gives one
`aux_sym_value_token1` token that covers the delimiter and all that follows up
to the next `&`, NUL or the end of input: the placeholder is swallowed as
value text.  The parse tables of the same file provide for a variable as a
query value: state 32 shifts `sym_variable_delim_start`, and the variable
reduces to `sym_value`. -/
theorem C11_variable_in_value_swallowed (c : Nat) (rest : List Nat)
    (hc : isValueChar c = true) :
    lexMode 32 = 21 ∧
    ts_lex (123 :: 123 :: c :: rest) (lexMode 32) =
      some ⟨aux_sym_value_token1, 0, 3 + (rest.takeWhile isValueChar).length⟩ ∧
    ts_language_actions 32 sym_variable_delim_start = [SHIFT 38] ∧
    ts_language_lookup 32 sym_variable = 16 ∧
    ts_language_actions 16 anon_sym_AMP = [REDUCE sym_value 1 0 0] := by
  refine ⟨by decide, ?_, by decide, by decide, by decide⟩
  have hst := ts_lex_state_eq_of_class 330 false isValueChar isValueChar_class
    (some ⟨some sym_variable_delim_start, ADVANCE 339⟩) (by decide!) c hc
  rw [show lexMode 32 = 21 by decide, ts_lex_step 21 123 338 _ (by decide),
    ts_lex_loop_advance _ _ _ _ _ _ (some aux_sym_value_token1) 330 (by decide),
    ts_lex_loop_advance _ _ _ _ _ _ _ _ hst]
  obtain ⟨a, ha, h⟩ := lexRunsWhile_spec _ isValueChar _ isValueChar_class valueTail_runs rest
    339 (1 + 1 + 1) 0 (acceptToken ⟨some sym_variable_delim_start, ADVANCE 339⟩ (1 + 1)
      (acceptToken ⟨some aux_sym_value_token1, ADVANCE 330⟩ 1 none)) (by decide) (by decide)
  simp only [List.mem_singleton] at ha
  subst ha
  rw [h]

/-- C11, at the concrete input `{{n}}` followed by `&active=true`: one value
token of length 5. -/
theorem C11_variable_in_value_swallowed_witness :
    isValueChar 110 = true ∧
    ts_lex (123 :: 123 :: 110 :: codes "\x7d\x7d&active=true") (lexMode 32) =
      some ⟨aux_sym_value_token1, 0,
        3 + ((codes "\x7d\x7d&active=true").takeWhile isValueChar).length⟩ :=
  ⟨by decide,
    (C11_variable_in_value_swallowed 110 (codes "\x7d\x7d&active=true") (by decide)).2.1⟩

/-- C12, the claim fails: on `a`, newline, `b` the value token covers all three
characters, the newline included. -/
theorem C12_counterexample :
    ts_lex (codes "a\nb") (lexMode 32) = some ⟨aux_sym_value_token1, 0, 3⟩ ∧
    (tokenText (codes "a\nb") ⟨aux_sym_value_token1, 0, 3⟩).contains 10 = true := by
  decide

set_option maxRecDepth 100000 in
/-- The extent of a token of lex state 21: it starts at 0, is not empty and
ends where the first `&` or NUL stands, or the input ends. -/
theorem lex21_extent (input : List Nat) (tok : Token) (h : ts_lex input 21 = some tok) :
    tok.symbol ∈ valueSymbols ∧ tok.start = 0 ∧ 0 < tok.stop ∧
    tok.stop = (input.takeWhile isValueChar).length := by
  unfold ts_lex at h
  cases input with
  | nil =>
    rw [ts_lex_loop_nil_end 21 _ _ _ none (by decide)] at h
    simp [acceptToken_none, endState_none] at h
  | cons c cs =>
    by_cases hc : isValueChar c = true
    · have hst : ∃ n, valueState n = true ∧ n < LEX_STATE_COUNT ∧
          ts_lex_state 21 false c = some ⟨none, ADVANCE n⟩ := by
        have := ts_lex_state_of_class 21 false isValueChar isValueChar_class
          (fun o => (match o with
            | some ⟨none, ADVANCE n⟩ => valueState n && decide (n < LEX_STATE_COUNT)
            | _ => false) = true) (by decide!) c hc
        cases hx : ts_lex_state 21 false c with
        | none => simp [hx] at this
        | some cse =>
          obtain ⟨acc, mv⟩ := cse
          cases acc <;> cases mv <;> simp [hx] at this
          exact ⟨_, this.1, this.2, rfl⟩
      obtain ⟨n, hn, hlt, hst⟩ := hst
      rw [ts_lex_loop_advance _ _ _ _ _ _ _ _ hst, acceptToken_none] at h
      obtain ⟨a, ha, h2⟩ := lexRunsWhile_spec _ isValueChar _ isValueChar_class valueState_runs
        cs n (0 + 1) 0 none hn hlt
      rw [h2] at h
      simp only [Option.some.injEq] at h
      subst h
      refine ⟨ha, rfl, ?_, ?_⟩
      · show 0 < 0 + 1 + (cs.takeWhile isValueChar).length
        omega
      · show 0 + 1 + (cs.takeWhile isValueChar).length = _
        simp [List.takeWhile, hc]
        omega
    · have hst := ts_lex_state_eq_of_class 21 false (fun c => !isValueChar c)
        (by intro c; simp only [isValueChar_class]) (some ⟨none, END_STATE⟩) (by decide!) c
        (by simpa using hc)
      rw [ts_lex_loop_end _ _ _ _ _ _ _ hst] at h
      simp [acceptToken_none, endState_none] at h

/-- C12 as amended: a token that `ts_lex` returns in the lex state of the query
value (parse state 32) is `aux_sym_value_token1` or the start delimiter of a
variable, starts at 0, is not empty, and extends up to the next `&`, NUL or the
end of input: its length is that of the longest prefix of the input without `&`
and NUL.  A newline does not end it. -/
theorem C12_value_extent (input : List Nat) (tok : Token)
    (h : ts_lex input (lexMode 32) = some tok) :
    tok.symbol ∈ valueSymbols ∧ tok.start = 0 ∧ 0 < tok.stop ∧
    tok.stop = (input.takeWhile isValueChar).length :=
  lex21_extent input tok h

/-- C12 as amended, at a concrete input: a value with a newline, ended by `&`. -/
theorem C12_value_extent_witness :
    ts_lex (codes "a\nb&c=d") (lexMode 32) = some ⟨aux_sym_value_token1, 0, 3⟩ ∧
    (aux_sym_value_token1 ∈ valueSymbols ∧ (0 : Nat) = 0 ∧ 0 < 3 ∧
      3 = ((codes "a\nb&c=d").takeWhile isValueChar).length) :=
  ⟨by decide, C12_value_extent (codes "a\nb&c=d") ⟨aux_sym_value_token1, 0, 3⟩ (by decide)⟩

/-! ## C14: dotted names in the path context -/

set_option maxRecDepth 100000 in
theorem pathOnlyState_stays : lexStaysIn pathOnlyState pathOnlySymbols = true := by
  decide!

/-- C14, the claim fails: the parse states 4 and 5 are lexed in lex state 25,
and there `1.2.3` and `report.pdf` are domain tokens, as in the start-of-line
state 26. -/
theorem C14_counterexample :
    lexMode 4 = 25 ∧ lexMode 5 = 25 ∧
    ts_lex (codes "1.2.3") (lexMode 4) = some ⟨aux_sym_domain_token1, 0, 5⟩ ∧
    ts_lex (codes "1.2.3") (lexMode 5) = some ⟨aux_sym_domain_token1, 0, 5⟩ ∧
    ts_lex (codes "report.pdf") (lexMode 4) = some ⟨aux_sym_domain_token1, 0, 10⟩ ∧
    ts_lex (codes "1.2.3") 26 = some ⟨aux_sym_domain_token1, 0, 5⟩ := by
  decide

/-- C14 as amended: the lex state that never returns a domain token is lex
state 2, the state of the parse states 24, 25, 29, 30, 31 and 33 (after a
protocol and domain, a port, a domain or a hostname): every token it returns is
`:`, `/`, a path segment or the start delimiter of a variable, and `1.2.3` and
`report.pdf` are path segments there.  In the lex states 26, 1 and 25 `1.2.3`
is a domain token, and the parse states 4 and 5 (after a path item) are lexed
in lex state 25. -/
theorem C14_dotted_names (input : List Nat) (tok : Token) (h : ts_lex input 2 = some tok) :
    tok.symbol ∈ pathOnlySymbols ∧
    (∀ s ∈ [24, 25, 29, 30, 31, 33], lexMode s = 2) ∧
    ts_lex (codes "1.2.3") 2 = some ⟨sym_path_segment, 0, 5⟩ ∧
    ts_lex (codes "report.pdf") 2 = some ⟨sym_path_segment, 0, 10⟩ ∧
    (∀ s ∈ [26, 1, 25], ts_lex (codes "1.2.3") s = some ⟨aux_sym_domain_token1, 0, 5⟩) ∧
    lexMode 4 = 25 ∧ lexMode 5 = 25 := by
  refine ⟨?_, by decide, by decide, by decide, by decide, by decide, by decide⟩
  exact lexStaysIn_spec pathOnlyState pathOnlySymbols pathOnlyState_stays input 2 0 0 none tok
    (by decide) (by decide) (by simp) h

/-- C14 as amended, at the concrete input `1.2.3`. -/
theorem C14_dotted_names_witness :
    ts_lex (codes "1.2.3") 2 = some ⟨sym_path_segment, 0, 5⟩ ∧
    sym_path_segment ∈ pathOnlySymbols :=
  ⟨by decide, (C14_dotted_names (codes "1.2.3") ⟨sym_path_segment, 0, 5⟩ (by decide)).1⟩

/-! ## C15: a scheme keyword without `://` -/

/-- A keyword followed by a character outside the path-segment character set,
or by the end of input, is returned as the keyword. -/
theorem keyword_then_delimiter (state kwState symbol : Nat) (k : List Nat)
    (res0 : Option (Nat × Nat))
    (hpre : lexPrefix k state 0 0 none = some (kwState, k.length, 0, res0))
    (hrun : lexRunsWhile (fun s => s == kwState) (fun _ => true) isPathChar [symbol] = true)
    (hlt : kwState < LEX_STATE_COUNT)
    (rest : List Nat) (h : ∀ c ∈ rest.head?, isPathChar c = false) :
    ts_lex (k ++ rest) state = some ⟨symbol, 0, k.length⟩ := by
  unfold ts_lex
  rw [ts_lex_loop_append _ rest _ _ _ _ _ _ _ _ hpre]
  cases rest with
  | nil =>
    obtain ⟨a, ha, h2⟩ := lexRunsWhile_nil _ _ _ _ hrun kwState k.length 0 res0 (by simp) hlt
    simp only [List.mem_singleton] at ha
    subst ha
    exact h2
  | cons c cs =>
    have hc : isPathChar c = false := h c (by simp)
    rcases lexRunsWhile_cons _ _ _ _ isPathChar_class hrun c cs kwState k.length 0 res0
      (by simp) hlt with ⟨_, a, ha, h2⟩ | ⟨hc2, _⟩
    · simp only [List.mem_singleton] at ha
      subst ha
      exact h2
    · rw [hc] at hc2
      exact absurd hc2 (by decide)

/-- C15, the claim fails: `http` followed by `/` is the scheme keyword token in
the start-of-line state 26 and in the in-line state 25, also at the end of
input; after a `/` the word `http` is therefore not a path segment, and
`/http/x` is not accepted (the lexer finds no `://` in parse state 36). -/
theorem C15_counterexample :
    ts_lex (codes "http/x") 26 = some ⟨anon_sym_http, 0, 4⟩ ∧
    ts_lex (codes "http/x") 25 = some ⟨anon_sym_http, 0, 4⟩ ∧
    ts_lex (codes "http") 25 = some ⟨anon_sym_http, 0, 4⟩ ∧
    parse 100 (codes "/http/x") = [Outcome.lexError 36 5] := by
  refine ⟨by decide, by decide, by decide, by decide!⟩

set_option maxRecDepth 100000 in
/-- C15 as amended: in the lex states 26 and 25, each scheme keyword (http,
https, ftp, ws, wss) that is followed by the end of input or by a character
outside the path-segment character set (such as `/`, `:`, `?` and white space)
is returned as the scheme keyword token, of the length of the keyword. -/
theorem C15_scheme_keyword_kept (k : List Nat) (symbol kwState : Nat)
    (hk : (k, symbol, kwState) ∈ schemeTable) (state : Nat) (hs : state = 26 ∨ state = 25)
    (rest : List Nat) (h : ∀ c ∈ rest.head?, isPathChar c = false) :
    ts_lex (k ++ rest) state = some ⟨symbol, 0, k.length⟩ := by
  simp only [schemeTable, List.mem_cons, Prod.mk.injEq, List.mem_singleton, List.not_mem_nil,
    or_false] at hk
  rcases hk with ⟨rfl, rfl, rfl⟩ | ⟨rfl, rfl, rfl⟩ | ⟨rfl, rfl, rfl⟩ | ⟨rfl, rfl, rfl⟩ |
    ⟨rfl, rfl, rfl⟩ <;> rcases hs with rfl | rfl
  · exact keyword_then_delimiter 26 29 _ _ (some (14, 3)) (by decide) (by decide!) (by decide) rest h
  · exact keyword_then_delimiter 25 29 _ _ (some (14, 3)) (by decide) (by decide!) (by decide) rest h
  · exact keyword_then_delimiter 26 32 _ _ (some (2, 4)) (by decide) (by decide!) (by decide) rest h
  · exact keyword_then_delimiter 25 32 _ _ (some (2, 4)) (by decide) (by decide!) (by decide) rest h
  · exact keyword_then_delimiter 26 34 _ _ (some (14, 2)) (by decide) (by decide!) (by decide) rest h
  · exact keyword_then_delimiter 25 34 _ _ (some (14, 2)) (by decide) (by decide!) (by decide) rest h
  · exact keyword_then_delimiter 26 35 _ _ (some (14, 1)) (by decide) (by decide!) (by decide) rest h
  · exact keyword_then_delimiter 25 35 _ _ (some (14, 1)) (by decide) (by decide!) (by decide) rest h
  · exact keyword_then_delimiter 26 38 _ _ (some (5, 2)) (by decide) (by decide!) (by decide) rest h
  · exact keyword_then_delimiter 25 38 _ _ (some (5, 2)) (by decide) (by decide!) (by decide) rest h

/-- C15 as amended, at a concrete input: `https` followed by `?x`. -/
theorem C15_scheme_keyword_kept_witness :
    (codes "https", anon_sym_https, 32) ∈ schemeTable ∧
    (∀ c ∈ (codes "?x").head?, isPathChar c = false) ∧
    ts_lex (codes "https" ++ codes "?x") 25 = some ⟨anon_sym_https, 0, (codes "https").length⟩ :=
  ⟨by decide, by decide,
    C15_scheme_keyword_kept (codes "https") anon_sym_https 32 (by decide) 25 (Or.inr rfl)
      (codes "?x") (by decide)⟩

/-! ## C16: `://` and the one-character `:` -/

/-- C16, the claim fails: in the start-of-line state 26 (and in the lex states
1, 2 and 25) an input that starts with `://` gives the one-character token `:`.
On `host://` the first token is the path segment `host`; the next, lexed in
the lex state of parse state 4, is the one-character `:`; then the lexer finds
no path-parameter name. -/
theorem C16_counterexample :
    ts_lex (codes "://x") 26 = some ⟨anon_sym_COLON, 0, 1⟩ ∧
    ts_lex (codes "://x") 25 = some ⟨anon_sym_COLON, 0, 1⟩ ∧
    ts_lex (codes "host://") 26 = some ⟨sym_path_segment, 0, 4⟩ ∧
    ts_language_actions 1 sym_path_segment = [SHIFT 4] ∧
    ts_lex (codes "://") (lexMode 4) = some ⟨anon_sym_COLON, 0, 1⟩ ∧
    ts_lex (codes "//") (lexMode 37) = none := by
  decide

set_option maxRecDepth 100000 in
/-- C16 as amended: `://` is one token in the lex states 0 and 5 only.  The
parse states with an action on `:` are lexed in the lex states 0, 1, 2, 25 and
26; in the lex states 1, 2, 25 and 26 every input that starts with `:` gives
the one-character token `:`, whatever follows.  The only parse state other than
the error state 0 with an action on the token `://` is state 36, lexed in lex
state 5. -/
theorem C16_colon_tokens (state : Nat) (rest : List Nat) :
    ts_lex (58 :: 47 :: 47 :: rest) 0 = some ⟨anon_sym_COLON_SLASH_SLASH, 0, 3⟩ ∧
    ts_lex (58 :: 47 :: 47 :: rest) 5 = some ⟨anon_sym_COLON_SLASH_SLASH, 0, 3⟩ ∧
    (∀ s ∈ [1, 2, 25, 26], ts_lex (58 :: rest) s = some ⟨anon_sym_COLON, 0, 1⟩) ∧
    (ts_language_actions state anon_sym_COLON ≠ [] → lexMode state ∈ [0, 1, 2, 25, 26]) ∧
    (ts_language_actions state anon_sym_COLON_SLASH_SLASH ≠ [] → state = 0 ∨ state = 36) ∧
    lexMode 36 = 5 := by
  refine ⟨?_, ?_, ?_, ?_, ?_, by decide⟩
  · rw [ts_lex_step 0 58 41 _ (by decide),
      ts_lex_loop_advance _ _ _ _ _ _ (some anon_sym_COLON) 4 (by decide),
      ts_lex_loop_advance _ _ _ _ _ _ none 39 (by decide),
      ts_lex_loop_final 39 (by decide) (by decide)]
    rfl
  · rw [ts_lex_step 5 58 3 _ (by decide),
      ts_lex_loop_advance _ _ _ _ _ _ none 4 (by decide),
      ts_lex_loop_advance _ _ _ _ _ _ none 39 (by decide),
      ts_lex_loop_final 39 (by decide) (by decide)]
    rfl
  · intro s hs
    simp only [List.mem_cons, List.mem_singleton, List.not_mem_nil, or_false] at hs
    rcases hs with rfl | rfl | rfl | rfl <;>
      (rw [ts_lex_step _ 58 40 _ (by decide), ts_lex_loop_final 40 (by decide) (by decide)]
       rfl)
  · exact ts_language_actions_forall
      (fun s x acts => x = anon_sym_COLON → acts ≠ [] → lexMode s ∈ [0, 1, 2, 25, 26])
      (fun _ _ _ h => absurd rfl h) (by decide!) state anon_sym_COLON (by decide) rfl
  · exact ts_language_actions_forall
      (fun s x acts => x = anon_sym_COLON_SLASH_SLASH → acts ≠ [] → s = 0 ∨ s = 36)
      (fun _ _ _ h => absurd rfl h) (by decide!) state anon_sym_COLON_SLASH_SLASH (by decide)
      rfl

/-! ## C4: the end-to-end example -/

set_option maxRecDepth 1000000 in
/-- C4, the claim fails: on the line of the claim no run is accepted.  The
scheme, `://` and `api.` are read, and then the lexer returns no token at the
single opening brace (position 12, parse state 4). -/
theorem C4_counterexample :
    parse 200 (codes
      "https://api.\x7benv\x7d.example.com:8443/v1/users/\x7bid\x7d?limit=\x7bn\x7d&active=true\n")
      = [Outcome.lexError 4 12] ∧
    ts_lex (codes "\x7benv\x7d.example.com:8443/v1/users/\x7bid\x7d?limit=\x7bn\x7d&active=true\n")
      (lexMode 4) = none := by
  refine ⟨by decide!, by decide⟩

set_option maxRecDepth 1000000 in
/-- C4 as amended: with the variables in doubled braces and a plain domain, the
line `apiExampleLine` is accepted.  The tables allow 33 runs on it.  The
first one ends the domain before `:` and fails there; the 32 others are
accepted, and each yields the protocol `https` `://`, a domain that is the
single token `api.example.com` (its labels are not nodes), the port 8443, the
path items `/`, v1, `/`, users, `/` and the variable id in this order, and one
query string with two parameters in this order, with the keys limit and
active; the parameter active has the value `true` with the newline that ends
the line.  The runs differ in the number n of `sym_url_line` nodes, which is
between one and six: the tables allow a path to end after each of its items.
The first `sym_url_line` shows the protocol, the domain with the port and the
components, the others the components only, and each has one path; so in the
run with n = 1 the one `sym_url_line` has the one path with the six items. -/
theorem C4_end_to_end :
    (parse 200 apiExampleLine).head? = some (Outcome.lexError 37 24) ∧
    (parse 200 apiExampleLine).map Outcome.summary =
      RunSummary.mk false [] [] [] [] [] 0 ::
        lineCounts.map fun n =>
          RunSummary.mk true
            (List.replicate n sym_url_line)
            ([sym_protocol, sym_domain_and_port, sym_url_components] ::
              List.replicate (n - 1) [sym_url_components])
            [[(anon_sym_https, codes "https"), (anon_sym_COLON_SLASH_SLASH, codes "://")],
              [(sym_domain, codes "api.example.com"), (anon_sym_COLON, codes ":"),
                (sym_port, codes "8443")],
              [(aux_sym_domain_token1, codes "api.example.com")],
              [(anon_sym_QMARK, codes "?"), (sym_query_param, codes "limit=\x7b\x7bn\x7d\x7d"),
                (anon_sym_AMP, codes "&"), (sym_query_param, codes "active=true\n")]]
            [(anon_sym_SLASH, codes "/"), (sym_path_segment, codes "v1"),
              (anon_sym_SLASH, codes "/"), (sym_path_segment, codes "users"),
              (anon_sym_SLASH, codes "/"), (sym_variable, codes "\x7b\x7bid\x7d\x7d")]
            [codes "limit", codes "active"]
            n := by
  refine ⟨by decide!, by decide!⟩

/-! ## C9: the path of a line is required -/

set_option maxRecDepth 1000000 in
/-- C9, the claim fails: none of `localhost`, `http://` and `?a=1` is accepted.
After the hostname and after the protocol the lexer returns no token at the
end of input (the lex states of the parse states 33 and 26 have no end-of-input
token), and a line cannot begin with `?`. -/
theorem C9_counterexample :
    parse 100 (codes "localhost") = [Outcome.lexError 33 9] ∧
    parse 100 (codes "http://") = [Outcome.lexError 26 7] ∧
    parse 100 (codes "?a=1") = [Outcome.lexError 1 0] ∧
    ts_lex [] (lexMode 33) = none ∧ ts_lex [] (lexMode 26) = none ∧
    ts_lex (codes "?a=1") (lexMode 1) = none := by
  refine ⟨by decide!, by decide!, by decide!, by decide, by decide, by decide⟩

set_option maxRecDepth 1000000 in
/-- C9 as amended: the protocol, the domain with its port and the query string
are optional, the path is required.  Every reduction to `sym_url_components`
has one child in state 7 or two children in state 19; state 7 is entered only
by the goto on `sym_path`, and state 19 only by the goto on `sym_query_string`
from state 7, so the first child is a path.  Every reduction to `sym_url_line`
ends with the `sym_url_components`: the states 20, 18 and 22 in which it takes
place (with 1, 2 and 3 children) are entered only by the goto on
`sym_url_components`.  The lines `/`, `localhost/`, `http:///` and `/?a=1` are
accepted in every run. -/
theorem C9_path_required (state symbol : Nat) :
    (symbol < TOKEN_COUNT →
      (∀ a ∈ ts_language_actions state symbol, ∀ n d p, a = REDUCE sym_url_components n d p →
        (state = 7 ∧ n = 1) ∨ (state = 19 ∧ n = 2)) ∧
      (∀ a ∈ ts_language_actions state symbol, ∀ n d p, a = REDUCE sym_url_line n d p →
        (state = 20 ∧ n = 1) ∨ (state = 18 ∧ n = 2) ∨ (state = 22 ∧ n = 3)) ∧
      (∀ k ∈ [7, 19, 20, 18, 22],
        SHIFT k ∉ ts_language_actions state symbol ∧
        SHIFT_REPEAT k ∉ ts_language_actions state symbol)) ∧
    (TOKEN_COUNT ≤ symbol →
      (ts_language_lookup state symbol = 7 → symbol = sym_path) ∧
      (ts_language_lookup state symbol = 19 → state = 7 ∧ symbol = sym_query_string) ∧
      (ts_language_lookup state symbol ∈ [20, 18, 22] → symbol = sym_url_components)) ∧
    (∀ line ∈ [codes "/", codes "localhost/", codes "http:///", codes "/?a=1"],
      (parse 100 line).all Outcome.isAccepted = true ∧ parse 100 line ≠ []) := by
  refine ⟨fun hx => ⟨?_, ?_, ?_⟩, ?_, by decide!⟩
  · intro a ha n d p hred
    simpa using reduce_forall sym_url_components
      (fun s n => decide ((s = 7 ∧ n = 1) ∨ (s = 19 ∧ n = 2))) (by decide!)
      state symbol hx a ha n d p hred
  · intro a ha n d p hred
    simpa using reduce_forall sym_url_line
      (fun s n => decide ((s = 20 ∧ n = 1) ∨ (s = 18 ∧ n = 2) ∨ (s = 22 ∧ n = 3))) (by decide!)
      state symbol hx a ha n d p hred
  · exact ts_language_actions_forall
      (fun _ _ acts => ∀ k ∈ [7, 19, 20, 18, 22], SHIFT k ∉ acts ∧ SHIFT_REPEAT k ∉ acts)
      (fun _ _ _ _ => by simp) (by decide!) state symbol hx
  · exact ts_language_lookup_forall
      (fun s x v => (v = 7 → x = sym_path) ∧ (v = 19 → s = 7 ∧ x = sym_query_string) ∧
        (v ∈ [20, 18, 22] → x = sym_url_components))
      (fun _ _ => ⟨fun h => absurd h (by decide), fun h => absurd h (by decide),
        fun h => absurd h (by decide)⟩) (by decide!) state symbol

/-! ## C10: a query value is never empty -/

set_option maxRecDepth 1000000 in
/-- C10, the claim fails: after `key=` the lexer returns no token at `&` nor at
the end of input, and a newline is the first character of a value token; the
line `/p?a&b=` is not accepted (the lexer fails after `b=`), nor is `?a&b=`. -/
theorem C10_counterexample :
    ts_lex (codes "&c") (lexMode 32) = none ∧ ts_lex [] (lexMode 32) = none ∧
    ts_lex (codes "\n") (lexMode 32) = some ⟨aux_sym_value_token1, 0, 1⟩ ∧
    parse 100 (codes "/p?a&b=") = [Outcome.lexError 32 7, Outcome.lexError 32 7] ∧
    parse 100 (codes "?a&b=") = [Outcome.lexError 1 0] := by
  refine ⟨by decide, by decide, by decide, by decide!, by decide!⟩

set_option maxRecDepth 1000000 in
/-- C10 as amended: a key may stand without a value (`sym_query_param` with one
child, reduced in state 10 at `&`), but after `key=` a value is required and is
never empty.  The only tokens with an action in parse state 32 are the value
token and the start delimiter of a variable; in its lex state the lexer returns
no token on an input that is empty or begins with `&` or NUL, every token it
returns has at least one character, and a newline begins a token (it is part of
the value).  On `/p?a&b=1` every run is accepted and the parameters are the key
a alone and b, `=`, 1. -/
theorem C10_value_required (symbol : Nat) (input : List Nat) :
    ts_language_actions 10 anon_sym_AMP = [REDUCE sym_query_param 1 0 0] ∧
    (symbol < TOKEN_COUNT → ts_language_actions 32 symbol ≠ [] →
      symbol = aux_sym_value_token1 ∨ symbol = sym_variable_delim_start) ∧
    ((∀ c ∈ input.head?, isValueChar c = false) → ts_lex input (lexMode 32) = none) ∧
    (∀ tok, ts_lex input (lexMode 32) = some tok → tok.start = 0 ∧ 0 < tok.stop) ∧
    (∃ tok, ts_lex (10 :: input) (lexMode 32) = some tok ∧ tok.start = 0 ∧ 0 < tok.stop ∧
      tok.symbol ∈ valueSymbols) ∧
    (parse 100 (codes "/p?a&b=1")).map
      (fun o => match o with
        | .accepted t =>
          some ((t.nodesOf sym_query_param).map (fun q => q.visibleChildren.map Tree.label))
        | _ => none) =
      List.replicate 2 (some
        [[(sym_key, codes "a")],
         [(sym_key, codes "b"), (anon_sym_EQ, codes "="), (sym_value, codes "1")]]) := by
  have hmode : lexMode 32 = 21 := by decide
  refine ⟨by decide, fun hx => ?_, ?_, ?_, ?_, by decide!⟩
  · exact ts_language_actions_forall
      (fun s x acts => s = 32 → acts ≠ [] →
        x = aux_sym_value_token1 ∨ x = sym_variable_delim_start)
      (fun _ _ _ h => absurd rfl h) (by decide!) 32 symbol hx rfl
  · intro hhead
    rw [hmode]
    cases hres : ts_lex input 21 with
    | none => rfl
    | some tok =>
      obtain ⟨_, _, hpos, hstop⟩ := lex21_extent input tok hres
      cases input with
      | nil => simp at hstop; omega
      | cons c cs =>
        have hc : isValueChar c = false := hhead c (by simp)
        simp [List.takeWhile, hc] at hstop
        omega
  · intro tok htok
    rw [hmode] at htok
    obtain ⟨_, hstart, hpos, _⟩ := lex21_extent input tok htok
    exact ⟨hstart, hpos⟩
  · rw [hmode]
    cases hres : ts_lex (10 :: input) 21 with
    | none =>
      exfalso
      rw [ts_lex_step 21 10 337 _ (by decide)] at hres
      obtain ⟨a, _, h2⟩ := lexRunsWhile_spec _ isValueChar _ isValueChar_class valueState_runs
        input 337 1 0 none (by decide) (by decide)
      rw [h2] at hres
      exact absurd hres (by simp)
    | some tok =>
      obtain ⟨hsym, hstart, hpos, _⟩ := lex21_extent (10 :: input) tok hres
      exact ⟨tok, rfl, hstart, hpos, hsym⟩

/-! ## C19: the items of a path -/

set_option maxRecDepth 1000000 in
/-- C19, the claim fails: the line `a` is accepted, with a path whose only
item is the path segment `a`, without a `/`; and on `a{{x}}` a run is accepted
whose path has the segment and the variable next to one another. -/
theorem C19_counterexample :
    parse 100 (codes "a") = [Outcome.accepted singleSegmentTree] ∧
    ts_language_actions 1 sym_path_segment = [SHIFT 4] ∧
    (acceptedTrees (parse 100 (codes "a\x7b\x7bx\x7d\x7d"))).map
      (fun t => (t.nodesOf sym_path).map (fun p => p.visibleChildren.map Tree.label)) =
      [[[(sym_path_segment, codes "a")], [(sym_variable, codes "\x7b\x7bx\x7d\x7d")]],
       [[(sym_path_segment, codes "a"), (sym_variable, codes "\x7b\x7bx\x7d\x7d")]]] := by
  refine ⟨by decide!, by decide, by decide!⟩

set_option maxRecDepth 1000000 in
/-- C19 as amended: a path is a sequence of one or more items, and `/` is an
item like a path segment, a path parameter and a variable
(path := (`/` | path_segment | path_param | variable)+).  In every parse state
the actions on `/` are those on `sym_path_segment`, with the same targets
(but in the error state 0).  The
states that shift a path segment are 1, 3, 14, 24, 25 (the start of a line,
after a protocol, after a domain) and 4 (after any item); none of them needs a
`/` before.  The only reduction to `sym_path` has one child, in state 4, and
the only reduction to `aux_sym_path_repeat1` has two, in state 5; these states
are entered by shifting `/` or a path segment and by the gotos on
`sym_path_param`, `sym_variable` and `aux_sym_path_repeat1`. -/
theorem C19_path_items (state symbol : Nat) :
    (state ≠ 0 →
      ts_language_actions state anon_sym_SLASH = ts_language_actions state sym_path_segment) ∧
    (∀ k, SHIFT k ∈ ts_language_actions state sym_path_segment →
      state ∈ [1, 3, 4, 14, 24, 25]) ∧
    (symbol < TOKEN_COUNT →
      (∀ a ∈ ts_language_actions state symbol, ∀ n d p, a = REDUCE sym_path n d p →
        state = 4 ∧ n = 1) ∧
      (∀ a ∈ ts_language_actions state symbol, ∀ n d p,
        a = REDUCE aux_sym_path_repeat1 n d p → state = 5 ∧ n = 2) ∧
      ((SHIFT 4 ∈ ts_language_actions state symbol ∨
          SHIFT 5 ∈ ts_language_actions state symbol) →
        symbol = anon_sym_SLASH ∨ symbol = sym_path_segment)) ∧
    (TOKEN_COUNT ≤ symbol →
      (ts_language_lookup state symbol = 4 ∨ ts_language_lookup state symbol = 5) →
      symbol ∈ [sym_path_param, sym_variable, aux_sym_path_repeat1]) := by
  refine ⟨?_, ?_, fun hx => ⟨?_, ?_, ?_⟩, ?_⟩
  · intro hne
    have h : ∀ s < STATE_COUNT, s ≠ 0 →
        ts_language_actions s anon_sym_SLASH = ts_language_actions s sym_path_segment := by
      decide!
    by_cases hs : state < STATE_COUNT
    · exact h state hs hne
    · have h0 : ∀ x, ts_language_actions state x = [] := fun x =>
        ts_language_actions_scan (fun s _ acts => ¬ s < STATE_COUNT → acts = [])
          (fun _ _ _ => rfl) (fun s hlt _ _ hn => absurd hlt hn) state x hs
      rw [h0, h0]
  · intro k hk
    have h := ts_language_actions_forall
      (fun s x acts => x = sym_path_segment → ∀ a ∈ acts,
        (match a with
          | SHIFT _ => decide (s ∈ [1, 3, 4, 14, 24, 25])
          | _ => true) = true)
      (fun _ _ _ a ha => absurd ha (List.not_mem_nil a)) (by decide!)
      state sym_path_segment (by decide) rfl (SHIFT k) hk
    simpa using h
  · intro a ha n d p hred
    simpa using reduce_forall sym_path (fun s n => decide (s = 4 ∧ n = 1)) (by decide!)
      state symbol hx a ha n d p hred
  · intro a ha n d p hred
    simpa using reduce_forall aux_sym_path_repeat1 (fun s n => decide (s = 5 ∧ n = 2))
      (by decide!) state symbol hx a ha n d p hred
  · exact ts_language_actions_forall
      (fun _ x acts => (SHIFT 4 ∈ acts ∨ SHIFT 5 ∈ acts) →
        x = anon_sym_SLASH ∨ x = sym_path_segment)
      (fun _ _ h => by simp at h) (by decide!) state symbol hx
  · exact ts_language_lookup_forall
      (fun _ x v => (v = 4 ∨ v = 5) →
        x ∈ [sym_path_param, sym_variable, aux_sym_path_repeat1])
      (fun _ _ h => by simp at h) (by decide!) state symbol

/-! ## C20: a line that is a path only -/

set_option maxRecDepth 100000 in
theorem lexGraph_holds : lexGraphCheck = true := by
  decide!

theorem lexRowsAll_spec (f : Nat → Option Nat → List Nat → Bool) :
    ∀ (as : List (Option Nat)) (ts : List (List Nat)) (s0 : Nat),
      lexRowsAll f s0 as ts = true →
      ∀ i, i < as.length → i < ts.length → f (s0 + i) (as.getD i none) (ts.getD i []) = true := by
  intro as
  induction as with
  | nil => intro ts s0 _ i hi; simp at hi
  | cons a as ih =>
    intro ts s0 h i hi hit
    cases ts with
    | nil => simp at hit
    | cons t ts =>
      simp only [lexRowsAll, Bool.and_eq_true] at h
      cases i with
      | zero => simpa using h.1
      | succ i =>
        have := ih ts (s0 + 1) h.2 i (by simpa using hi) (by simpa using hit)
        simpa [Nat.add_assoc, Nat.add_comm 1 i] using this

set_option maxRecDepth 100000 in
theorem lexGraph_length : lexAccepts.length = 340 ∧ lexTargets.length = 340 := by
  decide!

/-- A set of states that is closed in the graph of the lexer is accepted by
`lexStaysIn`. -/
theorem lexStaysIn_of_closed (states : Nat → Bool) (symbols : List Nat)
    (h : lexClosed states symbols = true) : lexStaysIn states symbols = true := by
  have hla : lexAccepts.length = 340 := lexGraph_length.1
  have hlt : lexTargets.length = 340 := lexGraph_length.2
  simp only [lexStaysIn, List.all_eq_true, Bool.and_eq_true, Bool.or_eq_true,
    Bool.not_eq_true', List.mem_range]
  intro s hs
  have hg := lexRowsAll_spec _ _ _ 0 lexGraph_holds s (by rw [hla]; exact hs)
    (by rw [hlt]; exact hs)
  have hc := lexRowsAll_spec _ _ _ 0 h s (by rw [hla]; exact hs) (by rw [hlt]; exact hs)
  simp only [Nat.zero_add, Bool.and_eq_true, List.all_eq_true, Bool.or_eq_true,
    Bool.not_eq_true', decide_eq_true_eq] at hg hc
  cases hst : states s with
  | false => exact Or.inl rfl
  | true =>
    right
    rcases hc with h0 | ⟨hacc, htg⟩
    · rw [hst] at h0; exact absurd h0 (by decide)
    · have key : ∀ c, lexGraphCaseOk (lexAccepts.getD s none) (lexTargets.getD s []) c = true →
          lexCaseStaysIn states symbols c = true := by
        intro c hc
        cases c with
        | none => simp [lexGraphCaseOk] at hc
        | some cse =>
          obtain ⟨acc, mv⟩ := cse
          simp only [lexGraphCaseOk, Bool.and_eq_true, beq_iff_eq] at hc
          obtain ⟨hacc', hmv⟩ := hc
          simp only [lexCaseStaysIn, Bool.and_eq_true]
          constructor
          · rw [hacc']; exact hacc
          · cases mv with
            | ADVANCE n =>
              have := htg n (by simpa using hmv)
              simpa using this
            | SKIP n =>
              have := htg n (by simpa using hmv)
              simpa using this
            | END_STATE => rfl
      exact ⟨key _ hg.1, fun r hr => key _ (hg.2 r hr)⟩

/-- A run from a state of a closed set returns only symbols of the set. -/
theorem lexClosed_spec (states : Nat → Bool) (symbols : List Nat)
    (h : lexClosed states symbols = true) (input : List Nat) (s pos start : Nat) (tok : Token)
    (hs : states s = true) (hlt : s < LEX_STATE_COUNT)
    (hrun : ts_lex_loop input s pos start none = some tok) : tok.symbol ∈ symbols :=
  lexStaysIn_spec states symbols (lexStaysIn_of_closed states symbols h) input s pos start none
    tok hs hlt (by simp) hrun

/-! ## Moving a run of the lexer along the input -/

theorem acceptToken_shift (c : LexCase) (pos k : Nat) (res : Option (Nat × Nat)) :
    acceptToken c (pos + k) (res.map fun r => (r.1, r.2 + k)) =
      (acceptToken c pos res).map fun r => (r.1, r.2 + k) := by
  unfold acceptToken
  cases c.accept <;> rfl

theorem endState_shift (start k : Nat) (res : Option (Nat × Nat)) :
    endState (start + k) (res.map fun r => (r.1, r.2 + k)) =
      (endState start res).map (shiftToken k) := by
  cases res <;> rfl

theorem ts_lex_eof_shift (k : Nat) :
    ∀ (fuel s pos start : Nat) (res : Option (Nat × Nat)),
      ts_lex_eof fuel s (pos + k) (start + k) (res.map fun r => (r.1, r.2 + k)) =
        (ts_lex_eof fuel s pos start res).map (shiftToken k) := by
  intro fuel
  induction fuel with
  | zero => intro s pos start res; rfl
  | succ fuel ih =>
    intro s pos start res
    rw [ts_lex_eof_succ, ts_lex_eof_succ]
    cases hc : ts_lex_state s true 0 with
    | none => rfl
    | some cse =>
      simp only []
      cases hm : cse.move with
      | ADVANCE n => simp only [acceptToken_shift, ih]
      | SKIP n => simp only [acceptToken_shift, ih]
      | END_STATE => simp only [acceptToken_shift, endState_shift]

/-- The lexer does not look at the position: a run started `k` characters
further gives the same token, `k` characters further. -/
theorem ts_lex_loop_shift (k : Nat) :
    ∀ (input : List Nat) (s pos start : Nat) (res : Option (Nat × Nat)),
      ts_lex_loop input s (pos + k) (start + k) (res.map fun r => (r.1, r.2 + k)) =
        (ts_lex_loop input s pos start res).map (shiftToken k) := by
  intro input
  induction input with
  | nil =>
    intro s pos start res
    rw [ts_lex_loop_nil, ts_lex_loop_nil]
    exact ts_lex_eof_shift k 340 s pos start res
  | cons c cs ih =>
    intro s pos start res
    rw [ts_lex_loop_cons, ts_lex_loop_cons]
    cases hc : ts_lex_state s false c with
    | none => rfl
    | some cse =>
      simp only []
      cases hm : cse.move with
      | ADVANCE n =>
        simp only [acceptToken_shift]
        rw [Nat.add_right_comm pos k 1]
        exact ih n (pos + 1) start _
      | SKIP n =>
        simp only [acceptToken_shift]
        rw [Nat.add_right_comm pos k 1]
        exact ih n (pos + 1) (pos + 1) _
      | END_STATE => simp only [acceptToken_shift, endState_shift]

/-- A run started at position `k` with nothing accepted is the run started at 0,
moved by `k`. -/
theorem ts_lex_loop_at (k : Nat) (input : List Nat) (s : Nat) :
    ts_lex_loop input s k k none = (ts_lex input s).map (shiftToken k) := by
  have := ts_lex_loop_shift k input s 0 0 none
  simpa [ts_lex] using this

theorem isSkipped_class (state c : Nat) : isSkipped state (charClass c) = isSkipped state c := by
  unfold isSkipped
  rw [isWhitespace_class]
  by_cases h : c = 10
  · subst h
    rfl
  · have h1 : (c == 10) = false := by simpa using h
    have hne : charClass c ≠ 10 := by
      have := ne_class 10 (by decide) (by decide) c
      simpa [h] using this
    have h2 : (charClass c == 10) = false := by simpa using hne
    rw [h1, h2]

/-- An entry state that skips the characters of `isSkipped` runs on the rest of
the input once they are skipped. -/
theorem lex_skip (e : Nat)
    (hskip : ∀ r ∈ lexBreakpoints, isSkipped e r = true →
      ts_lex_state e false r = some ⟨none, SKIP e⟩) :
    ∀ (ws rest : List Nat), ws.all (isSkipped e) = true →
      ts_lex (ws ++ rest) e = (ts_lex rest e).map (shiftToken ws.length) := by
  intro ws
  induction ws with
  | nil =>
    intro rest _
    rw [List.nil_append]
    cases h : ts_lex rest e with
    | none => rfl
    | some t => cases t; rfl
  | cons w ws ih =>
    intro rest hall
    simp only [List.all_cons, Bool.and_eq_true] at hall
    have hst := ts_lex_state_eq_of_class e false (isSkipped e) (isSkipped_class e)
      (some ⟨none, SKIP e⟩) hskip w hall.1
    have h1 : ts_lex (w :: (ws ++ rest)) e = ts_lex_loop (ws ++ rest) e 1 1 none := by
      unfold ts_lex
      rw [ts_lex_loop_skip _ _ _ _ _ _ _ _ hst, acceptToken_none]
    rw [List.cons_append, h1, ts_lex_loop_at, ih rest hall.2]
    cases ts_lex rest e with
    | none => rfl
    | some t =>
      simp only [Option.map_some', shiftToken, List.length_cons, Option.some.injEq,
        Token.mk.injEq, true_and]
      omega

/-- An input is the characters an entry state skips, followed by nothing or
by a character it does not skip. -/
theorem skipped_split (e : Nat) (input : List Nat) :
    ∃ ws rest, input = ws ++ rest ∧ ws.all (isSkipped e) = true ∧
      ∀ c ∈ rest.head?, isSkipped e c = false := by
  refine ⟨input.takeWhile (isSkipped e), input.dropWhile (isSkipped e),
    (List.takeWhile_append_dropWhile _ _).symm, ?_, ?_⟩
  · rw [List.all_eq_true]
    intro x hx
    exact List.mem_takeWhile_imp hx
  · intro c hc
    induction input with
    | nil => simp at hc
    | cons x xs ih =>
      by_cases hx : isSkipped e x = true
      · simp only [List.dropWhile_cons, hx, if_true] at hc
        exact ih hc
      · simp only [List.dropWhile_cons, hx] at hc
        simp only [Bool.false_eq_true, if_false, List.head?_cons, Option.mem_def,
          Option.some.injEq] at hc
        subst hc
        simpa using hx

/-! ## Entry states: skipped characters, the first step, runs -/

/-- A Boolean fact that holds on every class representative holds on every
code point. -/
theorem bool_of_class (p : Nat → Bool) (hp : ∀ c, p (charClass c) = p c)
    (h : ∀ r ∈ lexBreakpoints, p r = true) (c : Nat) : p c = true := by
  rw [← hp]
  exact h _ (charClass_mem c)

theorem isDelimiter_class (c : Nat) : isDelimiter (charClass c) = isDelimiter c := by
  simp (disch := decide) only [isDelimiter, charClass_eq]

theorem isSegmentStart_class (c : Nat) : isSegmentStart (charClass c) = isSegmentStart c := by
  simp (disch := decide) only [isSegmentStart, ne_eq, charClass_eq, isWhitespace_class,
    isDelimiter_class]

theorem isNameStart_class (c : Nat) : isNameStart (charClass c) = isNameStart c := by
  simp (disch := decide) only [isNameStart, isLetter_class, charClass_eq]

theorem isNameChar_class (c : Nat) : isNameChar (charClass c) = isNameChar c := by
  simp (disch := decide) only [isNameChar, isLetter_class, isDigit_class, charClass_eq]

theorem isNewline_class (c : Nat) :
    (fun x : Nat => decide (x = 10)) (charClass c) = (fun x : Nat => decide (x = 10)) c := by
  simp (disch := decide) only [charClass_eq]

theorem isSkipped_of_ne (e c : Nat) (he : e ≠ 25) : isSkipped e c = isWhitespace c := by
  have h : (e == 25) = false := by simpa using he
  simp [isSkipped, h]

theorem all_isSkipped_of_ne (e : Nat) (he : e ≠ 25) (ws : List Nat) :
    ws.all (isSkipped e) = ws.all isWhitespace := by
  have : isSkipped e = isWhitespace := funext fun c => isSkipped_of_ne e c he
  rw [this]

set_option maxRecDepth 100000 in
/-- Every entry state but the query-value state 21 skips its skipped
characters and stays where it is. -/
theorem entry_skips : ∀ e ∈ [0, 1, 2, 5, 23, 24, 25, 26], ∀ r ∈ lexBreakpoints,
    isSkipped e r = true → ts_lex_state e false r = some ⟨none, SKIP e⟩ := by
  decide!

/-- In an entry state the input splits into the skipped characters and a rest
that begins with another character, lexed from the same state. -/
theorem lex_entry_split (e : Nat) (he : e ∈ [0, 1, 2, 5, 23, 24, 25, 26]) (input : List Nat) :
    ∃ ws rest, input = ws ++ rest ∧ ws.all (isSkipped e) = true ∧
      (∀ c ∈ rest.head?, isSkipped e c = false) ∧
      ts_lex input e = (ts_lex rest e).map (shiftToken ws.length) := by
  obtain ⟨ws, rest, hin, hws, hrest⟩ := skipped_split e input
  refine ⟨ws, rest, hin, hws, hrest, ?_⟩
  rw [hin]
  exact lex_skip e (entry_skips e he) ws rest hws

/-- A first character on which the state ends without accepting gives no
token. -/
theorem lex_none_of_end (e c : Nat) (rest : List Nat)
    (h : ts_lex_state e false c = some ⟨none, END_STATE⟩) : ts_lex (c :: rest) e = none := by
  unfold ts_lex
  rw [ts_lex_loop_end _ _ _ _ _ _ none h]
  rfl

/-- The same for a class of first characters. -/
theorem lex_none_of_class (e : Nat) (p : Nat → Bool) (hp : ∀ c, p (charClass c) = p c)
    (hend : ∀ r ∈ lexBreakpoints, p r = true →
      ts_lex_state e false r = some ⟨none, END_STATE⟩)
    (c : Nat) (rest : List Nat) (hc : p c = true) : ts_lex (c :: rest) e = none :=
  lex_none_of_end e c rest (ts_lex_state_eq_of_class e false p hp _ hend c hc)

/-- A first character that leads into a state without transitions gives the
token of that state, one character long. -/
theorem lex_single (e c n : Nat) (rest : List Nat)
    (hstep : ts_lex_state e false c = some ⟨none, ADVANCE n⟩)
    (hf : isFinalLexState n = true) (hlt : n < LEX_STATE_COUNT) :
    ts_lex (c :: rest) e = some ⟨finalLexSymbol n, 0, 1⟩ := by
  rw [ts_lex_step _ _ _ _ hstep, ts_lex_loop_final n hf hlt]

/-- A first character that enters a set of states in which the lexer runs over
the characters of `q` gives a token that covers the character and the longest
run of characters of `q` behind it. -/
theorem lex_enter_run (e : Nat) (p : Nat → Bool) (hp : ∀ c, p (charClass c) = p c)
    (R : Nat → Bool) (q : Nat → Bool) (hq : ∀ c, q (charClass c) = q c) (symbols : List Nat)
    (hstep : ∀ r ∈ lexBreakpoints, p r = true →
      lexEntersInto R (ts_lex_state e false r) = true)
    (hrun : lexRunsWhile R R q symbols = true) (c : Nat) (rest : List Nat) (hc : p c = true) :
    ∃ a ∈ symbols, ts_lex (c :: rest) e = some ⟨a, 0, 1 + (rest.takeWhile q).length⟩ := by
  have h1 := ts_lex_state_of_class e false p hp (fun o => lexEntersInto R o = true) hstep c hc
  cases hcase : ts_lex_state e false c with
  | none => rw [hcase] at h1; simp [lexEntersInto] at h1
  | some lc =>
    obtain ⟨acc, mv⟩ := lc
    rw [hcase] at h1
    cases acc with
    | some a => simp [lexEntersInto] at h1
    | none =>
      cases mv with
      | ADVANCE n =>
        simp only [lexEntersInto, Bool.and_eq_true, decide_eq_true_eq] at h1
        obtain ⟨a, ha, h2⟩ := lexRunsWhile_spec R q symbols hq hrun rest n 1 0 none h1.1 h1.2
        exact ⟨a, ha, by rw [ts_lex_step _ _ _ _ hcase, h2]⟩
      | SKIP n => simp [lexEntersInto] at h1
      | END_STATE => simp [lexEntersInto] at h1

/-- A first character that enters a closed set of states gives only tokens the
set accepts. -/
theorem lex_enter_closed (e : Nat) (p : Nat → Bool) (hp : ∀ c, p (charClass c) = p c)
    (states : Nat → Bool) (symbols : List Nat) (hS : lexClosed states symbols = true)
    (hstep : ∀ r ∈ lexBreakpoints, p r = true →
      lexCaseStaysIn states symbols (ts_lex_state e false r) = true)
    (c : Nat) (cs : List Nat) (tok : Token) (hc : p c = true)
    (hrun : ts_lex (c :: cs) e = some tok) : tok.symbol ∈ symbols :=
  lex_first_step_into e p hp states symbols (lexStaysIn_of_closed states symbols hS) hstep
    c cs 0 0 tok hc hrun

theorem mem_symbolsBut (x a : Nat) : a ∈ symbolsBut x → a ≠ x := by
  intro h
  simp only [symbolsBut, List.mem_filter, bne_iff_ne, ne_eq] at h
  exact h.2

theorem take_length_takeWhile (p : Nat → Bool) :
    ∀ l : List Nat, l.take (l.takeWhile p).length = l.takeWhile p := by
  intro l
  induction l with
  | nil => rfl
  | cons c cs ih =>
    by_cases hc : p c = true
    · simp [List.takeWhile, hc, ih]
    · simp [List.takeWhile, hc]

/-- The text of a token that starts behind `ws` and covers the first
character of the rest and the run of `q` behind it. -/
theorem tokenText_run (ws : List Nat) (c : Nat) (rest : List Nat) (q : Nat → Bool) (a : Nat) :
    tokenText (ws ++ c :: rest)
        (shiftToken ws.length ⟨a, 0, 1 + (rest.takeWhile q).length⟩) =
      c :: rest.takeWhile q := by
  simp only [tokenText, shiftToken, Nat.zero_add, Nat.add_sub_cancel, List.drop_left,
    Nat.add_comm 1, List.take_succ_cons, take_length_takeWhile]

/-! ## The runs of the name, key, newline and path states -/

set_option maxRecDepth 100000 in
theorem keyState_runs :
    lexRunsWhile (fun s => s == 336) (fun s => s == 336) isKeyChar [aux_sym_key_token1] =
      true := by
  decide!

set_option maxRecDepth 100000 in
theorem paramNameState_runs :
    lexRunsWhile (fun s => s == 328) (fun s => s == 328) isKeyChar
      [aux_sym_path_param_token1] = true := by
  decide!

set_option maxRecDepth 100000 in
theorem variableNameState_runs :
    lexRunsWhile (fun s => s == 332) (fun s => s == 332) isNameChar [sym_variable_name] =
      true := by
  decide!

set_option maxRecDepth 100000 in
theorem newlineState_runs :
    lexRunsWhile (fun s => s == 28) (fun s => s == 28) (fun x => decide (x = 10))
      [anon_sym_LF] = true := by
  decide!

set_option maxRecDepth 100000 in
theorem pathRunState_runs :
    lexRunsWhile pathRunState pathRunState isPathChar pathRunSymbols = true := by
  decide!

set_option maxRecDepth 100000 in
theorem noPathState_closed : lexClosed noPathState (symbolsBut sym_path_segment) = true := by
  decide!

set_option maxRecDepth 100000 in
theorem notKeyState_closed :
    lexClosed (fun s => !([5, 336].contains s)) (symbolsBut aux_sym_key_token1) = true := by
  decide!

set_option maxRecDepth 100000 in
theorem notNewlineState_closed :
    lexClosed (fun s => !([25, 28].contains s)) (symbolsBut anon_sym_LF) = true := by
  decide!

set_option maxRecDepth 100000 in
theorem notEndState_closed :
    lexClosed (fun s => !([0, 25, 26, 27].contains s)) (symbolsBut ts_builtin_sym_end) =
      true := by
  decide!
/-! ## C23: whitespace before a token -/

/-- C23: in each lex state but the query-value state 21 (the lex states 0, 1,
2, 5, 23, 24, 25 and 26), a whitespace character `w` (tab, LF, VT, FF, CR or
space; not LF in lex state 25) in front of an input `rest` is skipped: `ts_lex`
on `w :: rest` fails exactly when it fails on `rest`, and otherwise returns the
token it returns on `rest`, one place to the right, with the same symbol and
the same text; `w` lies before the start of the token. -/
theorem C23_whitespace_skipped (state w : Nat) (rest : List Nat)
    (hs : state ∈ [0, 1, 2, 5, 23, 24, 25, 26]) (hw : isWhitespace w = true)
    (hlf : ¬(state = 25 ∧ w = 10)) :
    ts_lex (w :: rest) state = (ts_lex rest state).map (shiftToken 1) ∧
    (ts_lex (w :: rest) state = none ↔ ts_lex rest state = none) ∧
    ∀ tok, ts_lex rest state = some tok →
      (shiftToken 1 tok).symbol = tok.symbol ∧
      tokenText (w :: rest) (shiftToken 1 tok) = tokenText rest tok ∧
      1 ≤ (shiftToken 1 tok).start := by
  have hsk : isSkipped state w = true := by
    simp only [isSkipped, hw, Bool.true_and, Bool.not_eq_true', Bool.and_eq_false_iff,
      beq_eq_false_iff_ne, ne_eq]
    by_cases h : state = 25
    · exact Or.inr fun h2 => hlf ⟨h, h2⟩
    · exact Or.inl h
  have h := lex_skip state (entry_skips state hs) [w] rest (by simp [hsk])
  simp only [List.singleton_append, List.length_singleton] at h
  refine ⟨h, ?_, ?_⟩
  · rw [h]
    cases ts_lex rest state <;> simp
  · intro tok _
    refine ⟨rfl, ?_, ?_⟩
    · simp [tokenText, shiftToken]
    · simp [shiftToken]

/-- C23 at a concrete input: a space in front of `http://x` at the start of a
line. -/
theorem C23_whitespace_skipped_witness :
    (26 : Nat) ∈ [0, 1, 2, 5, 23, 24, 25, 26] ∧ isWhitespace 32 = true ∧
    ¬((26 : Nat) = 25 ∧ (32 : Nat) = 10) ∧
    ts_lex (32 :: codes "http://x") 26 = (ts_lex (codes "http://x") 26).map (shiftToken 1) :=
  ⟨by decide, by decide, by decide,
    (C23_whitespace_skipped 26 32 (codes "http://x") (by decide) (by decide) (by decide)).1⟩

/-! ## C26: the query key -/

set_option maxRecDepth 100000 in
/-- C26: in lex state 5, the lex state of the parse states 27 and 28 that
expect a query key, an input whose first non-whitespace character is a letter,
a digit, `-` or `_` gives the token `aux_sym_key_token1`, which starts at that
character and covers the longest run of such characters; a key token is
returned in no other case, and in no other lex state that the parser uses. -/
theorem C26_query_key (input : List Nat) :
    (∀ ws c rest, input = ws ++ c :: rest → ws.all isWhitespace = true → isKeyChar c = true →
      ts_lex input 5 = some ⟨aux_sym_key_token1, ws.length,
        ws.length + ((c :: rest).takeWhile isKeyChar).length⟩ ∧
      tokenText input ⟨aux_sym_key_token1, ws.length,
        ws.length + ((c :: rest).takeWhile isKeyChar).length⟩ =
          (c :: rest).takeWhile isKeyChar) ∧
    (∀ tok, ts_lex input 5 = some tok → tok.symbol = aux_sym_key_token1 →
      ∃ ws c rest, input = ws ++ c :: rest ∧ ws.all isWhitespace = true ∧
        isKeyChar c = true) ∧
    (∀ s ∈ lexEntryStates, ∀ tok, ts_lex input s = some tok →
      tok.symbol = aux_sym_key_token1 → s = 5) ∧
    lexMode 27 = 5 ∧ lexMode 28 = 5 := by
  refine ⟨?_, ?_, ?_, by decide, by decide⟩
  · intro ws c rest hin hws hc
    obtain ⟨a, ha, h2⟩ := lex_enter_run 5 isKeyChar isKeyChar_class (fun s => s == 336)
      isKeyChar isKeyChar_class [aux_sym_key_token1] (by decide!) keyState_runs c rest hc
    simp only [List.mem_singleton] at ha
    subst ha
    have h3 := lex_skip 5 (entry_skips 5 (by decide)) ws (c :: rest)
      (by rw [all_isSkipped_of_ne 5 (by decide)]; exact hws)
    rw [h2] at h3
    have hlen : ((c :: rest).takeWhile isKeyChar).length = 1 + (rest.takeWhile isKeyChar).length := by
      simp [List.takeWhile, hc, Nat.add_comm]
    have htw : (c :: rest).takeWhile isKeyChar = c :: rest.takeWhile isKeyChar := by
      simp [List.takeWhile, hc]
    constructor
    · rw [hin, h3, hlen]
      simp [shiftToken, Nat.add_comm]
    · have h4 := tokenText_run ws c rest isKeyChar aux_sym_key_token1
      rw [hin, htw]
      simpa [shiftToken, Nat.add_comm, Nat.add_left_comm] using h4
  · intro tok h hsym
    obtain ⟨ws, rest, hin, hws, hrest, hlex⟩ := lex_entry_split 5 (by decide) input
    rw [all_isSkipped_of_ne 5 (by decide)] at hws
    rw [h] at hlex
    cases rest with
    | nil =>
      rw [show ts_lex [] 5 = none by decide] at hlex
      simp at hlex
    | cons c cs =>
      refine ⟨ws, c, cs, hin, hws, ?_⟩
      by_contra hc
      have hsk : isWhitespace c = false := by
        have := hrest c (by simp)
        rwa [isSkipped_of_ne 5 c (by decide)] at this
      cases h5 : ts_lex (c :: cs) 5 with
      | none => rw [h5] at hlex; simp at hlex
      | some t =>
        rw [h5] at hlex
        simp only [Option.map_some', Option.some.injEq] at hlex
        have hmem := lex_enter_closed 5 (fun r => !isWhitespace r && !isKeyChar r)
          (fun r => by simp only [isWhitespace_class, isKeyChar_class])
          (fun s => !([5, 336].contains s)) (symbolsBut aux_sym_key_token1) notKeyState_closed
          (by decide!) c cs t (by simp [hsk, hc]) h5
        have hne := mem_symbolsBut _ _ hmem
        rw [hlex] at hsym
        exact hne hsym
  · intro s hs tok h hsym
    by_contra hne
    have hmem := lexClosed_spec (fun s => !([5, 336].contains s)) (symbolsBut aux_sym_key_token1)
      notKeyState_closed input s 0 0 tok
      (by
        simp only [lexEntryStates, List.mem_cons, List.mem_singleton, List.not_mem_nil,
          or_false] at hs
        rcases hs with rfl | rfl | rfl | rfl | rfl | rfl | rfl | rfl | rfl <;>
          first
            | exact absurd rfl hne
            | decide)
      (by
        simp only [lexEntryStates, List.mem_cons, List.mem_singleton, List.not_mem_nil,
          or_false] at hs
        rcases hs with rfl | rfl | rfl | rfl | rfl | rfl | rfl | rfl | rfl <;> decide)
      h
    exact mem_symbolsBut _ _ hmem hsym

/-! ## C27: names of variables and of path parameters -/

/-- C27, the claim fails: on `a-b` the path-parameter context (lex state 23)
returns the name `a-b`, the variable-name context (lex state 24) the name
`a`. -/
theorem C27_counterexample :
    ts_lex (codes "a-b") 23 = some ⟨aux_sym_path_param_token1, 0, 3⟩ ∧
    ts_lex (codes "a-b") 24 = some ⟨sym_variable_name, 0, 1⟩ ∧
    tokenText (codes "a-b") ⟨aux_sym_path_param_token1, 0, 3⟩ = codes "a-b" ∧
    tokenText (codes "a-b") ⟨sym_variable_name, 0, 1⟩ = codes "a" := by
  decide

set_option maxRecDepth 100000 in
/-- C27 as amended: the two names begin alike, with a letter or `_` as first
non-whitespace character, and neither context returns a token on any other
input; they continue differently.  A path-parameter name (lex state 23) runs
over letters, digits, `_` and `-`, a variable name (lex state 24) over letters,
digits and `_` only.  Every character of a variable name is one of a
path-parameter name, and `-` is the one character of a path-parameter name that
a variable name stops at. -/
theorem C27_names (input : List Nat) :
    (∀ ws c rest, input = ws ++ c :: rest → ws.all isWhitespace = true → isNameStart c = true →
      ts_lex input 23 = some ⟨aux_sym_path_param_token1, ws.length,
        ws.length + (1 + (rest.takeWhile isKeyChar).length)⟩ ∧
      ts_lex input 24 = some ⟨sym_variable_name, ws.length,
        ws.length + (1 + (rest.takeWhile isNameChar).length)⟩) ∧
    (∀ s ∈ [23, 24], ∀ tok, ts_lex input s = some tok →
      ∃ ws c rest, input = ws ++ c :: rest ∧ ws.all isWhitespace = true ∧
        isNameStart c = true) ∧
    (∀ c, isKeyChar c = (isNameChar c || decide (c = 45))) ∧
    (∀ c, isNameStart c = true → isNameChar c = true) := by
  refine ⟨?_, ?_, ?_, ?_⟩
  · intro ws c rest hin hws hc
    obtain ⟨a, ha, h2⟩ := lex_enter_run 23 isNameStart isNameStart_class (fun s => s == 328)
      isKeyChar isKeyChar_class [aux_sym_path_param_token1] (by decide!) paramNameState_runs
      c rest hc
    obtain ⟨b, hb, h3⟩ := lex_enter_run 24 isNameStart isNameStart_class (fun s => s == 332)
      isNameChar isNameChar_class [sym_variable_name] (by decide!) variableNameState_runs
      c rest hc
    simp only [List.mem_singleton] at ha hb
    subst ha
    subst hb
    have h4 := lex_skip 23 (entry_skips 23 (by decide)) ws (c :: rest)
      (by rw [all_isSkipped_of_ne 23 (by decide)]; exact hws)
    have h5 := lex_skip 24 (entry_skips 24 (by decide)) ws (c :: rest)
      (by rw [all_isSkipped_of_ne 24 (by decide)]; exact hws)
    rw [h2] at h4
    rw [h3] at h5
    rw [hin, h4, h5]
    simp [shiftToken, Nat.add_comm]
  · intro s hs tok h
    have hs2 : s ∈ [0, 1, 2, 5, 23, 24, 25, 26] := by
      simp only [List.mem_cons, List.mem_singleton, List.not_mem_nil, or_false] at hs ⊢
      omega
    have hne : s ≠ 25 := by
      simp only [List.mem_cons, List.mem_singleton, List.not_mem_nil, or_false] at hs
      omega
    obtain ⟨ws, rest, hin, hws, hrest, hlex⟩ := lex_entry_split s hs2 input
    rw [all_isSkipped_of_ne s hne] at hws
    rw [h] at hlex
    cases rest with
    | nil =>
      have h0 : ts_lex [] s = none := by
        simp only [List.mem_cons, List.mem_singleton, List.not_mem_nil, or_false] at hs
        rcases hs with rfl | rfl <;> decide
      rw [h0] at hlex
      simp at hlex
    | cons c cs =>
      refine ⟨ws, c, cs, hin, hws, ?_⟩
      by_contra hc
      have hsk : isWhitespace c = false := by
        have := hrest c (by simp)
        rwa [isSkipped_of_ne s c hne] at this
      have h0 : ts_lex (c :: cs) s = none := by
        simp only [List.mem_cons, List.mem_singleton, List.not_mem_nil, or_false] at hs
        rcases hs with rfl | rfl
        · exact lex_none_of_class 23 (fun r => !isWhitespace r && !isNameStart r)
            (fun r => by simp only [isWhitespace_class, isNameStart_class]) (by decide!)
            c cs (by simp [hsk, hc])
        · exact lex_none_of_class 24 (fun r => !isWhitespace r && !isNameStart r)
            (fun r => by simp only [isWhitespace_class, isNameStart_class]) (by decide!)
            c cs (by simp [hsk, hc])
      rw [h0] at hlex
      simp at hlex
  · intro c
    simp only [isKeyChar, isNameChar]
    cases isDigit c <;> cases isLetter c <;> cases decide (c = 95) <;> cases decide (c = 45) <;>
      rfl
  · intro c hc
    simp only [isNameStart, Bool.or_eq_true] at hc
    simp only [isNameChar, Bool.or_eq_true]
    rcases hc with h | h
    · exact Or.inl (Or.inr h)
    · exact Or.inr h

/-! ## C28: the end of input -/

set_option maxRecDepth 100000 in
/-- C28: in the lex states 0, 25 and 26 `ts_lex` returns `ts_builtin_sym_end`
exactly when the whole input consists of skipped whitespace (in lex state 25:
whitespace other than the newline); the token is then the empty token at the
end of the input.  The symbol differs from `anon_sym_LF`, which lex state 25
returns for an input that starts with a newline.  No other lex state that the
parser uses returns the end token. -/
theorem C28_end_token (input : List Nat) :
    (∀ s ∈ [0, 25, 26],
      (input.all (isSkipped s) = true →
        ts_lex input s = some ⟨ts_builtin_sym_end, input.length, input.length⟩) ∧
      (∀ tok, ts_lex input s = some tok → tok.symbol = ts_builtin_sym_end →
        input.all (isSkipped s) = true)) ∧
    (∀ s ∈ lexEntryStates, ∀ tok, ts_lex input s = some tok →
      tok.symbol = ts_builtin_sym_end → s = 0 ∨ s = 25 ∨ s = 26) ∧
    ts_builtin_sym_end ≠ anon_sym_LF ∧
    (∃ tok, ts_lex (10 :: input) 25 = some tok ∧ tok.symbol = anon_sym_LF ∧ tok.start = 0 ∧
      tok.stop = 1 + (input.takeWhile fun x => decide (x = 10)).length) := by
  refine ⟨?_, ?_, by decide, ?_⟩
  · intro s hs
    have hs2 : s ∈ [0, 1, 2, 5, 23, 24, 25, 26] := by
      simp only [List.mem_cons, List.mem_singleton, List.not_mem_nil, or_false] at hs ⊢
      omega
    have hnil : ts_lex [] s = some ⟨ts_builtin_sym_end, 0, 0⟩ := by
      simp only [List.mem_cons, List.mem_singleton, List.not_mem_nil, or_false] at hs
      rcases hs with rfl | rfl | rfl <;> decide
    constructor
    · intro hall
      have h := lex_skip s (entry_skips s hs2) input [] hall
      rw [List.append_nil, hnil] at h
      rw [h]
      simp [shiftToken]
    · intro tok h hsym
      obtain ⟨ws, rest, hin, hws, hrest, hlex⟩ := lex_entry_split s hs2 input
      cases rest with
      | nil => rw [hin, List.append_nil]; exact hws
      | cons c cs =>
        exfalso
        rw [h] at hlex
        cases h5 : ts_lex (c :: cs) s with
        | none => rw [h5] at hlex; simp at hlex
        | some t =>
          rw [h5] at hlex
          simp only [Option.map_some', Option.some.injEq] at hlex
          have hsk := hrest c (by simp)
          have hmem : t.symbol ∈ symbolsBut ts_builtin_sym_end := by
            simp only [List.mem_cons, List.mem_singleton, List.not_mem_nil, or_false] at hs
            rcases hs with rfl | rfl | rfl
            · exact lex_enter_closed 0 (fun r => !isSkipped 0 r)
                (fun r => by simp only [isSkipped_class])
                (fun s => !([0, 25, 26, 27].contains s)) (symbolsBut ts_builtin_sym_end)
                notEndState_closed (by decide!) c cs t (by simp [hsk]) h5
            · exact lex_enter_closed 25 (fun r => !isSkipped 25 r)
                (fun r => by simp only [isSkipped_class])
                (fun s => !([0, 25, 26, 27].contains s)) (symbolsBut ts_builtin_sym_end)
                notEndState_closed (by decide!) c cs t (by simp [hsk]) h5
            · exact lex_enter_closed 26 (fun r => !isSkipped 26 r)
                (fun r => by simp only [isSkipped_class])
                (fun s => !([0, 25, 26, 27].contains s)) (symbolsBut ts_builtin_sym_end)
                notEndState_closed (by decide!) c cs t (by simp [hsk]) h5
          have hne := mem_symbolsBut _ _ hmem
          rw [hlex] at hsym
          exact hne hsym
  · intro s hs tok h hsym
    by_contra hne
    have hmem := lexClosed_spec (fun s => !([0, 25, 26, 27].contains s))
      (symbolsBut ts_builtin_sym_end) notEndState_closed input s 0 0 tok
      (by
        simp only [lexEntryStates, List.mem_cons, List.mem_singleton, List.not_mem_nil,
          or_false] at hs
        rcases hs with rfl | rfl | rfl | rfl | rfl | rfl | rfl | rfl | rfl <;>
          first
            | exact absurd (Or.inl rfl) hne
            | exact absurd (Or.inr (Or.inl rfl)) hne
            | exact absurd (Or.inr (Or.inr rfl)) hne
            | decide)
      (by
        simp only [lexEntryStates, List.mem_cons, List.mem_singleton, List.not_mem_nil,
          or_false] at hs
        rcases hs with rfl | rfl | rfl | rfl | rfl | rfl | rfl | rfl | rfl <;> decide)
      h
    exact mem_symbolsBut _ _ hmem hsym
  · obtain ⟨a, ha, h2⟩ := lex_enter_run 25 (fun x => decide (x = 10)) isNewline_class
      (fun s => s == 28) (fun x => decide (x = 10)) isNewline_class [anon_sym_LF] (by decide!)
      newlineState_runs 10 input (by decide)
    simp only [List.mem_singleton] at ha
    subst ha
    exact ⟨_, h2, rfl, rfl, rfl⟩

/-! ## C29: the work of one call -/

theorem lexEofMovesToEnd_holds : lexEofMovesToEnd = true := by
  decide!

theorem ts_lex_eof_moves_le (fuel state : Nat) : ts_lex_eof_moves fuel state ≤ 1 := by
  cases fuel with
  | zero => simp [ts_lex_eof_moves]
  | succ fuel =>
    by_cases hlt : state < LEX_STATE_COUNT
    · have h := lexEofMovesToEnd_holds
      simp only [lexEofMovesToEnd, List.all_eq_true, List.mem_range] at h
      have h1 := h state hlt
      have h27 : ∀ f, ts_lex_eof_moves f 27 = 0 := by
        intro f
        cases f with
        | zero => rfl
        | succ f =>
          simp only [ts_lex_eof_moves, show ts_lex_state 27 true 0 =
            some ⟨some ts_builtin_sym_end, END_STATE⟩ by decide]
      simp only [ts_lex_eof_moves]
      cases hcase : ts_lex_state state true 0 with
      | none => simp
      | some lc =>
        obtain ⟨acc, mv⟩ := lc
        rw [hcase] at h1
        cases mv with
        | ADVANCE n =>
          simp only [beq_iff_eq] at h1
          subst h1
          simp [h27]
        | SKIP n => simp at h1
        | END_STATE => simp
    · have hnone : ts_lex_state state true 0 = none := ts_lex_state_none state (Nat.le_of_not_lt hlt) true 0
      simp [ts_lex_eof_moves, hnone]

/-- C29: `ts_lex` is a total function of the input and the start state, and
one call makes at most `len(input) + 1` moves (`ADVANCE` or `SKIP`).  Every
move on a character consumes that character, so these moves are at most
`len(input)`; at the end of input at most one more move is made, and it leads
to state 27, the state that accepts the end token and makes no move.  The
bound on the steps at the end of input that the definition of `ts_lex_eof`
carries is never reached: two steps give the result of any greater number. -/
theorem C29_bounded_work (input : List Nat) (state : Nat) :
    ts_lex_moves input state ≤ input.length + 1 ∧
    ts_lex_moves input state ≤ ts_lex_consumed input state + 1 ∧
    ts_lex_consumed input state ≤ input.length ∧
    ts_lex_consumed input state ≤ ts_lex_moves input state ∧
    (∀ fuel, ts_lex_eof_moves fuel state ≤ 1) ∧
    (∀ acc n, ts_lex_state state true 0 = some ⟨acc, ADVANCE n⟩ →
      n = 27 ∧ ts_lex_state n true 0 = some ⟨some ts_builtin_sym_end, END_STATE⟩) ∧
    (∀ acc n, ts_lex_state state true 0 ≠ some ⟨acc, SKIP n⟩) ∧
    (∀ fuel pos start res,
      ts_lex_eof (fuel + 2) state pos start res = ts_lex_eof 2 state pos start res) := by
  have hmain : ∀ (l : List Nat) (s : Nat),
      ts_lex_moves l s ≤ ts_lex_consumed l s + 1 ∧ ts_lex_consumed l s ≤ l.length ∧
        ts_lex_consumed l s ≤ ts_lex_moves l s := by
    intro l
    induction l with
    | nil =>
      intro s
      simp only [ts_lex_moves, ts_lex_consumed, List.length_nil]
      exact ⟨ts_lex_eof_moves_le 340 s, Nat.le_refl 0, Nat.zero_le _⟩
    | cons c cs ih =>
      intro s
      simp only [ts_lex_moves, ts_lex_consumed, List.length_cons]
      cases ts_lex_state s false c with
      | none => simp
      | some lc =>
        obtain ⟨acc, mv⟩ := lc
        cases mv with
        | ADVANCE n => have := ih n; simp only []; omega
        | SKIP n => have := ih n; simp only []; omega
        | END_STATE => simp
  have h := hmain input state
  refine ⟨by omega, h.1, h.2.1, h.2.2, fun fuel => ts_lex_eof_moves_le fuel state, ?_, ?_, ?_⟩
  · intro acc n hcase
    by_cases hlt : state < LEX_STATE_COUNT
    · have h0 := lexEofMovesToEnd_holds
      simp only [lexEofMovesToEnd, List.all_eq_true, List.mem_range] at h0
      have h1 := h0 state hlt
      rw [hcase] at h1
      simp only [beq_iff_eq] at h1
      subst h1
      exact ⟨rfl, by decide⟩
    · rw [ts_lex_state_none state (Nat.le_of_not_lt hlt) true 0] at hcase
      exact absurd hcase (by simp)
  · intro acc n hcase
    by_cases hlt : state < LEX_STATE_COUNT
    · have h0 := lexEofMovesToEnd_holds
      simp only [lexEofMovesToEnd, List.all_eq_true, List.mem_range] at h0
      have h1 := h0 state hlt
      rw [hcase] at h1
      simp at h1
    · rw [ts_lex_state_none state (Nat.le_of_not_lt hlt) true 0] at hcase
      exact absurd hcase (by simp)
  · intro fuel pos start res
    exact ts_lex_eof_two_moves fuel state pos start res
/-! ## C24: the characters of a path segment -/

set_option maxRecDepth 100000 in
theorem pathEntry_in : ∀ e ∈ [1, 2, 25, 26], ∀ r ∈ lexBreakpoints, isSegmentStart r = true →
    lexEntersInto pathRunState (ts_lex_state e false r) = true := by
  decide!

set_option maxRecDepth 100000 in
theorem pathEntry_out : ∀ e ∈ [1, 2, 25, 26], ∀ r ∈ lexBreakpoints,
    (!isSkipped e r && !isSegmentStart r) = true →
    lexCaseStaysIn noPathState (symbolsBut sym_path_segment) (ts_lex_state e false r) = true := by
  decide!

theorem pathEntry_nil : ∀ e ∈ [1, 2, 25, 26],
    (ts_lex [] e).map Token.symbol ≠ some sym_path_segment := by
  decide

theorem pathEntry_class (e c : Nat) :
    (fun r => !isSkipped e r && !isSegmentStart r) (charClass c) =
      (fun r => !isSkipped e r && !isSegmentStart r) c := by
  simp only [isSkipped_class, isSegmentStart_class]

/-- A path-segment token of the lex states 1, 2, 25 and 26 starts at the first
character that is not skipped, which is no NUL, whitespace or delimiter, and
covers the longest run of characters of the path-segment character set behind
it. -/
theorem lexPath_token (e : Nat) (he : e ∈ [1, 2, 25, 26]) (input : List Nat) (tok : Token)
    (h : ts_lex input e = some tok) (hsym : tok.symbol = sym_path_segment) :
    ∃ ws c rest, input = ws ++ c :: rest ∧ ws.all (isSkipped e) = true ∧
      isSegmentStart c = true ∧
      tok = shiftToken ws.length ⟨sym_path_segment, 0, 1 + (rest.takeWhile isPathChar).length⟩ := by
  have he2 : e ∈ [0, 1, 2, 5, 23, 24, 25, 26] := by
    simp only [List.mem_cons, List.mem_singleton, List.not_mem_nil, or_false] at he ⊢
    omega
  obtain ⟨ws, rest, hin, hws, hrest, hlex⟩ := lex_entry_split e he2 input
  rw [h] at hlex
  cases rest with
  | nil =>
    exfalso
    apply pathEntry_nil e he
    cases h0 : ts_lex [] e with
    | none => rw [h0] at hlex; simp at hlex
    | some t =>
      rw [h0] at hlex
      simp only [Option.map_some', Option.some.injEq] at hlex
      rw [hlex] at hsym
      simpa [shiftToken] using hsym
  | cons c cs =>
    have hsk := hrest c (by simp)
    by_cases hc : isSegmentStart c = true
    · obtain ⟨a, _, h2⟩ := lex_enter_run e isSegmentStart isSegmentStart_class pathRunState
        isPathChar isPathChar_class pathRunSymbols (pathEntry_in e he) pathRunState_runs c cs hc
      rw [h2] at hlex
      simp only [Option.map_some', Option.some.injEq] at hlex
      have ha : a = sym_path_segment := by
        rw [hlex] at hsym
        simpa [shiftToken] using hsym
      subst ha
      exact ⟨ws, c, cs, hin, hws, hc, hlex⟩
    · exfalso
      cases h5 : ts_lex (c :: cs) e with
      | none => rw [h5] at hlex; simp at hlex
      | some t =>
        rw [h5] at hlex
        simp only [Option.map_some', Option.some.injEq] at hlex
        have hmem := lex_enter_closed e (fun r => !isSkipped e r && !isSegmentStart r)
          (pathEntry_class e) noPathState (symbolsBut sym_path_segment) noPathState_closed
          (pathEntry_out e he) c cs t (by simp [hsk, hc]) h5
        have hne := mem_symbolsBut _ _ hmem
        rw [hlex] at hsym
        exact hne hsym

theorem isPathChar_iff (c : Nat) :
    isPathChar c = (decide (c ≤ 1114111) && !isWhitespace c && !isDelimiter c) := by
  rw [Bool.eq_iff_iff]
  simp only [isPathChar, set_contains_iff, isWhitespace, isDelimiter, Bool.and_eq_true,
    Bool.not_eq_true', decide_eq_true_eq, decide_eq_false_iff_not]
  omega

set_option maxRecDepth 100000 in
/-- C24: a token with the symbol `sym_path_segment` that `ts_lex` returns from
a lex state the parser uses comes from one of the lex states 1, 2, 25 and 26,
is not empty, and contains none of the delimiters `/`, `:`, `?`, `&`, `=`,
`{`, `}` and no whitespace character (tab, LF, VT, FF, CR, space), so no
newline. -/
theorem C24_path_segment_characters (input : List Nat) (state : Nat) (tok : Token)
    (hstate : state ∈ lexEntryStates) (h : ts_lex input state = some tok)
    (hsym : tok.symbol = sym_path_segment) :
    state ∈ [1, 2, 25, 26] ∧ tokenText input tok ≠ [] ∧
    ∀ x ∈ tokenText input tok, isDelimiter x = false ∧ isWhitespace x = false ∧ x ≠ 10 := by
  have he : state ∈ [1, 2, 25, 26] := by
    by_contra hne
    have hmem := lexClosed_spec noPathState (symbolsBut sym_path_segment) noPathState_closed
      input state 0 0 tok
      (by
        simp only [lexEntryStates, List.mem_cons, List.mem_singleton, List.not_mem_nil,
          or_false] at hstate hne
        rcases hstate with rfl | rfl | rfl | rfl | rfl | rfl | rfl | rfl | rfl <;>
          first
            | decide
            | exact absurd hne (by decide))
      (by
        simp only [lexEntryStates, List.mem_cons, List.mem_singleton, List.not_mem_nil,
          or_false] at hstate
        rcases hstate with rfl | rfl | rfl | rfl | rfl | rfl | rfl | rfl | rfl <;> decide)
      h
    exact mem_symbolsBut _ _ hmem hsym
  obtain ⟨ws, c, rest, hin, _, hc, htok⟩ := lexPath_token state he input tok h hsym
  have htext : tokenText input tok = c :: rest.takeWhile isPathChar := by
    rw [hin, htok]
    exact tokenText_run ws c rest isPathChar sym_path_segment
  have hws : ∀ x, isWhitespace x = false → x ≠ 10 := by
    intro x hx h10
    rw [h10] at hx
    exact absurd hx (by decide)
  refine ⟨he, by rw [htext]; simp, ?_⟩
  intro x hx
  rw [htext, List.mem_cons] at hx
  rcases hx with rfl | hx
  · simp only [isSegmentStart, Bool.and_eq_true, Bool.not_eq_true', decide_eq_true_eq] at hc
    exact ⟨hc.2, hc.1.2, hws _ hc.1.2⟩
  · have hp : isPathChar x = true := List.mem_takeWhile_imp hx
    rw [isPathChar_iff] at hp
    simp only [Bool.and_eq_true, Bool.not_eq_true', decide_eq_true_eq] at hp
    exact ⟨hp.2, hp.1.2, hws _ hp.1.2⟩

/-- C24 at a concrete input: the segment `users` of `users/1` in the lex state
2. -/
theorem C24_path_segment_characters_witness :
    (2 : Nat) ∈ lexEntryStates ∧
    ts_lex (codes "users/1") 2 = some ⟨sym_path_segment, 0, 5⟩ ∧
    ∀ x ∈ tokenText (codes "users/1") ⟨sym_path_segment, 0, 5⟩,
      isDelimiter x = false ∧ isWhitespace x = false ∧ x ≠ 10 :=
  ⟨by decide, by decide,
    (C24_path_segment_characters (codes "users/1") 2 ⟨sym_path_segment, 0, 5⟩ (by decide)
      (by decide) rfl).2.2⟩

/-! ## C25: control characters in a path segment -/

/-- C25, the claim fails: the control characters U+0001 and U+001F are members
of the path-segment character set (as is U+0000), and `ts_lex` returns path
segments that contain them or begin with one. -/
theorem C25_counterexample :
    isPathChar 0 = true ∧ isPathChar 1 = true ∧ isPathChar 31 = true ∧
    ts_lex [97, 1, 31, 98] 26 = some ⟨sym_path_segment, 0, 4⟩ ∧
    tokenText [97, 1, 31, 98] ⟨sym_path_segment, 0, 4⟩ = [97, 1, 31, 98] ∧
    ts_lex [1, 98] 26 = some ⟨sym_path_segment, 0, 2⟩ := by
  decide

set_option maxRecDepth 100000 in
theorem segmentState_runs :
    lexRunsWhile (fun s => s == 327) (fun s => s == 327) isPathChar [sym_path_segment] =
      true := by
  decide!

set_option maxRecDepth 100000 in
/-- C25 as amended: the path-segment character set consists of all code points
up to U+10FFFF but the six whitespace characters and the seven delimiters; the
control characters U+0000 to U+0008 and U+000E to U+001F are members.  In the
path-only lex state 2 a path segment that begins with `a` runs over every
member of the set, control characters included. -/
theorem C25_control_characters (c : Nat) (rest : List Nat) :
    isPathChar c = (decide (c ≤ 1114111) && !isWhitespace c && !isDelimiter c) ∧
    (c ≤ 8 ∨ (14 ≤ c ∧ c ≤ 31) → isPathChar c = true) ∧
    ts_lex (97 :: rest) 2 =
      some ⟨sym_path_segment, 0, 1 + (rest.takeWhile isPathChar).length⟩ ∧
    (isPathChar c = true →
      ts_lex (97 :: c :: rest) 2 =
        some ⟨sym_path_segment, 0, 2 + (rest.takeWhile isPathChar).length⟩) := by
  have hrun : ∀ l : List Nat, ts_lex (97 :: l) 2 =
      some ⟨sym_path_segment, 0, 1 + (l.takeWhile isPathChar).length⟩ := by
    intro l
    obtain ⟨a, ha, h2⟩ := lexRunsWhile_spec (fun s => s == 327) isPathChar [sym_path_segment]
      isPathChar_class segmentState_runs l 327 1 0 none (by decide) (by decide)
    simp only [List.mem_singleton] at ha
    subst ha
    rw [ts_lex_step 2 97 327 l (by decide), h2]
  refine ⟨isPathChar_iff c, ?_, hrun rest, ?_⟩
  · intro h
    rw [isPathChar_iff]
    simp only [isWhitespace, isDelimiter, Bool.and_eq_true, Bool.not_eq_true',
      decide_eq_true_eq, decide_eq_false_iff_not]
    omega
  · intro hc
    rw [hrun (c :: rest)]
    simp [List.takeWhile, hc]
    omega

/-! ## C22: the delimiters in the lex states -/

/-- C22, the claim fails: `?` gives no token at the start of a line (lex state
26), `/` none where a query key is expected (lex state 5), `:` none where a
variable name is expected (lex state 24), the end delimiter of a variable none
inside a line (lex state 25), and a newline is skipped at the start of a line,
where the token behind it is returned. -/
theorem C22_counterexample :
    ts_lex (codes "?a=b") 26 = none ∧
    ts_lex (codes "/a") 5 = none ∧
    ts_lex (codes ":a") 24 = none ∧
    ts_lex [125, 125, 97] 25 = none ∧
    ts_lex (10 :: codes "/a") 26 = some ⟨anon_sym_SLASH, 1, 2⟩ ∧
    (26 : Nat) ∈ lexEntryStates ∧ (5 : Nat) ∈ lexEntryStates ∧ (24 : Nat) ∈ lexEntryStates ∧
    (25 : Nat) ∈ lexEntryStates := by
  decide

theorem lex_double (e c m n : Nat) (rest : List Nat)
    (h1 : ts_lex_state e false c = some ⟨none, ADVANCE m⟩)
    (h2 : ts_lex_state m false c = some ⟨none, ADVANCE n⟩)
    (hf : isFinalLexState n = true) (hlt : n < LEX_STATE_COUNT) :
    ts_lex (c :: c :: rest) e = some ⟨finalLexSymbol n, 0, 2⟩ := by
  rw [ts_lex_step _ _ _ _ h1, ts_lex_loop_advance _ _ _ _ _ _ none n h2, acceptToken_none,
    ts_lex_loop_final n hf hlt]

set_option maxRecDepth 100000 in
/-- C22 as amended: each lex state recognises the delimiters of its context
only.  The lex state of every parse state is one of 0, 1, 2, 5, 21, 23, 24, 25,
26.  On an input that starts with the delimiter:
`/` is a token in the lex states 0, 1, 2, 25, 26 and gives no token in 5, 23,
24; `:` is the one-character token in 1, 2, 25, 26, and in 0 unless a `/`
follows, and gives no token in 23 and 24, and none in 5 unless a `/` follows;
`?`, `&` and `=` are tokens in 0 and 25 and give no token in 1, 2, 5, 23, 24,
26; the two-character start delimiter of a variable is a token in 0, 1, 2, 5,
25, 26 and gives none in 23 and 24; the two-character end delimiter is a token
in 0 and gives none in all other lex states but 21; a newline is a token in 25
only (the token covers all newlines that follow directly), and is skipped in 0,
1, 2, 5, 23, 24, 26.  In the query-value state 21 every delimiter but `&`, and
also the newline, starts a value token, and `&` gives no token. -/
theorem C22_delimiters (rest : List Nat) :
    (∀ ps, ps < STATE_COUNT → lexMode ps ∈ lexEntryStates) ∧
    (∀ s ∈ [0, 1, 2, 25, 26], ts_lex (47 :: rest) s = some ⟨anon_sym_SLASH, 0, 1⟩) ∧
    (∀ s ∈ [5, 23, 24], ts_lex (47 :: rest) s = none) ∧
    (∀ s ∈ [1, 2, 25, 26], ts_lex (58 :: rest) s = some ⟨anon_sym_COLON, 0, 1⟩) ∧
    (rest.head? ≠ some 47 → ts_lex (58 :: rest) 0 = some ⟨anon_sym_COLON, 0, 1⟩ ∧
      ts_lex (58 :: rest) 5 = none) ∧
    (∀ s ∈ [23, 24], ts_lex (58 :: rest) s = none) ∧
    (∀ s ∈ [0, 25], ts_lex (63 :: rest) s = some ⟨anon_sym_QMARK, 0, 1⟩ ∧
      ts_lex (38 :: rest) s = some ⟨anon_sym_AMP, 0, 1⟩ ∧
      ts_lex (61 :: rest) s = some ⟨anon_sym_EQ, 0, 1⟩) ∧
    (∀ s ∈ [1, 2, 5, 23, 24, 26], ts_lex (63 :: rest) s = none ∧
      ts_lex (38 :: rest) s = none ∧ ts_lex (61 :: rest) s = none) ∧
    (∀ s ∈ [0, 1, 2, 5, 25, 26],
      ts_lex (123 :: 123 :: rest) s = some ⟨sym_variable_delim_start, 0, 2⟩) ∧
    (∀ s ∈ [23, 24], ts_lex (123 :: rest) s = none) ∧
    ts_lex (125 :: 125 :: rest) 0 = some ⟨sym_variable_delim_end, 0, 2⟩ ∧
    (∀ s ∈ [1, 2, 5, 23, 24, 25, 26], ts_lex (125 :: rest) s = none) ∧
    ts_lex (10 :: rest) 25 =
      some ⟨anon_sym_LF, 0, 1 + (rest.takeWhile fun x => decide (x = 10)).length⟩ ∧
    (∀ s ∈ [0, 1, 2, 5, 23, 24, 26],
      ts_lex (10 :: rest) s = (ts_lex rest s).map (shiftToken 1)) ∧
    (∀ s ∈ lexEntryStates, ∀ input tok, ts_lex input s = some tok →
      tok.symbol = anon_sym_LF → s = 25) ∧
    (∀ c ∈ [47, 58, 63, 61, 123, 125, 10], ∃ a ∈ valueSymbols,
      ts_lex (c :: rest) 21 = some ⟨a, 0, 1 + (rest.takeWhile isValueChar).length⟩) ∧
    ts_lex (38 :: rest) 21 = none := by
  refine ⟨by decide, ?_, ?_, ?_, ?_, ?_, ?_, ?_, ?_, ?_, ?_, ?_, ?_, ?_, ?_, ?_, ?_⟩
  · intro s hs
    simp only [List.mem_cons, List.mem_singleton, List.not_mem_nil, or_false] at hs
    rcases hs with rfl | rfl | rfl | rfl | rfl <;>
      exact lex_single _ 47 120 rest (by decide) (by decide) (by decide)
  · intro s hs
    simp only [List.mem_cons, List.mem_singleton, List.not_mem_nil, or_false] at hs
    rcases hs with rfl | rfl | rfl <;> exact lex_none_of_end _ 47 rest (by decide)
  · intro s hs
    simp only [List.mem_cons, List.mem_singleton, List.not_mem_nil, or_false] at hs
    rcases hs with rfl | rfl | rfl | rfl <;>
      exact lex_single _ 58 40 rest (by decide) (by decide) (by decide)
  · intro hrest
    constructor
    · rw [ts_lex_step 0 58 41 rest (by decide)]
      cases rest with
      | nil => rw [ts_lex_loop_nil_end 41 _ _ _ (some anon_sym_COLON) (by decide)]; rfl
      | cons c cs =>
        have hc : c ≠ 47 := by simpa using hrest
        have h41 := ts_lex_state_eq_of_class 41 false (fun r => decide (r ≠ 47))
          (ne_class 47 (by decide) (by decide)) (some ⟨some anon_sym_COLON, END_STATE⟩)
          (by decide!) c (by simpa using hc)
        rw [ts_lex_loop_end _ _ _ _ _ _ (some anon_sym_COLON) h41]
        rfl
    · rw [ts_lex_step 5 58 3 rest (by decide)]
      exact ts_lex_loop_single 3 47 (by decide) (by decide) (by decide) (by decide!) rest
        hrest 1 0
  · intro s hs
    simp only [List.mem_cons, List.mem_singleton, List.not_mem_nil, or_false] at hs
    rcases hs with rfl | rfl <;> exact lex_none_of_end _ 58 rest (by decide)
  · intro s hs
    simp only [List.mem_cons, List.mem_singleton, List.not_mem_nil, or_false] at hs
    rcases hs with rfl | rfl <;>
      exact ⟨lex_single _ 63 333 rest (by decide) (by decide) (by decide),
        lex_single _ 38 334 rest (by decide) (by decide) (by decide),
        lex_single _ 61 335 rest (by decide) (by decide) (by decide)⟩
  · intro s hs
    simp only [List.mem_cons, List.mem_singleton, List.not_mem_nil, or_false] at hs
    rcases hs with rfl | rfl | rfl | rfl | rfl | rfl <;>
      exact ⟨lex_none_of_end _ 63 rest (by decide), lex_none_of_end _ 38 rest (by decide),
        lex_none_of_end _ 61 rest (by decide)⟩
  · intro s hs
    simp only [List.mem_cons, List.mem_singleton, List.not_mem_nil, or_false] at hs
    rcases hs with rfl | rfl | rfl | rfl | rfl | rfl <;>
      exact lex_double _ 123 20 329 rest (by decide) (by decide) (by decide) (by decide)
  · intro s hs
    simp only [List.mem_cons, List.mem_singleton, List.not_mem_nil, or_false] at hs
    rcases hs with rfl | rfl <;> exact lex_none_of_end _ 123 rest (by decide)
  · exact lex_double 0 125 22 331 rest (by decide) (by decide) (by decide) (by decide)
  · intro s hs
    simp only [List.mem_cons, List.mem_singleton, List.not_mem_nil, or_false] at hs
    rcases hs with rfl | rfl | rfl | rfl | rfl | rfl | rfl <;>
      exact lex_none_of_end _ 125 rest (by decide)
  · obtain ⟨a, ha, h2⟩ := lex_enter_run 25 (fun x => decide (x = 10)) isNewline_class
      (fun s => s == 28) (fun x => decide (x = 10)) isNewline_class [anon_sym_LF] (by decide!)
      newlineState_runs 10 rest (by decide)
    simp only [List.mem_singleton] at ha
    subst ha
    exact h2
  · intro s hs
    have hs2 : s ∈ [0, 1, 2, 5, 23, 24, 25, 26] := by
      simp only [List.mem_cons, List.mem_singleton, List.not_mem_nil, or_false] at hs ⊢
      omega
    have hne : s ≠ 25 := by
      simp only [List.mem_cons, List.mem_singleton, List.not_mem_nil, or_false] at hs
      omega
    have h := lex_skip s (entry_skips s hs2) [10] rest
      (by rw [all_isSkipped_of_ne s hne]; decide)
    simpa using h
  · intro s hs input tok h hsym
    by_contra hne
    have hmem := lexClosed_spec (fun s => !([25, 28].contains s)) (symbolsBut anon_sym_LF)
      notNewlineState_closed input s 0 0 tok
      (by
        simp only [lexEntryStates, List.mem_cons, List.mem_singleton, List.not_mem_nil,
          or_false] at hs
        rcases hs with rfl | rfl | rfl | rfl | rfl | rfl | rfl | rfl | rfl <;>
          first
            | exact absurd rfl hne
            | decide)
      (by
        simp only [lexEntryStates, List.mem_cons, List.mem_singleton, List.not_mem_nil,
          or_false] at hs
        rcases hs with rfl | rfl | rfl | rfl | rfl | rfl | rfl | rfl | rfl <;> decide)
      h
    exact mem_symbolsBut _ _ hmem hsym
  · intro c hc
    have hv : isValueChar c = true := by
      simp only [List.mem_cons, List.mem_singleton, List.not_mem_nil, or_false] at hc
      rcases hc with rfl | rfl | rfl | rfl | rfl | rfl | rfl <;> decide
    exact lex_enter_run 21 isValueChar isValueChar_class valueState isValueChar
      isValueChar_class valueSymbols (by decide!) valueState_runs c rest hv
  · exact lex_none_of_end 21 38 rest (by decide)
/-! ## C21: where a line begins -/

/-- A state beyond the tables has no action. -/
theorem ts_language_actions_beyond (state : Nat) (hs : ¬ state < STATE_COUNT) (x : Nat) :
    ts_language_actions state x = [] :=
  ts_language_actions_scan (fun s _ acts => ¬ s < STATE_COUNT → acts = [])
    (fun _ _ _ => rfl) (fun _ hlt _ _ hn => absurd hlt hn) state x hs

/-- C21, the claim fails: in parse state 21, after a complete `sym_url_line`,
the token `/` is no error.  The entry reduces the line to
`aux_sym_source_file_repeat1`, the goto of the start state on that symbol is
state 3, and state 3 shifts `/` as the first token of another `sym_url_line`;
the same holds for a path segment and for the scheme `http`.  No newline token
has been shifted in between. -/
theorem C21_counterexample :
    ts_language_actions 21 anon_sym_SLASH = [REDUCE aux_sym_source_file_repeat1 1 0 0] ∧
    ts_language_actions 21 sym_path_segment = [REDUCE aux_sym_source_file_repeat1 1 0 0] ∧
    ts_language_actions 21 anon_sym_http = [REDUCE aux_sym_source_file_repeat1 1 0 0] ∧
    ts_language_lookup 1 sym_url_line = 21 ∧
    ts_language_lookup 1 aux_sym_source_file_repeat1 = 3 ∧
    ts_language_actions 3 anon_sym_SLASH = [SHIFT 4] ∧
    ts_language_actions 3 sym_path_segment = [SHIFT 4] ∧
    ts_language_actions 3 anon_sym_http = [SHIFT 36] ∧
    ts_language_lookup 3 sym_url_line = 21 := by
  decide

set_option maxRecDepth 1000000 in
/-- C21 as amended: the newline between two lines is optional in the tables.
In parse state 21, after a complete `sym_url_line`, the newline token is
shifted (to state 23, which reduces the line and the newline together), and
the end of input and each of the twelve tokens that can begin a line reduce
the line alone; only the other ten tokens are errors.  The reduction leads,
by the gotos on `aux_sym_source_file_repeat1`, from the start state 1 to state
3 and from 3 and 2 to state 2; the states 1 and 3 shift each token that can
begin a line, and state 2 reduces once more and then does the same.  State 21
is entered only by the goto on `sym_url_line`, from the states 1, 2 and 3.
In the model of the driver the single input line `a http://b.c/` is therefore
accepted, with two `sym_url_line` nodes and no newline token. -/
theorem C21_line_boundaries (state symbol : Nat) :
    ts_language_actions 21 anon_sym_LF = [SHIFT 23] ∧
    (∀ x ∈ ts_builtin_sym_end :: lineStartTokens,
      ts_language_actions 21 x = [REDUCE aux_sym_source_file_repeat1 1 0 0]) ∧
    (symbol < TOKEN_COUNT → symbol ∉ anon_sym_LF :: ts_builtin_sym_end :: lineStartTokens →
      ts_language_actions 21 symbol = []) ∧
    (symbol < TOKEN_COUNT →
      ∀ a ∈ ts_language_actions 23 symbol, a = REDUCE aux_sym_source_file_repeat1 2 0 0) ∧
    ts_language_lookup 1 aux_sym_source_file_repeat1 = 3 ∧
    ts_language_lookup 3 aux_sym_source_file_repeat1 = 2 ∧
    ts_language_lookup 2 aux_sym_source_file_repeat1 = 2 ∧
    lineStartTokens.map (ts_language_actions 1) =
      [36, 36, 36, 36, 36, 37, 31, 33, 33, 4, 4, 38].map (fun n => [SHIFT n]) ∧
    lineStartTokens.map (ts_language_actions 3) =
      [36, 36, 36, 36, 36, 37, 31, 33, 33, 4, 4, 38].map (fun n => [SHIFT n]) ∧
    lineStartTokens.map (ts_language_actions 2) =
      [36, 36, 36, 36, 36, 37, 31, 33, 33, 4, 4, 38].map
        (fun n => [REDUCE aux_sym_source_file_repeat1 2 0 0, SHIFT_REPEAT n]) ∧
    (TOKEN_COUNT ≤ symbol → ts_language_lookup state symbol = 21 →
      symbol = sym_url_line ∧ state ∈ [1, 2, 3]) ∧
    (symbol < TOKEN_COUNT → SHIFT 21 ∉ ts_language_actions state symbol ∧
      SHIFT_REPEAT 21 ∉ ts_language_actions state symbol) ∧
    (parse 100 (codes "a http://b.c/")).map
      (fun o => match o with
        | .accepted t =>
          (true, (t.nodesOf sym_url_line).map Tree.text, t.hasSymbol anon_sym_LF)
        | _ => (false, [], false)) =
      [(true, [codes "a", codes "http://b.c/"], false)] := by
  refine ⟨by decide, by decide, ?_, ?_, by decide, by decide, by decide, by decide, by decide,
    by decide, ?_, ?_, by decide!⟩
  · intro hx hnot
    have h : ∀ x < TOKEN_COUNT, x ∉ anon_sym_LF :: ts_builtin_sym_end :: lineStartTokens →
        ts_language_actions 21 x = [] := by
      decide
    exact h symbol hx hnot
  · intro hx
    have h : ∀ x < TOKEN_COUNT,
        ∀ a ∈ ts_language_actions 23 x, a = REDUCE aux_sym_source_file_repeat1 2 0 0 := by
      decide
    exact h symbol hx
  · exact ts_language_lookup_forall
      (fun s x v => v = 21 → x = sym_url_line ∧ s ∈ [1, 2, 3])
      (fun _ _ h => absurd h (by decide)) (by decide!) state symbol
  · exact ts_language_actions_forall
      (fun _ _ acts => SHIFT 21 ∉ acts ∧ SHIFT_REPEAT 21 ∉ acts)
      (fun _ _ => by simp) (by decide!) state symbol

/-! ## C30: the five schemes -/

set_option maxRecDepth 1000000 in
/-- C30: at the start of a line (lex state 26, the lex state of the parse
states 1, 2 and 3) each of the words http, https, ftp, ws and wss followed by
`://` is lexed as its own keyword token, of the length of the word.  The five
keyword tokens have the same actions in every parse state; the start state 1
and state 3 shift them to state 36, and no shift of a keyword leads to another
state.  State 36 has an action on the token `://` only, which it shifts to
state 26, where the only reduction to `sym_protocol` takes place, with two
children.  State 36 is entered only by a shift of one of the five keyword
tokens and state 26 only by the shift of `://` in state 36, so no other token
is the first child of a protocol node. -/
theorem C30_scheme_tokens (k : List Nat) (symbol kwState : Nat)
    (hk : (k, symbol, kwState) ∈ schemeTable) (rest : List Nat) (state x : Nat) :
    ts_lex (k ++ codes "://" ++ rest) 26 = some ⟨symbol, 0, k.length⟩ ∧
    symbol ∈ schemeTokens ∧
    schemeTable.map (fun e => e.2.1) = schemeTokens ∧
    lexMode 1 = 26 ∧ lexMode 2 = 26 ∧ lexMode 3 = 26 ∧
    (∀ y ∈ schemeTokens,
      ts_language_actions state y = ts_language_actions state anon_sym_http) ∧
    ts_language_actions 1 anon_sym_http = [SHIFT 36] ∧
    ts_language_actions 3 anon_sym_http = [SHIFT 36] ∧
    (∀ j, SHIFT j ∈ ts_language_actions state anon_sym_http ∨
        SHIFT_REPEAT j ∈ ts_language_actions state anon_sym_http → j = 36) ∧
    ts_language_actions 36 anon_sym_COLON_SLASH_SLASH = [SHIFT 26] ∧
    (x < TOKEN_COUNT →
      (ts_language_actions 36 x ≠ [] → x = anon_sym_COLON_SLASH_SLASH) ∧
      ((SHIFT 36 ∈ ts_language_actions state x ∨
          SHIFT_REPEAT 36 ∈ ts_language_actions state x) → x ∈ schemeTokens) ∧
      ((SHIFT 26 ∈ ts_language_actions state x ∨
          SHIFT_REPEAT 26 ∈ ts_language_actions state x) →
        state = 36 ∧ x = anon_sym_COLON_SLASH_SLASH) ∧
      (∀ a ∈ ts_language_actions state x, ∀ n d p,
        a = REDUCE sym_protocol n d p → state = 26 ∧ n = 2)) ∧
    (TOKEN_COUNT ≤ x →
      ts_language_lookup state x ≠ 26 ∧ ts_language_lookup state x ≠ 36) := by
  have hlex : ts_lex (k ++ codes "://" ++ rest) 26 = some ⟨symbol, 0, k.length⟩ := by
    have hrest : ∀ c ∈ (codes "://" ++ rest).head?, isPathChar c = false := by
      intro c hc
      have : c = 58 := by simpa [codes] using hc.symm
      subst this
      decide
    rw [List.append_assoc]
    simp only [schemeTable, List.mem_cons, Prod.mk.injEq, List.mem_singleton, List.not_mem_nil,
      or_false] at hk
    rcases hk with ⟨rfl, rfl, rfl⟩ | ⟨rfl, rfl, rfl⟩ | ⟨rfl, rfl, rfl⟩ | ⟨rfl, rfl, rfl⟩ |
      ⟨rfl, rfl, rfl⟩
    · exact keyword_then_delimiter 26 29 _ _ (some (14, 3)) (by decide) (by decide!) (by decide)
        _ hrest
    · exact keyword_then_delimiter 26 32 _ _ (some (2, 4)) (by decide) (by decide!) (by decide)
        _ hrest
    · exact keyword_then_delimiter 26 34 _ _ (some (14, 2)) (by decide) (by decide!) (by decide)
        _ hrest
    · exact keyword_then_delimiter 26 35 _ _ (some (14, 1)) (by decide) (by decide!) (by decide)
        _ hrest
    · exact keyword_then_delimiter 26 38 _ _ (some (5, 2)) (by decide) (by decide!) (by decide)
        _ hrest
  have hsym : symbol ∈ schemeTokens := by
    simp only [schemeTable, List.mem_cons, Prod.mk.injEq, List.mem_singleton, List.not_mem_nil,
      or_false] at hk
    rcases hk with ⟨_, rfl, _⟩ | ⟨_, rfl, _⟩ | ⟨_, rfl, _⟩ | ⟨_, rfl, _⟩ | ⟨_, rfl, _⟩ <;> decide
  refine ⟨hlex, hsym, by decide, by decide, by decide, by decide, ?_, by decide, by decide, ?_,
    by decide, fun hx => ⟨?_, ?_, ?_, ?_⟩, ?_⟩
  · have h : ∀ s < STATE_COUNT, ∀ y ∈ schemeTokens,
        ts_language_actions s y = ts_language_actions s anon_sym_http := by
      decide!
    intro y hy
    by_cases hs : state < STATE_COUNT
    · exact h state hs y hy
    · rw [ts_language_actions_beyond state hs, ts_language_actions_beyond state hs]
  · intro j hj
    have h := ts_language_actions_forall
      (fun _ x acts => x = anon_sym_http → ∀ a ∈ acts,
        (match a with
          | SHIFT n => decide (n = 36)
          | SHIFT_REPEAT n => decide (n = 36)
          | _ => true) = true)
      (fun _ _ _ a ha => absurd ha (List.not_mem_nil a)) (by decide!)
      state anon_sym_http (by decide) rfl
    rcases hj with hj | hj
    · simpa using h _ hj
    · simpa using h _ hj
  · have h : ∀ y < TOKEN_COUNT, ts_language_actions 36 y ≠ [] →
        y = anon_sym_COLON_SLASH_SLASH := by
      decide
    exact h x hx
  · exact ts_language_actions_forall
      (fun _ y acts => (SHIFT 36 ∈ acts ∨ SHIFT_REPEAT 36 ∈ acts) → y ∈ schemeTokens)
      (fun _ _ h => by simp at h) (by decide!) state x hx
  · exact ts_language_actions_forall
      (fun s y acts => (SHIFT 26 ∈ acts ∨ SHIFT_REPEAT 26 ∈ acts) →
        s = 36 ∧ y = anon_sym_COLON_SLASH_SLASH)
      (fun _ _ h => by simp at h) (by decide!) state x hx
  · intro a ha n d p hred
    simpa using reduce_forall sym_protocol (fun s n => decide (s = 26 ∧ n = 2)) (by decide!)
      state x hx a ha n d p hred
  · exact ts_language_lookup_forall
      (fun _ _ v => v ≠ 26 ∧ v ≠ 36)
      (fun _ _ => ⟨by decide, by decide⟩) (by decide!) state x

/-- C30 at a concrete input: `wss://host` at the start of a line. -/
theorem C30_scheme_tokens_witness :
    (codes "wss", anon_sym_wss, 38) ∈ schemeTable ∧
    ts_lex (codes "wss" ++ codes "://" ++ codes "host") 26 =
      some ⟨anon_sym_wss, 0, (codes "wss").length⟩ :=
  ⟨by decide,
    (C30_scheme_tokens (codes "wss") anon_sym_wss 38 (by decide) (codes "host") 1
      anon_sym_wss).1⟩
/-! ## C31: the extent of a token of the path and domain contexts -/

theorem isSegmentStart_of_isPathChar (c : Nat) (hc : isPathChar c = true) (h0 : c ≠ 0) :
    isSegmentStart c = true := by
  rw [isPathChar_iff] at hc
  simp only [Bool.and_eq_true, Bool.not_eq_true', decide_eq_true_eq] at hc
  simp [isSegmentStart, h0, hc.1.2, hc.2]

theorem takeWhile_cons_of_pos (p : Nat → Bool) (c : Nat) (rest : List Nat) (hc : p c = true) :
    (c :: rest).takeWhile p = c :: rest.takeWhile p := by
  simp [List.takeWhile, hc]

/-- C31: in the lex states 1, 2, 25 and 26, on an input whose first character
that is not skipped is a member of the path-segment character set other than
NUL, `ts_lex` returns a token; whichever of the symbols `sym_path_segment`,
`aux_sym_domain_token1`, a scheme keyword or `anon_sym_localhost` it carries,
the token starts at that character and its text is the longest run of
characters of the path-segment character set. -/
theorem C31_token_boundaries (state : Nat) (ws : List Nat) (c : Nat) (rest : List Nat)
    (hs : state ∈ [1, 2, 25, 26]) (hws : ws.all (isSkipped state) = true)
    (hc : isPathChar c = true) (h0 : c ≠ 0) :
    ∃ a ∈ pathRunSymbols,
      ts_lex (ws ++ c :: rest) state =
        some ⟨a, ws.length, ws.length + ((c :: rest).takeWhile isPathChar).length⟩ ∧
      tokenText (ws ++ c :: rest)
          ⟨a, ws.length, ws.length + ((c :: rest).takeWhile isPathChar).length⟩ =
        (c :: rest).takeWhile isPathChar := by
  have hs2 : state ∈ [0, 1, 2, 5, 23, 24, 25, 26] := by
    simp only [List.mem_cons, List.mem_singleton, List.not_mem_nil, or_false] at hs ⊢
    omega
  obtain ⟨a, ha, h2⟩ := lex_enter_run state isSegmentStart isSegmentStart_class pathRunState
    isPathChar isPathChar_class pathRunSymbols (pathEntry_in state hs) pathRunState_runs c rest
    (isSegmentStart_of_isPathChar c hc h0)
  have h3 := lex_skip state (entry_skips state hs2) ws (c :: rest) hws
  rw [h2] at h3
  have htw := takeWhile_cons_of_pos isPathChar c rest hc
  refine ⟨a, ha, ?_, ?_⟩
  · rw [h3, htw]
    simp [shiftToken, Nat.add_comm]
  · have h4 := tokenText_run ws c rest isPathChar a
    rw [htw]
    simpa [shiftToken, Nat.add_comm, Nat.add_left_comm] using h4

/-- C31 at a concrete input: the domain `api.example.com` after a space, in the
lex state 26. -/
theorem C31_token_boundaries_witness :
    (26 : Nat) ∈ [1, 2, 25, 26] ∧ [32].all (isSkipped 26) = true ∧ isPathChar 97 = true ∧
    (97 : Nat) ≠ 0 ∧
    ∃ a ∈ pathRunSymbols,
      ts_lex ([32] ++ 97 :: codes "pi.example.com/v1") 26 =
        some ⟨a, [32].length,
          [32].length + ((97 :: codes "pi.example.com/v1").takeWhile isPathChar).length⟩ ∧
      tokenText ([32] ++ 97 :: codes "pi.example.com/v1")
          ⟨a, [32].length,
            [32].length + ((97 :: codes "pi.example.com/v1").takeWhile isPathChar).length⟩ =
        (97 :: codes "pi.example.com/v1").takeWhile isPathChar :=
  ⟨by decide, by decide, by decide, by decide,
    C31_token_boundaries 26 [32] 97 (codes "pi.example.com/v1") (by decide) (by decide)
      (by decide) (by decide)⟩

/-! ## C34: the token `aux_sym_hostname_token1` -/

/-- A start state beyond the cases of the `switch` gives no token. -/
theorem ts_lex_beyond (input : List Nat) (state : Nat) (hs : LEX_STATE_COUNT ≤ state) :
    ts_lex input state = none := by
  unfold ts_lex
  cases input with
  | nil =>
    rw [ts_lex_loop_nil, show (340 : Nat) = 339 + 1 from rfl, ts_lex_eof_succ,
      ts_lex_state_none state hs]
  | cons c cs =>
    rw [ts_lex_loop_cons, ts_lex_state_none state hs]

set_option maxRecDepth 100000 in
theorem noHostnameToken_closed :
    lexClosed (fun _ => true) (symbolsBut aux_sym_hostname_token1) = true := by
  decide!

set_option maxRecDepth 100000 in
/-- C34: no case of `ts_lex` accepts `aux_sym_hostname_token1`, so no call of
`ts_lex`, from whatever state and on whatever input, returns it.  The parse
tables do provide for it: its entries are those of `anon_sym_localhost` in
every state but the error state 0, with a shift to state 33 in the states 1, 3
and 14 and a shift with the repetition flag in state 2.  A dotted quad such as
`1.2.3.4` is returned as `aux_sym_domain_token1`.  The only reduction to `sym_hostname` is
the one with one child in state 33, and state 33 is entered only by a shift of
`anon_sym_localhost` or of the token that is never returned. -/
theorem C34_hostname_token_dead (input : List Nat) (state symbol : Nat) :
    (∀ tok, ts_lex input state = some tok → tok.symbol ≠ aux_sym_hostname_token1) ∧
    ((List.range LEX_STATE_COUNT).all fun s =>
      (ts_lex_state s true 0).all fun c => c.accept != some aux_sym_hostname_token1) = true ∧
    ts_language_actions 1 aux_sym_hostname_token1 = [SHIFT 33] ∧
    ts_language_actions 3 aux_sym_hostname_token1 = [SHIFT 33] ∧
    ts_language_actions 14 aux_sym_hostname_token1 = [SHIFT 33] ∧
    ts_language_actions 2 aux_sym_hostname_token1 =
      [REDUCE aux_sym_source_file_repeat1 2 0 0, SHIFT_REPEAT 33] ∧
    (state ≠ 0 → ts_language_actions state aux_sym_hostname_token1 =
      ts_language_actions state anon_sym_localhost) ∧
    ts_lex (codes "1.2.3.4") 26 = some ⟨aux_sym_domain_token1, 0, 7⟩ ∧
    ts_lex (codes "1.2.3.4") 25 = some ⟨aux_sym_domain_token1, 0, 7⟩ ∧
    ts_lex (codes "1.2.3.4") 1 = some ⟨aux_sym_domain_token1, 0, 7⟩ ∧
    (symbol < TOKEN_COUNT →
      (∀ a ∈ ts_language_actions state symbol, ∀ n d p,
        a = REDUCE sym_hostname n d p → state = 33 ∧ n = 1) ∧
      ((SHIFT 33 ∈ ts_language_actions state symbol ∨
          SHIFT_REPEAT 33 ∈ ts_language_actions state symbol) →
        symbol = anon_sym_localhost ∨ symbol = aux_sym_hostname_token1)) ∧
    (TOKEN_COUNT ≤ symbol → ts_language_lookup state symbol ≠ 33) := by
  refine ⟨?_, by decide!, by decide, by decide, by decide, by decide, ?_, by decide, by decide,
    by decide, fun hx => ⟨?_, ?_⟩, ?_⟩
  · intro tok h
    by_cases hs : state < LEX_STATE_COUNT
    · exact mem_symbolsBut _ _
        (lexClosed_spec (fun _ => true) (symbolsBut aux_sym_hostname_token1)
          noHostnameToken_closed input state 0 0 tok rfl hs h)
    · rw [ts_lex_beyond input state (Nat.le_of_not_lt hs)] at h
      exact absurd h (by simp)
  · intro hne
    have h : ∀ s < STATE_COUNT, s ≠ 0 → ts_language_actions s aux_sym_hostname_token1 =
        ts_language_actions s anon_sym_localhost := by
      decide!
    by_cases hs : state < STATE_COUNT
    · exact h state hs hne
    · rw [ts_language_actions_beyond state hs, ts_language_actions_beyond state hs]
  · intro a ha n d p hred
    simpa using reduce_forall sym_hostname (fun s n => decide (s = 33 ∧ n = 1)) (by decide!)
      state symbol hx a ha n d p hred
  · exact ts_language_actions_forall
      (fun _ x acts => (SHIFT 33 ∈ acts ∨ SHIFT_REPEAT 33 ∈ acts) →
        x = anon_sym_localhost ∨ x = aux_sym_hostname_token1)
      (fun _ _ h => by simp at h) (by decide!) state symbol hx
  · exact ts_language_lookup_forall (fun _ _ v => v ≠ 33)
      (fun _ _ => show (0 : Nat) ≠ 33 by decide) (by decide!)
      state symbol

/-! ## C36: the port token, in every case -/

/-- C36: in lex state 0, an input whose first non-whitespace character is a
decimal digit gives the token `sym_port`, which starts at that digit and spans
the first five, at most, of the `n` digits that follow each other there
(`min n 5` characters).  A port token is returned in no other case: in lex
state 0 only when the first non-whitespace character is a digit, and in no
other lex state that the parser uses. -/
theorem C36_port_token (input : List Nat) :
    (∀ ws c rest, input = ws ++ c :: rest → ws.all isWhitespace = true → isDigit c = true →
      ts_lex input 0 = some ⟨sym_port, ws.length,
        ws.length + min ((c :: rest).takeWhile isDigit).length 5⟩ ∧
      1 ≤ min ((c :: rest).takeWhile isDigit).length 5) ∧
    (∀ tok, ts_lex input 0 = some tok → tok.symbol = sym_port →
      ∃ ws rest, input = ws ++ rest ∧ ws.all isWhitespace = true ∧
        1 ≤ (rest.takeWhile isDigit).length ∧ tok.start = ws.length ∧
        tok.stop = ws.length + min (rest.takeWhile isDigit).length 5) ∧
    (∀ s ∈ lexEntryStates, ∀ tok, ts_lex input s = some tok → tok.symbol = sym_port →
      s = 0) := by
  refine ⟨?_, ?_, ?_⟩
  · intro ws c rest hin hws hc
    have hst := ts_lex_state_eq_of_class 0 false isDigit isDigit_class
      (some ⟨none, ADVANCE 119⟩) (by decide!) c hc
    have h1 : ts_lex (c :: rest) 0 =
        some ⟨sym_port, 0, 1 + min (rest.takeWhile isDigit).length 4⟩ := by
      rw [ts_lex_step 0 c 119 rest hst, port_tail]
    have h3 := lex_skip 0 (entry_skips 0 (by decide)) ws (c :: rest)
      (by rw [all_isSkipped_of_ne 0 (by decide)]; exact hws)
    rw [h1] at h3
    have htw := takeWhile_cons_of_pos isDigit c rest hc
    constructor
    · rw [hin, h3, htw]
      simp only [Option.map_some', shiftToken, Nat.zero_add, List.length_cons,
        Nat.succ_min_succ]
      congr 2
      omega
    · rw [htw]
      simp only [List.length_cons, Nat.succ_min_succ]
      omega
  · intro tok h hsym
    obtain ⟨ws, rest, hin, hall, hlen, hstart, hstop⟩ := lex0_port input 0 tok h hsym
    exact ⟨ws, rest, hin, hall, hlen, by omega, by omega⟩
  · intro s hs tok h hsym
    by_contra hne
    have hmem := lexStaysIn_spec notPortState symbolsButPort notPortState_stays input s 0 0 none
      tok
      (by
        simp only [lexEntryStates, List.mem_cons, List.mem_singleton, List.not_mem_nil,
          or_false] at hs
        rcases hs with rfl | rfl | rfl | rfl | rfl | rfl | rfl | rfl | rfl <;>
          first
            | exact absurd rfl hne
            | decide)
      (by
        simp only [lexEntryStates, List.mem_cons, List.mem_singleton, List.not_mem_nil,
          or_false] at hs
        rcases hs with rfl | rfl | rfl | rfl | rfl | rfl | rfl | rfl | rfl <;> decide)
      (by simp) h
    simp only [symbolsButPort, List.mem_filter, bne_iff_ne, ne_eq] at hmem
    exact hmem.2 hsym

/-! ## C38: runs of newlines -/

theorem takeWhile_replicate_append (p : Nat → Bool) (x : Nat) (hx : p x = true) (rest : List Nat)
    (hrest : ∀ c ∈ rest.head?, p c = false) :
    ∀ k, ((List.replicate k x ++ rest).takeWhile p).length = k := by
  intro k
  induction k with
  | zero =>
    cases rest with
    | nil => rfl
    | cons c cs =>
      have := hrest c (by simp)
      simp [List.takeWhile, this]
  | succ k ih =>
    rw [List.replicate_succ, List.cons_append, takeWhile_cons_of_pos p x _ hx, List.length_cons,
      ih]

/-- C38: in the lex state 25 (inside a line) an input that starts with `k`
newlines, `k` at least 1, and goes on with another character or ends there
gives one token `anon_sym_LF` that spans all `k` newlines.  In the lex state 26
(the start of a line) the `k` newlines are skipped like other whitespace: the
result is the token found behind them, or the end token when nothing follows,
and lex state 26 never returns `anon_sym_LF`. -/
theorem C38_newline_runs (k : Nat) (rest : List Nat) (hk : 1 ≤ k)
    (hrest : rest.head? ≠ some 10) :
    ts_lex (List.replicate k 10 ++ rest) 25 = some ⟨anon_sym_LF, 0, k⟩ ∧
    ts_lex (List.replicate k 10 ++ rest) 26 = (ts_lex rest 26).map (shiftToken k) ∧
    ts_lex (List.replicate k 10) 26 = some ⟨ts_builtin_sym_end, k, k⟩ ∧
    (∀ input tok, ts_lex input 26 = some tok → tok.symbol ≠ anon_sym_LF) := by
  have hall : (List.replicate k 10).all (isSkipped 26) = true := by
    rw [List.all_eq_true]
    intro x hx
    rw [List.eq_of_mem_replicate hx]
    decide
  have hskip := lex_skip 26 (entry_skips 26 (by decide)) (List.replicate k 10)
  refine ⟨?_, ?_, ?_, ?_⟩
  · obtain ⟨j, rfl⟩ : ∃ j, k = j + 1 := ⟨k - 1, by omega⟩
    obtain ⟨a, ha, h2⟩ := lex_enter_run 25 (fun x => decide (x = 10)) isNewline_class
      (fun s => s == 28) (fun x => decide (x = 10)) isNewline_class [anon_sym_LF] (by decide!)
      newlineState_runs 10 (List.replicate j 10 ++ rest) (by decide)
    simp only [List.mem_singleton] at ha
    subst ha
    rw [List.replicate_succ, List.cons_append, h2,
      takeWhile_replicate_append (fun x => decide (x = 10)) 10 (by decide) rest
        (by
          intro c hc
          have : rest.head? = some c := hc
          have hne : c ≠ 10 := fun h10 => hrest (by rw [this, h10])
          simpa using hne)
        j]
    simp [Nat.add_comm]
  · have h := hskip rest hall
    simpa using h
  · have h := hskip [] hall
    rw [List.append_nil, show ts_lex [] 26 = some ⟨ts_builtin_sym_end, 0, 0⟩ by decide] at h
    simpa [shiftToken] using h
  · intro input tok h
    exact mem_symbolsBut _ _
      (lexClosed_spec (fun s => !([25, 28].contains s)) (symbolsBut anon_sym_LF)
        notNewlineState_closed input 26 0 0 tok (by decide) (by decide) h)

/-- C38 at a concrete input: three newlines before `/a`. -/
theorem C38_newline_runs_witness :
    1 ≤ 3 ∧ (codes "/a").head? ≠ some 10 ∧
    ts_lex (List.replicate 3 10 ++ codes "/a") 25 = some ⟨anon_sym_LF, 0, 3⟩ ∧
    ts_lex (List.replicate 3 10 ++ codes "/a") 26 =
      (ts_lex (codes "/a") 26).map (shiftToken 3) :=
  ⟨by decide, by decide,
    (C38_newline_runs 3 (codes "/a") (by decide) (by decide)).1,
    (C38_newline_runs 3 (codes "/a") (by decide) (by decide)).2.1⟩
/-! ## C37: the progress of the lexer -/

set_option maxRecDepth 100000 in
theorem lexProgress_holds : lexProgressCheck = true := by
  decide!

theorem lexProgress_case (s : Nat) (c : Nat) :
    lexProgressCaseOk s false (ts_lex_state s false c) = true := by
  by_cases hs : s < LEX_STATE_COUNT
  · have h := lexProgress_holds
    simp only [lexProgressCheck, List.all_eq_true, Bool.and_eq_true, List.mem_range] at h
    exact ts_lex_state_forall s false (fun o => lexProgressCaseOk s false o = true)
      (h s hs).2 c
  · rw [ts_lex_state_none s (Nat.le_of_not_lt hs)]
    rfl

theorem lexProgress_eof (s : Nat) : lexProgressCaseOk s true (ts_lex_state s true 0) = true := by
  by_cases hs : s < LEX_STATE_COUNT
  · have h := lexProgress_holds
    simp only [lexProgressCheck, List.all_eq_true, Bool.and_eq_true, List.mem_range] at h
    exact (h s hs).1
  · rw [ts_lex_state_none s (Nat.le_of_not_lt hs)]
    rfl

theorem lexProgress_end (s pos start : Nat) (res : Option (Nat × Nat)) (acc : Option Nat)
    (eof : Bool) (k : Nat) (tok : Token)
    (hinv : lexProgressInv s pos start res)
    (hok : lexProgressCaseOk s eof (some ⟨acc, END_STATE⟩) = true)
    (h : endState start (acceptToken ⟨acc, END_STATE⟩ pos res) = some tok) :
    tok.symbol ≠ ts_builtin_sym_end ∧ tok.start < tok.stop ∧ tok.stop ≤ pos + k := by
  rcases hinv with ⟨he, _, hres⟩ | ⟨he, h27, hlt, hres⟩
  · cases acc with
    | none =>
      subst hres
      simp [acceptToken, endState] at h
    | some a => simp [lexProgressCaseOk, he] at hok
  · cases acc with
    | none =>
      cases hr : res with
      | none => rw [hr] at h; simp [acceptToken, endState] at h
      | some r =>
        rw [hr] at h
        simp only [acceptToken, endState, Option.map_some', Option.some.injEq] at h
        obtain ⟨h1, h2, h3⟩ := hres r hr
        subst h
        exact ⟨h3, h1, by show r.2 ≤ pos + k; omega⟩
    | some a =>
      simp only [acceptToken, endState, Option.map_some', Option.some.injEq] at h
      subst h
      have hs27 : (s == 27) = false := by simpa using h27
      simp only [lexProgressCaseOk, he, Bool.not_false, Bool.true_and, hs27, Bool.or_false,
        Bool.and_true, bne_iff_ne, ne_eq] at hok
      exact ⟨hok, hlt, by show pos ≤ pos + k; omega⟩

/-- The lexer makes progress: from a situation that satisfies `lexProgressInv`
it returns the empty end token at the end of the input, or a non-empty
token. -/
theorem lex_progress :
    ∀ (input : List Nat) (s pos start : Nat) (res : Option (Nat × Nat)) (tok : Token),
      lexProgressInv s pos start res → ts_lex_loop input s pos start res = some tok →
      lexProgressPost input pos tok := by
  intro input
  induction input with
  | nil =>
    intro s pos start res tok hinv h
    have hok := lexProgress_eof s
    rw [ts_lex_loop_nil, show (340 : Nat) = 338 + 1 + 1 from rfl, ts_lex_eof_succ] at h
    cases hcase : ts_lex_state s true 0 with
    | none => rw [hcase] at h; simp at h
    | some lc =>
      obtain ⟨acc, mv⟩ := lc
      rw [hcase] at h hok
      cases mv with
      | ADVANCE n =>
        simp only [lexProgressCaseOk, if_true, Bool.and_eq_true, beq_iff_eq] at hok
        obtain ⟨hacc, he, hn⟩ := hok
        subst hn
        rcases hinv with ⟨_, hpos, hres⟩ | ⟨he2, _⟩
        · cases acc with
          | some a => simp [he] at hacc
          | none =>
            subst hres
            simp only [acceptToken] at h
            rw [ts_lex_eof_succ,
              show ts_lex_state 27 true 0 = some ⟨some ts_builtin_sym_end, END_STATE⟩ by
                decide] at h
            simp only [acceptToken, endState, Option.map_some', Option.some.injEq] at h
            subst h
            exact Or.inl ⟨rfl, by simp [hpos], by simp⟩
        · rw [he] at he2
          exact absurd he2 (by decide)
      | SKIP n => simp [lexProgressCaseOk] at hok
      | END_STATE =>
        simp only [] at h
        exact Or.inr (lexProgress_end s pos start res acc true _ tok hinv hok h)
  | cons c cs ih =>
    intro s pos start res tok hinv h
    have hok := lexProgress_case s c
    rw [ts_lex_loop_cons] at h
    cases hcase : ts_lex_state s false c with
    | none => rw [hcase] at h; simp at h
    | some lc =>
      obtain ⟨acc, mv⟩ := lc
      rw [hcase] at h hok
      have hshift : ∀ t, lexProgressPost cs (pos + 1) t → lexProgressPost (c :: cs) pos t := by
        intro t ht
        simp only [lexProgressPost, List.length_cons] at ht ⊢
        rcases ht with ⟨h1, h2, h3⟩ | ⟨h1, h2, h3⟩
        · exact Or.inl ⟨h1, by omega, by omega⟩
        · exact Or.inr ⟨h1, h2, by omega⟩
      cases mv with
      | ADVANCE n =>
        simp only [] at h
        simp only [lexProgressCaseOk, Bool.false_eq_true, if_false, Bool.and_eq_true,
          Bool.not_eq_true', bne_iff_ne, ne_eq] at hok
        obtain ⟨hacc, hn, hn27⟩ := hok
        apply hshift
        refine ih n (pos + 1) start _ tok (Or.inr ⟨hn, hn27, ?_, ?_⟩) h
        · rcases hinv with ⟨_, hpos, _⟩ | ⟨_, _, hlt, _⟩ <;> omega
        · intro r hr
          rcases hinv with ⟨he, _, hres⟩ | ⟨he, h27, hlt, hres⟩
          · cases acc with
            | some a => simp [he] at hacc
            | none =>
              subst hres
              simp [acceptToken] at hr
          · cases acc with
            | none =>
              simp only [acceptToken] at hr
              obtain ⟨h1, h2, h3⟩ := hres r hr
              exact ⟨h1, by omega, h3⟩
            | some a =>
              simp only [acceptToken, Option.some.injEq] at hr
              subst hr
              have hs27 : (s == 27) = false := by simpa using h27
              simp only [he, Bool.not_false, Bool.true_and, hs27, Bool.or_false, bne_iff_ne,
                ne_eq] at hacc
              exact ⟨hlt, by show pos ≤ pos + 1; omega, hacc⟩
      | SKIP n =>
        simp only [] at h
        simp only [lexProgressCaseOk, Bool.not_false, Bool.true_and, Bool.and_eq_true,
          beq_iff_eq] at hok
        obtain ⟨hacc, he, hn⟩ := hok
        subst hn
        apply hshift
        refine ih n (pos + 1) (pos + 1) _ tok (Or.inl ⟨he, rfl, ?_⟩) h
        rcases hinv with ⟨_, _, hres⟩ | ⟨he2, _⟩
        · cases acc with
          | some a => simp [he] at hacc
          | none =>
            subst hres
            rfl
        · rw [he] at he2
          exact absurd he2 (by decide)
      | END_STATE =>
        simp only [] at h
        exact Or.inr (lexProgress_end s pos start res acc false _ tok hinv hok h)

/-- C37: a token that `ts_lex` returns from one of the lex states that
`ts_lex_modes` lists (0, 1, 2, 5, 21, 23, 24, 25, 26), with a symbol other than
`ts_builtin_sym_end`, is not empty: its text, the characters between the token
start (behind the skipped characters) and the marked end, lies within the
input and has at least one character.  The end token is returned only at the
end of the input: it is the empty token at the position `len(input)`. -/
theorem C37_lexer_progress (input : List Nat) (state : Nat) (tok : Token)
    (hstate : state ∈ lexEntryStates) (h : ts_lex input state = some tok) :
    (∀ ps, ps < STATE_COUNT → lexMode ps ∈ lexEntryStates) ∧
    (tok.symbol ≠ ts_builtin_sym_end →
      tok.start < tok.stop ∧ tok.stop ≤ input.length ∧ tokenText input tok ≠ []) ∧
    (tok.symbol = ts_builtin_sym_end →
      tok.start = input.length ∧ tok.stop = input.length) := by
  have he : isEntryState state = true := by
    simpa [isEntryState] using hstate
  have hpost := lex_progress input state 0 0 none tok (Or.inl ⟨he, rfl, rfl⟩) h
  simp only [lexProgressPost, Nat.zero_add] at hpost
  refine ⟨by decide, ?_, ?_⟩
  · intro hsym
    rcases hpost with ⟨h1, _⟩ | ⟨_, h2, h3⟩
    · exact absurd h1 hsym
    · refine ⟨h2, h3, ?_⟩
      intro hnil
      have hlen : (tokenText input tok).length = tok.stop - tok.start := by
        simp only [tokenText, List.length_take, List.length_drop]
        omega
      rw [hnil] at hlen
      simp only [List.length_nil] at hlen
      omega
  · intro hsym
    rcases hpost with ⟨_, h2, h3⟩ | ⟨h1, _⟩
    · exact ⟨h2, h3⟩
    · exact absurd hsym h1

/-- C37 at a concrete input: the key `page` of ` page=2` in the lex state 5. -/
theorem C37_lexer_progress_witness :
    (5 : Nat) ∈ lexEntryStates ∧
    ts_lex (codes " page=2") 5 = some ⟨aux_sym_key_token1, 1, 5⟩ ∧
    ((⟨aux_sym_key_token1, 1, 5⟩ : Token).symbol ≠ ts_builtin_sym_end →
      (1 : Nat) < 5 ∧ 5 ≤ (codes " page=2").length ∧
        tokenText (codes " page=2") ⟨aux_sym_key_token1, 1, 5⟩ ≠ []) :=
  ⟨by decide, by decide,
    (C37_lexer_progress (codes " page=2") 5 ⟨aux_sym_key_token1, 1, 5⟩ (by decide)
      (by decide)).2.1⟩
/-! ## States of the lexer that record what they have read -/

theorem infoOf_mem {α : Type} (table : List (Nat × α)) (n : Nat) (a : α)
    (h : infoOf table n = some a) : (n, a) ∈ table := by
  induction table with
  | nil => simp [infoOf] at h
  | cons e t ih =>
    simp only [infoOf] at h
    by_cases he : e.1 = n
    · rw [if_pos he] at h
      simp only [Option.some.injEq] at h
      have : e = (n, a) := by
        rw [← he, ← h]
      rw [this]
      exact List.mem_cons_self _ _
    · rw [if_neg he] at h
      exact List.mem_cons_of_mem _ (ih h)

/-- In a state that a checked table describes by `a`, the lexer runs over the
longest run of characters of `q` and returns the symbol of the description that
`step` makes of `a` and this run. -/
theorem lexSim_run {α : Type} [DecidableEq α] (table : List (Nat × α)) (step : α → Nat → α)
    (sym : α → Nat) (q : Nat → Bool) (hq : ∀ c, q (charClass c) = q c)
    (hstep : ∀ a c, step a (charClass c) = step a c)
    (hcheck : lexSimCheck table step sym q = true) :
    ∀ (rest : List Nat) (s : Nat) (a : α) (pos start : Nat) (res : Option (Nat × Nat)),
      (s, a) ∈ table →
      ts_lex_loop rest s pos start res =
        some ⟨sym ((rest.takeWhile q).foldl step a), start,
          pos + (rest.takeWhile q).length⟩ := by
  intro rest
  induction rest with
  | nil =>
    intro s a pos start res hmem
    have h := List.all_eq_true.mp hcheck (s, a) hmem
    simp only [Bool.and_eq_true] at h
    have h1 := h.1
    cases hcase : ts_lex_state s true 0 with
    | none => rw [hcase] at h1; simp at h1
    | some lc =>
      obtain ⟨acc, mv⟩ := lc
      rw [hcase] at h1
      cases acc with
      | none => simp at h1
      | some x =>
        cases mv with
        | ADVANCE n => simp at h1
        | SKIP n => simp at h1
        | END_STATE =>
          simp only [beq_iff_eq] at h1
          subst h1
          rw [ts_lex_loop_nil_end s pos start res _ hcase]
          rfl
  | cons c cs ih =>
    intro s a pos start res hmem
    have h := List.all_eq_true.mp hcheck (s, a) hmem
    simp only [Bool.and_eq_true] at h
    have h2 := List.all_eq_true.mp h.2 (charClass c) (charClass_mem c)
    rw [ts_lex_state_class] at h2
    cases hcase : ts_lex_state s false c with
    | none => rw [hcase] at h2; simp at h2
    | some lc =>
      obtain ⟨acc, mv⟩ := lc
      rw [hcase] at h2
      cases acc with
      | none => simp at h2
      | some x =>
        cases mv with
        | ADVANCE n =>
          simp only [Bool.and_eq_true, beq_iff_eq, decide_eq_true_eq] at h2
          obtain ⟨⟨hx, hqc⟩, hinfo⟩ := h2
          rw [hq] at hqc
          rw [hstep] at hinfo
          have hn := infoOf_mem table n _ hinfo
          rw [ts_lex_loop_advance c cs s pos start res _ n hcase, ih n _ _ _ _ hn]
          simp only [List.takeWhile, hqc, List.foldl_cons, List.length_cons]
          congr 2
          omega
        | SKIP n => simp at h2
        | END_STATE =>
          simp only [Bool.and_eq_true, beq_iff_eq, Bool.not_eq_true'] at h2
          obtain ⟨hx, hqc⟩ := h2
          rw [hq] at hqc
          subst hx
          rw [ts_lex_loop_end c cs s pos start res _ hcase]
          simp only [List.takeWhile, hqc, List.foldl_nil, List.length_nil, Nat.add_zero]
          rfl

/-- The same from an entry state: a first character of `p` and the run of
characters of `q` behind it. -/
theorem lexSim_first {α : Type} [DecidableEq α] (table : List (Nat × α)) (step : α → Nat → α)
    (sym : α → Nat) (q : Nat → Bool) (hq : ∀ c, q (charClass c) = q c)
    (hstep : ∀ a c, step a (charClass c) = step a c)
    (hcheck : lexSimCheck table step sym q = true)
    (first : Nat → α) (p : Nat → Bool) (e : Nat) (hp : ∀ c, p (charClass c) = p c)
    (hfirst : ∀ c, first (charClass c) = first c)
    (hentry : lexSimEntry table first p e = true)
    (c : Nat) (rest : List Nat) (hc : p c = true) :
    ts_lex (c :: rest) e =
      some ⟨sym ((rest.takeWhile q).foldl step (first c)), 0,
        1 + (rest.takeWhile q).length⟩ := by
  have h := List.all_eq_true.mp hentry (charClass c) (charClass_mem c)
  rw [hp, hc, ts_lex_state_class, hfirst] at h
  simp only [Bool.not_true, Bool.false_or] at h
  cases hcase : ts_lex_state e false c with
  | none => rw [hcase] at h; simp at h
  | some lc =>
    obtain ⟨acc, mv⟩ := lc
    rw [hcase] at h
    cases acc with
    | some x => simp at h
    | none =>
      cases mv with
      | ADVANCE n =>
        simp only [decide_eq_true_eq] at h
        have hn := infoOf_mem table n _ h
        rw [ts_lex_step e c n rest hcase,
          lexSim_run table step sym q hq hstep hcheck rest n _ 1 0 none hn]
      | SKIP n => simp at h
      | END_STATE => simp at h

/-! ## C35: the token of a query value -/

theorem valueStep_class (a : ValueRun) (c : Nat) : valueStep a (charClass c) = valueStep a c := by
  cases a <;>
    simp (disch := decide) only [valueStep, isWhitespace_class, charClass_eq]

set_option maxRecDepth 100000 in
theorem valueTable_checked :
    lexSimCheck valueTable valueStep valueSymbol isValueChar = true := by
  decide!

set_option maxRecDepth 100000 in
theorem valueTable_entry :
    lexSimEntry valueTable (valueStep .blank) isValueChar 21 = true := by
  decide!

theorem valueStep_other (l : List Nat) : l.foldl valueStep .other = .other := by
  induction l with
  | nil => rfl
  | cons c cs ih => simpa [List.foldl_cons, valueStep] using ih

theorem valueStep_braces (l : List Nat) : l.foldl valueStep .braces = .braces ↔ l = [] := by
  cases l with
  | nil => simp
  | cons c cs =>
    simp only [List.foldl_cons, valueStep, valueStep_other]
    simp

theorem valueStep_brace (l : List Nat) : l.foldl valueStep .brace = .braces ↔ l = [123] := by
  cases l with
  | nil => simp
  | cons c cs =>
    simp only [List.foldl_cons, valueStep]
    by_cases hc : c = 123
    · rw [if_pos hc, valueStep_braces]
      simp [hc]
    · rw [if_neg hc, valueStep_other]
      simp [hc]

/-- The record of a query value is `braces` exactly for whitespace followed by
two opening braces. -/
theorem valueStep_blank (l : List Nat) :
    l.foldl valueStep .blank = .braces ↔
      ∃ ws, l = ws ++ [123, 123] ∧ ws.all isWhitespace = true := by
  induction l with
  | nil => simp
  | cons c cs ih =>
    simp only [List.foldl_cons, valueStep]
    by_cases hc : c = 123
    · rw [if_pos hc, valueStep_brace]
      subst hc
      constructor
      · intro h
        exact ⟨[], by simp [h], rfl⟩
      · rintro ⟨ws, hws, hall⟩
        cases ws with
        | nil => simpa using hws
        | cons w ws' =>
          simp only [List.cons_append, List.cons.injEq] at hws
          rw [← hws.1] at hall
          simp [isWhitespace] at hall
    · rw [if_neg hc]
      by_cases hw : isWhitespace c = true
      · rw [if_pos hw, ih]
        constructor
        · rintro ⟨ws, hws, hall⟩
          exact ⟨c :: ws, by simp [hws], by simp [hw, hall]⟩
        · rintro ⟨ws, hws, hall⟩
          cases ws with
          | nil =>
            simp only [List.nil_append, List.cons.injEq] at hws
            exact absurd hws.1 hc
          | cons w ws' =>
            simp only [List.cons_append, List.cons.injEq] at hws
            simp only [List.all_cons, Bool.and_eq_true] at hall
            exact ⟨ws', hws.2, hall.2⟩
      · rw [if_neg hw, valueStep_other]
        constructor
        · intro h
          exact absurd h (by decide)
        · rintro ⟨ws, hws, hall⟩
          cases ws with
          | nil =>
            simp only [List.nil_append, List.cons.injEq] at hws
            exact absurd hws.1 hc
          | cons w ws' =>
            simp only [List.cons_append, List.cons.injEq] at hws
            simp only [List.all_cons, Bool.and_eq_true] at hall
            rw [← hws.1] at hall
            exact absurd hall.1 hw

theorem valueSymbol_start (a : ValueRun) :
    valueSymbol a = sym_variable_delim_start ↔ a = .braces := by
  cases a <;> simp [valueSymbol]

theorem valueSymbol_cases (a : ValueRun) :
    valueSymbol a = sym_variable_delim_start ∨ valueSymbol a = aux_sym_value_token1 := by
  cases a <;> simp [valueSymbol]

theorem dropWhile_head_not (q : Nat → Bool) (l : List Nat) :
    ∀ x ∈ (l.drop (l.takeWhile q).length).head?, q x = false := by
  induction l with
  | nil => simp
  | cons c cs ih =>
    by_cases hc : q c = true
    · simpa [List.takeWhile, hc] using ih
    · intro x hx
      simp only [List.takeWhile, hc, List.length_nil, List.drop_zero, List.head?_cons,
        Option.mem_def, Option.some.injEq] at hx
      rw [← hx]
      simpa using hc

/-- C35: in the lex state 21 (after `=`), on an input whose first character is
neither `&` nor NUL, `ts_lex` returns a token that starts at the first
character (nothing is skipped) and covers the longest prefix `p` without `&`
and NUL.  The symbol is `sym_variable_delim_start` exactly when `p` consists of
whitespace characters, possibly none, followed by two opening braces, and
`aux_sym_value_token1` otherwise.  The character behind the token, if any, is
`&` or NUL; so a variable start is returned only right before `&`, NUL or the
end of input, and a variable written in full after `=` is one value token.
On an input that is empty or begins with `&` or NUL no token is returned. -/
theorem C35_value_token (c : Nat) (rest : List Nat) (hc : isValueChar c = true) :
    (∃ symbol, ts_lex (c :: rest) 21 =
        some ⟨symbol, 0, ((c :: rest).takeWhile isValueChar).length⟩ ∧
      (symbol = sym_variable_delim_start ↔
        ∃ ws, (c :: rest).takeWhile isValueChar = ws ++ [123, 123] ∧
          ws.all isWhitespace = true) ∧
      (symbol ≠ sym_variable_delim_start → symbol = aux_sym_value_token1)) ∧
    (∀ x ∈ ((c :: rest).drop ((c :: rest).takeWhile isValueChar).length).head?,
      x = 38 ∨ x = 0) ∧
    (∀ input : List Nat, (∀ x ∈ input.head?, isValueChar x = false) →
      ts_lex input 21 = none) ∧
    ts_lex (codes "\x7b\x7bn\x7d\x7d") 21 = some ⟨aux_sym_value_token1, 0, 5⟩ ∧
    ts_lex (codes "\x7b\x7b&a=b") 21 = some ⟨sym_variable_delim_start, 0, 2⟩ := by
  have h := lexSim_first valueTable valueStep valueSymbol isValueChar isValueChar_class
    valueStep_class valueTable_checked (valueStep .blank) isValueChar 21 isValueChar_class
    (valueStep_class .blank) valueTable_entry c rest hc
  have htw := takeWhile_cons_of_pos isValueChar c rest hc
  refine ⟨⟨valueSymbol ((rest.takeWhile isValueChar).foldl valueStep (valueStep .blank c)),
    ?_, ?_, ?_⟩, ?_, ?_, by decide, by decide⟩
  · rw [h, htw]
    simp [Nat.add_comm]
  · rw [valueSymbol_start, htw, ← List.foldl_cons, valueStep_blank]
  · intro hne
    rcases valueSymbol_cases ((rest.takeWhile isValueChar).foldl valueStep (valueStep .blank c))
      with h1 | h1
    · exact absurd h1 hne
    · exact h1
  · intro x hx
    have := dropWhile_head_not isValueChar (c :: rest) x hx
    simp only [isValueChar, ne_eq, decide_eq_false_iff_not, not_and, Decidable.not_not] at this
    by_cases h0 : x = 0
    · exact Or.inr h0
    · exact Or.inl (this h0)
  · intro input hin
    cases input with
    | nil => decide
    | cons x xs =>
      have hx := hin x (by simp)
      exact lex_none_of_class 21 (fun r => !isValueChar r)
        (fun r => by simp only [isValueChar_class]) (by decide!) x xs (by simp [hx])

/-- C35 at a concrete input: the value `a b` of `a b&c=d`. -/
theorem C35_value_token_witness :
    isValueChar 97 = true ∧
    ∃ symbol, ts_lex (97 :: codes " b&c=d") 21 =
        some ⟨symbol, 0, ((97 :: codes " b&c=d").takeWhile isValueChar).length⟩ ∧
      (symbol = sym_variable_delim_start ↔
        ∃ ws, (97 :: codes " b&c=d").takeWhile isValueChar = ws ++ [123, 123] ∧
          ws.all isWhitespace = true) ∧
      (symbol ≠ sym_variable_delim_start → symbol = aux_sym_value_token1) :=
  ⟨by decide, (C35_value_token 97 (codes " b&c=d") (by decide)).1⟩
/-! ## The states inside a token of the path and domain contexts -/

theorem labelStep_class (a : LabelRun) (c : Nat) :
    labelStep a (charClass c) = labelStep a c := by
  simp (disch := decide) only [labelStep, isAlnum, isDigit_class, isLetter_class, charClass_eq]

theorem isKeywordLetter_class (c : Nat) :
    isKeywordLetter (charClass c) = isKeywordLetter c := by
  simp (disch := decide) only [isKeywordLetter, charClass_eq]

theorem charClass_keywordLetter (c : Nat) (h : isKeywordLetter c = true) : charClass c = c := by
  simp only [isKeywordLetter, decide_eq_true_eq] at h
  rcases h with rfl | rfl | rfl | rfl | rfl | rfl | rfl | rfl | rfl | rfl <;> decide

theorem keywordTable_letters :
    ∀ k ∈ wordsOf keywordTable, ∀ y ∈ k, isKeywordLetter y = true := by
  decide

theorem localhostTable_letters :
    ∀ k ∈ wordsOf localhostTable, ∀ y ∈ k, isKeywordLetter y = true := by
  decide

/-- A run that ends with a character that is in no keyword is the beginning of
no keyword. -/
theorem kwOf_other (words : List (List Nat))
    (hw : ∀ k ∈ words, ∀ y ∈ k, isKeywordLetter y = true)
    (w : List Nat) (x : Nat) (hx : isKeywordLetter x = false) : kwOf words (w ++ [x]) = [] := by
  unfold kwOf
  rw [if_neg]
  intro hany
  rw [List.any_eq_true] at hany
  obtain ⟨k, hk, hpre⟩ := hany
  have hp : (w ++ [x]) <+: k := List.isPrefixOf_iff_prefix.mp hpre
  have hmem : x ∈ k := hp.subset (by simp)
  rw [hw k hk x hmem] at hx
  exact absurd hx (by decide)

theorem kwOf_class (words : List (List Nat))
    (hw : ∀ k ∈ words, ∀ y ∈ k, isKeywordLetter y = true) (w : List Nat) (c : Nat) :
    kwOf words (w ++ [charClass c]) = kwOf words (w ++ [c]) := by
  by_cases hc : isKeywordLetter c = true
  · rw [charClass_keywordLetter c hc]
  · have hc2 : isKeywordLetter c = false := by simpa using hc
    rw [kwOf_other words hw w c hc2,
      kwOf_other words hw w (charClass c) (by rw [isKeywordLetter_class]; exact hc2)]

theorem kwStep_class (kw : List Nat) (c : Nat) : kwStep kw (charClass c) = kwStep kw c := by
  unfold kwStep
  rw [kwOf_class _ keywordTable_letters]

theorem runStep_class (a : RunInfo) (c : Nat) : runStep a (charClass c) = runStep a c := by
  simp only [runStep, kwStep_class, labelStep_class]

theorem runFirst_class (table : List (List Nat × Nat))
    (hw : ∀ k ∈ wordsOf table, ∀ y ∈ k, isKeywordLetter y = true) (c : Nat) :
    runFirst table (charClass c) = runFirst table c := by
  have h := kwOf_class (wordsOf table) hw [] c
  simp only [List.nil_append] at h
  simp only [runFirst, h, labelStep_class]

set_option maxRecDepth 1000000 in
theorem runStates_checked : lexSimCheck runStates runStep runSymbol isPathChar = true := by
  decide!

set_option maxRecDepth 1000000 in
theorem runStates_entry :
    lexSimEntry runStates (runFirst keywordTable) isSegmentStart 26 = true ∧
    lexSimEntry runStates (runFirst keywordTable) isSegmentStart 25 = true ∧
    lexSimEntry runStates (runFirst localhostTable) isSegmentStart 1 = true := by
  decide!
/-! ## What the record of a run says of the run -/

theorem foldl_runStep (l : List Nat) :
    ∀ a : RunInfo, l.foldl runStep a = ⟨l.foldl kwStep a.kw, l.foldl labelStep a.dom⟩ := by
  induction l with
  | nil => intro a; rfl
  | cons c cs ih =>
    intro a
    rw [List.foldl_cons, ih]
    rfl

/-! ### The keyword -/

theorem kwOf_snoc (w : List Nat) (c : Nat) (hw : w ≠ []) :
    kwStep (kwOf (wordsOf keywordTable) w) c = kwOf (wordsOf keywordTable) (w ++ [c]) := by
  by_cases h : (wordsOf keywordTable).any (fun k => w.isPrefixOf k) = true
  · have h1 : kwOf (wordsOf keywordTable) w = w := by
      unfold kwOf
      rw [if_pos h]
    rw [h1]
    unfold kwStep
    rw [if_neg hw]
  · have h1 : kwOf (wordsOf keywordTable) w = [] := by
      unfold kwOf
      rw [if_neg h]
    rw [h1]
    have h2 : kwOf (wordsOf keywordTable) (w ++ [c]) = [] := by
      unfold kwOf
      rw [if_neg]
      intro hany
      apply h
      rw [List.any_eq_true] at hany ⊢
      obtain ⟨k, hk, hpre⟩ := hany
      refine ⟨k, hk, ?_⟩
      have hp : (w ++ [c]) <+: k := List.isPrefixOf_iff_prefix.mp hpre
      exact List.isPrefixOf_iff_prefix.mpr ((List.prefix_append w [c]).trans hp)
    rw [h2]
    rfl

theorem foldl_kwStep (l : List Nat) :
    ∀ w : List Nat, w ≠ [] →
      l.foldl kwStep (kwOf (wordsOf keywordTable) w) = kwOf (wordsOf keywordTable) (w ++ l) := by
  induction l with
  | nil => intro w _; simp
  | cons c cs ih =>
    intro w hw
    rw [List.foldl_cons, kwOf_snoc w c hw, ih (w ++ [c]) (by simp)]
    simp

theorem foldl_kwStep_nil (l : List Nat) : l.foldl kwStep [] = [] := by
  induction l with
  | nil => rfl
  | cons c cs ih =>
    rw [List.foldl_cons]
    simpa [kwStep] using ih

/-- A run that begins with `l` is the beginning of a keyword exactly when it
is the beginning of `localhost`. -/
theorem kwOf_local (c : Nat) (l : List Nat) :
    kwOf (wordsOf localhostTable) (c :: l) =
      if c = 108 then kwOf (wordsOf keywordTable) (c :: l) else [] := by
  by_cases hc : c = 108
  · subst hc
    simp [kwOf, wordsOf, keywordTable, localhostTable, codes, List.isPrefixOf]
  · rw [if_neg hc]
    have h : (c == 108) = false := by simpa using hc
    simp [kwOf, wordsOf, localhostTable, codes, List.isPrefixOf, h]

theorem foldl_kwStep_local (c : Nat) (l : List Nat) :
    l.foldl kwStep (kwOf (wordsOf localhostTable) [c]) =
      kwOf (wordsOf localhostTable) (c :: l) := by
  rw [kwOf_local c [], kwOf_local c l]
  by_cases hc : c = 108
  · rw [if_pos hc, if_pos hc, foldl_kwStep l [c] (by simp)]
    rfl
  · rw [if_neg hc, if_neg hc, foldl_kwStep_nil]

theorem keywordOf_some (table : List (List Nat × Nat)) (run : List Nat) (x : Nat)
    (h : keywordOf table run = some x) : (run, x) ∈ table := by
  unfold keywordOf at h
  cases hf : table.find? (fun e => e.1 == run) with
  | none => rw [hf] at h; simp at h
  | some e =>
    rw [hf] at h
    simp only [Option.map_some', Option.some.injEq] at h
    have hp := List.find?_some hf
    have hm := List.mem_of_find?_eq_some hf
    have he : e = (run, x) := by
      have h1 : e.1 = run := by simpa using hp
      rw [← h1, ← h]
    rw [← he]
    exact hm

theorem keywordOf_none (table : List (List Nat × Nat)) (run : List Nat)
    (h : run ∉ wordsOf table) : keywordOf table run = none := by
  cases hk : keywordOf table run with
  | none => rfl
  | some x =>
    exfalso
    apply h
    have := keywordOf_some table run x hk
    simp only [wordsOf, List.mem_map]
    exact ⟨(run, x), this, rfl⟩

theorem isPrefixOf_self (w : List Nat) : w.isPrefixOf w = true :=
  List.isPrefixOf_iff_prefix.mpr (List.prefix_refl w)

theorem kwOf_word (words : List (List Nat)) (run : List Nat) (h : run ∈ words) :
    kwOf words run = run := by
  unfold kwOf
  rw [if_pos]
  rw [List.any_eq_true]
  exact ⟨run, h, isPrefixOf_self run⟩

theorem kwOf_cases (words : List (List Nat)) (run : List Nat) :
    kwOf words run = run ∨ kwOf words run = [] := by
  unfold kwOf
  by_cases h : words.any (fun k => run.isPrefixOf k) = true
  · rw [if_pos h]; exact Or.inl rfl
  · rw [if_neg h]; exact Or.inr rfl

/-- The keyword that the record of a run shows is the keyword that the run
is, with all six keywords. -/
theorem keywordOf_kwOf (run : List Nat) :
    keywordOf keywordTable (kwOf (wordsOf keywordTable) run) = keywordOf keywordTable run := by
  rcases kwOf_cases (wordsOf keywordTable) run with h | h
  · rw [h]
  · rw [h, show keywordOf keywordTable [] = none by decide]
    symm
    apply keywordOf_none
    intro hmem
    rw [kwOf_word _ run hmem] at h
    rw [h] at hmem
    exact absurd hmem (by decide)

/-- The same with the one keyword of the lex state 1. -/
theorem keywordOf_kwOf_local (run : List Nat) :
    keywordOf keywordTable (kwOf (wordsOf localhostTable) run) =
      keywordOf localhostTable run := by
  by_cases hrun : run = codes "localhost"
  · subst hrun
    decide
  · have h2 : keywordOf localhostTable run = none := by
      apply keywordOf_none
      simpa [wordsOf, localhostTable] using hrun
    rw [h2]
    rcases kwOf_cases (wordsOf localhostTable) run with h | h
    · have hpre : (wordsOf localhostTable).any (fun k => run.isPrefixOf k) = true := by
        by_contra hn
        have h0 : kwOf (wordsOf localhostTable) run = [] := by
          unfold kwOf
          rw [if_neg hn]
        rw [h] at h0
        subst h0
        exact hn (by decide)
      rw [h]
      apply keywordOf_none
      intro hmem
      have hp : run.isPrefixOf (codes "localhost") = true := by
        simpa [wordsOf, localhostTable] using hpre
      have hall : ∀ k ∈ wordsOf keywordTable, k.isPrefixOf (codes "localhost") = true →
          k = codes "localhost" := by
        decide
      exact hrun (hall run hmem hp)
    · rw [h]
      decide

/-! ### The labels -/

theorem foldl_labelDead (l : List Nat) (a : LabelRun) (h : a.dead = true) :
    labelAccepts (l.foldl labelStep a) = false := by
  induction l generalizing a with
  | nil => simp [labelAccepts, h]
  | cons c cs ih =>
    rw [List.foldl_cons]
    apply ih
    simp [labelStep, h, labelDead]

theorem labelRestOk_nil (len : Nat) (hy : Bool) :
    labelRestOk len hy [] = (decide (1 ≤ len ∧ len ≤ 63) && !hy) := by
  by_cases h0 : len = 0
  · subst h0
    simp [labelRestOk]
  · have : decide (len ≠ 0) = true := by simpa using h0
    simp [labelRestOk, this]

theorem labelRestOk_cons (len : Nat) (hy : Bool) (c : Nat) (l : List Nat) :
    labelRestOk len hy (c :: l) =
      (isLabelChar c && (decide (len ≠ 0) || isAlnum c) &&
        labelRestOk (len + 1) (!isAlnum c) l) := by
  have hD : ((c :: l).getLast?.map isAlnum).getD (!hy) =
      (l.getLast?.map isAlnum).getD (!(!isAlnum c)) := by
    cases l with
    | nil => simp
    | cons x xs =>
      rw [List.getLast?_cons_cons]
      cases h : (x :: xs).getLast? with
      | none => simp at h
      | some y => rfl
  have hB : decide (1 ≤ len + (c :: l).length ∧ len + (c :: l).length ≤ 63) =
      decide (1 ≤ len + 1 + l.length ∧ len + 1 + l.length ≤ 63) := by
    rw [decide_eq_decide, List.length_cons]
    omega
  have hN : decide (len + 1 ≠ 0) = true := by simp
  have hH : (c :: l).head?.any isAlnum = isAlnum c := rfl
  unfold labelRestOk
  rw [hD, hB, hN, hH, List.all_cons]
  generalize isLabelChar c = b1
  generalize l.all isLabelChar = b2
  generalize decide (1 ≤ len + 1 + l.length ∧ len + 1 + l.length ≤ 63) = b3
  generalize decide (len ≠ 0) = b4
  generalize isAlnum c = b5
  generalize l.head?.any isAlnum = b6
  generalize (l.getLast?.map isAlnum).getD (!(!b5)) = b7
  cases b1 <;> cases b2 <;> cases b3 <;> cases b4 <;> cases b5 <;> cases b6 <;> cases b7 <;> rfl

theorem labelRestOk_long (len : Nat) (hy : Bool) (l : List Nat) (h : 63 < len) :
    labelRestOk len hy l = false := by
  have hB : decide (1 ≤ len + l.length ∧ len + l.length ≤ 63) = false := by
    rw [decide_eq_false_iff_not]
    omega
  unfold labelRestOk
  rw [hB]
  simp

theorem labelRestOk_full (l : List Nat) : labelRestOk 63 true l = false := by
  cases l with
  | nil => rw [labelRestOk_nil]; rfl
  | cons x xs =>
    rw [labelRestOk_cons, labelRestOk_long 64 _ xs (by omega)]
    simp

theorem labelRestOk_isLabel (l : List Nat) : labelRestOk 0 false l = isLabel l := by
  cases l with
  | nil => rfl
  | cons x xs =>
    have h1 : ((x :: xs).getLast?.map isAlnum).getD (!false) = (x :: xs).getLast?.any isAlnum := by
      cases h : (x :: xs).getLast? with
      | none => simp at h
      | some y => rfl
    have h2 : decide (1 ≤ 0 + (x :: xs).length ∧ 0 + (x :: xs).length ≤ 63) =
        decide (1 ≤ (x :: xs).length ∧ (x :: xs).length ≤ 63) := by
      rw [Nat.zero_add]
    unfold labelRestOk isLabel
    rw [h1, h2]
    generalize (x :: xs).all isLabelChar = b1
    generalize decide (1 ≤ (x :: xs).length ∧ (x :: xs).length ≤ 63) = b2
    generalize (x :: xs).head?.any isAlnum = b3
    generalize (x :: xs).getLast?.any isAlnum = b4
    cases b1 <;> cases b2 <;> cases b3 <;> cases b4 <;> rfl

/-! ### The pieces between the dots -/

theorem splitDots_ne_nil (l : List Nat) : splitDots l ≠ [] := by
  cases l with
  | nil => simp [splitDots]
  | cons c cs =>
    unfold splitDots
    by_cases hc : c = 46
    · rw [if_pos hc]; simp
    · rw [if_neg hc]
      cases splitDots cs <;> simp

theorem splitDots_dot (cs : List Nat) : splitDots (46 :: cs) = [] :: splitDots cs := by
  rw [splitDots, if_pos rfl]

theorem splitDots_other (c : Nat) (cs : List Nat) (hc : c ≠ 46) :
    ∃ l tail, splitDots cs = l :: tail ∧ splitDots (c :: cs) = (c :: l) :: tail := by
  cases h : splitDots cs with
  | nil => exact absurd h (splitDots_ne_nil cs)
  | cons l tail =>
    refine ⟨l, tail, rfl, ?_⟩
    rw [splitDots, if_neg hc, h]

/-- The pieces of a run, put together with dots between them, give the run,
and no piece contains a dot. -/
theorem splitDots_spec (l : List Nat) :
    [46].intercalate (splitDots l) = l ∧ ∀ piece ∈ splitDots l, 46 ∉ piece := by
  induction l with
  | nil => simp [splitDots, List.intercalate]
  | cons c cs ih =>
    by_cases hc : c = 46
    · subst hc
      rw [splitDots_dot]
      cases h : splitDots cs with
      | nil => exact absurd h (splitDots_ne_nil cs)
      | cons p ps =>
        rw [h] at ih
        constructor
        · have := ih.1
          simp only [List.intercalate, List.intersperse, List.flatten_cons,
            List.nil_append, List.singleton_append] at this ⊢
          rw [this]
        · intro piece hp
          simp only [List.mem_cons] at hp
          rcases hp with rfl | hp
          · simp
          · exact ih.2 piece (by simpa using hp)
    · obtain ⟨p, ps, h1, h2⟩ := splitDots_other c cs hc
      rw [h2]
      rw [h1] at ih
      constructor
      · have := ih.1
        cases ps with
        | nil =>
          simp only [List.intercalate, List.intersperse, List.flatten_cons, List.flatten_nil,
            List.append_nil] at this ⊢
          rw [this]
        | cons q qs =>
          simp only [List.intercalate, List.intersperse, List.flatten_cons,
            List.cons_append] at this ⊢
          rw [this]
      · intro piece hp
        simp only [List.mem_cons] at hp
        rcases hp with rfl | hp
        · intro hmem
          simp only [List.mem_cons] at hmem
          rcases hmem with h46 | hmem
          · exact hc h46.symm
          · exact ih.2 p (by simp) hmem
        · exact ih.2 piece (by simp [hp])

/-! ### The record of the labels and the domain name -/

theorem isLabelChar_of_isAlnum (c : Nat) (h : isAlnum c = true) : isLabelChar c = true := by
  simp [isLabelChar, h]

/-- The record of the labels accepts exactly when the pieces that follow
complete a domain name. -/
theorem labelAccepts_foldl (cs : List Nat) :
    ∀ a : LabelRun, a.dead = false → a.len ≤ 63 →
      labelAccepts (cs.foldl labelStep a) = labelsOk a (splitDots cs) := by
  induction cs with
  | nil =>
    intro a hd hlen
    obtain ⟨dead, done, len, hy⟩ := a
    simp only at hd hlen
    subst hd
    have h63 : decide (len ≤ 63) = true := by simpa using hlen
    simp only [List.foldl_nil, labelAccepts, splitDots, labelsOk, labelRestOk_nil,
      List.all_nil, List.isEmpty_nil, Bool.decide_and, h63]
    cases done <;> cases hy <;> cases decide (1 ≤ len) <;> rfl
  | cons c cs ih =>
    intro a hd hlen
    obtain ⟨dead, done, len, hy⟩ := a
    simp only at hd hlen
    subst hd
    rw [List.foldl_cons]
    by_cases hc : c = 46
    · subst hc
      rw [splitDots_dot]
      cases hs : splitDots cs with
      | nil => exact absurd hs (splitDots_ne_nil cs)
      | cons p ps =>
        by_cases hok : 1 ≤ len ∧ hy = false
        · have hstep : labelStep ⟨false, done, len, hy⟩ 46 = ⟨false, true, 0, false⟩ := by
            simp [labelStep, hok]
          rw [hstep, ih ⟨false, true, 0, false⟩ rfl (by simp), hs]
          have h1 : decide (1 ≤ len ∧ len ≤ 63) = true := by
            rw [decide_eq_true_eq]
            exact ⟨hok.1, hlen⟩
          simp only [labelsOk, labelRestOk_nil, labelRestOk_isLabel, h1, hok.2, List.all_cons,
            List.isEmpty_cons, Bool.not_false, Bool.true_and, Bool.or_true, Bool.and_true,
            Bool.true_or]
        · have hstep : labelStep ⟨false, done, len, hy⟩ 46 = labelDead := by
            simp only [labelStep, Bool.false_eq_true, if_false, if_true, if_neg hok]
          rw [hstep, foldl_labelDead cs labelDead rfl]
          have h1 : (decide (1 ≤ len ∧ len ≤ 63) && !hy) = false := by
            cases hy with
            | true => simp
            | false =>
              have : ¬ 1 ≤ len := fun h => hok ⟨h, rfl⟩
              simp only [Bool.not_false, Bool.and_true, decide_eq_false_iff_not]
              omega
          simp only [labelsOk, labelRestOk_nil, h1, Bool.false_and]
    · obtain ⟨p, ps, h1, h2⟩ := splitDots_other c cs hc
      rw [h2]
      simp only [labelsOk, labelRestOk_cons]
      by_cases ha : isAlnum c = true
      · by_cases hl : len < 63
        · have hstep : labelStep ⟨false, done, len, hy⟩ c = ⟨false, done, len + 1, false⟩ := by
            simp [labelStep, hc, ha, hl]
          rw [hstep, ih ⟨false, done, len + 1, false⟩ rfl (by simp only []; omega), h1]
          simp only [labelsOk, ha, isLabelChar_of_isAlnum c ha, Bool.or_true, Bool.true_and,
            Bool.not_true]
        · have hstep : labelStep ⟨false, done, len, hy⟩ c = labelDead := by
            simp [labelStep, hc, ha, hl]
          rw [hstep, foldl_labelDead cs labelDead rfl,
            labelRestOk_long (len + 1) _ p (by omega)]
          simp
      · have ha2 : isAlnum c = false := by simpa using ha
        by_cases h45 : c = 45
        · subst h45
          by_cases hl : 1 ≤ len ∧ len < 62
          · have hstep : labelStep ⟨false, done, len, hy⟩ 45 =
                ⟨false, done, len + 1, true⟩ := by
              simp [labelStep, ha2, hl]
            rw [hstep, ih ⟨false, done, len + 1, true⟩ rfl (by simp only []; omega), h1]
            have h0 : decide (len ≠ 0) = true := by
              rw [decide_eq_true_eq]
              omega
            simp only [labelsOk, ha2, h0, Bool.true_or, Bool.not_false, Bool.and_true,
              show isLabelChar 45 = true by decide, Bool.true_and]
          · have hstep : labelStep ⟨false, done, len, hy⟩ 45 = labelDead := by
              simp only [labelStep, Bool.false_eq_true, if_false, ha2,
                show ((45 : Nat) = 46) = False by simp, if_true, if_neg hl]
            rw [hstep, foldl_labelDead cs labelDead rfl]
            by_cases h0 : len = 0
            · subst h0
              simp [ha2]
            · have h62 : 62 ≤ len := by omega
              by_cases h63 : len = 62
              · subst h63
                rw [ha2]
                simp [labelRestOk_full]
              · rw [labelRestOk_long (len + 1) _ p (by omega)]
                simp
        · have hstep : labelStep ⟨false, done, len, hy⟩ c = labelDead := by
            simp [labelStep, hc, ha2, h45]
          have hlc : isLabelChar c = false := by
            simp [isLabelChar, ha2, h45]
          rw [hstep, foldl_labelDead cs labelDead rfl, hlc]
          simp

/-- The record of the labels of a whole run accepts exactly the domain
names. -/
theorem labelAccepts_run (run : List Nat) :
    labelAccepts (run.foldl labelStep labelInit) = isDomainName run := by
  rw [labelAccepts_foldl run labelInit rfl (by decide)]
  unfold isDomainName
  cases h : splitDots run with
  | nil => exact absurd h (splitDots_ne_nil run)
  | cons p ps =>
    simp only [labelsOk, labelInit, labelRestOk_isLabel, List.all_cons, List.length_cons,
      Bool.false_or]
    cases ps with
    | nil => simp
    | cons q qs => simp
/-! ## The token of a run, in full -/

set_option maxRecDepth 100000 in
theorem delimiterState_closed : lexClosed delimiterState delimiterSymbols = true := by
  decide!

set_option maxRecDepth 100000 in
theorem delimiterEntry : ∀ e ∈ [1, 2, 25, 26], ∀ r ∈ lexBreakpoints,
    (!isSkipped e r && !isSegmentStart r) = true →
    lexCaseStaysIn delimiterState delimiterSymbols (ts_lex_state e false r) = true := by
  decide!

theorem delimiterEntry_nil : ∀ e ∈ [1, 2, 25, 26], ∀ a ∈ pathRunSymbols,
    (ts_lex [] e).map Token.symbol ≠ some a := by
  decide

/-- A token of the lex states 1, 2, 25 and 26 with one of the symbols of the
path and domain contexts begins at a first character that is not skipped and
starts a path segment. -/
theorem lexRun_of_token (e : Nat) (he : e ∈ [1, 2, 25, 26]) (input : List Nat) (tok : Token)
    (h : ts_lex input e = some tok) (hsym : tok.symbol ∈ pathRunSymbols) :
    ∃ ws c rest, input = ws ++ c :: rest ∧ ws.all (isSkipped e) = true ∧
      isSegmentStart c = true := by
  have he2 : e ∈ [0, 1, 2, 5, 23, 24, 25, 26] := by
    simp only [List.mem_cons, List.mem_singleton, List.not_mem_nil, or_false] at he ⊢
    omega
  obtain ⟨ws, rest, hin, hws, hrest, hlex⟩ := lex_entry_split e he2 input
  rw [h] at hlex
  cases rest with
  | nil =>
    exfalso
    apply delimiterEntry_nil e he tok.symbol hsym
    cases h0 : ts_lex [] e with
    | none => rw [h0] at hlex; simp at hlex
    | some t =>
      rw [h0] at hlex
      simp only [Option.map_some', Option.some.injEq] at hlex
      rw [hlex]
      rfl
  | cons c cs =>
    refine ⟨ws, c, cs, hin, hws, ?_⟩
    by_contra hc
    have hsk := hrest c (by simp)
    cases h5 : ts_lex (c :: cs) e with
    | none => rw [h5] at hlex; simp at hlex
    | some t =>
      rw [h5] at hlex
      simp only [Option.map_some', Option.some.injEq] at hlex
      have hmem := lex_enter_closed e (fun r => !isSkipped e r && !isSegmentStart r)
        (pathEntry_class e) delimiterState delimiterSymbols delimiterState_closed
        (delimiterEntry e he) c cs t (by simp [hsk, hc]) h5
      have hts : tok.symbol = t.symbol := by rw [hlex]; rfl
      rw [hts] at hsym
      have hdis : ∀ a ∈ delimiterSymbols, a ∉ pathRunSymbols := by decide
      exact hdis _ hmem hsym

/-- The token of a run in the lex states 1, 25 and 26: behind the skipped
characters, a first character that starts a path segment and the longest run
of characters of the path-segment character set behind it are returned with
the symbol that `classifyRun` gives the run. -/
theorem lexRun_token (e : Nat) (he : e ∈ [1, 25, 26]) (ws : List Nat) (c : Nat)
    (rest : List Nat) (hws : ws.all (isSkipped e) = true) (hc : isSegmentStart c = true) :
    ts_lex (ws ++ c :: rest) e =
      some ⟨classifyRun (contextKeywords e) (c :: rest.takeWhile isPathChar), ws.length,
        ws.length + (c :: rest.takeWhile isPathChar).length⟩ := by
  have he2 : e ∈ [0, 1, 2, 5, 23, 24, 25, 26] := by
    simp only [List.mem_cons, List.mem_singleton, List.not_mem_nil, or_false] at he ⊢
    omega
  have hrun : ts_lex (c :: rest) e =
      some ⟨classifyRun (contextKeywords e) (c :: rest.takeWhile isPathChar), 0,
        1 + (rest.takeWhile isPathChar).length⟩ := by
    have hdom : (rest.takeWhile isPathChar).foldl labelStep (labelStep labelInit c) =
        (c :: rest.takeWhile isPathChar).foldl labelStep labelInit := rfl
    simp only [List.mem_cons, List.mem_singleton, List.not_mem_nil, or_false] at he
    rcases he with rfl | rfl | rfl
    · rw [lexSim_first runStates runStep runSymbol isPathChar isPathChar_class runStep_class
        runStates_checked (runFirst localhostTable) isSegmentStart 1 isSegmentStart_class
        (runFirst_class localhostTable localhostTable_letters) runStates_entry.2.2 c rest hc,
        foldl_runStep]
      simp only [runFirst, runSymbol, classifyRun, contextKeywords, if_true, foldl_kwStep_local,
        keywordOf_kwOf_local, hdom, labelAccepts_run]
    · rw [lexSim_first runStates runStep runSymbol isPathChar isPathChar_class runStep_class
        runStates_checked (runFirst keywordTable) isSegmentStart 25 isSegmentStart_class
        (runFirst_class keywordTable keywordTable_letters) runStates_entry.2.1 c rest hc,
        foldl_runStep]
      simp only [runFirst, runSymbol, classifyRun, contextKeywords,
        show ((25 : Nat) = 1) = False by simp, show ((25 : Nat) = 2) = False by simp, if_false,
        foldl_kwStep _ [c] (by simp), List.singleton_append, keywordOf_kwOf, hdom,
        labelAccepts_run]
    · rw [lexSim_first runStates runStep runSymbol isPathChar isPathChar_class runStep_class
        runStates_checked (runFirst keywordTable) isSegmentStart 26 isSegmentStart_class
        (runFirst_class keywordTable keywordTable_letters) runStates_entry.1 c rest hc,
        foldl_runStep]
      simp only [runFirst, runSymbol, classifyRun, contextKeywords,
        show ((26 : Nat) = 1) = False by simp, show ((26 : Nat) = 2) = False by simp, if_false,
        foldl_kwStep _ [c] (by simp), List.singleton_append, keywordOf_kwOf, hdom,
        labelAccepts_run]
  have h3 := lex_skip e (entry_skips e he2) ws (c :: rest) hws
  rw [hrun] at h3
  rw [h3]
  simp [shiftToken, Nat.add_comm]

/-- The token of a run in the lex state 2: always a path segment. -/
theorem lexRun_token_two (ws : List Nat) (c : Nat) (rest : List Nat)
    (hws : ws.all (isSkipped 2) = true) (hc : isSegmentStart c = true) :
    ts_lex (ws ++ c :: rest) 2 =
      some ⟨sym_path_segment, ws.length,
        ws.length + (c :: rest.takeWhile isPathChar).length⟩ := by
  obtain ⟨a, ha, h2⟩ := lex_enter_run 2 isSegmentStart isSegmentStart_class (fun s => s == 327)
    isPathChar isPathChar_class [sym_path_segment] (by decide!) segmentState_runs c rest hc
  simp only [List.mem_singleton] at ha
  subst ha
  have h3 := lex_skip 2 (entry_skips 2 (by decide)) ws (c :: rest) hws
  rw [h2] at h3
  rw [h3]
  simp [shiftToken, Nat.add_comm]

/-! ### The symbol of a run -/

theorem keywordTable_facts :
    (∀ e ∈ keywordTable, keywordOf keywordTable e.1 = some e.2) ∧
    (∀ e ∈ localhostTable, keywordOf localhostTable e.1 = some e.2) ∧
    (∀ e ∈ keywordTable, ∀ f ∈ keywordTable, e.2 = f.2 → e.1 = f.1) ∧
    (∀ e ∈ keywordTable, e.2 ≠ aux_sym_domain_token1 ∧ e.2 ≠ sym_path_segment ∧
      isDomainName e.1 = false) ∧
    (∀ e ∈ localhostTable, e ∈ keywordTable) := by
  decide

theorem symbolOf_none (d : Bool) :
    symbolOf none d = aux_sym_domain_token1 ∨ symbolOf none d = sym_path_segment := by
  cases d
  · exact Or.inr rfl
  · exact Or.inl rfl

/-- A run has the symbol of a keyword exactly when it is the keyword, and the
keyword is one of the context. -/
theorem classifyRun_keyword (table : List (List Nat × Nat))
    (ht : table = keywordTable ∨ table = localhostTable) (run word : List Nat) (x : Nat)
    (hmem : (word, x) ∈ keywordTable) :
    classifyRun table run = x ↔ run = word ∧ (word, x) ∈ table := by
  have hsub : ∀ e ∈ table, e ∈ keywordTable := by
    rcases ht with rfl | rfl
    · exact fun e h => h
    · exact keywordTable_facts.2.2.2.2
  have hfind : ∀ e ∈ table, keywordOf table e.1 = some e.2 := by
    rcases ht with rfl | rfl
    · exact keywordTable_facts.1
    · exact keywordTable_facts.2.1
  constructor
  · intro h
    unfold classifyRun at h
    cases hk : keywordOf table run with
    | none =>
      rw [hk] at h
      have hne := keywordTable_facts.2.2.2.1 (word, x) hmem
      rcases symbolOf_none (isDomainName run) with h1 | h1
      · rw [h1] at h
        exact absurd h.symm hne.1
      · rw [h1] at h
        exact absurd h.symm hne.2.1
    | some y =>
      rw [hk] at h
      have hy : y = x := h
      subst hy
      have hin := keywordOf_some table run y hk
      have hrun : run = word :=
        keywordTable_facts.2.2.1 (run, y) (hsub _ hin) (word, y) hmem rfl
      subst hrun
      exact ⟨rfl, hin⟩
  · rintro ⟨rfl, hin⟩
    unfold classifyRun
    rw [hfind (run, x) hin]
    rfl

/-- A run has the symbol of the domain token exactly when it is a domain
name. -/
theorem classifyRun_domain (table : List (List Nat × Nat))
    (ht : table = keywordTable ∨ table = localhostTable) (run : List Nat) :
    classifyRun table run = aux_sym_domain_token1 ↔ isDomainName run = true := by
  have hsub : ∀ e ∈ table, e ∈ keywordTable := by
    rcases ht with rfl | rfl
    · exact fun e h => h
    · exact keywordTable_facts.2.2.2.2
  unfold classifyRun
  cases hk : keywordOf table run with
  | none =>
    cases isDomainName run
    · simp only [symbolOf, Bool.false_eq_true, if_false, iff_false]
      decide
    · simp [symbolOf]
  | some y =>
    have hin := hsub _ (keywordOf_some table run y hk)
    have hne := keywordTable_facts.2.2.2.1 (run, y) hin
    simp only [symbolOf]
    constructor
    · intro h
      exact absurd h hne.1
    · intro h
      rw [hne.2.2] at h
      exact absurd h (by decide)

/-- A run that is no keyword of the context and no domain name has the
symbol of the path segment. -/
theorem classifyRun_segment (table : List (List Nat × Nat)) (run : List Nat)
    (hk : run ∉ wordsOf table) (hd : isDomainName run = false) :
    classifyRun table run = sym_path_segment := by
  unfold classifyRun
  rw [keywordOf_none table run hk, hd]
  rfl
/-! ## C32: the keywords, exactly -/

set_option maxRecDepth 100000 in
/-- C32: in the lex states 1, 2, 25 and 26, on an input whose first character
that is not skipped starts a path segment, the token covers that character and
the longest run of characters of the path-segment character set behind it, and
its symbol is that of a keyword of `keywordTable` (http, https, ftp, ws, wss,
localhost) exactly when the run is that word, letter for letter in lower case,
and the word is a keyword of the lex state: all six in the lex states 25 and
26, `localhost` alone in the lex state 1 (where the scheme words are no
keywords), none in the lex state 2, where every run is a `sym_path_segment`.
A token with the symbol of a keyword is returned on no other input. -/
theorem C32_keyword_classification (state : Nat) (ws : List Nat) (c : Nat) (rest : List Nat)
    (hstate : state ∈ [1, 2, 25, 26]) (hws : ws.all (isSkipped state) = true)
    (hc : isSegmentStart c = true) :
    (∃ symbol,
      ts_lex (ws ++ c :: rest) state =
        some ⟨symbol, ws.length, ws.length + (c :: rest.takeWhile isPathChar).length⟩ ∧
      (∀ word x, (word, x) ∈ keywordTable →
        (symbol = x ↔
          c :: rest.takeWhile isPathChar = word ∧ (word, x) ∈ contextKeywords state)) ∧
      (state = 2 → symbol = sym_path_segment)) ∧
    contextKeywords 25 = keywordTable ∧ contextKeywords 26 = keywordTable ∧
    contextKeywords 1 = [(codes "localhost", anon_sym_localhost)] ∧ contextKeywords 2 = [] ∧
    (∀ (input : List Nat) (tok : Token) (x : Nat), ts_lex input state = some tok →
      tok.symbol = x → x ∈ keywordTable.map (fun e => e.2) →
      ∃ ws1 c1 rest1, input = ws1 ++ c1 :: rest1 ∧ ws1.all (isSkipped state) = true ∧
        isSegmentStart c1 = true) ∧
    ts_lex (codes "http://a") 26 = some ⟨anon_sym_http, 0, 4⟩ ∧
    ts_lex (codes "Http://a") 26 = some ⟨sym_path_segment, 0, 4⟩ ∧
    ts_lex (codes "HTTP://a") 25 = some ⟨sym_path_segment, 0, 4⟩ ∧
    ts_lex (codes "httpx/") 26 = some ⟨sym_path_segment, 0, 5⟩ ∧
    ts_lex (codes "http://a") 1 = some ⟨sym_path_segment, 0, 4⟩ ∧
    ts_lex (codes "localhost:80") 1 = some ⟨anon_sym_localhost, 0, 9⟩ ∧
    ts_lex (codes "localhost:80") 2 = some ⟨sym_path_segment, 0, 9⟩ := by
  refine ⟨?_, by decide, by decide, by decide, by decide, ?_, by decide, by decide, by decide,
    by decide, by decide, by decide, by decide⟩
  · by_cases h2 : state = 2
    · subst h2
      refine ⟨sym_path_segment, lexRun_token_two ws c rest hws hc, ?_, fun _ => rfl⟩
      intro word x hmem
      have hne := keywordTable_facts.2.2.2.1 (word, x) hmem
      constructor
      · intro h
        exact absurd h.symm hne.2.1
      · rintro ⟨_, hin⟩
        simp [contextKeywords] at hin
    · have hs : state ∈ [1, 25, 26] := by
        simp only [List.mem_cons, List.mem_singleton, List.not_mem_nil, or_false] at hstate ⊢
        omega
      have ht : contextKeywords state = keywordTable ∨
          contextKeywords state = localhostTable := by
        simp only [List.mem_cons, List.mem_singleton, List.not_mem_nil, or_false] at hs
        rcases hs with rfl | rfl | rfl
        · exact Or.inr rfl
        · exact Or.inl rfl
        · exact Or.inl rfl
      refine ⟨_, lexRun_token state hs ws c rest hws hc, ?_, fun h => absurd h h2⟩
      intro word x hmem
      exact classifyRun_keyword (contextKeywords state) ht _ word x hmem
  · intro input tok x h hsym hx
    apply lexRun_of_token state hstate input tok h
    rw [hsym]
    have hall : ∀ y ∈ keywordTable.map (fun e => e.2), y ∈ pathRunSymbols := by decide
    exact hall x hx

/-- C32 at a concrete input: `https://x` at the start of a line. -/
theorem C32_keyword_classification_witness :
    (26 : Nat) ∈ [1, 2, 25, 26] ∧ ([] : List Nat).all (isSkipped 26) = true ∧
    isSegmentStart 104 = true ∧
    ∃ symbol,
      ts_lex ([] ++ 104 :: codes "ttps://x") 26 =
        some ⟨symbol, ([] : List Nat).length,
          ([] : List Nat).length + (104 :: (codes "ttps://x").takeWhile isPathChar).length⟩ ∧
      (∀ word x, (word, x) ∈ keywordTable →
        (symbol = x ↔
          104 :: (codes "ttps://x").takeWhile isPathChar = word ∧
            (word, x) ∈ contextKeywords 26)) ∧
      ((26 : Nat) = 2 → symbol = sym_path_segment) :=
  ⟨by decide, by decide, by decide,
    (C32_keyword_classification 26 [] 104 (codes "ttps://x") (by decide) (by decide)
      (by decide)).1⟩

/-! ## C33: the labels of a domain -/

theorem isLabel_iff (l : List Nat) :
    isLabel l = true ↔
      (1 ≤ l.length ∧ l.length ≤ 63) ∧ (∀ x ∈ l, isLabelChar x = true) ∧
        (∃ x, l.head? = some x ∧ isAlnum x = true) ∧
        (∃ x, l.getLast? = some x ∧ isAlnum x = true) := by
  unfold isLabel
  simp only [Bool.and_eq_true, decide_eq_true_eq, List.all_eq_true]
  have h1 : l.head?.any isAlnum = true ↔ ∃ x, l.head? = some x ∧ isAlnum x = true := by
    cases l.head? <;> simp
  have h2 : l.getLast?.any isAlnum = true ↔ ∃ x, l.getLast? = some x ∧ isAlnum x = true := by
    cases l.getLast? <;> simp
  rw [h1, h2]
  constructor
  · rintro ⟨⟨⟨a, b⟩, c⟩, d⟩
    exact ⟨a, b, c, d⟩
  · rintro ⟨a, b, c, d⟩
    exact ⟨⟨⟨a, b⟩, c⟩, d⟩

set_option maxRecDepth 100000 in
/-- C33: in the lex states 1, 25 and 26, on an input whose first character that
is not skipped starts a path segment, the token covers the longest run of
characters of the path-segment character set, and its symbol is
`aux_sym_domain_token1` exactly when the run is a domain name: cut at its dots
(the pieces put together with single dots give the run, and no piece contains
a dot), it has two or more pieces, and each piece is a label, that is 1 to 63
characters long, made of letters, digits and `-`, beginning and ending with a
letter or digit.  A run that is no domain name and no keyword of the lex state
is returned as `sym_path_segment`.  A domain token is returned on no other
input. -/
theorem C33_domain_labels (state : Nat) (ws : List Nat) (c : Nat) (rest : List Nat)
    (hstate : state ∈ [1, 25, 26]) (hws : ws.all (isSkipped state) = true)
    (hc : isSegmentStart c = true) :
    (∃ symbol,
      ts_lex (ws ++ c :: rest) state =
        some ⟨symbol, ws.length, ws.length + (c :: rest.takeWhile isPathChar).length⟩ ∧
      (symbol = aux_sym_domain_token1 ↔
        isDomainName (c :: rest.takeWhile isPathChar) = true) ∧
      (isDomainName (c :: rest.takeWhile isPathChar) = false →
        c :: rest.takeWhile isPathChar ∉ wordsOf (contextKeywords state) →
        symbol = sym_path_segment)) ∧
    (∀ run : List Nat,
      (isDomainName run = true ↔
        2 ≤ (splitDots run).length ∧ ∀ l ∈ splitDots run, isLabel l = true) ∧
      [46].intercalate (splitDots run) = run ∧ (∀ piece ∈ splitDots run, 46 ∉ piece)) ∧
    (∀ l : List Nat,
      isLabel l = true ↔
        (1 ≤ l.length ∧ l.length ≤ 63) ∧ (∀ x ∈ l, isLabelChar x = true) ∧
          (∃ x, l.head? = some x ∧ isAlnum x = true) ∧
          (∃ x, l.getLast? = some x ∧ isAlnum x = true)) ∧
    (∀ x, isLabelChar x = (isDigit x || isLetter x || decide (x = 45))) ∧
    (∀ (input : List Nat) (tok : Token), ts_lex input state = some tok →
      tok.symbol = aux_sym_domain_token1 →
      ∃ ws1 c1 rest1, input = ws1 ++ c1 :: rest1 ∧ ws1.all (isSkipped state) = true ∧
        isSegmentStart c1 = true) ∧
    ts_lex (codes "api.example.com/v1") 26 = some ⟨aux_sym_domain_token1, 0, 15⟩ ∧
    ts_lex (codes "example/") 26 = some ⟨sym_path_segment, 0, 7⟩ ∧
    ts_lex (codes "a..b/") 26 = some ⟨sym_path_segment, 0, 4⟩ ∧
    ts_lex (codes "-a.b/") 26 = some ⟨sym_path_segment, 0, 4⟩ ∧
    ts_lex (codes "a-.b/") 26 = some ⟨sym_path_segment, 0, 4⟩ ∧
    ts_lex (codes "a.b./") 26 = some ⟨sym_path_segment, 0, 4⟩ ∧
    ts_lex (codes "a_b.c/") 26 = some ⟨sym_path_segment, 0, 5⟩ ∧
    ts_lex (List.replicate 63 97 ++ codes ".b/") 26 = some ⟨aux_sym_domain_token1, 0, 65⟩ ∧
    ts_lex (List.replicate 64 97 ++ codes ".b/") 26 = some ⟨sym_path_segment, 0, 66⟩ := by
  have ht : contextKeywords state = keywordTable ∨ contextKeywords state = localhostTable := by
    simp only [List.mem_cons, List.mem_singleton, List.not_mem_nil, or_false] at hstate
    rcases hstate with rfl | rfl | rfl
    · exact Or.inr rfl
    · exact Or.inl rfl
    · exact Or.inl rfl
  have hs4 : state ∈ [1, 2, 25, 26] := by
    simp only [List.mem_cons, List.mem_singleton, List.not_mem_nil, or_false] at hstate ⊢
    omega
  refine ⟨⟨_, lexRun_token state hstate ws c rest hws hc,
      classifyRun_domain (contextKeywords state) ht _,
      fun hd hk => classifyRun_segment (contextKeywords state) _ hk hd⟩,
    ?_, isLabel_iff, fun x => rfl, ?_, by decide, by decide, by decide, by decide, by decide,
    by decide, by decide, by decide, by decide⟩
  · intro run
    refine ⟨?_, splitDots_spec run⟩
    simp only [isDomainName, Bool.and_eq_true, decide_eq_true_eq, List.all_eq_true]
  · intro input tok h hsym
    apply lexRun_of_token state hs4 input tok h
    rw [hsym]
    decide

/-- C33 at a concrete input: `api.example.com/v1` after a protocol. -/
theorem C33_domain_labels_witness :
    (1 : Nat) ∈ [1, 25, 26] ∧ ([] : List Nat).all (isSkipped 1) = true ∧
    isSegmentStart 97 = true ∧
    ∃ symbol,
      ts_lex ([] ++ 97 :: codes "pi.example.com/v1") 1 =
        some ⟨symbol, ([] : List Nat).length,
          ([] : List Nat).length +
            (97 :: (codes "pi.example.com/v1").takeWhile isPathChar).length⟩ ∧
      (symbol = aux_sym_domain_token1 ↔
        isDomainName (97 :: (codes "pi.example.com/v1").takeWhile isPathChar) = true) ∧
      (isDomainName (97 :: (codes "pi.example.com/v1").takeWhile isPathChar) = false →
        97 :: (codes "pi.example.com/v1").takeWhile isPathChar ∉
          wordsOf (contextKeywords 1) →
        symbol = sym_path_segment) :=
  ⟨by decide, by decide, by decide,
    (C33_domain_labels 1 [] 97 (codes "pi.example.com/v1") (by decide) (by decide)
      (by decide)).1⟩
/-! ## The tokens of one character and the skipped characters -/

set_option maxRecDepth 100000 in
theorem lexCharCheck_amp : lexCharCheck 38 anon_sym_AMP 334 true = true := by
  decide!

set_option maxRecDepth 100000 in
theorem lexCharCheck_qmark : lexCharCheck 63 anon_sym_QMARK 333 false = true := by
  decide!

/-- What the graph of the lexer tells of a case of state `s`. -/
theorem lexGraph_case (s : Nat) (hs : s < LEX_STATE_COUNT) :
    lexGraphCaseOk (lexAccepts.getD s none) (lexTargets.getD s []) (ts_lex_state s true 0) =
      true ∧
    ∀ c, lexGraphCaseOk (lexAccepts.getD s none) (lexTargets.getD s [])
      (ts_lex_state s false c) = true := by
  have hla : lexAccepts.length = 340 := lexGraph_length.1
  have hlt : lexTargets.length = 340 := lexGraph_length.2
  have hg := lexRowsAll_spec _ _ _ 0 lexGraph_holds s (by rw [hla]; exact hs)
    (by rw [hlt]; exact hs)
  simp only [Nat.zero_add, Bool.and_eq_true, List.all_eq_true] at hg
  refine ⟨hg.1, fun c => ?_⟩
  have h := hg.2 (charClass c) (charClass_mem c)
  rw [ts_lex_state_class] at h
  exact h

/-- What `lexCharGraphOk` tells of state `s`. -/
theorem lexCharGraph_state (x n : Nat) (h : lexCharGraphOk x n = true) (s : Nat)
    (hs : s < LEX_STATE_COUNT) :
    (match lexAccepts.getD s none with
      | none => s != n
      | some y => (y == x) == (s == n)) = true ∧
    (n ∈ lexTargets.getD s [] → isEntryState s = true) ∧
    (s = n → lexTargets.getD s [] = []) := by
  have hla : lexAccepts.length = 340 := lexGraph_length.1
  have hlt : lexTargets.length = 340 := lexGraph_length.2
  have hc := lexRowsAll_spec _ _ _ 0 h s (by rw [hla]; exact hs) (by rw [hlt]; exact hs)
  simp only [Nat.zero_add, Bool.and_eq_true, Bool.or_eq_true, Bool.not_eq_true',
    bne_iff_ne, ne_eq, List.isEmpty_iff] at hc
  obtain ⟨⟨h1, h2⟩, h3⟩ := hc
  refine ⟨h1, fun hmem => ?_, fun hsn => ?_⟩
  · rcases h2 with h2 | h2
    · have : (lexTargets.getD s []).contains n = true := by simpa using hmem
      rw [h2] at this
      exact absurd this (by decide)
    · exact h2
  · rcases h3 with h3 | h3
    · exact absurd hsn h3
    · exact h3

theorem lexChar_case (ch x n : Nat) (strict : Bool) (h : lexCharCheck ch x n strict = true)
    (hch : ch ∈ lexBreakpoints) (hch1 : ch + 1 ∈ lexBreakpoints) (s c : Nat) :
    lexCharCaseOk x n strict s (c == ch) (isWhitespace c) (ts_lex_state s false c) = true := by
  by_cases hs : s < LEX_STATE_COUNT
  · simp only [lexCharCheck, Bool.and_eq_true, Bool.or_eq_true, Bool.not_eq_true'] at h
    obtain ⟨⟨⟨hgraph, hentry⟩, honly⟩, _⟩ := h
    obtain ⟨hacc, hinto, hnone⟩ := lexCharGraph_state x n hgraph s hs
    have hg := (lexGraph_case s hs).2 c
    have hpr := lexProgress_case s c
    have hclass : (charClass c == ch) = (c == ch) := by
      have e := charClass_eq ch c hch hch1
      by_cases hc : c = ch
      · have h2 : charClass c = ch := by rw [e]; exact hc
        rw [h2, hc]
      · have h2 : charClass c ≠ ch := by rw [ne_eq, e]; exact hc
        rw [beq_eq_false_iff_ne.mpr h2, beq_eq_false_iff_ne.mpr hc]
    have hent : isEntryState s = true →
        (match ts_lex_state s false c with
          | some ⟨_, ADVANCE k⟩ => k != n || c == ch
          | some ⟨_, SKIP _⟩ => isWhitespace c && c != ch
          | _ => true) = true := by
      intro he
      simp only [lexCharEntryOk, List.all_eq_true] at hentry
      have h1 := hentry s (by simpa [isEntryState] using he) (charClass c) (charClass_mem c)
      rw [ts_lex_state_class, isWhitespace_class] at h1
      have hne : (charClass c != ch) = (c != ch) := by
        simp only [bne, hclass]
      rw [hclass, hne] at h1
      exact h1
    cases hcase : ts_lex_state s false c with
    | none => rfl
    | some lc =>
      obtain ⟨acc, mv⟩ := lc
      rw [hcase] at hg hpr hent
      simp only [lexGraphCaseOk, Bool.and_eq_true, beq_iff_eq] at hg
      obtain ⟨hga, hgt⟩ := hg
      rw [← hga] at hacc
      simp only [lexCharCaseOk, Bool.and_eq_true]
      refine ⟨⟨hacc, ?_⟩, ?_⟩
      · cases mv with
        | ADVANCE k =>
          have hk : k ∈ lexTargets.getD s [] := by simpa using hgt
          simp only
          by_cases hkn : k = n
          · have he : isEntryState s = true := hinto (by rw [← hkn]; exact hk)
            have h2 := hent he
            simp only [hkn, bne_self_eq_false, Bool.false_or] at h2
            rw [h2, if_pos rfl, hkn, he]
            simp
          · by_cases hc : (c == ch) = true
            · rw [if_pos hc]
              have hcc : c = ch := by simpa using hc
              cases hst : strict with
              | false => simp [hkn]
              | true =>
                rcases honly with ho | ho
                · rw [hst] at ho
                  exact absurd ho (by decide)
                · simp only [lexCharOnlyOk, List.all_eq_true, List.mem_range] at ho
                  have h3 := ho s hs
                  rw [← hcc, hcase] at h3
                  simp only [beq_iff_eq] at h3
                  exact absurd h3 hkn
            · rw [if_neg hc]
              simpa using hkn
        | SKIP k =>
          simp only [lexProgressCaseOk, Bool.not_false, Bool.true_and, Bool.and_eq_true,
            beq_iff_eq] at hpr
          have h2 := hent hpr.2.1
          simp only [Bool.and_eq_true, bne_iff_ne, ne_eq] at h2
          simp only [h2.1, Bool.true_and, Bool.not_eq_true']
          simpa using h2.2
        | END_STATE => rfl
      · by_cases hsn : s = n
        · have hempty := hnone hsn
          rw [hempty] at hgt
          cases mv with
          | ADVANCE k => simp at hgt
          | SKIP k => simp at hgt
          | END_STATE => simp
        · simp [hsn]
  · rw [ts_lex_state_none s (Nat.le_of_not_lt hs)]
    rfl

theorem lexChar_eof (ch x n : Nat) (strict : Bool) (h : lexCharCheck ch x n strict = true)
    (s : Nat) : lexCharCaseOk x n strict s false false (ts_lex_state s true 0) = true := by
  by_cases hs : s < LEX_STATE_COUNT
  · simp only [lexCharCheck, Bool.and_eq_true, bne_iff_ne, ne_eq] at h
    obtain ⟨⟨⟨hgraph, _⟩, _⟩, hn27⟩ := h
    obtain ⟨hacc, _, hnone⟩ := lexCharGraph_state x n hgraph s hs
    have hg := (lexGraph_case s hs).1
    have hpr := lexProgress_eof s
    cases hcase : ts_lex_state s true 0 with
    | none => rfl
    | some lc =>
      obtain ⟨acc, mv⟩ := lc
      rw [hcase] at hg hpr
      simp only [lexGraphCaseOk, Bool.and_eq_true, beq_iff_eq] at hg
      obtain ⟨hga, hgt⟩ := hg
      rw [← hga] at hacc
      simp only [lexCharCaseOk, Bool.and_eq_true]
      refine ⟨⟨hacc, ?_⟩, ?_⟩
      · cases mv with
        | ADVANCE k =>
          simp only [lexProgressCaseOk, if_true, Bool.and_eq_true, beq_iff_eq] at hpr
          simp only [Bool.false_eq_true, if_false, bne_iff_ne, ne_eq]
          rw [hpr.2.2]
          exact fun e => hn27 e.symm
        | SKIP k => simp [lexProgressCaseOk] at hpr
        | END_STATE => rfl
      · by_cases hsn : s = n
        · have hempty := hnone hsn
          rw [hempty] at hgt
          cases mv with
          | ADVANCE k => simp at hgt
          | SKIP k => simp at hgt
          | END_STATE => simp
        · simp [hsn]
  · rw [ts_lex_state_none s (Nat.le_of_not_lt hs)]
    rfl

/-- The text of a token that ends within the characters consumed so far. -/
theorem tokenText_consumed (pre rest : List Nat) (a start e : Nat) (he : e ≤ pre.length) :
    tokenText (pre ++ rest) ⟨a, start, e⟩ = (pre.drop start).take (e - start) := by
  simp only [tokenText]
  by_cases hs : start ≤ pre.length
  · rw [List.drop_append_of_le_length hs, List.take_append_of_le_length]
    rw [List.length_drop]
    omega
  · have h0 : e - start = 0 := by omega
    rw [h0, List.take_zero, List.take_zero]

/-- The token that a case with `END_STATE` returns. -/
theorem lexChar_end (ch x n : Nat) (strict : Bool) (pre rest : List Nat) (s start : Nat)
    (res : Option (Nat × Nat)) (acc : Option Nat) (onCh ws eof : Bool) (tok : Token)
    (hinv : lexCharInv ch x n strict pre s start res)
    (hok : lexCharCaseOk x n strict s onCh ws (some ⟨acc, END_STATE⟩) = true)
    (hpr : lexProgressCaseOk s eof (some ⟨acc, END_STATE⟩) = true)
    (h : endState start (acceptToken ⟨acc, END_STATE⟩ pre.length res) = some tok) :
    lexCharPost ch x strict (pre ++ rest) tok := by
  rcases hinv with ⟨he, _, hres⟩ | ⟨he, hsn, hlt, hno, hres⟩ | ⟨he, hsn, hpre, hres⟩
  · cases acc with
    | none =>
      subst hres
      simp [acceptToken, endState] at h
    | some a => simp [lexProgressCaseOk, he] at hpr
  · have hsn2 : (s == n) = false := by simpa using hsn
    cases acc with
    | none =>
      cases hr : res with
      | none => rw [hr] at h; simp [acceptToken, endState] at h
      | some r =>
        rw [hr] at h
        simp only [acceptToken, endState, Option.map_some', Option.some.injEq] at h
        obtain ⟨h1, h2⟩ := hres r hr
        subst h
        refine Or.inr ⟨h1, fun hst hmem => ?_⟩
        rw [tokenText_consumed pre rest _ _ _ h2] at hmem
        exact hno hst (List.mem_of_mem_take hmem)
    | some a =>
      simp only [acceptToken, endState, Option.map_some', Option.some.injEq] at h
      subst h
      have hax : a ≠ x := by
        simp only [lexCharCaseOk, hsn2, Bool.and_eq_true, beq_eq_false_iff_ne, ne_eq] at hok
        simpa using hok.1.1
      refine Or.inr ⟨hax, fun hst hmem => ?_⟩
      rw [tokenText_consumed pre rest _ _ _ (Nat.le_refl _)] at hmem
      exact hno hst (List.mem_of_mem_take hmem)
  · subst hres
    have hsn2 : (s == n) = true := by simpa using hsn
    cases acc with
    | none =>
      simp only [lexCharCaseOk, bne_iff_ne, ne_eq, Bool.and_eq_true, decide_eq_true_eq] at hok
      exact absurd hsn hok.1.1
    | some a =>
      simp only [acceptToken, endState, Option.map_some', Option.some.injEq] at h
      subst h
      have hax : a = x := by
        simp only [lexCharCaseOk, hsn2, Bool.and_eq_true] at hok
        simpa using hok.1.1
      refine Or.inl ⟨hax, ?_⟩
      rw [tokenText_consumed pre rest _ _ _ (Nat.le_refl _), hpre]
      have hlen : (pre.drop start).length = 1 := by rw [hpre]; rfl
      rw [List.length_drop] at hlen
      rw [hlen]
      rfl

/-- The one-character token `x`: from a situation that satisfies `lexCharInv`
the lexer returns a token that satisfies `lexCharPost`. -/
theorem lexChar_loop (ch x n : Nat) (strict : Bool) (h : lexCharCheck ch x n strict = true)
    (hch : ch ∈ lexBreakpoints) (hch1 : ch + 1 ∈ lexBreakpoints)
    (hx : x ≠ ts_builtin_sym_end) :
    ∀ (rest pre : List Nat) (s start : Nat) (res : Option (Nat × Nat)) (tok : Token),
      lexCharInv ch x n strict pre s start res →
      ts_lex_loop rest s pre.length start res = some tok →
      lexCharPost ch x strict (pre ++ rest) tok := by
  intro rest
  induction rest with
  | nil =>
    intro pre s start res tok hinv hrun
    have hok := lexChar_eof ch x n strict h s
    have hpr := lexProgress_eof s
    rw [ts_lex_loop_nil, show (340 : Nat) = 338 + 1 + 1 from rfl, ts_lex_eof_succ] at hrun
    cases hcase : ts_lex_state s true 0 with
    | none => rw [hcase] at hrun; simp at hrun
    | some lc =>
      obtain ⟨acc, mv⟩ := lc
      rw [hcase] at hrun hok hpr
      cases mv with
      | ADVANCE k =>
        simp only [lexProgressCaseOk, if_true, Bool.and_eq_true, beq_iff_eq] at hpr
        obtain ⟨hacc, he, hk⟩ := hpr
        subst hk
        rcases hinv with ⟨_, hstart, hres⟩ | ⟨he2, _⟩ | ⟨he2, _⟩
        · cases acc with
          | some a => simp [he] at hacc
          | none =>
            subst hres
            simp only [acceptToken] at hrun
            rw [ts_lex_eof_succ,
              show ts_lex_state 27 true 0 = some ⟨some ts_builtin_sym_end, END_STATE⟩ by
                decide] at hrun
            simp only [acceptToken, endState, Option.map_some', Option.some.injEq] at hrun
            subst hrun
            refine Or.inr ⟨fun e => hx e.symm, fun _ hmem => ?_⟩
            rw [tokenText_consumed pre [] _ _ _ (Nat.le_refl _), hstart] at hmem
            simp at hmem
        · rw [he] at he2
          exact absurd he2 (by decide)
        · rw [he] at he2
          exact absurd he2 (by decide)
      | SKIP k => simp [lexProgressCaseOk] at hpr
      | END_STATE =>
        simp only [] at hrun
        exact lexChar_end ch x n strict pre [] s start res acc false false true tok hinv hok
          hpr hrun
  | cons c cs ih =>
    intro pre s start res tok hinv hrun
    have hok := lexChar_case ch x n strict h hch hch1 s c
    have hpr := lexProgress_case s c
    rw [ts_lex_loop_cons] at hrun
    cases hcase : ts_lex_state s false c with
    | none => rw [hcase] at hrun; simp at hrun
    | some lc =>
      obtain ⟨acc, mv⟩ := lc
      rw [hcase] at hrun hok hpr
      have hlen : (pre ++ [c]).length = pre.length + 1 := by simp
      have happ : pre ++ c :: cs = (pre ++ [c]) ++ cs := by simp
      cases mv with
      | ADVANCE k =>
        simp only [] at hrun
        simp only [lexProgressCaseOk, Bool.false_eq_true, if_false, Bool.and_eq_true,
          Bool.not_eq_true', bne_iff_ne, ne_eq] at hpr
        obtain ⟨hacc, hk, hk27⟩ := hpr
        rw [happ]
        rw [← hlen] at hrun
        refine ih (pre ++ [c]) k start _ tok ?_ hrun
        simp only [lexCharCaseOk, Bool.and_eq_true] at hok
        obtain ⟨⟨hok1, hok2⟩, hok3⟩ := hok
        rcases hinv with ⟨he, hstart, hres⟩ | ⟨he, hsn, hlt, hno, hres⟩ | ⟨he, hsn, hpre, hres⟩
        · have hacc2 : acc = none := by
            cases acc with
            | none => rfl
            | some a => simp [he] at hacc
          subst hacc2
          subst hres
          have hdrop : (pre ++ [c]).drop start = [c] := by
            rw [hstart, List.drop_left]
          by_cases hc : c = ch
          · have hcb : (c == ch) = true := by simpa using hc
            simp only [hcb, if_true, Bool.or_eq_true, Bool.and_eq_true, beq_iff_eq,
              Bool.not_eq_true', bne_iff_ne, ne_eq] at hok2
            rcases hok2 with ⟨hkn, _⟩ | ⟨hst, hkn⟩
            · exact Or.inr (Or.inr ⟨hk, hkn, by rw [hdrop, hc], rfl⟩)
            · refine Or.inr (Or.inl ⟨hk, hkn, by rw [hlen]; omega, fun hs => ?_, ?_⟩)
              · rw [hst] at hs
                exact absurd hs (by decide)
              · intro r hr
                simp [acceptToken] at hr
          · have hcb : (c == ch) = false := by simpa using hc
            simp only [hcb, Bool.false_eq_true, if_false, bne_iff_ne, ne_eq] at hok2
            refine Or.inr (Or.inl ⟨hk, hok2, by rw [hlen]; omega, fun _ => ?_, ?_⟩)
            · rw [hdrop]
              simpa using fun e => hc e.symm
            · intro r hr
              simp [acceptToken] at hr
        · have hsn2 : (s == n) = false := by simpa using hsn
          have hdrop : (pre ++ [c]).drop start = pre.drop start ++ [c] :=
            List.drop_append_of_le_length (Nat.le_of_lt hlt)
          have hres2 : ∀ r, acceptToken ⟨acc, ADVANCE k⟩ pre.length res = some r →
              r.1 ≠ x ∧ r.2 ≤ (pre ++ [c]).length := by
            intro r hr
            cases acc with
            | none =>
              simp only [acceptToken] at hr
              obtain ⟨h1, h2⟩ := hres r hr
              exact ⟨h1, by rw [hlen]; omega⟩
            | some a =>
              simp only [acceptToken, Option.some.injEq] at hr
              subst hr
              refine ⟨?_, by rw [hlen]; exact Nat.le_succ _⟩
              simp only [hsn2] at hok1
              simpa using hok1
          by_cases hc : c = ch
          · have hcb : (c == ch) = true := by simpa using hc
            simp only [hcb, if_true, Bool.or_eq_true, Bool.and_eq_true, beq_iff_eq,
              Bool.not_eq_true', bne_iff_ne, ne_eq] at hok2
            rcases hok2 with ⟨_, he2⟩ | ⟨hst, hkn⟩
            · rw [he] at he2
              exact absurd he2 (by decide)
            · refine Or.inr (Or.inl ⟨hk, hkn, by rw [hlen]; omega, fun hs => ?_, hres2⟩)
              rw [hst] at hs
              exact absurd hs (by decide)
          · have hcb : (c == ch) = false := by simpa using hc
            simp only [hcb, Bool.false_eq_true, if_false, bne_iff_ne, ne_eq] at hok2
            refine Or.inr (Or.inl ⟨hk, hok2, by rw [hlen]; omega, fun hs => ?_, hres2⟩)
            rw [hdrop]
            intro hmem
            rcases List.mem_append.mp hmem with hm | hm
            · exact hno hs hm
            · have hcc : ch = c := by simpa using hm
              exact hc hcc.symm
        · have hsn2 : (s == n) = true := by simpa using hsn
          simp only [hsn2, bne_iff_ne, ne_eq, Bool.or_false, decide_eq_true_eq] at hok3
          exact absurd hsn hok3
      | SKIP k =>
        simp only [] at hrun
        simp only [lexProgressCaseOk, Bool.not_false, Bool.true_and, Bool.and_eq_true,
          beq_iff_eq] at hpr
        obtain ⟨hacc, he, hk⟩ := hpr
        subst hk
        rw [happ]
        rw [← hlen] at hrun
        refine ih (pre ++ [c]) k (pre ++ [c]).length _ tok (Or.inl ⟨he, rfl, ?_⟩) hrun
        rcases hinv with ⟨_, _, hres⟩ | ⟨he2, _⟩ | ⟨he2, _⟩
        · cases acc with
          | some a => simp [he] at hacc
          | none =>
            subst hres
            rfl
        · rw [he] at he2
          exact absurd he2 (by decide)
        · rw [he] at he2
          exact absurd he2 (by decide)
      | END_STATE =>
        simp only [] at hrun
        exact lexChar_end ch x n strict pre (c :: cs) s start res acc _ _ false tok hinv hok
          hpr hrun

/-- The tokens `&` and `?`: in every lex state of `ts_lex_modes` a token
`anon_sym_AMP` is the character `&` and no other token has a `&`; a token
`anon_sym_QMARK` is the character `?`. -/
theorem lex_amp_qmark (input : List Nat) (e : Nat) (tok : Token)
    (he : isEntryState e = true) (h : ts_lex input e = some tok) :
    (tok.symbol = anon_sym_AMP → tokenText input tok = [38]) ∧
    (tok.symbol ≠ anon_sym_AMP → 38 ∉ tokenText input tok) ∧
    (tok.symbol = anon_sym_QMARK → tokenText input tok = [63]) := by
  have h1 := lexChar_loop 38 anon_sym_AMP 334 true lexCharCheck_amp (by decide) (by decide)
    (by decide) input [] e 0 none tok (Or.inl ⟨he, rfl, rfl⟩) h
  have h2 := lexChar_loop 63 anon_sym_QMARK 333 false lexCharCheck_qmark (by decide)
    (by decide) (by decide) input [] e 0 none tok (Or.inl ⟨he, rfl, rfl⟩) h
  simp only [List.nil_append, lexCharPost] at h1 h2
  refine ⟨fun hs => ?_, fun hs => ?_, fun hs => ?_⟩
  · rcases h1 with ⟨_, ht⟩ | ⟨hn, _⟩
    · exact ht
    · exact absurd hs hn
  · rcases h1 with ⟨hn, _⟩ | ⟨_, ht⟩
    · exact absurd hn hs
    · exact ht trivial
  · rcases h2 with ⟨_, ht⟩ | ⟨hn, _⟩
    · exact ht
    · exact absurd hs hn

theorem endState_start (start : Nat) (res : Option (Nat × Nat)) (tok : Token)
    (h : endState start res = some tok) : tok.start = start := by
  cases res with
  | none => simp [endState] at h
  | some r =>
    simp only [endState, Option.map_some', Option.some.injEq] at h
    subst h
    rfl

/-- The characters before a token are whitespace: from a state that is no
entry state the token starts at `start`; from an entry state it starts at
`start` or behind whitespace that the lexer has skipped. -/
theorem lex_skipped :
    ∀ (input : List Nat) (s pos start : Nat) (res : Option (Nat × Nat)) (tok : Token),
      ts_lex_loop input s pos start res = some tok →
      tok.start = start ∨
        (isEntryState s = true ∧ pos < tok.start ∧
          (input.take (tok.start - pos)).all isWhitespace = true) := by
  intro input
  induction input with
  | nil =>
    intro s pos start res tok hrun
    have hpr := lexProgress_eof s
    rw [ts_lex_loop_nil, show (340 : Nat) = 338 + 1 + 1 from rfl, ts_lex_eof_succ] at hrun
    cases hcase : ts_lex_state s true 0 with
    | none => rw [hcase] at hrun; simp at hrun
    | some lc =>
      obtain ⟨acc, mv⟩ := lc
      rw [hcase] at hrun hpr
      cases mv with
      | ADVANCE k =>
        simp only [lexProgressCaseOk, if_true, Bool.and_eq_true, beq_iff_eq] at hpr
        obtain ⟨_, _, hk⟩ := hpr
        subst hk
        simp only [] at hrun
        rw [ts_lex_eof_succ,
          show ts_lex_state 27 true 0 = some ⟨some ts_builtin_sym_end, END_STATE⟩ by
            decide] at hrun
        exact Or.inl (endState_start _ _ _ hrun)
      | SKIP k => simp [lexProgressCaseOk] at hpr
      | END_STATE =>
        simp only [] at hrun
        exact Or.inl (endState_start _ _ _ hrun)
  | cons c cs ih =>
    intro s pos start res tok hrun
    have hpr := lexProgress_case s c
    have hok := lexChar_case 38 anon_sym_AMP 334 true lexCharCheck_amp (by decide) (by decide)
      s c
    rw [ts_lex_loop_cons] at hrun
    cases hcase : ts_lex_state s false c with
    | none => rw [hcase] at hrun; simp at hrun
    | some lc =>
      obtain ⟨acc, mv⟩ := lc
      rw [hcase] at hrun hpr hok
      cases mv with
      | ADVANCE k =>
        simp only [] at hrun
        simp only [lexProgressCaseOk, Bool.false_eq_true, if_false, Bool.and_eq_true,
          Bool.not_eq_true', bne_iff_ne, ne_eq] at hpr
        obtain ⟨_, hk, _⟩ := hpr
        rcases ih k (pos + 1) start _ tok hrun with h1 | ⟨h1, _⟩
        · exact Or.inl h1
        · rw [hk] at h1
          exact absurd h1 (by decide)
      | SKIP k =>
        simp only [] at hrun
        simp only [lexProgressCaseOk, Bool.not_false, Bool.true_and, Bool.and_eq_true,
          beq_iff_eq] at hpr
        obtain ⟨_, he, _⟩ := hpr
        simp only [lexCharCaseOk, Bool.and_eq_true] at hok
        have hws : isWhitespace c = true := hok.1.2.1
        rcases ih k (pos + 1) (pos + 1) _ tok hrun with h1 | ⟨_, h1, h2⟩
        · refine Or.inr ⟨he, by omega, ?_⟩
          rw [h1, show pos + 1 - pos = 1 by omega]
          simp [hws]
        · refine Or.inr ⟨he, by omega, ?_⟩
          rw [show tok.start - pos = (tok.start - (pos + 1)) + 1 by omega, List.take_succ_cons,
            List.all_cons, hws, h2]
          rfl
      | END_STATE =>
        simp only [] at hrun
        exact Or.inl (endState_start _ _ _ hrun)

set_option maxRecDepth 100000 in
theorem allStates_closed : lexClosed (fun _ => true) (List.range TOKEN_COUNT) = true := by
  decide!

theorem isEntryState_lt (e : Nat) (he : isEntryState e = true) : e < LEX_STATE_COUNT := by
  simp only [isEntryState, lexEntryStates, List.contains_eq_any_beq, List.any_cons,
    List.any_nil, Bool.or_false, Bool.or_eq_true, beq_iff_eq] at he
  rcases he with h | h | h | h | h | h | h | h | h <;> subst h <;> decide

theorem lexMode_entry (state : Nat) : isEntryState (lexMode state) = true := by
  by_cases h : state < STATE_COUNT
  · have hall : ∀ s < STATE_COUNT, isEntryState (lexMode s) = true := by decide
    exact hall state h
  · have hnone : ts_lex_modes.get? state = none := by
      rw [List.get?_eq_none]
      have hl : ts_lex_modes.length = 40 := by decide
      rw [hl]
      exact Nat.le_of_not_lt h
    simp only [lexMode, hnone, Option.getD_none]
    decide

/-- What every token of a lex state of `ts_lex_modes` satisfies: its symbol
is a token symbol; it starts behind skipped whitespace and does not end before
it starts; the end token comes when the whole input is skipped; and the
tokens `&` and `?` are single characters, `&` being in no other token. -/
theorem lex_token_facts (input : List Nat) (e : Nat) (tok : Token)
    (he : isEntryState e = true) (h : ts_lex input e = some tok) :
    tok.symbol < TOKEN_COUNT ∧ tok.start ≤ tok.stop ∧
    (input.take tok.start).all isWhitespace = true ∧
    (tok.symbol = ts_builtin_sym_end → input.length ≤ tok.start) ∧
    (tok.symbol = anon_sym_AMP → tokenText input tok = [38]) ∧
    (tok.symbol ≠ anon_sym_AMP → 38 ∉ tokenText input tok) ∧
    (tok.symbol = anon_sym_QMARK → tokenText input tok = [63]) := by
  have hsym : tok.symbol ∈ List.range TOKEN_COUNT :=
    lexClosed_spec (fun _ => true) (List.range TOKEN_COUNT) allStates_closed input e 0 0 tok rfl
      (isEntryState_lt e he) h
  have hpost := lex_progress input e 0 0 none tok (Or.inl ⟨he, rfl, rfl⟩) h
  simp only [lexProgressPost, Nat.zero_add] at hpost
  have hskip := lex_skipped input e 0 0 none tok h
  refine ⟨List.mem_range.mp hsym, ?_, ?_, ?_, lex_amp_qmark input e tok he h⟩
  · rcases hpost with ⟨_, h2, h3⟩ | ⟨_, h2, _⟩ <;> omega
  · rcases hskip with h1 | ⟨_, _, h2⟩
    · rw [h1]
      rfl
    · simpa using h2
  · intro hs
    rcases hpost with ⟨_, h2, _⟩ | ⟨h1, _⟩
    · omega
    · exact absurd hs h1

/-! ## The moves of the tables that push a state -/

theorem mem_shiftTargets (actions : List TSParseAction) (k : Nat) :
    k ∈ shiftTargets actions ↔ SHIFT k ∈ actions := by
  simp only [shiftTargets, List.mem_filterMap]
  constructor
  · rintro ⟨a, ha, h⟩
    cases a <;> simp at h
    subst h
    exact ha
  · intro h
    exact ⟨SHIFT k, h, rfl⟩

theorem mem_reduceItems (actions : List TSParseAction) (x n : Nat) :
    (x, n) ∈ reduceItems actions ↔ ∃ d p, REDUCE x n d p ∈ actions := by
  simp only [reduceItems, List.mem_filterMap]
  constructor
  · rintro ⟨a, ha, h⟩
    cases a <;> simp at h
    obtain ⟨h1, h2⟩ := h
    subst h1 h2
    exact ⟨_, _, ha⟩
  · rintro ⟨d, p, h⟩
    exact ⟨REDUCE x n d p, h, rfl⟩

/-- Every move of the tables that pushes a state other than 0 is in
`tableEdges`. -/
theorem isEdge_mem (below symbol state : Nat) (h : isEdge below symbol state = true)
    (hs : state ≠ 0) : (below, symbol, state) ∈ tableEdges := by
  unfold isEdge at h
  by_cases hx : symbol < TOKEN_COUNT
  · rw [if_pos hx] at h
    have hmem : SHIFT state ∈ ts_language_actions below symbol := by simpa using h
    have key := ts_language_actions_forall
      (fun s x acts => ∀ k, SHIFT k ∈ acts → (s, x, k) ∈ tableEdges)
      (fun _ _ _ hk => absurd hk (List.not_mem_nil _))
      (fun row hrow e he k hk => by
        simp only [tableEdges, List.mem_append, List.mem_flatMap, List.mem_map]
        exact Or.inl ⟨row, hrow, e, he, k, (mem_shiftTargets e.2 k).mpr hk, rfl⟩)
      below symbol hx
    exact key state hmem
  · rw [if_neg hx] at h
    have hv : ts_language_lookup below symbol = state := by simpa using h
    have key := ts_language_lookup_forall
      (fun s x v => v ≠ 0 → (s, x, v) ∈ tableEdges)
      (fun _ _ h0 => absurd rfl h0)
      (fun row hrow e he _ => by
        simp only [tableEdges, List.mem_append, List.mem_flatMap, List.mem_map]
        exact Or.inr ⟨row, hrow, e, he, rfl⟩)
      below symbol (Nat.le_of_not_lt hx)
    rw [hv] at key
    exact key hs

/-- Every reduction of the tables is in `tableReduces`. -/
theorem reduce_mem (state symbol : Nat) (hx : symbol < TOKEN_COUNT) (x n d p : Nat)
    (h : REDUCE x n d p ∈ ts_language_actions state symbol) :
    (state, x, n) ∈ tableReduces := by
  have key := ts_language_actions_forall
    (fun s _ acts => ∀ x n d p, REDUCE x n d p ∈ acts → (s, x, n) ∈ tableReduces)
    (fun _ _ _ _ _ _ hk => absurd hk (List.not_mem_nil _))
    (fun row hrow e he x n d p hk => by
      simp only [tableReduces, List.mem_flatMap, List.mem_map]
      exact ⟨row, hrow, e, he, (x, n), (mem_reduceItems e.2 x n).mpr ⟨d, p, hk⟩, rfl⟩)
    state symbol hx
  exact key x n d p h

set_option maxRecDepth 1000000 in
/-- The states of a query string and the states 1 and 35: how each is
entered. -/
theorem tableEdges_into :
    ∀ e ∈ tableEdges,
      e.2.2 ≠ 1 ∧
      (e.2.2 = 35 → e.1 = 1 ∧ e.2.1 = sym_source_file) ∧
      (e.2.2 = 27 → e.2.1 = anon_sym_QMARK) ∧
      (e.2.2 = 28 → e.2.1 = anon_sym_AMP) ∧
      (e.2.2 = 9 → e.1 = 27 ∧ e.2.1 = sym_query_param) ∧
      (e.2.2 = 15 → e.1 = 28 ∧ e.2.1 = sym_query_param) ∧
      (e.2.2 = 11 → e.1 = 9 ∧ e.2.1 = aux_sym_query_string_repeat1) ∧
      (e.2.2 = 12 → (e.1 = 11 ∨ e.1 = 12) ∧ e.2.1 = aux_sym_query_string_repeat1) ∧
      (e.2.2 = 10 → e.2.1 = sym_key) ∧
      (e.2.2 = 32 → e.1 = 10 ∧ e.2.1 = anon_sym_EQ) ∧
      (e.2.2 = 17 → e.1 = 32 ∧ e.2.1 = sym_value) ∧
      (e.2.2 = 8 → e.2.1 = aux_sym_key_token1 ∨ e.2.1 = sym_variable) ∧
      (e.2.2 = 16 → e.2.1 = aux_sym_value_token1 ∨ e.2.1 = sym_variable) ∧
      (e.2.2 = 6 → e.1 = 39 ∧ e.2.1 = sym_variable_delim_end) ∧
      (e.2.2 = 39 → e.1 = 38 ∧ e.2.1 = sym_variable_name) ∧
      (e.2.2 = 38 → e.2.1 = sym_variable_delim_start) := by
  decide!

set_option maxRecDepth 1000000 in
/-- The reductions of the tables: each builds a non-terminal, and those of a
query string are made in the states 6, 8, 9, 10, 11, 12, 15, 16 and 17. -/
theorem tableReduces_cases :
    ∀ e ∈ tableReduces,
      TOKEN_COUNT ≤ e.2.1 ∧
      (e.2.1 = sym_query_string → (e.1 = 9 ∧ e.2.2 = 2) ∨ (e.1 = 11 ∧ e.2.2 = 3)) ∧
      (e.2.1 = aux_sym_query_string_repeat1 → (e.1 = 15 ∨ e.1 = 12) ∧ e.2.2 = 2) ∧
      (e.2.1 = sym_query_param → (e.1 = 10 ∧ e.2.2 = 1) ∨ (e.1 = 17 ∧ e.2.2 = 3)) ∧
      (e.2.1 = sym_key → e.1 = 8 ∧ e.2.2 = 1) ∧
      (e.2.1 = sym_value → e.1 = 16 ∧ e.2.2 = 1) ∧
      (e.2.1 = sym_variable → e.1 = 6 ∧ e.2.2 = 3) := by
  decide!

set_option maxRecDepth 1000000 in
/-- The action `ACCEPT_INPUT` stands in state 35 only. -/
theorem accept_state (state symbol : Nat) (hx : symbol < TOKEN_COUNT)
    (h : ACCEPT_INPUT ∈ ts_language_actions state symbol) :
    state = 35 ∧ symbol = ts_builtin_sym_end := by
  have key := ts_language_actions_forall
    (fun s x acts => ACCEPT_INPUT ∈ acts → s = 35 ∧ x = ts_builtin_sym_end)
    (fun _ _ hk => absurd hk (List.not_mem_nil _)) (by decide!) state symbol hx
  exact key h

/-! ## Trees, stacks and lists -/

theorem nodesOf_leaf (s : Nat) (text : List Nat) (x : Nat) :
    (Tree.leaf s text).nodesOf x = if s = x then [Tree.leaf s text] else [] := by
  simp [Tree.nodesOf]

theorem nodesOf_node (s : Nat) (cs : List Tree) (x : Nat) :
    (Tree.node s cs).nodesOf x =
      (if s = x then [Tree.node s cs] else []) ++ Tree.nodesOfList cs x := by
  simp [Tree.nodesOf]

theorem mem_nodesOfList (q : Tree) (x : Nat) :
    ∀ cs : List Tree, q ∈ Tree.nodesOfList cs x ↔ ∃ c ∈ cs, q ∈ c.nodesOf x := by
  intro cs
  induction cs with
  | nil => simp [Tree.nodesOfList]
  | cons c cs ih =>
    simp only [Tree.nodesOfList, List.mem_append, ih, List.mem_cons, exists_eq_or_imp]

theorem expand_leaf (s : Nat) (text : List Nat) :
    (Tree.leaf s text).expand = [Tree.leaf s text] := by
  simp [Tree.expand]

theorem expand_node (s : Nat) (cs : List Tree) :
    (Tree.node s cs).expand =
      if ts_symbol_visible s then [Tree.node s cs] else Tree.expandList cs := by
  simp [Tree.expand]

theorem expand_visible (t : Tree) (h : ts_symbol_visible t.symbol = true) : t.expand = [t] := by
  cases t with
  | leaf s text => exact expand_leaf s text
  | node s cs =>
    rw [expand_node]
    simp only [Tree.symbol] at h
    rw [if_pos h]

theorem expandList_nil : Tree.expandList [] = [] := by
  simp [Tree.expandList]

theorem expandList_cons (t : Tree) (ts : List Tree) :
    Tree.expandList (t :: ts) = t.expand ++ Tree.expandList ts := by
  simp [Tree.expandList]

theorem text_leaf (s : Nat) (text : List Nat) : (Tree.leaf s text).text = text := by
  simp [Tree.text]

theorem text_node (s : Nat) (cs : List Tree) : (Tree.node s cs).text = Tree.textList cs := by
  simp [Tree.text]

theorem textList_nil : Tree.textList [] = [] := by
  simp [Tree.textList]

theorem textList_cons (t : Tree) (ts : List Tree) :
    Tree.textList (t :: ts) = t.text ++ Tree.textList ts := by
  simp [Tree.textList]

theorem textList_append (as bs : List Tree) :
    Tree.textList (as ++ bs) = Tree.textList as ++ Tree.textList bs := by
  induction as with
  | nil => simp [textList_nil]
  | cons a as ih => simp [textList_cons, ih]

/-- The popped trees of a reduction have the text of the entries they come
from. -/
theorem stackText_take_drop (n : Nat) :
    ∀ stack : List (Nat × Tree),
      stackText (stack.drop n) ++ Tree.textList ((stack.take n).map fun e => e.2).reverse =
        stackText stack := by
  induction n with
  | zero =>
    intro stack
    simp [textList_nil]
  | succ n ih =>
    intro stack
    cases stack with
    | nil => simp [textList_nil, stackText]
    | cons e rest =>
      simp only [List.drop_succ_cons, List.take_succ_cons, List.map_cons, List.reverse_cons,
        textList_append, textList_cons, textList_nil, List.append_nil, stackText]
      rw [← List.append_assoc, ih rest]

theorem linked_drop (n : Nat) :
    ∀ stack : List (Nat × Tree), linked stack = true → linked (stack.drop n) = true := by
  induction n with
  | zero => intro stack h; simpa using h
  | succ n ih =>
    intro stack h
    cases stack with
    | nil => simpa using h
    | cons e rest =>
      simp only [linked, Bool.and_eq_true] at h
      simpa using ih rest h.2

theorem skipsTo_refl (a : List Nat) : skipsTo a a :=
  ⟨List.Sublist.refl a, rfl⟩

theorem skipsTo_trans (a b c : List Nat) (h1 : skipsTo a b) (h2 : skipsTo b c) : skipsTo a c :=
  ⟨h1.1.trans h2.1, h1.2.trans h2.2⟩

/-- Leaving out whitespace in the middle of a list. -/
theorem skipsTo_middle (a ws b : List Nat) (h : ws.all isWhitespace = true) :
    skipsTo (a ++ b) (a ++ (ws ++ b)) := by
  refine ⟨List.Sublist.append_left (List.sublist_append_right ws b) a, ?_⟩
  have hws : ws.filter (fun c => !isWhitespace c) = [] := by
    rw [List.filter_eq_nil_iff]
    intro c hc
    have := List.all_eq_true.mp h c hc
    simp [this]
  simp only [List.filter_append, hws, List.nil_append]

/-- The input behind the stack, once a token has been shifted. -/
theorem skipsTo_shift (st input : List Nat) (tok : Token) (h1 : tok.start ≤ tok.stop)
    (h2 : (input.take tok.start).all isWhitespace = true) :
    skipsTo ((st ++ tokenText input tok) ++ input.drop tok.stop) (st ++ input) := by
  have hsplit : input = input.take tok.start ++ (tokenText input tok ++ input.drop tok.stop) := by
    simp only [tokenText]
    have h3 : input.drop tok.stop = (input.drop tok.start).drop (tok.stop - tok.start) := by
      rw [List.drop_drop]
      congr 1
      omega
    rw [h3, List.take_append_drop, List.take_append_drop]
  have hm := skipsTo_middle st (input.take tok.start)
    (tokenText input tok ++ input.drop tok.stop) h2
  rw [← hsplit] at hm
  rw [List.append_assoc]
  exact hm

mutual

/-- The text of a node of a tree is a part of the text of the tree. -/
theorem nodesOf_text : ∀ (t : Tree) (x : Nat) (q : Tree), q ∈ t.nodesOf x →
    ∃ pre post, t.text = pre ++ q.text ++ post
  | .leaf s text, x, q, h => by
    rw [nodesOf_leaf] at h
    by_cases hs : s = x
    · rw [if_pos hs] at h
      rw [List.mem_singleton.mp h]
      exact ⟨[], [], by simp⟩
    · rw [if_neg hs] at h
      exact absurd h (List.not_mem_nil q)
  | .node s cs, x, q, h => by
    rw [nodesOf_node] at h
    rcases List.mem_append.mp h with h | h
    · by_cases hs : s = x
      · rw [if_pos hs] at h
        rw [List.mem_singleton.mp h]
        exact ⟨[], [], by simp⟩
      · rw [if_neg hs] at h
        exact absurd h (List.not_mem_nil q)
    · rw [text_node]
      exact nodesOfList_text cs x q h

/-- The text of a node of a list of trees is a part of the text of the list. -/
theorem nodesOfList_text : ∀ (ts : List Tree) (x : Nat) (q : Tree),
    q ∈ Tree.nodesOfList ts x → ∃ pre post, Tree.textList ts = pre ++ q.text ++ post
  | [], _, q, h => by
    simp only [Tree.nodesOfList] at h
    exact absurd h (List.not_mem_nil q)
  | t :: ts, x, q, h => by
    simp only [Tree.nodesOfList] at h
    rw [textList_cons]
    rcases List.mem_append.mp h with h | h
    · obtain ⟨pre, post, e⟩ := nodesOf_text t x q h
      exact ⟨pre, post ++ Tree.textList ts, by rw [e]; simp⟩
    · obtain ⟨pre, post, e⟩ := nodesOfList_text ts x q h
      exact ⟨t.text ++ pre, post, by rw [e]; simp⟩

end

/-! ## The trees that a run builds -/

/-- How a state other than 0 on a stack was entered. -/
theorem edge_into (b x s : Nat) (h : isEdge b x s = true) (hs : s ≠ 0) :
    s ≠ 1 ∧
    (s = 35 → b = 1 ∧ x = sym_source_file) ∧
    (s = 27 → x = anon_sym_QMARK) ∧
    (s = 28 → x = anon_sym_AMP) ∧
    (s = 9 → b = 27 ∧ x = sym_query_param) ∧
    (s = 15 → b = 28 ∧ x = sym_query_param) ∧
    (s = 11 → b = 9 ∧ x = aux_sym_query_string_repeat1) ∧
    (s = 12 → (b = 11 ∨ b = 12) ∧ x = aux_sym_query_string_repeat1) ∧
    (s = 10 → x = sym_key) ∧
    (s = 32 → b = 10 ∧ x = anon_sym_EQ) ∧
    (s = 17 → b = 32 ∧ x = sym_value) ∧
    (s = 8 → x = aux_sym_key_token1 ∨ x = sym_variable) ∧
    (s = 16 → x = aux_sym_value_token1 ∨ x = sym_variable) ∧
    (s = 6 → b = 39 ∧ x = sym_variable_delim_end) ∧
    (s = 39 → b = 38 ∧ x = sym_variable_name) ∧
    (s = 38 → x = sym_variable_delim_start) :=
  tableEdges_into (b, x, s) (isEdge_mem b x s h hs)

/-- A token that the lexer returns in a lex state of `ts_lex_modes` is a tree
that satisfies `treeOk`. -/
theorem treeOk_leaf (input : List Nat) (e : Nat) (tok : Token) (he : isEntryState e = true)
    (h : ts_lex input e = some tok) :
    treeOk (Tree.leaf tok.symbol (tokenText input tok)) := by
  obtain ⟨hsym, _, _, _, hamp, hnoamp, hqm⟩ := lex_token_facts input e tok he h
  have hlt : tok.symbol < 24 := hsym
  refine ⟨?_, ?_, ?_, ?_, ?_, ?_, ?_⟩
  · intro q hq
    rw [nodesOf_leaf, if_neg (by simp only [sym_query_string]; omega)] at hq
    exact absurd hq (List.not_mem_nil q)
  · intro _
    exact ⟨_, rfl⟩
  · intro hs
    rw [text_leaf]
    exact hqm hs
  · intro hs
    rw [text_leaf]
    exact hamp hs
  · intro hs
    simp only [Tree.symbol, sym_query_param] at hs
    omega
  · intro hs
    simp only [Tree.symbol, aux_sym_query_string_repeat1] at hs
    omega
  · intro hs
    rw [text_leaf]
    apply hnoamp
    intro h20
    simp only [Tree.symbol] at hs
    rw [h20] at hs
    exact absurd hs (by decide)

/-- A tree with the symbol `?` on a stack is the token `?`. -/
theorem treeOk_qmark (t : Tree) (h : treeOk t) (hs : t.symbol = anon_sym_QMARK) :
    t = Tree.leaf anon_sym_QMARK [63] := by
  obtain ⟨text, ht⟩ := h.2.1 (by rw [hs]; decide)
  have h2 := h.2.2.1 hs
  rw [ht, text_leaf] at h2
  rw [ht, hs, h2]

/-- A tree with the symbol `&` on a stack is the token `&`. -/
theorem treeOk_amp (t : Tree) (h : treeOk t) (hs : t.symbol = anon_sym_AMP) :
    t = Tree.leaf anon_sym_AMP [38] := by
  obtain ⟨text, ht⟩ := h.2.1 (by rw [hs]; decide)
  have h2 := h.2.2.2.1 hs
  rw [ht, text_leaf] at h2
  rw [ht, hs, h2]

theorem isParam_expand (p : Tree) (h : isParam p) : p.expand = [p] :=
  expand_visible p (by rw [h.1]; decide)

theorem paramItems_append (as bs : List Tree) :
    paramItems (as ++ bs) = paramItems as ++ paramItems bs := by
  simp [paramItems, List.flatMap_append]

/-- The reduction to `sym_query_string` in state 9: `?` and a parameter. -/
theorem queryShape_two (e1 e2 : Nat × Tree) (rest : List (Nat × Tree))
    (hlink : linked (e1 :: e2 :: rest) = true) (h1 : treeOk e1.2) (h2 : treeOk e2.2)
    (hs : e1.1 = 9) : queryShape (Tree.node sym_query_string [e2.2, e1.2]) := by
  simp only [linked, topState, Bool.and_eq_true] at hlink
  obtain ⟨ha, hb, _⟩ := hlink
  rw [hs] at ha
  obtain ⟨hb27, hp⟩ := (edge_into _ _ 9 ha (by decide)).2.2.2.2.1 rfl
  rw [hb27] at hb
  have hq := (edge_into _ _ 27 hb (by decide)).2.2.1 rfl
  have hpar := h1.2.2.2.2.1 hp
  have hleaf := treeOk_qmark e2.2 h2 hq
  refine ⟨e1.2, [], ?_, ?_, ?_⟩
  · intro x hx
    simp only [List.mem_singleton] at hx
    rw [hx]
    exact hpar
  · simp only [Tree.visibleChildren, expandList_cons, expandList_nil, hleaf, expand_leaf,
      isParam_expand e1.2 hpar, paramItems, List.flatMap_nil, List.append_nil,
      List.singleton_append]
  · simp only [text_node, textList_cons, textList_nil, hleaf, text_leaf, List.flatMap_nil,
      List.append_nil, List.singleton_append]

/-- The reduction to `sym_query_string` in state 11: `?`, a parameter and a
repetition. -/
theorem queryShape_three (e1 e2 e3 : Nat × Tree) (rest : List (Nat × Tree))
    (hlink : linked (e1 :: e2 :: e3 :: rest) = true) (h1 : treeOk e1.2) (h2 : treeOk e2.2)
    (h3 : treeOk e3.2) (hs : e1.1 = 11) :
    queryShape (Tree.node sym_query_string [e3.2, e2.2, e1.2]) := by
  simp only [linked, topState, Bool.and_eq_true] at hlink
  obtain ⟨ha, hb, hc, _⟩ := hlink
  rw [hs] at ha
  obtain ⟨hb9, hr⟩ := (edge_into _ _ 11 ha (by decide)).2.2.2.2.2.2.1 rfl
  rw [hb9] at hb
  obtain ⟨hb27, hp⟩ := (edge_into _ _ 9 hb (by decide)).2.2.2.2.1 rfl
  rw [hb27] at hc
  have hq := (edge_into _ _ 27 hc (by decide)).2.2.1 rfl
  have hpar := h2.2.2.2.2.1 hp
  have hleaf := treeOk_qmark e3.2 h3 hq
  obtain ⟨ps, _, hps, hexp, htext⟩ := h1.2.2.2.2.2.1 hr
  refine ⟨e2.2, ps, ?_, ?_, ?_⟩
  · intro x hx
    rcases List.mem_cons.mp hx with h | h
    · rw [h]
      exact hpar
    · exact hps x h
  · simp only [Tree.visibleChildren, expandList_cons, expandList_nil, hleaf, expand_leaf,
      isParam_expand e2.2 hpar, hexp, List.append_nil, List.singleton_append]
  · simp only [text_node, textList_cons, textList_nil, hleaf, text_leaf, htext,
      List.append_nil, List.singleton_append]

/-- The reduction to the repetition in state 15: `&` and a parameter. -/
theorem repeatShape_item (e1 e2 : Nat × Tree) (rest : List (Nat × Tree))
    (hlink : linked (e1 :: e2 :: rest) = true) (h1 : treeOk e1.2) (h2 : treeOk e2.2)
    (hs : e1.1 = 15) : repeatShape (Tree.node aux_sym_query_string_repeat1 [e2.2, e1.2]) := by
  simp only [linked, topState, Bool.and_eq_true] at hlink
  obtain ⟨ha, hb, _⟩ := hlink
  rw [hs] at ha
  obtain ⟨hb28, hp⟩ := (edge_into _ _ 15 ha (by decide)).2.2.2.2.2.1 rfl
  rw [hb28] at hb
  have hq := (edge_into _ _ 28 hb (by decide)).2.2.2.1 rfl
  have hpar := h1.2.2.2.2.1 hp
  have hleaf := treeOk_amp e2.2 h2 hq
  refine ⟨[e1.2], by simp, ?_, ?_, ?_⟩
  · intro x hx
    simp only [List.mem_singleton] at hx
    rw [hx]
    exact hpar
  · rw [expand_node, if_neg (by decide)]
    simp only [expandList_cons, expandList_nil, hleaf, expand_leaf,
      isParam_expand e1.2 hpar, paramItems, List.flatMap_cons, List.flatMap_nil,
      List.append_nil, List.singleton_append]
  · simp only [text_node, textList_cons, textList_nil, hleaf, text_leaf, List.flatMap_cons,
      List.flatMap_nil, List.append_nil, List.singleton_append]

/-- The reduction to the repetition in state 12: two repetitions. -/
theorem repeatShape_pair (e1 e2 : Nat × Tree) (rest : List (Nat × Tree))
    (hlink : linked (e1 :: e2 :: rest) = true) (h1 : treeOk e1.2) (h2 : treeOk e2.2)
    (hs : e1.1 = 12) : repeatShape (Tree.node aux_sym_query_string_repeat1 [e2.2, e1.2]) := by
  simp only [linked, topState, Bool.and_eq_true] at hlink
  obtain ⟨ha, hb, _⟩ := hlink
  rw [hs] at ha
  obtain ⟨hbs, hr1⟩ := (edge_into _ _ 12 ha (by decide)).2.2.2.2.2.2.2.1 rfl
  have hr2 : e2.2.symbol = aux_sym_query_string_repeat1 := by
    rcases hbs with h11 | h12
    · rw [h11] at hb
      exact ((edge_into _ _ 11 hb (by decide)).2.2.2.2.2.2.1 rfl).2
    · rw [h12] at hb
      exact ((edge_into _ _ 12 hb (by decide)).2.2.2.2.2.2.2.1 rfl).2
  obtain ⟨ps1, hne1, hps1, hexp1, htext1⟩ := h1.2.2.2.2.2.1 hr1
  obtain ⟨ps2, _, hps2, hexp2, htext2⟩ := h2.2.2.2.2.2.1 hr2
  refine ⟨ps2 ++ ps1, by simp [hne1], ?_, ?_, ?_⟩
  · intro x hx
    rcases List.mem_append.mp hx with h | h
    · exact hps2 x h
    · exact hps1 x h
  · rw [expand_node, if_neg (by decide)]
    simp only [expandList_cons, expandList_nil, hexp1, hexp2, List.append_nil,
      paramItems_append]
  · simp only [text_node, textList_cons, textList_nil, htext1, htext2, List.append_nil,
      List.flatMap_append]

theorem not_mem_append_of {a b : List Nat} (ha : 38 ∉ a) (hb : 38 ∉ b) : 38 ∉ a ++ b := by
  intro h
  rcases List.mem_append.mp h with h | h
  · exact ha h
  · exact hb h

/-- The reduction to `sym_query_param` in state 10: a key. -/
theorem isParam_key (e1 : Nat × Tree) (rest : List (Nat × Tree))
    (hlink : linked (e1 :: rest) = true) (h1 : treeOk e1.2) (hs : e1.1 = 10) :
    isParam (Tree.node sym_query_param [e1.2]) := by
  simp only [linked, topState, Bool.and_eq_true] at hlink
  obtain ⟨ha, _⟩ := hlink
  rw [hs] at ha
  have hk := (edge_into _ _ 10 ha (by decide)).2.2.2.2.2.2.2.2.1 rfl
  refine ⟨rfl, ?_, Or.inl ?_⟩
  · simp only [text_node, textList_cons, textList_nil, List.append_nil]
    exact h1.2.2.2.2.2.2 (by rw [hk]; decide)
  · simp only [Tree.visibleChildren, expandList_cons, expandList_nil,
      expand_visible e1.2 (by rw [hk]; decide), List.append_nil, List.map_cons, List.map_nil,
      hk]

/-- The reduction to `sym_query_param` in state 17: a key, `=` and a value. -/
theorem isParam_key_value (e1 e2 e3 : Nat × Tree) (rest : List (Nat × Tree))
    (hlink : linked (e1 :: e2 :: e3 :: rest) = true) (h1 : treeOk e1.2) (h2 : treeOk e2.2)
    (h3 : treeOk e3.2) (hs : e1.1 = 17) :
    isParam (Tree.node sym_query_param [e3.2, e2.2, e1.2]) := by
  simp only [linked, topState, Bool.and_eq_true] at hlink
  obtain ⟨ha, hb, hc, _⟩ := hlink
  rw [hs] at ha
  obtain ⟨hb32, hv⟩ := (edge_into _ _ 17 ha (by decide)).2.2.2.2.2.2.2.2.2.2.1 rfl
  rw [hb32] at hb
  obtain ⟨hb10, he⟩ := (edge_into _ _ 32 hb (by decide)).2.2.2.2.2.2.2.2.2.1 rfl
  rw [hb10] at hc
  have hk := (edge_into _ _ 10 hc (by decide)).2.2.2.2.2.2.2.2.1 rfl
  refine ⟨rfl, ?_, Or.inr ?_⟩
  · simp only [text_node, textList_cons, textList_nil, List.append_nil]
    exact not_mem_append_of (h3.2.2.2.2.2.2 (by rw [hk]; decide))
      (not_mem_append_of (h2.2.2.2.2.2.2 (by rw [he]; decide))
        (h1.2.2.2.2.2.2 (by rw [hv]; decide)))
  · simp only [Tree.visibleChildren, expandList_cons, expandList_nil,
      expand_visible e3.2 (by rw [hk]; decide), expand_visible e2.2 (by rw [he]; decide),
      expand_visible e1.2 (by rw [hv]; decide), List.append_nil, List.singleton_append,
      List.map_cons, List.map_nil, hk, he, hv]

/-- The reductions to `sym_key` and `sym_value` in the states 8 and 16: the
one child has no `&`. -/
theorem noAmp_one (e1 : Nat × Tree) (rest : List (Nat × Tree)) (x : Nat)
    (hlink : linked (e1 :: rest) = true) (h1 : treeOk e1.2) (hs : e1.1 = 8 ∨ e1.1 = 16) :
    38 ∉ (Tree.node x [e1.2]).text := by
  simp only [linked, topState, Bool.and_eq_true] at hlink
  obtain ⟨ha, _⟩ := hlink
  simp only [text_node, textList_cons, textList_nil, List.append_nil]
  apply h1.2.2.2.2.2.2
  rcases hs with hs | hs
  · rw [hs] at ha
    rcases (edge_into _ _ 8 ha (by decide)).2.2.2.2.2.2.2.2.2.2.2.1 rfl with h | h <;>
      rw [h] <;> decide
  · rw [hs] at ha
    rcases (edge_into _ _ 16 ha (by decide)).2.2.2.2.2.2.2.2.2.2.2.2.1 rfl with h | h <;>
      rw [h] <;> decide

/-- The reduction to `sym_variable` in state 6: the three tokens have no
`&`. -/
theorem noAmp_variable (e1 e2 e3 : Nat × Tree) (rest : List (Nat × Tree)) (x : Nat)
    (hlink : linked (e1 :: e2 :: e3 :: rest) = true) (h1 : treeOk e1.2) (h2 : treeOk e2.2)
    (h3 : treeOk e3.2) (hs : e1.1 = 6) : 38 ∉ (Tree.node x [e3.2, e2.2, e1.2]).text := by
  simp only [linked, topState, Bool.and_eq_true] at hlink
  obtain ⟨ha, hb, hc, _⟩ := hlink
  rw [hs] at ha
  obtain ⟨hb39, hv1⟩ := (edge_into _ _ 6 ha (by decide)).2.2.2.2.2.2.2.2.2.2.2.2.2.1 rfl
  rw [hb39] at hb
  obtain ⟨hb38, hv2⟩ := (edge_into _ _ 39 hb (by decide)).2.2.2.2.2.2.2.2.2.2.2.2.2.2.1 rfl
  rw [hb38] at hc
  have hv3 := (edge_into _ _ 38 hc (by decide)).2.2.2.2.2.2.2.2.2.2.2.2.2.2.2 rfl
  simp only [text_node, textList_cons, textList_nil, List.append_nil]
  exact not_mem_append_of (h3.2.2.2.2.2.2 (by rw [hv3]; decide))
    (not_mem_append_of (h2.2.2.2.2.2.2 (by rw [hv2]; decide))
      (h1.2.2.2.2.2.2 (by rw [hv1]; decide)))

/-! ## The invariant of a run of the driver -/

/-- The node that a reduction of the tables builds from the trees on top of
the stack satisfies `treeOk`, and its symbol is a non-terminal. -/
theorem treeOk_reduce (stack : List (Nat × Tree)) (symbol x n d p : Nat)
    (hx : symbol < TOKEN_COUNT)
    (hred : REDUCE x n d p ∈ ts_language_actions (topState stack) symbol)
    (hlink : linked stack = true) (hok : ∀ e ∈ stack, treeOk e.2) (hn : n ≤ stack.length) :
    TOKEN_COUNT ≤ x ∧ treeOk (Tree.node x ((stack.take n).map fun e => e.2).reverse) := by
  obtain ⟨hnt, hqs, hrep, hpar, hkey, hval, hvar⟩ :=
    tableReduces_cases (topState stack, x, n) (reduce_mem (topState stack) symbol hx x n d p hred)
  simp only at hnt hqs hrep hpar hkey hval hvar
  have hnt24 : 24 ≤ x := hnt
  refine ⟨hnt, ?_, ?_, ?_, ?_, ?_, ?_, ?_⟩
  · intro q hq
    rw [nodesOf_node] at hq
    rcases List.mem_append.mp hq with hq | hq
    · by_cases hx34 : x = sym_query_string
      · rw [if_pos hx34] at hq
        rw [List.mem_singleton.mp hq]
        subst hx34
        rcases hqs rfl with ⟨hs, hn2⟩ | ⟨hs, hn3⟩
        · subst hn2
          match stack, hlink, hok, hn, hs with
          | e1 :: e2 :: rest, hlink, hok, _, hs =>
            exact queryShape_two e1 e2 rest hlink (hok e1 (by simp)) (hok e2 (by simp)) hs
        · subst hn3
          match stack, hlink, hok, hn, hs with
          | e1 :: e2 :: e3 :: rest, hlink, hok, _, hs =>
            exact queryShape_three e1 e2 e3 rest hlink (hok e1 (by simp)) (hok e2 (by simp))
              (hok e3 (by simp)) hs
      · rw [if_neg hx34] at hq
        exact absurd hq (List.not_mem_nil q)
    · obtain ⟨c, hc, hqc⟩ := (mem_nodesOfList q sym_query_string _).mp hq
      rw [List.mem_reverse, List.mem_map] at hc
      obtain ⟨e, he, hec⟩ := hc
      rw [← hec] at hqc
      exact (hok e (List.mem_of_mem_take he)).1 q hqc
  · intro hs
    simp only [Tree.symbol] at hs
    omega
  · intro hs
    simp only [Tree.symbol, anon_sym_QMARK] at hs
    omega
  · intro hs
    simp only [Tree.symbol, anon_sym_AMP] at hs
    omega
  · intro hs
    simp only [Tree.symbol] at hs
    subst hs
    rcases hpar rfl with ⟨hs, hn1⟩ | ⟨hs, hn3⟩
    · subst hn1
      match stack, hlink, hok, hn, hs with
      | e1 :: rest, hlink, hok, _, hs =>
        exact isParam_key e1 rest hlink (hok e1 (by simp)) hs
    · subst hn3
      match stack, hlink, hok, hn, hs with
      | e1 :: e2 :: e3 :: rest, hlink, hok, _, hs =>
        exact isParam_key_value e1 e2 e3 rest hlink (hok e1 (by simp)) (hok e2 (by simp))
          (hok e3 (by simp)) hs
  · intro hs
    simp only [Tree.symbol] at hs
    subst hs
    obtain ⟨hs, hn2⟩ := hrep rfl
    subst hn2
    match stack, hlink, hok, hn, hs with
    | e1 :: e2 :: rest, hlink, hok, _, hs =>
      rcases hs with hs | hs
      · exact repeatShape_item e1 e2 rest hlink (hok e1 (by simp)) (hok e2 (by simp)) hs
      · exact repeatShape_pair e1 e2 rest hlink (hok e1 (by simp)) (hok e2 (by simp)) hs
  · intro hs
    simp only [Tree.symbol, paramSymbols, List.mem_cons, List.mem_singleton,
      List.not_mem_nil, or_false] at hs
    have hcases : x = sym_variable ∨ x = sym_key ∨ x = sym_value := by
      simp only [sym_variable_delim_start, sym_variable_delim_end, sym_variable_name,
        anon_sym_EQ, aux_sym_key_token1, aux_sym_value_token1] at hs
      omega
    rcases hcases with h | h | h
    · obtain ⟨hs6, hn3⟩ := hvar h
      subst hn3
      match stack, hlink, hok, hn, hs6 with
      | e1 :: e2 :: e3 :: rest, hlink, hok, _, hs6 =>
        exact noAmp_variable e1 e2 e3 rest x hlink (hok e1 (by simp)) (hok e2 (by simp))
          (hok e3 (by simp)) hs6
    · obtain ⟨hs8, hn1⟩ := hkey h
      subst hn1
      match stack, hlink, hok, hn, hs8 with
      | e1 :: rest, hlink, hok, _, hs8 =>
        exact noAmp_one e1 rest x hlink (hok e1 (by simp)) (Or.inl hs8)
    · obtain ⟨hs16, hn1⟩ := hval h
      subst hn1
      match stack, hlink, hok, hn, hs16 with
      | e1 :: rest, hlink, hok, _, hs16 =>
        exact noAmp_one e1 rest x hlink (hok e1 (by simp)) (Or.inr hs16)

/-- The stack of a run that is accepted holds one tree, and the input that
remains is whitespace. -/
theorem accept_stack (stack : List (Nat × Tree)) (input : List Nat) (tok : Token) (e : Nat)
    (he : isEntryState e = true) (hlex : ts_lex input e = some tok)
    (hacc : ACCEPT_INPUT ∈ ts_language_actions (topState stack) tok.symbol)
    (hlink : linked stack = true) (e1 : Nat × Tree) (rest : List (Nat × Tree))
    (hstack : stack = e1 :: rest) :
    rest = [] ∧ input.all isWhitespace = true := by
  obtain ⟨hsym, _, hws, hend, _⟩ := lex_token_facts input e tok he hlex
  obtain ⟨h35, h0⟩ := accept_state (topState stack) tok.symbol hsym hacc
  subst hstack
  simp only [topState] at h35
  simp only [linked, Bool.and_eq_true] at hlink
  obtain ⟨ha, hb⟩ := hlink
  rw [h35] at ha
  have hb1 := ((edge_into _ _ 35 ha (by decide)).2.1 rfl).1
  constructor
  · cases rest with
    | nil => rfl
    | cons e2 rest2 =>
      simp only [topState] at hb1
      simp only [linked, Bool.and_eq_true] at hb
      have hc := hb.1
      rw [hb1] at hc
      exact absurd rfl (edge_into _ _ 1 hc (by decide)).1
  · have hlen := hend h0
    rw [List.take_of_length_le hlen] at hws
    exact hws

theorem skipsTo_accept (t input orig : List Nat) (hws : input.all isWhitespace = true)
    (h : skipsTo (t ++ input) orig) : skipsTo t orig := by
  have h0 := skipsTo_middle t input [] hws
  simp only [List.append_nil] at h0
  exact skipsTo_trans _ _ _ h0 h

/-- The invariant of the driver: in a run from a stack whose entries are
linked by moves of the tables and whose trees satisfy `treeOk`, a tree that is
accepted satisfies `treeOk`, and its text is the input without the skipped
whitespace. -/
theorem parseRun_accepted (orig : List Nat) (t : Tree) :
    ∀ (fuel : Nat) (stack : List (Nat × Tree)) (input : List Nat) (position : Nat)
      (lookahead : Option Token),
      linked stack = true → (∀ e ∈ stack, treeOk e.2) →
      skipsTo (stackText stack ++ input) orig → lookOk input lookahead →
      Outcome.accepted t ∈ parseRun fuel stack input position lookahead →
      treeOk t ∧ skipsTo t.text orig := by
  intro fuel
  induction fuel with
  | zero =>
    intro stack input position lookahead _ _ _ _ h
    simp [parseRun] at h
  | succ fuel ih =>
    intro stack input position lookahead hlink hok hyield hlook h
    cases lookahead with
    | none =>
      simp only [parseRun] at h
      cases hlex : ts_lex input (lexMode (topState stack)) with
      | none =>
        rw [hlex] at h
        simp at h
      | some token =>
        rw [hlex] at h
        simp only at h
        refine ih stack input position (some token) hlink hok hyield ?_ h
        intro tok htok
        simp only [Option.some.injEq] at htok
        subst htok
        exact ⟨_, lexMode_entry _, hlex⟩
    | some token =>
      obtain ⟨e, he, hlex⟩ := hlook token rfl
      obtain ⟨hsym, hle, hws, _, _⟩ := lex_token_facts input e token he hlex
      simp only [parseRun] at h
      cases hacts : ts_language_actions (topState stack) token.symbol with
      | nil =>
        rw [hacts] at h
        simp at h
      | cons a as =>
        rw [hacts] at h
        simp only [List.mem_flatMap] at h
        obtain ⟨action, hmem, hout⟩ := h
        rw [← hacts] at hmem
        cases action with
        | SHIFT next =>
          simp only [parseAction] at hout
          refine ih _ _ _ none ?_ ?_ ?_ ?_ hout
          · simp only [linked, Bool.and_eq_true]
            refine ⟨?_, hlink⟩
            simp only [isEdge, Tree.symbol, if_pos hsym]
            simpa using hmem
          · intro e1 he1
            rcases List.mem_cons.mp he1 with h1 | h1
            · rw [h1]
              exact treeOk_leaf input e token he hlex
            · exact hok e1 h1
          · simp only [stackText, text_leaf]
            exact skipsTo_trans _ _ _ (skipsTo_shift (stackText stack) input token hle hws)
              hyield
          · intro tok htok
            exact absurd htok (by simp)
        | REDUCE x n d p =>
          simp only [parseAction] at hout
          by_cases hn : n ≤ stack.length
          · rw [if_pos hn] at hout
            obtain ⟨hnt, hnode⟩ := treeOk_reduce stack token.symbol x n d p hsym hmem hlink hok hn
            refine ih _ _ _ (some token) ?_ ?_ ?_ hlook hout
            · simp only [linked, Bool.and_eq_true]
              refine ⟨?_, linked_drop n stack hlink⟩
              simp only [isEdge, Tree.symbol, if_neg (Nat.not_lt.mpr hnt), beq_self_eq_true]
            · intro e1 he1
              rcases List.mem_cons.mp he1 with h1 | h1
              · rw [h1]
                exact hnode
              · exact hok e1 (List.mem_of_mem_drop h1)
            · simp only [stackText, text_node]
              rw [stackText_take_drop n stack]
              exact hyield
          · rw [if_neg hn] at hout
            simp at hout
        | ACCEPT_INPUT =>
          simp only [parseAction] at hout
          cases hstack : stack with
          | nil =>
            rw [hstack] at hout
            simp at hout
          | cons e1 rest =>
            rw [hstack] at hout
            simp only [List.mem_singleton, Outcome.accepted.injEq] at hout
            obtain ⟨hrest, hall⟩ := accept_stack stack input token e he hlex hmem hlink e1 rest
              hstack
            subst hout
            refine ⟨hok e1 (by rw [hstack]; simp), ?_⟩
            apply skipsTo_accept _ input orig hall
            rw [hstack, hrest] at hyield
            simpa [stackText] using hyield
        | SHIFT_REPEAT k =>
          simp [parseAction] at hout
        | RECOVER =>
          simp [parseAction] at hout

/-! ## C8: the order of the query parameters -/

theorem append_amp_inj :
    ∀ (a b u v : List Nat), 38 ∉ a → 38 ∉ b → a ++ 38 :: u = b ++ 38 :: v → a = b ∧ u = v := by
  intro a
  induction a with
  | nil =>
    intro b u v _ hb h
    cases b with
    | nil =>
      simp only [List.nil_append, List.cons.injEq, true_and] at h
      exact ⟨rfl, h⟩
    | cons y b =>
      simp only [List.nil_append, List.cons_append, List.cons.injEq] at h
      exact absurd (by rw [← h.1]; simp) hb
  | cons x a ih =>
    intro b u v ha hb h
    cases b with
    | nil =>
      simp only [List.nil_append, List.cons_append, List.cons.injEq] at h
      exact absurd (by rw [h.1]; simp) ha
    | cons y b =>
      simp only [List.cons_append, List.cons.injEq] at h
      obtain ⟨h1, h2⟩ := ih b u v (fun hm => ha (List.mem_cons_of_mem _ hm))
        (fun hm => hb (List.mem_cons_of_mem _ hm)) h.2
      exact ⟨by rw [h.1, h1], h2⟩

theorem intercalate_amp_cons (b c : List Nat) (ts : List (List Nat)) :
    List.intercalate [38] (b :: c :: ts) = b ++ 38 :: List.intercalate [38] (c :: ts) := by
  simp [List.intercalate, List.intersperse]

/-- A text `p1&p2&...&pn` has one list of parts without `&`. -/
theorem intercalate_amp_unique :
    ∀ (as : List (List Nat)) (a : List Nat) (texts : List (List Nat)),
      38 ∉ a → (∀ x ∈ as, 38 ∉ x) → texts ≠ [] → (∀ x ∈ texts, 38 ∉ x) →
      a ++ as.flatMap (fun x => 38 :: x) = List.intercalate [38] texts → a :: as = texts := by
  intro as
  induction as with
  | nil =>
    intro a texts ha _ hne htexts h
    simp only [List.flatMap_nil, List.append_nil] at h
    match texts, hne, htexts, h with
    | [b], _, _, h =>
      simp only [List.intercalate, List.intersperse, List.flatten_cons, List.flatten_nil,
        List.append_nil] at h
      rw [h]
    | b :: c :: ts, _, _, h =>
      rw [intercalate_amp_cons] at h
      exact absurd (by rw [h]; simp) ha
  | cons a2 as ih =>
    intro a texts ha has hne htexts h
    simp only [List.flatMap_cons, List.cons_append] at h
    match texts, hne, htexts, h with
    | [b], _, htexts, h =>
      simp only [List.intercalate, List.intersperse, List.flatten_cons, List.flatten_nil,
        List.append_nil] at h
      exact absurd (by rw [← h]; simp) (htexts b (by simp))
    | b :: c :: ts, _, htexts, h =>
      rw [intercalate_amp_cons] at h
      obtain ⟨h1, h2⟩ := append_amp_inj a b _ _ ha (htexts b (by simp)) h
      have h3 := ih a2 (c :: ts) (has a2 (by simp))
        (fun x hx => has x (List.mem_cons_of_mem _ hx)) (by simp)
        (fun x hx => htexts x (List.mem_cons_of_mem _ hx)) h2
      rw [h1, h3]

/-- The parameters that a query string shows are those of its shape. -/
theorem filter_paramItems (ps : List Tree) (h : ∀ x ∈ ps, isParam x) :
    (paramItems ps).filter (fun c => c.symbol == sym_query_param) = ps := by
  induction ps with
  | nil => rfl
  | cons p ps ih =>
    have hp := (h p (by simp)).1
    simp only [paramItems, List.flatMap_cons, List.cons_append, List.nil_append] at ih ⊢
    rw [List.filter_cons_of_neg (by simp [Tree.symbol]),
      List.filter_cons_of_pos (by simp [hp]), ih (fun x hx => h x (List.mem_cons_of_mem _ hx))]

set_option maxRecDepth 1000000 in
/-- C8, the claim fails for its example: the query string `?a=1&b=2&a=3` alone
is not accepted, because a line cannot begin with `?`: the lexer returns no
token in the lex state of the start state. -/
theorem C8_counterexample :
    parse 100 (codes "?a=1&b=2&a=3") = [Outcome.lexError 1 0] ∧
    ts_lex (codes "?a=1&b=2&a=3") (lexMode 1) = none := by
  refine ⟨by decide!, by decide⟩

/-- C8 as amended: the query parameters keep their order and are never merged,
for every input and every run of the tables that is accepted.  The text of
the tree is the input without the whitespace that the lexer skips
(`skipsTo`), so the tokens stand in the tree in the order of the input, and
the text of a query string is a part of it.  Every `sym_query_string` of the
tree shows `?`, a parameter, and then `&` and a parameter any number of times
(`queryShape`); each parameter is a `sym_query_param` without `&` that shows a
key, or a key, `=` and a value.  So when the text of the query string is
`?p1&p2&...&pn`, the parts having no `&`, the query string shows exactly n
`sym_query_param` nodes, and the text of the i-th is pi. -/
theorem C8_query_order (fuel : Nat) (input : List Nat) (t : Tree)
    (h : Outcome.accepted t ∈ parse fuel input) :
    skipsTo t.text input ∧
    ∀ q ∈ t.nodesOf sym_query_string,
      (∃ before after, t.text = before ++ q.text ++ after) ∧
      queryShape q ∧
      ∀ texts : List (List Nat), texts ≠ [] → (∀ x ∈ texts, 38 ∉ x) →
        q.text = 63 :: List.intercalate [38] texts →
        (q.visibleChildren.filter fun c => c.symbol == sym_query_param).map Tree.text =
          texts := by
  have hrun := parseRun_accepted input t fuel [] input 0 none rfl
    (fun e he => absurd he (List.not_mem_nil e)) (skipsTo_refl _)
    (fun tok htok => absurd htok (by simp)) h
  refine ⟨hrun.2, fun q hq => ⟨nodesOf_text t sym_query_string q hq, hrun.1.1 q hq, ?_⟩⟩
  intro texts hne htexts htext
  obtain ⟨p, ps, hps, hvis, hqt⟩ := hrun.1.1 q hq
  rw [hqt] at htext
  simp only [List.cons.injEq, true_and] at htext
  have hflat : (ps.flatMap fun x => 38 :: x.text) =
      (ps.map Tree.text).flatMap fun x => 38 :: x := by
    simp [List.flatMap_def, List.map_map, Function.comp_def]
  rw [hflat] at htext
  have huniq := intercalate_amp_unique (ps.map Tree.text) p.text texts (hps p (by simp)).2.1
    (fun x hx => by
      obtain ⟨y, hy, hyx⟩ := List.mem_map.mp hx
      rw [← hyx]
      exact (hps y (List.mem_cons_of_mem _ hy)).2.1)
    hne htexts htext
  rw [hvis, List.filter_cons_of_neg (by simp [Tree.symbol]),
    List.filter_cons_of_pos (by simp [(hps p (by simp)).1]),
    filter_paramItems ps (fun x hx => hps x (List.mem_cons_of_mem _ hx)), List.map_cons]
  exact huniq

set_option maxRecDepth 1000000 in
/-- C8 at a concrete input: the line `/p?a=1&b=2&a=3` is accepted with the
tree `queryOrderTree`, whose query string has the text `?a=1&b=2&a=3` and shows
three parameters with the texts `a=1`, `b=2` and `a=3` and the keys a, b, a in
this order. -/
theorem C8_query_order_witness :
    Outcome.accepted queryOrderTree ∈ parse 100 (codes "/p?a=1&b=2&a=3") ∧
    (queryOrderTree.nodesOf sym_query_string).map Tree.text = [codes "?a=1&b=2&a=3"] ∧
    (queryOrderTree.nodesOf sym_key).map Tree.text = [codes "a", codes "b", codes "a"] ∧
    (skipsTo queryOrderTree.text (codes "/p?a=1&b=2&a=3") ∧
      ∀ q ∈ queryOrderTree.nodesOf sym_query_string,
        (∃ before after, queryOrderTree.text = before ++ q.text ++ after) ∧
        queryShape q ∧
        ∀ texts : List (List Nat), texts ≠ [] → (∀ x ∈ texts, 38 ∉ x) →
          q.text = 63 :: List.intercalate [38] texts →
          (q.visibleChildren.filter fun c => c.symbol == sym_query_param).map Tree.text =
            texts) :=
  ⟨by decide!, by decide, by decide,
    C8_query_order 100 (codes "/p?a=1&b=2&a=3") queryOrderTree (by decide!)⟩


end TreeSitterUrl
